import Mathlib

/-!
# UDB LOGO flight plans of MatrixPilot (`flightplan-logo.h`)

The header `flightplan-logo.h` documents the UDB LOGO flight-plan language and
defines two instruction tables, `instructions` (the LET thermalling mission)
and `rtlInstructions` (the failsafe / return-to-launch plan).

This development embeds

* the instruction set documented in the header and the two tables, transcribed
  instruction by instruction (comments and disabled lines dropped, the
  `#if ( THROTTLE_INPUT_CHANNEL != CHANNEL_UNUSED )` block kept as a
  configuration switch);
* the program store and the execution engine.  Their C sources are not part of
  the header, so they are modelled from the design specification; every such
  definition says so in its doc comment.
-/

namespace Logo

/-! ## Constants of the header -/

/-- Source line 26. -/
def WAYPOINT_RADIUS : Int := 25
/-- Source line 981. -/
def GEOFENCE_SIZE : Int := 400
/-- Source line 983. -/
def UPWIND_POINT_DISTANCE_LIMIT : Int := 270
/-- Source line 985. -/
def MOTOR_ON_TRIGGER_ALT : Int := 200
/-- Source line 986. -/
def MOTOR_ON_IN_SINK_ALT : Int := 180
/-- Source line 987. -/
def MOTOR_OFF_TRIGGER_ALT : Int := 230
/-- Source line 988. -/
def MAX_THERMALLING_ALT : Int := 300
/-- Source line 990. -/
def CLIMBR_THERMAL_TRIGGER : Int := 40
/-- Source line 991. -/
def CLIMBR_THERMAL_CLIMB_MIN : Int := -140
/-- Source line 992. -/
def MOTOR_CLIMB_MIN : Int := -50
/-- Source line 993. -/
def MOTOR_CLIMB_MAX : Int := 320
/-- Source line 995. -/
def FINAL_ALT : Int := 22

/-! ### Subroutine ids (source lines 998-1047) -/

def CRUISE : Nat := 3
def RETURN_GEOFENCE : Nat := 5
def CHECK_WIND_GEOFENCE : Nat := 7
def CHECK_SOFT_GEOFENCE : Nat := 9
def CHECK_SOFT_WIND_GEOFENCE : Nat := 11
def CHECK_THERMALS : Nat := 12
def WAIT_DECREASE_CLIMBRATE : Nat := 13
def THERMALLING_TURN : Nat := 15
def THERMALLING_SHIFT_CIRCLE : Nat := 17
def SINK : Nat := 19
def INT_FORCE_TARGET_AHAID : Nat := 2
def MOTOR_CLIMB : Nat := 21
def RETURN_MC_GEOFENCE : Nat := 23
def CHECK_MC_SOFT_WIND_GEOFENCE : Nat := 25
def MOTOR_CLIMB_FORWARD : Nat := 27
def CHECKS_MC : Nat := 30
def CHECK_MC_WIND_GEOFENCE : Nat := 31
def SOFT_CHECKS_MC : Nat := 32
def PILOT_INPUT_IN_MC : Nat := 33
def CHECK_MC_SOFT_GEOFENCE : Nat := 35
def SOFT_CHECKS : Nat := 46
def PILOT_INPUT : Nat := 47
def CHECKS : Nat := 48
def CHECKS_RETURN_GF : Nat := 50
def TOO_HIGH : Nat := 53
def SET_ALT_ALT : Nat := 54
def BETTER_LIFT : Nat := 55
def RESET_NAVIGATION : Nat := 56
def LOITER_LAND : Nat := 57
def DESCENT_PATTERN : Nat := 59
def DOWNWIND : Nat := 41
def BASE : Nat := 43
def FINAL : Nat := 45
def FS_SET_ALT_ALT : Nat := 62
def FS_DOWNWIND : Nat := 63
def FS_BASE : Nat := 65
def FS_FINAL : Nat := 67
def FS_DESCENT_PATTERN : Nat := 69
def FS_LOITER_LAND : Nat := 71

/-- The numeric values given to subroutine names by the `#define` lines
998-1047 of the header, in source order (the commented-out `FAILSAFE` is not
defined). -/
def subroutineDefines : List Nat :=
  [CRUISE, RETURN_GEOFENCE, CHECK_WIND_GEOFENCE, CHECK_SOFT_GEOFENCE,
   CHECK_SOFT_WIND_GEOFENCE, CHECK_THERMALS, WAIT_DECREASE_CLIMBRATE,
   THERMALLING_TURN, THERMALLING_SHIFT_CIRCLE, SINK, INT_FORCE_TARGET_AHAID,
   MOTOR_CLIMB, RETURN_MC_GEOFENCE, CHECK_MC_SOFT_WIND_GEOFENCE,
   MOTOR_CLIMB_FORWARD, CHECKS_MC, CHECK_MC_WIND_GEOFENCE, SOFT_CHECKS_MC,
   PILOT_INPUT_IN_MC, CHECK_MC_SOFT_GEOFENCE, SOFT_CHECKS, PILOT_INPUT, CHECKS,
   CHECKS_RETURN_GF, TOO_HIGH, SET_ALT_ALT, BETTER_LIFT, RESET_NAVIGATION,
   LOITER_LAND, DESCENT_PATTERN, DOWNWIND, BASE, FINAL, FS_SET_ALT_ALT,
   FS_DOWNWIND, FS_BASE, FS_FINAL, FS_DESCENT_PATTERN, FS_LOITER_LAND]

/-- Constants the tables use that are defined in other headers of the
repository (`options.h`, `airspeed_options.h`); they are parameters here.
`throttleChannelUsed` is the preprocessor condition
`THROTTLE_INPUT_CHANNEL != CHANNEL_UNUSED` of source line 1927. -/
structure Config where
  DESIRED_SPEED_NORMAL_F0 : Int
  DESIRED_SPEED_SLOW_F4 : Int
  DESIRED_SPEED_FAST_FMIN4 : Int
  VOLTAGE_SENSOR_ALARM : Int
  throttleChannelUsed : Bool
  deriving DecidableEq, Repr

/-! ## The instruction set (source lines 77-226) -/

/-- Radio input channels that the tables read as system values
(`XX_INPUT_CHANNEL`, source line 226). -/
inductive Channel where
  | THROTTLE | AILERON | BRAKE_THR_SEL | RUDDER
  deriving DecidableEq, Repr

/-- System values usable with `LOAD_TO_PARAM` and the `IF_*` commands.  The
first block is the list documented at source lines 206-226; the tables also
name `DIST_TO_UPWIND_POINT` (lines 1236, 1307, 1752, 1823) and
`BATTERY_VOLTAGE` (lines 1946, 1996). -/
inductive SysVal where
  | DIST_TO_HOME | DIST_TO_GOAL | ALT | CURRENT_ANGLE | ANGLE_TO_HOME
  | ANGLE_TO_GOAL | REL_ANGLE_TO_HOME | REL_ANGLE_TO_GOAL
  | REL_ANGLE_TO_UPWIND_POINT | GROUND_SPEED | AIR_SPEED | AIR_SPEED_Z
  | WIND_SPEED | WIND_SPEED_X | WIND_SPEED_Y | WIND_SPEED_Z | WIND_FROM_ANGLE
  | PARAM
  | INPUT_CHANNEL (ch : Channel)
  | DIST_TO_UPWIND_POINT | BATTERY_VOLTAGE
  deriving DecidableEq, Repr

/-- Flags of source lines 147-154. -/
inductive Flag where
  | F_TAKEOFF | F_INVERTED | F_HOVER | F_TRIGGER | F_ALTITUDE_GOAL
  | F_CROSS_TRACK | F_LAND
  deriving DecidableEq, Repr

/-- The two turtles of `SET_TURTLE(T)` (source lines 135-136). -/
inductive TurtleSel where
  | PLANE | CAMERA
  deriving DecidableEq, Repr

/-- Comparison of the six `IF_*` commands (source lines 119-123). -/
inductive Cmp where
  | EQ | NE | GT | LT | GE | LE
  deriving DecidableEq, Repr

/-- Operand of a command that exists in a literal and in a `_PARAM` form
(source lines 171-196): `FD(x)` carries `lit x`, `FD_PARAM` carries `param`. -/
inductive Arg where
  | lit (x : Int)
  | param
  deriving DecidableEq, Repr

/-- Subroutine operand of `DO`, `EXEC` and `SET_INTERRUPT`: a subroutine id, or
`LOGO_MAIN`, the start of the program (source lines 166-167).  The number behind
`LOGO_MAIN` is defined outside the header, so it is a constructor of its own. -/
inductive Target where
  | LOGO_MAIN
  | sub (id : Nat)
  deriving DecidableEq, Repr

instance : Coe Nat Target := ⟨Target.sub⟩

/-- One entry of an instruction table (`struct logoInstructionDef`).  Commands
with a `_PARAM` twin share a constructor and differ in their `Arg`. -/
inductive Instr where
  | home | useCurrentPos | useCurrentAngle | useAngleToGoal | level1s
  | fd (a : Arg) | bk (a : Arg) | rt (a : Arg) | lt (a : Arg)
  | rtBank (x : Int) | setAngle (a : Arg)
  | east (a : Arg) | west (a : Arg) | setXPos (a : Arg)
  | north (a : Arg) | south (a : Arg) | setYPos (a : Arg)
  | setPos (x y : Int) | setAbsPos (x y : Int)
  | altUp (a : Arg) | altDown (a : Arg) | setAlt (a : Arg)
  | speedIncrease (a : Arg) | speedDecrease (a : Arg) | setSpeed (a : Arg)
  | repeatN (n : Int) | repeatForever | repeatParam
  | endBlock | elseBlock
  | ifVal (c : Cmp) (v : SysVal) (x : Int)
  | ifParam (c : Cmp) (v : SysVal)
  | penUp | penDown | penToggle
  | setTurtle (t : TurtleSel)
  | flagOn (f : Flag) | flagOff (f : Flag) | flagToggle (f : Flag)
  | toSub (f : Nat)
  | doSub (t : Target) | doArg (t : Target) (x : Int) | doParam (t : Target)
  | exec (t : Target) | execArg (t : Target) (x : Int) | execParam (t : Target)
  | paramSet (x : Int) | paramAdd (x : Int) | paramSub (x : Int)
  | paramMul (x : Int) | paramDiv (x : Int)
  | loadToParam (v : SysVal)
  | setInterrupt (t : Target) | clearInterrupt
  deriving Repr

/-- The constructor number of an instruction, in declaration order. -/
def Instr.tag : Instr → Nat
  | .home => 0
  | .useCurrentPos => 1
  | .useCurrentAngle => 2
  | .useAngleToGoal => 3
  | .level1s => 4
  | .fd _ => 5
  | .bk _ => 6
  | .rt _ => 7
  | .lt _ => 8
  | .rtBank _ => 9
  | .setAngle _ => 10
  | .east _ => 11
  | .west _ => 12
  | .setXPos _ => 13
  | .north _ => 14
  | .south _ => 15
  | .setYPos _ => 16
  | .setPos _ _ => 17
  | .setAbsPos _ _ => 18
  | .altUp _ => 19
  | .altDown _ => 20
  | .setAlt _ => 21
  | .speedIncrease _ => 22
  | .speedDecrease _ => 23
  | .setSpeed _ => 24
  | .repeatN _ => 25
  | .repeatForever => 26
  | .repeatParam => 27
  | .endBlock => 28
  | .elseBlock => 29
  | .ifVal _ _ _ => 30
  | .ifParam _ _ => 31
  | .penUp => 32
  | .penDown => 33
  | .penToggle => 34
  | .setTurtle _ => 35
  | .flagOn _ => 36
  | .flagOff _ => 37
  | .flagToggle _ => 38
  | .toSub _ => 39
  | .doSub _ => 40
  | .doArg _ _ => 41
  | .doParam _ => 42
  | .exec _ => 43
  | .execArg _ _ => 44
  | .execParam _ => 45
  | .paramSet _ => 46
  | .paramAdd _ => 47
  | .paramSub _ => 48
  | .paramMul _ => 49
  | .paramDiv _ => 50
  | .loadToParam _ => 51
  | .setInterrupt _ => 52
  | .clearInterrupt => 53

/-- The operands of an instruction, one slot per operand type; a slot the
instruction does not use holds `none` (or `0`). -/
structure Operands where
  arg : Option Arg
  cmp : Option Cmp
  val : Option SysVal
  sel : Option TurtleSel
  flag : Option Flag
  tgt : Option Target
  x : Int
  y : Int
  id : Nat
  deriving DecidableEq, Repr

/-- The operand record with every slot unused. -/
def Operands.none : Operands := ⟨.none, .none, .none, .none, .none, .none, 0, 0, 0⟩

/-- The operands of an instruction. -/
def Instr.operands : Instr → Operands
  | .home => Operands.none
  | .useCurrentPos => Operands.none
  | .useCurrentAngle => Operands.none
  | .useAngleToGoal => Operands.none
  | .level1s => Operands.none
  | .fd a => { Operands.none with arg := some a }
  | .bk a => { Operands.none with arg := some a }
  | .rt a => { Operands.none with arg := some a }
  | .lt a => { Operands.none with arg := some a }
  | .rtBank x => { Operands.none with x := x }
  | .setAngle a => { Operands.none with arg := some a }
  | .east a => { Operands.none with arg := some a }
  | .west a => { Operands.none with arg := some a }
  | .setXPos a => { Operands.none with arg := some a }
  | .north a => { Operands.none with arg := some a }
  | .south a => { Operands.none with arg := some a }
  | .setYPos a => { Operands.none with arg := some a }
  | .setPos x y => { Operands.none with x := x, y := y }
  | .setAbsPos x y => { Operands.none with x := x, y := y }
  | .altUp a => { Operands.none with arg := some a }
  | .altDown a => { Operands.none with arg := some a }
  | .setAlt a => { Operands.none with arg := some a }
  | .speedIncrease a => { Operands.none with arg := some a }
  | .speedDecrease a => { Operands.none with arg := some a }
  | .setSpeed a => { Operands.none with arg := some a }
  | .repeatN x => { Operands.none with x := x }
  | .repeatForever => Operands.none
  | .repeatParam => Operands.none
  | .endBlock => Operands.none
  | .elseBlock => Operands.none
  | .ifVal c v x => { Operands.none with cmp := some c, val := some v, x := x }
  | .ifParam c v => { Operands.none with cmp := some c, val := some v }
  | .penUp => Operands.none
  | .penDown => Operands.none
  | .penToggle => Operands.none
  | .setTurtle s => { Operands.none with sel := some s }
  | .flagOn f => { Operands.none with flag := some f }
  | .flagOff f => { Operands.none with flag := some f }
  | .flagToggle f => { Operands.none with flag := some f }
  | .toSub n => { Operands.none with id := n }
  | .doSub t => { Operands.none with tgt := some t }
  | .doArg t x => { Operands.none with tgt := some t, x := x }
  | .doParam t => { Operands.none with tgt := some t }
  | .exec t => { Operands.none with tgt := some t }
  | .execArg t x => { Operands.none with tgt := some t, x := x }
  | .execParam t => { Operands.none with tgt := some t }
  | .paramSet x => { Operands.none with x := x }
  | .paramAdd x => { Operands.none with x := x }
  | .paramSub x => { Operands.none with x := x }
  | .paramMul x => { Operands.none with x := x }
  | .paramDiv x => { Operands.none with x := x }
  | .loadToParam v => { Operands.none with val := some v }
  | .setInterrupt t => { Operands.none with tgt := some t }
  | .clearInterrupt => Operands.none

/-- The instruction with a given constructor number and operands, when the
operands the constructor needs are present. -/
def Instr.ofOperands (tag : Nat) (o : Operands) : Option Instr :=
  match tag with
  | 0 => some .home
  | 1 => some .useCurrentPos
  | 2 => some .useCurrentAngle
  | 3 => some .useAngleToGoal
  | 4 => some .level1s
  | 5 => o.arg.bind fun a => some (.fd a)
  | 6 => o.arg.bind fun a => some (.bk a)
  | 7 => o.arg.bind fun a => some (.rt a)
  | 8 => o.arg.bind fun a => some (.lt a)
  | 9 => some (.rtBank o.x)
  | 10 => o.arg.bind fun a => some (.setAngle a)
  | 11 => o.arg.bind fun a => some (.east a)
  | 12 => o.arg.bind fun a => some (.west a)
  | 13 => o.arg.bind fun a => some (.setXPos a)
  | 14 => o.arg.bind fun a => some (.north a)
  | 15 => o.arg.bind fun a => some (.south a)
  | 16 => o.arg.bind fun a => some (.setYPos a)
  | 17 => some (.setPos o.x o.y)
  | 18 => some (.setAbsPos o.x o.y)
  | 19 => o.arg.bind fun a => some (.altUp a)
  | 20 => o.arg.bind fun a => some (.altDown a)
  | 21 => o.arg.bind fun a => some (.setAlt a)
  | 22 => o.arg.bind fun a => some (.speedIncrease a)
  | 23 => o.arg.bind fun a => some (.speedDecrease a)
  | 24 => o.arg.bind fun a => some (.setSpeed a)
  | 25 => some (.repeatN o.x)
  | 26 => some .repeatForever
  | 27 => some .repeatParam
  | 28 => some .endBlock
  | 29 => some .elseBlock
  | 30 => o.cmp.bind fun c => o.val.bind fun v => some (.ifVal c v o.x)
  | 31 => o.cmp.bind fun c => o.val.bind fun v => some (.ifParam c v)
  | 32 => some .penUp
  | 33 => some .penDown
  | 34 => some .penToggle
  | 35 => o.sel.bind fun s => some (.setTurtle s)
  | 36 => o.flag.bind fun f => some (.flagOn f)
  | 37 => o.flag.bind fun f => some (.flagOff f)
  | 38 => o.flag.bind fun f => some (.flagToggle f)
  | 39 => some (.toSub o.id)
  | 40 => o.tgt.bind fun t => some (.doSub t)
  | 41 => o.tgt.bind fun t => some (.doArg t o.x)
  | 42 => o.tgt.bind fun t => some (.doParam t)
  | 43 => o.tgt.bind fun t => some (.exec t)
  | 44 => o.tgt.bind fun t => some (.execArg t o.x)
  | 45 => o.tgt.bind fun t => some (.execParam t)
  | 46 => some (.paramSet o.x)
  | 47 => some (.paramAdd o.x)
  | 48 => some (.paramSub o.x)
  | 49 => some (.paramMul o.x)
  | 50 => some (.paramDiv o.x)
  | 51 => o.val.bind fun v => some (.loadToParam v)
  | 52 => o.tgt.bind fun t => some (.setInterrupt t)
  | 53 => some .clearInterrupt
  | _ => none

/-- Equality of instructions is decided on the constructor number and the
operands, from which the instruction can be rebuilt. -/
instance : DecidableEq Instr := fun a b =>
  have back : ∀ i : Instr, Instr.ofOperands i.tag i.operands = some i := by
    intro i; cases i <;> rfl
  if h : a.tag = b.tag ∧ a.operands = b.operands then
    isTrue (Option.some.inj (by rw [← back a, ← back b, h.1, h.2]))
  else
    isFalse (fun e => h (by subst e; exact ⟨rfl, rfl⟩))

/-! ### The commands under their source names -/

section Commands
open Instr SysVal

abbrev LOGO_MAIN : Target := Target.LOGO_MAIN
abbrev THROTTLE_INPUT_CHANNEL : SysVal := INPUT_CHANNEL Channel.THROTTLE
abbrev AILERON_INPUT_CHANNEL : SysVal := INPUT_CHANNEL Channel.AILERON
abbrev BRAKE_THR_SEL_INPUT_CHANNEL : SysVal := INPUT_CHANNEL Channel.BRAKE_THR_SEL
abbrev RUDDER_INPUT_CHANNEL : SysVal := INPUT_CHANNEL Channel.RUDDER

abbrev HOME : Instr := home
abbrev FD (x : Int) : Instr := fd (Arg.lit x)
abbrev BK (x : Int) : Instr := bk (Arg.lit x)
abbrev USE_CURRENT_POS : Instr := useCurrentPos
abbrev RT (x : Int) : Instr := rt (Arg.lit x)
abbrev LT (x : Int) : Instr := lt (Arg.lit x)
abbrev RT_BANK (x : Int) : Instr := rtBank x
abbrev LEVEL_1S : Instr := level1s
abbrev SET_ANGLE (x : Int) : Instr := setAngle (Arg.lit x)
abbrev USE_CURRENT_ANGLE : Instr := useCurrentAngle
abbrev USE_ANGLE_TO_GOAL : Instr := useAngleToGoal
abbrev EAST (x : Int) : Instr := east (Arg.lit x)
abbrev WEST (x : Int) : Instr := west (Arg.lit x)
abbrev SET_X_POS (x : Int) : Instr := setXPos (Arg.lit x)
abbrev NORTH (y : Int) : Instr := north (Arg.lit y)
abbrev SOUTH (y : Int) : Instr := south (Arg.lit y)
abbrev SET_Y_POS (y : Int) : Instr := setYPos (Arg.lit y)
abbrev SET_POS (x y : Int) : Instr := setPos x y
abbrev SET_ABS_POS (x y : Int) : Instr := setAbsPos x y
abbrev ALT_UP (z : Int) : Instr := altUp (Arg.lit z)
abbrev ALT_DOWN (z : Int) : Instr := altDown (Arg.lit z)
abbrev SET_ALT (z : Int) : Instr := setAlt (Arg.lit z)
abbrev SPEED_INCREASE (x : Int) : Instr := speedIncrease (Arg.lit x)
abbrev SPEED_DECREASE (x : Int) : Instr := speedDecrease (Arg.lit x)
abbrev SET_SPEED (x : Int) : Instr := setSpeed (Arg.lit x)
abbrev REPEAT (n : Int) : Instr := repeatN n
abbrev REPEAT_FOREVER : Instr := repeatForever
abbrev END : Instr := endBlock
abbrev ELSE : Instr := elseBlock
abbrev IF_EQ (v : SysVal) (x : Int) : Instr := ifVal Cmp.EQ v x
abbrev IF_NE (v : SysVal) (x : Int) : Instr := ifVal Cmp.NE v x
abbrev IF_GT (v : SysVal) (x : Int) : Instr := ifVal Cmp.GT v x
abbrev IF_LT (v : SysVal) (x : Int) : Instr := ifVal Cmp.LT v x
abbrev IF_GE (v : SysVal) (x : Int) : Instr := ifVal Cmp.GE v x
abbrev IF_LE (v : SysVal) (x : Int) : Instr := ifVal Cmp.LE v x
abbrev PEN_UP : Instr := penUp
abbrev PEN_DOWN : Instr := penDown
abbrev PEN_TOGGLE : Instr := penToggle
abbrev SET_TURTLE (t : TurtleSel) : Instr := setTurtle t
abbrev FLAG_ON (f : Flag) : Instr := flagOn f
abbrev FLAG_OFF (f : Flag) : Instr := flagOff f
abbrev FLAG_TOGGLE (f : Flag) : Instr := flagToggle f
abbrev TO (f : Nat) : Instr := toSub f
abbrev DO (t : Target) : Instr := doSub t
abbrev EXEC (t : Target) : Instr := exec t
abbrev DO_ARG (t : Target) (x : Int) : Instr := doArg t x
abbrev EXEC_ARG (t : Target) (x : Int) : Instr := execArg t x
abbrev FD_PARAM : Instr := fd Arg.param
abbrev BK_PARAM : Instr := bk Arg.param
abbrev RT_PARAM : Instr := rt Arg.param
abbrev LT_PARAM : Instr := lt Arg.param
abbrev SET_ANGLE_PARAM : Instr := setAngle Arg.param
abbrev EAST_PARAM : Instr := east Arg.param
abbrev WEST_PARAM : Instr := west Arg.param
abbrev NORTH_PARAM : Instr := north Arg.param
abbrev SOUTH_PARAM : Instr := south Arg.param
abbrev ALT_UP_PARAM : Instr := altUp Arg.param
abbrev ALT_DOWN_PARAM : Instr := altDown Arg.param
abbrev SET_X_POS_PARAM : Instr := setXPos Arg.param
abbrev SET_Y_POS_PARAM : Instr := setYPos Arg.param
abbrev SET_ALT_PARAM : Instr := setAlt Arg.param
abbrev SPEED_INCREASE_PARAM : Instr := speedIncrease Arg.param
abbrev SPEED_DECREASE_PARAM : Instr := speedDecrease Arg.param
abbrev SET_SPEED_PARAM : Instr := setSpeed Arg.param
abbrev REPEAT_PARAM : Instr := repeatParam
abbrev DO_PARAM (t : Target) : Instr := doParam t
abbrev EXEC_PARAM (t : Target) : Instr := execParam t
abbrev PARAM_SET (x : Int) : Instr := paramSet x
abbrev PARAM_ADD (x : Int) : Instr := paramAdd x
abbrev PARAM_SUB (x : Int) : Instr := paramSub x
abbrev PARAM_MUL (x : Int) : Instr := paramMul x
abbrev PARAM_DIV (x : Int) : Instr := paramDiv x
abbrev IF_EQ_PARAM (v : SysVal) : Instr := ifParam Cmp.EQ v
abbrev IF_NE_PARAM (v : SysVal) : Instr := ifParam Cmp.NE v
abbrev IF_GT_PARAM (v : SysVal) : Instr := ifParam Cmp.GT v
abbrev IF_LT_PARAM (v : SysVal) : Instr := ifParam Cmp.LT v
abbrev IF_GE_PARAM (v : SysVal) : Instr := ifParam Cmp.GE v
abbrev IF_LE_PARAM (v : SysVal) : Instr := ifParam Cmp.LE v
abbrev LOAD_TO_PARAM (v : SysVal) : Instr := loadToParam v
abbrev SET_INTERRUPT (t : Target) : Instr := setInterrupt t
abbrev CLEAR_INTERRUPT : Instr := clearInterrupt

end Commands
/-! ## The mission table `instructions` (source lines 1050-2449) -/

/-- Main body of `instructions`, source lines 1056-1073. -/
def instructions_main (c : Config) : List Instr :=
  [SET_ALT (MAX_THERMALLING_ALT - 20), FLAG_ON Flag.F_LAND, SET_SPEED c.DESIRED_SPEED_NORMAL_F0,
   PEN_DOWN, SET_INTERRUPT INT_FORCE_TARGET_AHAID, DO CHECKS, DO SOFT_CHECKS, DO CHECK_THERMALS,
   DO CHECK_WIND_GEOFENCE, DO CHECK_SOFT_GEOFENCE, DO CHECK_SOFT_WIND_GEOFENCE, DO CRUISE, END,
   END]

/-- Definition of subroutine `CRUISE` in `instructions`, source lines 1077-1081. -/
def TO_CRUISE (c : Config) : List Instr :=
  [TO CRUISE, FD (Int.tdiv c.DESIRED_SPEED_NORMAL_F0 10), END, END]

/-- Definition of subroutine `RETURN_GEOFENCE` in `instructions`, source lines 1088-1158. -/
def TO_RETURN_GEOFENCE (c : Config) : List Instr :=
  [TO RETURN_GEOFENCE, LOAD_TO_PARAM SysVal.REL_ANGLE_TO_HOME,
   IF_LT SysVal.REL_ANGLE_TO_HOME (-30), PARAM_MUL (-1), PARAM_SUB 30, PARAM_DIV 10,
   REPEAT_PARAM, DO CHECKS, LT 10, FD (Int.tdiv c.DESIRED_SPEED_NORMAL_F0 10), END, ELSE,
   IF_GT SysVal.REL_ANGLE_TO_HOME 150, PARAM_SUB 360, PARAM_MUL (-1), PARAM_DIV 10, REPEAT_PARAM,
   DO CHECKS, LT 10, FD (Int.tdiv c.DESIRED_SPEED_NORMAL_F0 10), END, ELSE,
   IF_GE SysVal.REL_ANGLE_TO_HOME (-30), PARAM_ADD 30, PARAM_DIV 10, REPEAT_PARAM, DO CHECKS,
   RT 10, FD (Int.tdiv c.DESIRED_SPEED_NORMAL_F0 10), END, END, END, END,
   FD (Int.tdiv c.DESIRED_SPEED_NORMAL_F0 2), EXEC LOGO_MAIN, END, END]

/-- Definition of subroutine `CHECK_SOFT_GEOFENCE` in `instructions`, source lines 1161-1227. -/
def TO_CHECK_SOFT_GEOFENCE (c : Config) : List Instr :=
  [TO CHECK_SOFT_GEOFENCE, IF_GT SysVal.DIST_TO_HOME (Int.tdiv (GEOFENCE_SIZE * 2) 3),
   LOAD_TO_PARAM SysVal.REL_ANGLE_TO_HOME, IF_LT SysVal.REL_ANGLE_TO_HOME (-30), PARAM_MUL (-1),
   PARAM_SUB 30, PARAM_DIV 10, REPEAT_PARAM, DO CHECKS, DO SOFT_CHECKS, DO CHECK_THERMALS, LT 10,
   FD (Int.tdiv c.DESIRED_SPEED_NORMAL_F0 10), END, ELSE, IF_GT SysVal.REL_ANGLE_TO_HOME 150,
   PARAM_SUB 360, PARAM_MUL (-1), PARAM_DIV 10, REPEAT_PARAM, DO CHECKS, DO SOFT_CHECKS,
   DO CHECK_THERMALS, LT 10, FD (Int.tdiv c.DESIRED_SPEED_NORMAL_F0 10), END, ELSE,
   IF_GE SysVal.REL_ANGLE_TO_HOME (-30), PARAM_ADD 30, PARAM_DIV 10, REPEAT_PARAM, DO CHECKS,
   DO SOFT_CHECKS, DO CHECK_THERMALS, RT 10, FD (Int.tdiv c.DESIRED_SPEED_NORMAL_F0 10), END,
   END, END, END, FD (Int.tdiv c.DESIRED_SPEED_NORMAL_F0 10), END, END, END]

/-- Definition of subroutine `CHECK_WIND_GEOFENCE` in `instructions`, source lines 1234-1300. -/
def TO_CHECK_WIND_GEOFENCE (c : Config) : List Instr :=
  [TO CHECK_WIND_GEOFENCE, IF_GT SysVal.DIST_TO_UPWIND_POINT GEOFENCE_SIZE,
   LOAD_TO_PARAM SysVal.REL_ANGLE_TO_HOME, IF_LT SysVal.REL_ANGLE_TO_HOME (-30), PARAM_MUL (-1),
   PARAM_SUB 30, PARAM_DIV 10, REPEAT_PARAM, DO CHECKS, DO SOFT_CHECKS, DO CHECK_THERMALS, LT 10,
   FD (Int.tdiv c.DESIRED_SPEED_NORMAL_F0 10), END, ELSE, IF_GT SysVal.REL_ANGLE_TO_HOME 150,
   PARAM_SUB 360, PARAM_MUL (-1), PARAM_DIV 10, REPEAT_PARAM, DO CHECKS, DO SOFT_CHECKS,
   DO CHECK_THERMALS, LT 10, FD (Int.tdiv c.DESIRED_SPEED_NORMAL_F0 10), END, ELSE,
   IF_GE SysVal.REL_ANGLE_TO_HOME (-30), PARAM_ADD 30, PARAM_DIV 10, REPEAT_PARAM, DO CHECKS,
   DO SOFT_CHECKS, DO CHECK_THERMALS, RT 10, FD (Int.tdiv c.DESIRED_SPEED_NORMAL_F0 10), END,
   END, END, END, FD (Int.tdiv c.DESIRED_SPEED_NORMAL_F0 10), END, END, END]

/-- Definition of subroutine `CHECK_SOFT_WIND_GEOFENCE` in `instructions`, source lines 1304-1370. -/
def TO_CHECK_SOFT_WIND_GEOFENCE (c : Config) : List Instr :=
  [TO CHECK_SOFT_WIND_GEOFENCE,
   IF_GT SysVal.DIST_TO_UPWIND_POINT (Int.tdiv (GEOFENCE_SIZE * 4) 5),
   LOAD_TO_PARAM SysVal.REL_ANGLE_TO_HOME, IF_LT SysVal.REL_ANGLE_TO_HOME (-30), PARAM_MUL (-1),
   PARAM_SUB 30, PARAM_DIV 10, REPEAT_PARAM, DO CHECKS, DO SOFT_CHECKS, DO CHECK_THERMALS, LT 10,
   FD (Int.tdiv c.DESIRED_SPEED_NORMAL_F0 10), END, ELSE, IF_GT SysVal.REL_ANGLE_TO_HOME 150,
   PARAM_SUB 360, PARAM_MUL (-1), PARAM_DIV 10, REPEAT_PARAM, DO CHECKS, DO SOFT_CHECKS,
   DO CHECK_THERMALS, LT 10, FD (Int.tdiv c.DESIRED_SPEED_NORMAL_F0 10), END, ELSE,
   IF_GE SysVal.REL_ANGLE_TO_HOME (-30), PARAM_ADD 30, PARAM_DIV 10, REPEAT_PARAM, DO CHECKS,
   DO SOFT_CHECKS, DO CHECK_THERMALS, RT 10, FD (Int.tdiv c.DESIRED_SPEED_NORMAL_F0 10), END,
   END, END, END, FD (Int.tdiv c.DESIRED_SPEED_NORMAL_F0 10), END, END, END]

/-- Definition of subroutine `CHECK_THERMALS` in `instructions`, source lines 1378-1397. -/
def TO_CHECK_THERMALS (_ : Config) : List Instr :=
  [TO CHECK_THERMALS, IF_GE SysVal.AIR_SPEED_Z CLIMBR_THERMAL_TRIGGER,
   DO WAIT_DECREASE_CLIMBRATE, EXEC THERMALLING_TURN, EXEC LOGO_MAIN, END, END, END]

/-- Definition of subroutine `WAIT_DECREASE_CLIMBRATE` in `instructions`, source lines 1401-1442. -/
def TO_WAIT_DECREASE_CLIMBRATE (c : Config) : List Instr :=
  [TO WAIT_DECREASE_CLIMBRATE, LOAD_TO_PARAM SysVal.AIR_SPEED_Z,
   SET_SPEED c.DESIRED_SPEED_SLOW_F4, REPEAT 30, IF_GE SysVal.AIR_SPEED_Z 200,
   IF_GE SysVal.PARAM 200, LOAD_TO_PARAM SysVal.AIR_SPEED_Z,
   FD (Int.tdiv c.DESIRED_SPEED_SLOW_F4 50), END, ELSE, IF_GE SysVal.AIR_SPEED_Z 150,
   IF_GE SysVal.PARAM 150, LOAD_TO_PARAM SysVal.AIR_SPEED_Z,
   FD (Int.tdiv c.DESIRED_SPEED_SLOW_F4 50), END, ELSE, IF_GE SysVal.AIR_SPEED_Z 100,
   IF_GE SysVal.PARAM 100, LOAD_TO_PARAM SysVal.AIR_SPEED_Z,
   FD (Int.tdiv c.DESIRED_SPEED_SLOW_F4 50), END, ELSE, IF_GE SysVal.AIR_SPEED_Z 50,
   IF_GE SysVal.PARAM 50, LOAD_TO_PARAM SysVal.AIR_SPEED_Z,
   FD (Int.tdiv c.DESIRED_SPEED_SLOW_F4 50), END, END, END, END, END, DO CHECKS, DO SOFT_CHECKS,
   END, END, END]

/-- Definition of subroutine `THERMALLING_TURN` in `instructions`, source lines 1446-1496. -/
def TO_THERMALLING_TURN (c : Config) : List Instr :=
  [TO THERMALLING_TURN, SET_SPEED c.DESIRED_SPEED_SLOW_F4, LOAD_TO_PARAM SysVal.AIR_SPEED_Z,
   PARAM_ADD 50, REPEAT 9, IF_GE SysVal.AIR_SPEED_Z 200, IF_LE SysVal.PARAM 150,
   EXEC BETTER_LIFT, END, ELSE, IF_GE SysVal.AIR_SPEED_Z 150, IF_LE SysVal.PARAM 100,
   EXEC BETTER_LIFT, END, ELSE, IF_GE SysVal.AIR_SPEED_Z 100, IF_LE SysVal.PARAM 50,
   EXEC BETTER_LIFT, END, END, END, END, RT_BANK 30, DO RESET_NAVIGATION, DO CHECKS,
   DO SOFT_CHECKS, END, DO RESET_NAVIGATION, EXEC THERMALLING_SHIFT_CIRCLE, END, END, END, END]

/-- Definition of subroutine `THERMALLING_SHIFT_CIRCLE` in `instructions`, source lines 1499-1509. -/
def TO_THERMALLING_SHIFT_CIRCLE (c : Config) : List Instr :=
  [TO THERMALLING_SHIFT_CIRCLE, SET_SPEED c.DESIRED_SPEED_SLOW_F4, LEVEL_1S, LEVEL_1S, LEVEL_1S,
   DO RESET_NAVIGATION, EXEC LOGO_MAIN, END, END]

/-- Definition of subroutine `SINK` in `instructions`, source lines 1512-1521. -/
def TO_SINK (c : Config) : List Instr :=
  [TO SINK, SET_SPEED c.DESIRED_SPEED_FAST_FMIN4, FD (Int.tdiv c.DESIRED_SPEED_FAST_FMIN4 10),
   EXEC LOGO_MAIN, END, END]

/-- Definition of subroutine `MOTOR_CLIMB` in `instructions`, source lines 1529-1601. -/
def TO_MOTOR_CLIMB (c : Config) : List Instr :=
  [TO MOTOR_CLIMB, FLAG_OFF Flag.F_LAND, PEN_DOWN, SET_SPEED c.DESIRED_SPEED_NORMAL_F0, REPEAT 5,
   IF_LT SysVal.ALT 10, REPEAT 20, LEVEL_1S, END, DO RESET_NAVIGATION, END, DO CHECKS_MC,
   DO MOTOR_CLIMB_FORWARD, DO SOFT_CHECKS_MC, DO MOTOR_CLIMB_FORWARD, END, REPEAT 300,
   IF_GT SysVal.ALT MOTOR_OFF_TRIGGER_ALT, FLAG_ON Flag.F_LAND, REPEAT 6, DO CHECKS,
   DO SOFT_CHECKS, DO CRUISE, END, EXEC LOGO_MAIN, END, DO CHECKS_MC, DO SOFT_CHECKS_MC,
   DO CHECK_MC_SOFT_GEOFENCE, DO MOTOR_CLIMB_FORWARD, DO CHECK_MC_WIND_GEOFENCE,
   DO CHECK_MC_SOFT_WIND_GEOFENCE, FLAG_OFF Flag.F_LAND, DO MOTOR_CLIMB_FORWARD, END,
   FLAG_ON Flag.F_LAND, REPEAT 6, DO CHECKS, DO SOFT_CHECKS, DO CRUISE, END, EXEC LOGO_MAIN, END,
   END]

/-- Definition of subroutine `RETURN_MC_GEOFENCE` in `instructions`, source lines 1605-1672. -/
def TO_RETURN_MC_GEOFENCE (c : Config) : List Instr :=
  [TO RETURN_MC_GEOFENCE, LOAD_TO_PARAM SysVal.REL_ANGLE_TO_HOME,
   IF_LT SysVal.REL_ANGLE_TO_HOME (-30), PARAM_MUL (-1), PARAM_SUB 30, PARAM_DIV 10,
   REPEAT_PARAM, DO CHECKS_MC, LT 10, FD (Int.tdiv c.DESIRED_SPEED_NORMAL_F0 10), END, ELSE,
   IF_GT SysVal.REL_ANGLE_TO_HOME 150, PARAM_SUB 360, PARAM_MUL (-1), PARAM_DIV 10, REPEAT_PARAM,
   DO CHECKS_MC, LT 10, FD (Int.tdiv c.DESIRED_SPEED_NORMAL_F0 10), END, ELSE,
   IF_GE SysVal.REL_ANGLE_TO_HOME (-30), PARAM_ADD 30, PARAM_DIV 10, REPEAT_PARAM, DO CHECKS_MC,
   RT 10, FD (Int.tdiv c.DESIRED_SPEED_NORMAL_F0 10), END, END, END, END,
   FD (Int.tdiv c.DESIRED_SPEED_NORMAL_F0 2), END, END]

/-- Definition of subroutine `CHECK_MC_SOFT_GEOFENCE` in `instructions`, source lines 1675-1742. -/
def TO_CHECK_MC_SOFT_GEOFENCE (c : Config) : List Instr :=
  [TO CHECK_MC_SOFT_GEOFENCE, IF_GT SysVal.DIST_TO_HOME (Int.tdiv (GEOFENCE_SIZE * 2) 3),
   LOAD_TO_PARAM SysVal.REL_ANGLE_TO_HOME, IF_LT SysVal.REL_ANGLE_TO_HOME (-30), PARAM_MUL (-1),
   PARAM_SUB 30, PARAM_DIV 10, REPEAT_PARAM, DO CHECKS_MC, DO SOFT_CHECKS_MC, LT 10,
   FD (Int.tdiv c.DESIRED_SPEED_NORMAL_F0 10), END, ELSE, IF_GT SysVal.REL_ANGLE_TO_HOME 150,
   PARAM_SUB 360, PARAM_MUL (-1), PARAM_DIV 10, REPEAT_PARAM, DO CHECKS_MC, DO SOFT_CHECKS_MC,
   LT 10, FD (Int.tdiv c.DESIRED_SPEED_NORMAL_F0 10), END, ELSE,
   IF_GE SysVal.REL_ANGLE_TO_HOME (-30), PARAM_ADD 30, PARAM_DIV 10, REPEAT_PARAM, DO CHECKS_MC,
   DO SOFT_CHECKS_MC, RT 10, FD (Int.tdiv c.DESIRED_SPEED_NORMAL_F0 10), END, END, END, END,
   FD (Int.tdiv c.DESIRED_SPEED_NORMAL_F0 10), END, END, END]

/-- Definition of subroutine `CHECK_MC_WIND_GEOFENCE` in `instructions`, source lines 1749-1816. -/
def TO_CHECK_MC_WIND_GEOFENCE (c : Config) : List Instr :=
  [TO CHECK_MC_WIND_GEOFENCE, IF_GT SysVal.DIST_TO_UPWIND_POINT GEOFENCE_SIZE,
   LOAD_TO_PARAM SysVal.REL_ANGLE_TO_HOME, IF_LT SysVal.REL_ANGLE_TO_HOME (-30), PARAM_MUL (-1),
   PARAM_SUB 30, PARAM_DIV 10, REPEAT_PARAM, DO CHECKS_MC, DO SOFT_CHECKS_MC, LT 10,
   FD (Int.tdiv c.DESIRED_SPEED_NORMAL_F0 10), END, ELSE, IF_GT SysVal.REL_ANGLE_TO_HOME 150,
   PARAM_SUB 360, PARAM_MUL (-1), PARAM_DIV 10, REPEAT_PARAM, DO CHECKS_MC, DO SOFT_CHECKS_MC,
   LT 10, FD (Int.tdiv c.DESIRED_SPEED_NORMAL_F0 10), END, ELSE,
   IF_GE SysVal.REL_ANGLE_TO_HOME (-30), PARAM_ADD 30, PARAM_DIV 10, REPEAT_PARAM, DO CHECKS_MC,
   DO SOFT_CHECKS_MC, RT 10, FD (Int.tdiv c.DESIRED_SPEED_NORMAL_F0 10), END, END, END, END,
   FD (Int.tdiv c.DESIRED_SPEED_NORMAL_F0 10), END, END, END]

/-- Definition of subroutine `CHECK_MC_SOFT_WIND_GEOFENCE` in `instructions`, source lines 1819-1886. -/
def TO_CHECK_MC_SOFT_WIND_GEOFENCE (c : Config) : List Instr :=
  [TO CHECK_MC_SOFT_WIND_GEOFENCE,
   IF_GT SysVal.DIST_TO_UPWIND_POINT (Int.tdiv (GEOFENCE_SIZE * 4) 5),
   LOAD_TO_PARAM SysVal.REL_ANGLE_TO_HOME, IF_LT SysVal.REL_ANGLE_TO_HOME (-30), PARAM_MUL (-1),
   PARAM_SUB 30, PARAM_DIV 10, REPEAT_PARAM, DO CHECKS_MC, DO SOFT_CHECKS_MC, LT 10,
   FD (Int.tdiv c.DESIRED_SPEED_NORMAL_F0 10), END, ELSE, IF_GT SysVal.REL_ANGLE_TO_HOME 150,
   PARAM_SUB 360, PARAM_MUL (-1), PARAM_DIV 10, REPEAT_PARAM, DO CHECKS_MC, DO SOFT_CHECKS_MC,
   LT 10, FD (Int.tdiv c.DESIRED_SPEED_NORMAL_F0 10), END, ELSE,
   IF_GE SysVal.REL_ANGLE_TO_HOME (-30), PARAM_ADD 30, PARAM_DIV 10, REPEAT_PARAM, DO CHECKS_MC,
   DO SOFT_CHECKS_MC, RT 10, FD (Int.tdiv c.DESIRED_SPEED_NORMAL_F0 10), END, END, END, END,
   FD (Int.tdiv c.DESIRED_SPEED_NORMAL_F0 10), END, END, END]

/-- Definition of subroutine `MOTOR_CLIMB_FORWARD` in `instructions`, source lines 1890-1895. -/
def TO_MOTOR_CLIMB_FORWARD (c : Config) : List Instr :=
  [TO MOTOR_CLIMB_FORWARD, FD (Int.tdiv c.DESIRED_SPEED_NORMAL_F0 10), END, END]

/-- Definition of subroutine `TOO_HIGH` in `instructions`, source lines 1899-1907. -/
def TO_TOO_HIGH (c : Config) : List Instr :=
  [TO TOO_HIGH, FD (Int.tdiv c.DESIRED_SPEED_NORMAL_F0 10), EXEC LOGO_MAIN, END, END]

/-- Definition of subroutine `BETTER_LIFT` in `instructions`, source lines 1911-1920. -/
def TO_BETTER_LIFT (c : Config) : List Instr :=
  [TO BETTER_LIFT, FD (Int.tdiv c.DESIRED_SPEED_NORMAL_F0 10), EXEC LOGO_MAIN, END, END]

/-- Definition of subroutine `CHECKS` in `instructions`, source lines 1923-1956: the part before the `#if` of line 1927. -/
def TO_CHECKS_head (_ : Config) : List Instr :=
  [TO CHECKS, IF_LT SysVal.ALT MOTOR_ON_TRIGGER_ALT]

/-- Source lines 1927-1939: the instructions compiled only when
`THROTTLE_INPUT_CHANNEL != CHANNEL_UNUSED`. -/
def TO_CHECKS_throttle (_ : Config) : List Instr :=
  [IF_LT SysVal.ALT MOTOR_ON_IN_SINK_ALT, IF_GT THROTTLE_INPUT_CHANNEL 3400, EXEC MOTOR_CLIMB,
   END, END, IF_GT SysVal.AIR_SPEED_Z (MOTOR_CLIMB_MIN - 90), IF_GT THROTTLE_INPUT_CHANNEL 3400,
   EXEC MOTOR_CLIMB, END, END]

/-- The part of `CHECKS` after the `#endif` of line 1939. -/
def TO_CHECKS_tail (c : Config) : List Instr :=
  [END, IF_LT BRAKE_THR_SEL_INPUT_CHANNEL 2700, IF_GT BRAKE_THR_SEL_INPUT_CHANNEL 1700,
   EXEC LOITER_LAND, END, END, IF_LT SysVal.BATTERY_VOLTAGE c.VOLTAGE_SENSOR_ALARM,
   EXEC LOITER_LAND, END, IF_LT AILERON_INPUT_CHANNEL 2850, DO PILOT_INPUT, END,
   IF_GT AILERON_INPUT_CHANNEL 3150, DO PILOT_INPUT, END, END, END]

/-- Definition of subroutine `CHECKS` in `instructions`, source lines 1923-1956. -/
def TO_CHECKS (c : Config) : List Instr :=
  TO_CHECKS_head c ++ (if c.throttleChannelUsed then TO_CHECKS_throttle c else []) ++ TO_CHECKS_tail c

/-- Definition of subroutine `SOFT_CHECKS` in `instructions`, source lines 1959-1978. -/
def TO_SOFT_CHECKS (c : Config) : List Instr :=
  [TO SOFT_CHECKS, IF_GT SysVal.DIST_TO_HOME GEOFENCE_SIZE, SET_SPEED c.DESIRED_SPEED_NORMAL_F0,
   EXEC RETURN_GEOFENCE, END, IF_GE SysVal.AIR_SPEED_Z CLIMBR_THERMAL_TRIGGER,
   IF_GT SysVal.ALT MAX_THERMALLING_ALT, EXEC TOO_HIGH, END, END,
   IF_LT SysVal.AIR_SPEED_Z CLIMBR_THERMAL_CLIMB_MIN, EXEC SINK, END, END, END]

/-- Definition of subroutine `CHECKS_MC` in `instructions`, source lines 1982-2006. -/
def TO_CHECKS_MC (c : Config) : List Instr :=
  [TO CHECKS_MC, IF_LT THROTTLE_INPUT_CHANNEL 2400, EXEC LOGO_MAIN, END,
   IF_LT BRAKE_THR_SEL_INPUT_CHANNEL 2700, IF_GT BRAKE_THR_SEL_INPUT_CHANNEL 1700,
   EXEC LOITER_LAND, END, END, IF_LT SysVal.BATTERY_VOLTAGE c.VOLTAGE_SENSOR_ALARM,
   EXEC LOITER_LAND, END, IF_LT AILERON_INPUT_CHANNEL 2850, DO PILOT_INPUT_IN_MC, END,
   IF_GT AILERON_INPUT_CHANNEL 3150, DO PILOT_INPUT_IN_MC, END, END, END]

/-- Definition of subroutine `SOFT_CHECKS_MC` in `instructions`, source lines 2010-2023. -/
def TO_SOFT_CHECKS_MC (_ : Config) : List Instr :=
  [TO SOFT_CHECKS_MC, IF_GT SysVal.DIST_TO_HOME GEOFENCE_SIZE, DO RETURN_MC_GEOFENCE, END,
   IF_GT SysVal.AIR_SPEED_Z MOTOR_CLIMB_MAX, EXEC LOGO_MAIN, END,
   IF_LT SysVal.AIR_SPEED_Z MOTOR_CLIMB_MIN, EXEC LOGO_MAIN, END, END]

/-- Definition of subroutine `RESET_NAVIGATION` in `instructions`, source lines 2027-2036. -/
def TO_RESET_NAVIGATION (_ : Config) : List Instr :=
  [TO RESET_NAVIGATION, PEN_UP, USE_CURRENT_ANGLE, USE_CURRENT_POS, FD WAYPOINT_RADIUS, PEN_DOWN,
   END, END]

/-- Definition of subroutine `PILOT_INPUT` in `instructions`, source lines 2040-2054. -/
def TO_PILOT_INPUT (c : Config) : List Instr :=
  [TO PILOT_INPUT, REPEAT 10, IF_LT AILERON_INPUT_CHANNEL 2850, LT 10,
   FD (Int.tdiv c.DESIRED_SPEED_NORMAL_F0 10), END, IF_GT AILERON_INPUT_CHANNEL 3150, RT 10,
   FD (Int.tdiv c.DESIRED_SPEED_NORMAL_F0 10), END, END, EXEC LOGO_MAIN, END, END]

/-- Definition of subroutine `PILOT_INPUT_IN_MC` in `instructions`, source lines 2058-2072. -/
def TO_PILOT_INPUT_IN_MC (c : Config) : List Instr :=
  [TO PILOT_INPUT_IN_MC, REPEAT 10, IF_LT AILERON_INPUT_CHANNEL 2850, LT 10,
   FD (Int.tdiv c.DESIRED_SPEED_NORMAL_F0 10), END, IF_GT AILERON_INPUT_CHANNEL 3150, RT 10,
   FD (Int.tdiv c.DESIRED_SPEED_NORMAL_F0 10), END, END, EXEC MOTOR_CLIMB, END, END]

/-- Definition of subroutine `SET_ALT_ALT` in `instructions`, source lines 2076-2085. -/
def TO_SET_ALT_ALT (_ : Config) : List Instr :=
  [TO SET_ALT_ALT, LOAD_TO_PARAM SysVal.ALT, SET_ALT_PARAM, END, END]

/-- Definition of subroutine `DESCENT_PATTERN` in `instructions`, source lines 2089-2106. -/
def TO_DESCENT_PATTERN (c : Config) : List Instr :=
  [TO DESCENT_PATTERN, REPEAT 2, REPEAT 18, IF_GT SysVal.ALT (FINAL_ALT * 3), ALT_DOWN 1,
   FLAG_ON Flag.F_LAND, ELSE, FLAG_OFF Flag.F_LAND, END, RT 20,
   FD (Int.tdiv c.DESIRED_SPEED_NORMAL_F0 5), END, END, END, END]

/-- Definition of subroutine `LOITER_LAND` in `instructions`, source lines 2110-2257. -/
def TO_LOITER_LAND (c : Config) : List Instr :=
  [TO LOITER_LAND, CLEAR_INTERRUPT, FLAG_ON Flag.F_CROSS_TRACK,
   SET_SPEED c.DESIRED_SPEED_NORMAL_F0, FD (Int.tdiv c.DESIRED_SPEED_NORMAL_F0 10),
   SET_ALT ((FINAL_ALT * 3) + 10), FLAG_OFF Flag.F_LAND, PEN_UP, HOME,
   IF_LT SysVal.WIND_FROM_ANGLE 203, IF_LT SysVal.WIND_FROM_ANGLE 113,
   IF_LT SysVal.WIND_FROM_ANGLE 64, IF_LT SysVal.WIND_FROM_ANGLE 22, PARAM_SET (-326), ELSE,
   PARAM_SET 64, END, ELSE, PARAM_SET 64, END, ELSE, IF_LT SysVal.WIND_FROM_ANGLE 158,
   PARAM_SET 148, ELSE, PARAM_SET 148, END, END, ELSE, IF_LT SysVal.WIND_FROM_ANGLE 293,
   IF_LT SysVal.WIND_FROM_ANGLE 248, PARAM_SET (-243), ELSE, PARAM_SET (-243), END, ELSE,
   IF_LT SysVal.WIND_FROM_ANGLE 338, PARAM_SET (-326), ELSE, PARAM_SET (-326), END, END, END,
   IF_GT SysVal.PARAM 0, SET_ANGLE_PARAM, FD 150, RT 90, ELSE, PARAM_MUL (-1), SET_ANGLE_PARAM,
   PARAM_MUL (-1), FD 150, LT 90, END, FD 150, PEN_DOWN, IF_GE SysVal.PARAM 0, SET_ANGLE_PARAM,
   ELSE, PARAM_MUL (-1), SET_ANGLE_PARAM, PARAM_MUL (-1), END, RT 180,
   FD (Int.tdiv c.DESIRED_SPEED_NORMAL_F0 3), REPEAT_FOREVER,
   IF_GT SysVal.ALT ((FINAL_ALT * 3) + 20), DO SET_ALT_ALT, DO DESCENT_PATTERN, ELSE,
   IF_GT SysVal.ALT (FINAL_ALT + 10), DO SET_ALT_ALT, PEN_UP, HOME, IF_GE SysVal.PARAM 0,
   SET_ANGLE_PARAM, FD 150, RT 90, ELSE, PARAM_MUL (-1), SET_ANGLE_PARAM, PARAM_MUL (-1), FD 150,
   LT 90, END, FD 150, PEN_DOWN, DO_PARAM DOWNWIND, DO_PARAM BASE, END, DO_PARAM FINAL, END, END,
   END, END]

/-- Definition of subroutine `DOWNWIND` in `instructions`, source lines 2261-2309. -/
def TO_DOWNWIND (c : Config) : List Instr :=
  [TO DOWNWIND, SET_ALT (FINAL_ALT * 2), FLAG_ON Flag.F_LAND, PEN_UP, HOME, IF_GE SysVal.PARAM 0,
   SET_ANGLE_PARAM, RT 90, FD 150, RT 90, ELSE, PARAM_MUL (-1), SET_ANGLE_PARAM, PARAM_MUL (-1),
   LT 90, FD 150, LT 90, END, FD 150, PEN_DOWN, FLAG_OFF Flag.F_LAND, IF_GE SysVal.PARAM 0,
   REPEAT 5, RT 10, FD (Int.tdiv c.DESIRED_SPEED_NORMAL_F0 10), IF_GT SysVal.ALT (FINAL_ALT * 2),
   ALT_DOWN 1, END, END, ELSE, REPEAT 5, LT 10, FD (Int.tdiv c.DESIRED_SPEED_NORMAL_F0 10),
   IF_GT SysVal.ALT (FINAL_ALT * 2), ALT_DOWN 1, END, END, END, END, END]

/-- Definition of subroutine `BASE` in `instructions`, source lines 2313-2371. -/
def TO_BASE (c : Config) : List Instr :=
  [TO BASE, FLAG_OFF Flag.F_LAND, SET_SPEED c.DESIRED_SPEED_NORMAL_F0, IF_GE SysVal.PARAM 0,
   REPEAT 5, RT 10, FD (Int.tdiv c.DESIRED_SPEED_NORMAL_F0 10),
   IF_GT SysVal.ALT (FINAL_ALT * 2 - 5), ALT_DOWN 1, END, END, ELSE, REPEAT 5, LT 10,
   FD (Int.tdiv c.DESIRED_SPEED_NORMAL_F0 10), IF_GT SysVal.ALT (FINAL_ALT * 2 - 5), ALT_DOWN 1,
   END, END, END, SET_ALT FINAL_ALT, PEN_UP, FD 60, FLAG_ON Flag.F_LAND, PEN_DOWN,
   DO SET_ALT_ALT, FLAG_OFF Flag.F_LAND, IF_GE SysVal.PARAM 0, REPEAT 5, RT 10,
   FD (Int.tdiv c.DESIRED_SPEED_NORMAL_F0 10), IF_GT SysVal.ALT (FINAL_ALT - 5), ALT_DOWN 2, END,
   END, ELSE, REPEAT 5, LT 10, FD (Int.tdiv c.DESIRED_SPEED_NORMAL_F0 10),
   IF_GT SysVal.ALT (FINAL_ALT - 5), ALT_DOWN 2, END, END, END, END, END]

/-- Definition of subroutine `FINAL` in `instructions`, source lines 2375-2425. -/
def TO_FINAL (c : Config) : List Instr :=
  [TO FINAL, FLAG_OFF Flag.F_LAND, IF_GE SysVal.PARAM 0, REPEAT 4, RT 10,
   FD (Int.tdiv c.DESIRED_SPEED_NORMAL_F0 10), IF_GT SysVal.ALT FINAL_ALT, ALT_DOWN 2, END, END,
   ELSE, REPEAT 4, LT 10, FD (Int.tdiv c.DESIRED_SPEED_NORMAL_F0 10), IF_GT SysVal.ALT FINAL_ALT,
   ALT_DOWN 2, END, END, END, FLAG_ON Flag.F_LAND, SET_ALT (FINAL_ALT * -1), PEN_UP, HOME,
   USE_ANGLE_TO_GOAL, IF_GE SysVal.PARAM 0, RT 10, ELSE, LT 10, END, FD 80, PEN_DOWN,
   EXEC LOGO_MAIN, END, END]

/-- Definition of subroutine `INT_FORCE_TARGET_AHAID` in `instructions`, source lines 2428-2448. -/
def TO_INT_FORCE_TARGET_AHAID (_ : Config) : List Instr :=
  [TO INT_FORCE_TARGET_AHAID, IF_LT SysVal.REL_ANGLE_TO_GOAL (-60), PEN_UP, USE_CURRENT_ANGLE,
   USE_CURRENT_POS, FD WAYPOINT_RADIUS, PEN_DOWN, ELSE, IF_GT SysVal.REL_ANGLE_TO_GOAL 60,
   PEN_UP, USE_CURRENT_ANGLE, USE_CURRENT_POS, FD WAYPOINT_RADIUS, PEN_DOWN, END, END, END, END]

/-- The blocks of `instructions` in source order: the main body, then one
block per `TO`. -/
def instructionsBlocks (c : Config) : List (List Instr) :=
  [instructions_main c, TO_CRUISE c, TO_RETURN_GEOFENCE c, TO_CHECK_SOFT_GEOFENCE c,
   TO_CHECK_WIND_GEOFENCE c, TO_CHECK_SOFT_WIND_GEOFENCE c, TO_CHECK_THERMALS c,
   TO_WAIT_DECREASE_CLIMBRATE c, TO_THERMALLING_TURN c, TO_THERMALLING_SHIFT_CIRCLE c, TO_SINK c,
   TO_MOTOR_CLIMB c, TO_RETURN_MC_GEOFENCE c, TO_CHECK_MC_SOFT_GEOFENCE c,
   TO_CHECK_MC_WIND_GEOFENCE c, TO_CHECK_MC_SOFT_WIND_GEOFENCE c, TO_MOTOR_CLIMB_FORWARD c,
   TO_TOO_HIGH c, TO_BETTER_LIFT c, TO_CHECKS c, TO_SOFT_CHECKS c, TO_CHECKS_MC c,
   TO_SOFT_CHECKS_MC c, TO_RESET_NAVIGATION c, TO_PILOT_INPUT c, TO_PILOT_INPUT_IN_MC c,
   TO_SET_ALT_ALT c, TO_DESCENT_PATTERN c, TO_LOITER_LAND c, TO_DOWNWIND c, TO_BASE c,
   TO_FINAL c, TO_INT_FORCE_TARGET_AHAID c]

/-- The table `const struct logoInstructionDef instructions[]`. -/
def instructions (c : Config) : List Instr :=
  (instructionsBlocks c).flatten

/-! ## The failsafe table `rtlInstructions` (source lines 2456-2816) -/

/-- Main body of `rtlInstructions`, source lines 2459-2461. -/
def rtlInstructions_main (_ : Config) : List Instr :=
  [EXEC FS_LOITER_LAND, END, END]

/-- Definition of subroutine `FS_SET_ALT_ALT` in `rtlInstructions`, source lines 2466-2474. -/
def TO_FS_SET_ALT_ALT (_ : Config) : List Instr :=
  [TO FS_SET_ALT_ALT, LOAD_TO_PARAM SysVal.ALT, SET_ALT_PARAM, END, END]

/-- Definition of subroutine `FS_DESCENT_PATTERN` in `rtlInstructions`, source lines 2479-2495. -/
def TO_FS_DESCENT_PATTERN (c : Config) : List Instr :=
  [TO FS_DESCENT_PATTERN, REPEAT 2, REPEAT 18, IF_GT SysVal.ALT (FINAL_ALT * 3), ALT_DOWN 1,
   FLAG_ON Flag.F_LAND, ELSE, FLAG_OFF Flag.F_LAND, END, RT 20,
   FD (Int.tdiv c.DESIRED_SPEED_NORMAL_F0 5), END, END, END, END]

/-- Definition of subroutine `FS_LOITER_LAND` in `rtlInstructions`, source lines 2500-2646. -/
def TO_FS_LOITER_LAND (c : Config) : List Instr :=
  [TO FS_LOITER_LAND, CLEAR_INTERRUPT, FLAG_ON Flag.F_CROSS_TRACK,
   SET_SPEED c.DESIRED_SPEED_NORMAL_F0, FD (Int.tdiv c.DESIRED_SPEED_NORMAL_F0 10),
   SET_ALT ((FINAL_ALT * 3) + 10), FLAG_OFF Flag.F_LAND, PEN_UP, HOME,
   IF_LT SysVal.WIND_FROM_ANGLE 203, IF_LT SysVal.WIND_FROM_ANGLE 113,
   IF_LT SysVal.WIND_FROM_ANGLE 64, IF_LT SysVal.WIND_FROM_ANGLE 22, PARAM_SET (-326), ELSE,
   PARAM_SET 64, END, ELSE, PARAM_SET 64, END, ELSE, IF_LT SysVal.WIND_FROM_ANGLE 158,
   PARAM_SET 148, ELSE, PARAM_SET 148, END, END, ELSE, IF_LT SysVal.WIND_FROM_ANGLE 293,
   IF_LT SysVal.WIND_FROM_ANGLE 248, PARAM_SET (-243), ELSE, PARAM_SET (-243), END, ELSE,
   IF_LT SysVal.WIND_FROM_ANGLE 338, PARAM_SET (-326), ELSE, PARAM_SET (-326), END, END, END,
   IF_GT SysVal.PARAM 0, SET_ANGLE_PARAM, FD 150, RT 90, ELSE, PARAM_MUL (-1), SET_ANGLE_PARAM,
   PARAM_MUL (-1), FD 150, LT 90, END, FD 150, PEN_DOWN, IF_GE SysVal.PARAM 0, SET_ANGLE_PARAM,
   ELSE, PARAM_MUL (-1), SET_ANGLE_PARAM, PARAM_MUL (-1), END, RT 180,
   FD (Int.tdiv c.DESIRED_SPEED_NORMAL_F0 3), REPEAT_FOREVER,
   IF_GT SysVal.ALT ((FINAL_ALT * 3) + 20), DO FS_SET_ALT_ALT, DO FS_DESCENT_PATTERN, ELSE,
   IF_GT SysVal.ALT (FINAL_ALT + 10), DO FS_SET_ALT_ALT, PEN_UP, HOME, IF_GE SysVal.PARAM 0,
   SET_ANGLE_PARAM, FD 150, RT 90, ELSE, PARAM_MUL (-1), SET_ANGLE_PARAM, PARAM_MUL (-1), FD 150,
   LT 90, END, FD 150, PEN_DOWN, DO_PARAM FS_DOWNWIND, DO_PARAM FS_BASE, END, DO_PARAM FS_FINAL,
   END, END, END, END]

/-- Definition of subroutine `FS_DOWNWIND` in `rtlInstructions`, source lines 2651-2698. -/
def TO_FS_DOWNWIND (c : Config) : List Instr :=
  [TO FS_DOWNWIND, SET_ALT (FINAL_ALT * 2), FLAG_ON Flag.F_LAND, PEN_UP, HOME,
   IF_GE SysVal.PARAM 0, SET_ANGLE_PARAM, RT 90, FD 150, RT 90, ELSE, PARAM_MUL (-1),
   SET_ANGLE_PARAM, PARAM_MUL (-1), LT 90, FD 150, LT 90, END, FD 150, PEN_DOWN,
   FLAG_OFF Flag.F_LAND, IF_GE SysVal.PARAM 0, REPEAT 5, RT 10,
   FD (Int.tdiv c.DESIRED_SPEED_NORMAL_F0 10), IF_GT SysVal.ALT (FINAL_ALT * 2), ALT_DOWN 1, END,
   END, ELSE, REPEAT 5, LT 10, FD (Int.tdiv c.DESIRED_SPEED_NORMAL_F0 10),
   IF_GT SysVal.ALT (FINAL_ALT * 2), ALT_DOWN 1, END, END, END, END, END]

/-- Definition of subroutine `FS_BASE` in `rtlInstructions`, source lines 2703-2760. -/
def TO_FS_BASE (c : Config) : List Instr :=
  [TO FS_BASE, FLAG_OFF Flag.F_LAND, SET_SPEED c.DESIRED_SPEED_NORMAL_F0, IF_GE SysVal.PARAM 0,
   REPEAT 5, RT 10, FD (Int.tdiv c.DESIRED_SPEED_NORMAL_F0 10),
   IF_GT SysVal.ALT (FINAL_ALT * 2 - 5), ALT_DOWN 1, END, END, ELSE, REPEAT 5, LT 10,
   FD (Int.tdiv c.DESIRED_SPEED_NORMAL_F0 10), IF_GT SysVal.ALT (FINAL_ALT * 2 - 5), ALT_DOWN 1,
   END, END, END, SET_ALT FINAL_ALT, PEN_UP, FD 60, FLAG_ON Flag.F_LAND, PEN_DOWN,
   DO SET_ALT_ALT, FLAG_OFF Flag.F_LAND, IF_GE SysVal.PARAM 0, REPEAT 5, RT 10,
   FD (Int.tdiv c.DESIRED_SPEED_NORMAL_F0 10), IF_GT SysVal.ALT (FINAL_ALT - 5), ALT_DOWN 2, END,
   END, ELSE, REPEAT 5, LT 10, FD (Int.tdiv c.DESIRED_SPEED_NORMAL_F0 10),
   IF_GT SysVal.ALT (FINAL_ALT - 5), ALT_DOWN 2, END, END, END, END, END]

/-- Definition of subroutine `FS_FINAL` in `rtlInstructions`, source lines 2765-2814. -/
def TO_FS_FINAL (c : Config) : List Instr :=
  [TO FS_FINAL, FLAG_OFF Flag.F_LAND, IF_GE SysVal.PARAM 0, REPEAT 4, RT 10,
   FD (Int.tdiv c.DESIRED_SPEED_NORMAL_F0 10), IF_GT SysVal.ALT FINAL_ALT, ALT_DOWN 2, END, END,
   ELSE, REPEAT 4, LT 10, FD (Int.tdiv c.DESIRED_SPEED_NORMAL_F0 10), IF_GT SysVal.ALT FINAL_ALT,
   ALT_DOWN 2, END, END, END, FLAG_ON Flag.F_LAND, SET_ALT (FINAL_ALT * -1), PEN_UP, HOME,
   USE_ANGLE_TO_GOAL, IF_GE SysVal.PARAM 0, RT 10, ELSE, LT 10, END, FD 80, PEN_DOWN,
   EXEC LOGO_MAIN, END, END]

/-- The blocks of `rtlInstructions` in source order. -/
def rtlInstructionsBlocks (c : Config) : List (List Instr) :=
  [rtlInstructions_main c, TO_FS_SET_ALT_ALT c, TO_FS_DESCENT_PATTERN c, TO_FS_LOITER_LAND c,
   TO_FS_DOWNWIND c, TO_FS_BASE c, TO_FS_FINAL c]

/-- The table `const struct logoInstructionDef rtlInstructions[]`. -/
def rtlInstructions (c : Config) : List Instr :=
  (rtlInstructionsBlocks c).flatten

/-! ## Control skeleton of a table -/

/-- What an instruction means for the block structure and the subroutine
references of a table; operands that are plain numbers are dropped. -/
inductive Kind where
  | simple
  | loopOpen
  | ifOpen
  | elseK
  | endK
  | toK (f : Nat)
  | call (t : Target)
  | jump (t : Target)
  | arm (t : Target)
  deriving DecidableEq, Repr

/-- The kind of each instruction: `REPEAT*` open a loop, `IF_*` open a
conditional, `DO*` call, `EXEC*` jump, `SET_INTERRUPT` arms a handler. -/
def Instr.kind : Instr → Kind
  | .repeatN _ | .repeatForever | .repeatParam => Kind.loopOpen
  | .ifVal _ _ _ | .ifParam _ _ => Kind.ifOpen
  | .elseBlock => Kind.elseK
  | .endBlock => Kind.endK
  | .toSub f => Kind.toK f
  | .doSub t | .doArg t _ | .doParam t => Kind.call t
  | .exec t | .execArg t _ | .execParam t => Kind.jump t
  | .setInterrupt t => Kind.arm t
  | _ => Kind.simple

/-- The control skeleton of a table. -/
def kinds (code : List Instr) : List Kind := code.map Instr.kind

/-- A configuration with the numeric constants zeroed; only the preprocessor
switch is kept. -/
def Config.shape (b : Bool) : Config := ⟨0, 0, 0, 0, b⟩


/-! ## Declarations and references of a table -/

/-- Subroutine ids declared by the `TO` instructions of a table, in table
order. -/
def declaredIds (ks : List Kind) : List Nat :=
  ks.filterMap fun k => match k with
    | Kind.toK f => some f
    | _ => none

/-- The subroutine id an instruction refers to: the operand of `DO`, `DO_ARG`,
`DO_PARAM`, `EXEC`, `EXEC_ARG`, `EXEC_PARAM` or `SET_INTERRUPT`, unless it is
`LOGO_MAIN`. -/
def Kind.reference : Kind → Option Nat
  | Kind.call (Target.sub f) => some f
  | Kind.jump (Target.sub f) => some f
  | Kind.arm (Target.sub f) => some f
  | _ => none

/-- Subroutine ids referenced by a table, in table order. -/
def referencedIds (ks : List Kind) : List Nat :=
  ks.filterMap Kind.reference

/-- The first id of a list that occurs again later in it. -/
def firstDuplicate : List Nat → Option Nat
  | [] => none
  | x :: xs => if xs.contains x then some x else firstDuplicate xs

/-- Offsets of the subroutines of a table: each declared id with the offset
of the first instruction of its body, the one after its `TO`. -/
def subOffsetsFrom : List Kind → Nat → List (Nat × Nat)
  | [], _ => []
  | Kind.toK f :: ks, pc => (f, pc + 1) :: subOffsetsFrom ks (pc + 1)
  | _ :: ks, pc => subOffsetsFrom ks (pc + 1)

/-- Load-time errors of the program store (spec section 7). -/
inductive LoadError where
  | UnresolvedSymbol (id : Nat)
  | DuplicateSubroutine (id : Nat)
  deriving DecidableEq, Repr

/-- A loaded program: the instruction table and, for every subroutine id, the
absolute offset its references resolve to. -/
structure ResolvedProgram where
  code : List Instr
  subs : List (Nat × Nat)
  deriving DecidableEq, Repr

/-- Modelled from the spec: the program store's `load` (section 4.1), whose C
source is not in the header.  It validates that every subroutine id is unique
and every referenced id is defined, failing with `DuplicateSubroutine` or
`UnresolvedSymbol` otherwise, and resolves every subroutine id to an absolute
offset. -/
def load (program : List Instr) : Except LoadError ResolvedProgram :=
  match firstDuplicate (declaredIds (kinds program)) with
  | some id => Except.error (LoadError.DuplicateSubroutine id)
  | none =>
    match (referencedIds (kinds program)).find?
        (fun id => !(declaredIds (kinds program)).contains id) with
    | some id => Except.error (LoadError.UnresolvedSymbol id)
    | none => Except.ok ⟨program, subOffsetsFrom (kinds program) 0⟩

/-! ## Block structure of a table -/

/-- A block that is open at some point of a table, with the offset of the
instruction that opened it. -/
inductive Block where
  | loop (opener : Nat)
  | cond (opener : Nat)
  | sub (f : Nat) (opener : Nat)
  deriving DecidableEq, Repr

/-- Effect of the instruction at offset `pc` on the list of open blocks
(innermost first): `REPEAT*`, `IF_*` and `TO` open a block, `END` closes the
innermost one. -/
def nestStep (pc : Nat) (nest : List Block) : Kind → List Block
  | Kind.loopOpen => Block.loop pc :: nest
  | Kind.ifOpen => Block.cond pc :: nest
  | Kind.toK f => Block.sub f pc :: nest
  | Kind.endK => nest.tail
  | _ => nest

/-- Scan `n` instructions starting at offset `pc`, updating the open blocks. -/
def nestScan : List Kind → Nat → Nat → List Block → List Block
  | _, _, 0, nest => nest
  | [], _, _, nest => nest
  | k :: ks, pc, n + 1, nest => nestScan ks (pc + 1) n (nestStep pc nest k)

/-- The blocks open just before the instruction at offset `pc`, innermost
first, scanning the table from its start. -/
def nestAt (ks : List Kind) (pc : Nat) : List Block :=
  nestScan ks 0 pc []

/-- Whether a block is a subroutine definition. -/
def Block.isSub : Block → Bool
  | Block.sub _ _ => true
  | _ => false

/-- Whether an instruction is a `TO`. -/
def Kind.isTo : Kind → Bool
  | Kind.toK _ => true
  | _ => false

/-- Offset of the `END` that terminates the main body: the first `END` met
with no block open. -/
def mainEnd (ks : List Kind) : Option Nat :=
  (List.range ks.length).find? fun pc => ks[pc]? == some Kind.endK && (nestAt ks pc).isEmpty

/-- Offset of the first `TO` of a table. -/
def firstTo (ks : List Kind) : Option Nat :=
  (List.range ks.length).find? fun pc => (ks[pc]?).any Kind.isTo

/-- The instruction at `pc` belongs to a subroutine definition: it is the `TO`
that opens one, or a subroutine definition is open at `pc`. -/
def inDefinition (ks : List Kind) (pc : Nat) : Bool :=
  (ks[pc]?).any Kind.isTo || (nestAt ks pc).any Block.isSub

/-! ## Matching of `IF_*`, `ELSE` and `END` -/

/-- Scan forward from offset `pc` for the instruction that closes the
innermost block open at the start of the scan: its `END`, or its `ELSE` when
`stopAtElse` is set.  `depth` counts the blocks opened since the start of the
scan (by `REPEAT*`, `IF_*` or `TO`, as in `nestStep`). -/
def scanClose : List Kind → Nat → Nat → Bool → Option Nat
  | [], _, _, _ => none
  | Kind.loopOpen :: ks, pc, depth, e => scanClose ks (pc + 1) (depth + 1) e
  | Kind.ifOpen :: ks, pc, depth, e => scanClose ks (pc + 1) (depth + 1) e
  | Kind.toK _ :: ks, pc, depth, e => scanClose ks (pc + 1) (depth + 1) e
  | Kind.endK :: _, pc, 0, _ => some pc
  | Kind.endK :: ks, pc, depth + 1, e => scanClose ks (pc + 1) depth e
  | Kind.elseK :: _, pc, 0, true => some pc
  | Kind.elseK :: ks, pc, depth, e => scanClose ks (pc + 1) depth e
  | _ :: ks, pc, depth, e => scanClose ks (pc + 1) depth e

/-- Where control goes when the block opened at `pc` is skipped.  For a failed
`IF_*` (`stopAtElse` set) this is the instruction after the matching `ELSE`
if there is one, else the matching `END`; for an `ELSE` reached at the end of
the true branch it is the matching `END`.  Without a match the skip runs to
the end of the table. -/
def skipTarget (ks : List Kind) (pc : Nat) (stopAtElse : Bool) : Nat :=
  match scanClose (ks.drop (pc + 1)) (pc + 1) 0 stopAtElse with
  | some q => if ks[q]? = some Kind.elseK then q + 1 else q
  | none => ks.length

/-- Whether the `END` at `pc` closes an `IF_*` block rather than a loop or a
subroutine. -/
def closesIf (ks : List Kind) (pc : Nat) : Bool :=
  match nestAt ks pc with
  | Block.cond _ :: _ => true
  | _ => false

/-! ## Engine state (spec section 3) -/

/-- A turtle: position in meters east and north of the origin, altitude,
heading in degrees clockwise from North. -/
structure Turtle where
  x : Int
  y : Int
  altitude : Int
  heading : Int
  deriving DecidableEq, Repr

/-- The flag bitset, one bit per flag of source lines 147-154. -/
structure Flags where
  takeoff : Bool
  inverted : Bool
  hover : Bool
  trigger : Bool
  altitudeGoal : Bool
  crossTrack : Bool
  land : Bool
  deriving DecidableEq, Repr

/-- Value of one flag. -/
def Flags.get (fl : Flags) : Flag → Bool
  | Flag.F_TAKEOFF => fl.takeoff
  | Flag.F_INVERTED => fl.inverted
  | Flag.F_HOVER => fl.hover
  | Flag.F_TRIGGER => fl.trigger
  | Flag.F_ALTITUDE_GOAL => fl.altitudeGoal
  | Flag.F_CROSS_TRACK => fl.crossTrack
  | Flag.F_LAND => fl.land

/-- Set one flag. -/
def Flags.set (fl : Flags) (f : Flag) (b : Bool) : Flags :=
  match f with
  | Flag.F_TAKEOFF => { fl with takeoff := b }
  | Flag.F_INVERTED => { fl with inverted := b }
  | Flag.F_HOVER => { fl with hover := b }
  | Flag.F_TRIGGER => { fl with trigger := b }
  | Flag.F_ALTITUDE_GOAL => { fl with altitudeGoal := b }
  | Flag.F_CROSS_TRACK => { fl with crossTrack := b }
  | Flag.F_LAND => { fl with land := b }

/-- All flags off. -/
def Flags.allOff : Flags := ⟨false, false, false, false, false, false, false⟩

/-- Modelled from the spec: the call frame (section 3), whose C source is not
in the header.  A subroutine frame holds the return program counter, the
parameter of the invocation and the subroutine id; a loop frame holds the
program counter of the start of the loop body and the remaining iteration
count, `none` standing for the infinite sentinel. -/
inductive Frame where
  | sub (ret : Nat) (param : Int) (id : Target)
  | loop (start : Nat) (remaining : Option Int)
  deriving DecidableEq, Repr

/-- Fatal conditions that halt the engine. -/
inductive Fault where
  | StackOverflow
  | EngineError
  deriving DecidableEq, Repr

/-- States of the execution engine (spec section 4.4). -/
inductive Mode where
  | Running
  | AwaitingArrival
  | Halted (f : Fault)
  deriving DecidableEq, Repr

/-- The bound on the call stack: loops and subroutine calls can be nested up
to 12 deep (source line 234). -/
def STACK_DEPTH : Nat := 12

/-- Modelled from the spec: the engine state (section 3), whose C source is not
in the header.  State of the main execution context together with the turtle state it
shares with the interrupt context.  `stack` has its top frame first; `param`
is the parameter of the main body, used while no subroutine frame is on the
stack. -/
structure State where
  pc : Nat
  stack : List Frame
  param : Int
  plane : Turtle
  camera : Turtle
  active : TurtleSel
  penDown : Bool
  flags : Flags
  speed : Int
  interrupt : Option Target
  mode : Mode
  deriving DecidableEq, Repr

/-- What the engine reads from its collaborators during one step: the
telemetry behind `resolve(valueId)` (`none` is `ValueUnavailable`), the
arrival predicate `hasArrived()`, the position of the vehicle, the
east/north displacement of a move of `d` meters on heading `h`, and the
conversion of an absolute location to meters from the origin. -/
structure Env where
  value : SysVal → Option Int
  arrived : Bool
  posX : Int
  posY : Int
  displacement : Int → Int → Int × Int
  fromAbsolute : Int → Int → Int × Int

/-- Modelled from the spec: the state reset on mode entry (section 3), whose C
source is not in the header.  State on entering the governed flight mode (source lines 63-70): both
turtles at the position, altitude and heading of the plane, flags off, pen
down, plane turtle active, program at the top with an empty call stack. -/
def State.reset (x y altitude heading : Int) : State :=
  { pc := 0, stack := [], param := 0,
    plane := ⟨x, y, altitude, heading⟩, camera := ⟨x, y, altitude, heading⟩,
    active := TurtleSel.PLANE, penDown := true, flags := Flags.allOff, speed := 0,
    interrupt := none, mode := Mode.Running }

/-- Parameter held by the topmost subroutine frame of a stack, if any. -/
def frameParam : List Frame → Option Int
  | [] => none
  | Frame.sub _ v _ :: _ => some v
  | Frame.loop _ _ :: fs => frameParam fs

/-- Replace the parameter held by the topmost subroutine frame of a stack. -/
def setFrameParam (v : Int) : List Frame → List Frame
  | [] => []
  | Frame.sub ret _ id :: fs => Frame.sub ret v id :: fs
  | Frame.loop start k :: fs => Frame.loop start k :: setFrameParam v fs

/-- The current parameter: that of the running subroutine invocation, or of
the main body when no subroutine is active. -/
def State.curParam (s : State) : Int :=
  (frameParam s.stack).getD s.param

/-- Assign the current parameter. -/
def State.setParam (s : State) (v : Int) : State :=
  match frameParam s.stack with
  | some _ => { s with stack := setFrameParam v s.stack }
  | none => { s with param := v }

/-- The turtle that receives movement and rotation instructions. -/
def State.turtle (s : State) : Turtle :=
  match s.active with
  | TurtleSel.PLANE => s.plane
  | TurtleSel.CAMERA => s.camera

/-- Replace the active turtle. -/
def State.setTurtle (s : State) (t : Turtle) : State :=
  match s.active with
  | TurtleSel.PLANE => { s with plane := t }
  | TurtleSel.CAMERA => { s with camera := t }

/-- Value of an operand: the literal, or the current parameter. -/
def State.arg (s : State) : Arg → Int
  | Arg.lit x => x
  | Arg.param => s.curParam

/-- Integer comparison of an `IF_*` command, system value on the left. -/
def Cmp.eval : Cmp → Int → Int → Bool
  | Cmp.EQ, a, b => a == b
  | Cmp.NE, a, b => a != b
  | Cmp.GT, a, b => decide (a > b)
  | Cmp.LT, a, b => decide (a < b)
  | Cmp.GE, a, b => decide (a ≥ b)
  | Cmp.LE, a, b => decide (a ≤ b)

/-- Modelled from the spec: the system-value bridge `resolve(valueId)` (section
4.2).  `PARAM` is the current parameter; every other value is delegated to the
telemetry collaborator. -/
def resolve (env : Env) (s : State) (v : SysVal) : Option Int :=
  match v with
  | SysVal.PARAM => some s.curParam
  | _ => env.value v

/-- Outcome of a conditional: the comparison of the resolved value with `x`;
an unavailable value makes the conditional false. -/
def condition (env : Env) (s : State) (c : Cmp) (v : SysVal) (x : Int) : Bool :=
  match resolve env s v with
  | some a => c.eval a x
  | none => false

/-- Heading reduced into `[0, 360)`. -/
def normHeading (h : Int) : Int := h % 360

/-- Advance the program counter by one. -/
def State.next (s : State) : State := { s with pc := s.pc + 1 }

/-- Modelled from the spec: the engine's handling of a move instruction
(section 4.4), whose C source is not in the header: advance, and with the pen down wait for the
vehicle to arrive. -/
def State.moved (s : State) : State :=
  if s.penDown then { s with pc := s.pc + 1, mode := Mode.AwaitingArrival }
  else { s with pc := s.pc + 1 }

/-- Modelled from the spec: the engine's bounded call stack (sections 3 and
4.4), whose C source is not in the header.  Push a frame and continue at `pc`; a push on a full stack is the fatal
`StackOverflow`. -/
def State.push (s : State) (f : Frame) (pc : Nat) : State :=
  if s.stack.length < STACK_DEPTH then { s with stack := f :: s.stack, pc := pc }
  else { s with mode := Mode.Halted Fault.StackOverflow }

/-- Offset a subroutine operand resolves to: `LOGO_MAIN` is the top of the
program, an id is looked up in the table of the loaded program. -/
def targetOffset (p : ResolvedProgram) : Target → Option Nat
  | Target.LOGO_MAIN => some 0
  | Target.sub f => p.subs.lookup f

/-- Modelled from the spec: the engine's `DO` / `DO_ARG` / `DO_PARAM` (section
4.4), whose C source is not in the header.  Subroutine call: push a subroutine frame with the return offset and the
parameter of the invocation, and jump to the first instruction of the
subroutine. -/
def State.call (p : ResolvedProgram) (s : State) (t : Target) (v : Int) : State :=
  match targetOffset p t with
  | some off => s.push (Frame.sub (s.pc + 1) v t) off
  | none => { s with mode := Mode.Halted Fault.EngineError }

/-- Modelled from the spec: the engine's `EXEC` / `EXEC_ARG` / `EXEC_PARAM`
(section 4.4), whose C source is not in the header.  Subroutine tail-jump: discard the call stack, keep or replace the
parameter, and jump to the target. -/
def State.jump (p : ResolvedProgram) (s : State) (t : Target) (v : Int) : State :=
  match targetOffset p t with
  | some off => { s with stack := [], param := v, pc := off }
  | none => { s with mode := Mode.Halted Fault.EngineError }

/-- Modelled from the spec: the engine's block terminator (section 4.4), whose
C source is not in the header.  Block terminator of a loop or a subroutine.  With a loop frame on top the
remaining count is decremented (not for the infinite sentinel) and, if
iterations remain, control goes back to the start of the body, else the frame
is popped and control passes the terminator.  With a subroutine frame on top
the frame is popped and control resumes at the return offset.  With an empty
stack the program restarts at offset 0; nothing else changes. -/
def State.terminator (s : State) : State :=
  match s.stack with
  | [] => { s with pc := 0 }
  | Frame.loop start none :: _ => { s with pc := start }
  | Frame.loop start (some k) :: fs =>
    if 0 < k - 1 then { s with stack := Frame.loop start (some (k - 1)) :: fs, pc := start }
    else { s with stack := fs, pc := s.pc + 1 }
  | Frame.sub ret _ _ :: fs => { s with stack := fs, pc := ret }

/-- Whether an instruction is a move: it changes the position, altitude or
speed target of the active turtle. -/
def Instr.isMove : Instr → Bool
  | .home | .useCurrentPos | .fd _ | .bk _ | .east _ | .west _ | .setXPos _
  | .north _ | .south _ | .setYPos _ | .setPos _ _ | .setAbsPos _ _
  | .altUp _ | .altDown _ | .setAlt _
  | .speedIncrease _ | .speedDecrease _ | .setSpeed _ => true
  | _ => false

/-- Effect of a move instruction on the turtle state (no effect for the other
instructions). -/
def moveEffect (env : Env) (s : State) : Instr → State
  | .home => s.setTurtle { s.turtle with x := 0, y := 0, heading := 0 }
  | .useCurrentPos => s.setTurtle { s.turtle with x := env.posX, y := env.posY }
  | .fd a =>
    let d := env.displacement s.turtle.heading (s.arg a)
    s.setTurtle { s.turtle with x := s.turtle.x + d.1, y := s.turtle.y + d.2 }
  | .bk a =>
    let d := env.displacement s.turtle.heading (-(s.arg a))
    s.setTurtle { s.turtle with x := s.turtle.x + d.1, y := s.turtle.y + d.2 }
  | .east a => s.setTurtle { s.turtle with x := s.turtle.x + s.arg a }
  | .west a => s.setTurtle { s.turtle with x := s.turtle.x - s.arg a }
  | .setXPos a => s.setTurtle { s.turtle with x := s.arg a }
  | .north a => s.setTurtle { s.turtle with y := s.turtle.y + s.arg a }
  | .south a => s.setTurtle { s.turtle with y := s.turtle.y - s.arg a }
  | .setYPos a => s.setTurtle { s.turtle with y := s.arg a }
  | .setPos x y => s.setTurtle { s.turtle with x := x, y := y }
  | .setAbsPos x y =>
    s.setTurtle { s.turtle with x := (env.fromAbsolute x y).1, y := (env.fromAbsolute x y).2 }
  | .altUp a => s.setTurtle { s.turtle with altitude := s.turtle.altitude + s.arg a }
  | .altDown a => s.setTurtle { s.turtle with altitude := s.turtle.altitude - s.arg a }
  | .setAlt a => s.setTurtle { s.turtle with altitude := s.arg a }
  | .speedIncrease a => { s with speed := s.speed + s.arg a }
  | .speedDecrease a => { s with speed := s.speed - s.arg a }
  | .setSpeed a => { s with speed := s.arg a }
  | _ => s

/-- Modelled from the spec: execution of one instruction by the engine (section
4.4, with the commands as documented at source lines 79-203); the C source of
the engine is not in the header.  Moves change the active turtle and, with
the pen down, suspend the program; turns, flag, pen, parameter and interrupt
commands advance by one; `IF_*` enters its block or skips to the matching
`ELSE` / `END`; `REPEAT*` and `DO*` push a frame; `EXEC*` discards the stack;
`END` handles its block; a `TO` that is run into acts as an implicit
terminator.  `RT_BANK` and `LEVEL_1S` are timed manoeuvres that leave the
turtles alone. -/
def execute (p : ResolvedProgram) (env : Env) (s : State) (i : Instr) : State :=
  match i with
  | .home | .useCurrentPos | .fd _ | .bk _ | .east _ | .west _ | .setXPos _
  | .north _ | .south _ | .setYPos _ | .setPos _ _ | .setAbsPos _ _
  | .altUp _ | .altDown _ | .setAlt _
  | .speedIncrease _ | .speedDecrease _ | .setSpeed _ => (moveEffect env s i).moved
  | .useCurrentAngle =>
    (s.setTurtle { s.turtle with
      heading := normHeading ((env.value SysVal.CURRENT_ANGLE).getD s.turtle.heading) }).next
  | .useAngleToGoal =>
    (s.setTurtle { s.turtle with
      heading := normHeading ((env.value SysVal.ANGLE_TO_GOAL).getD s.turtle.heading) }).next
  | .level1s => s.next
  | .rtBank _ => s.next
  | .rt a => (s.setTurtle { s.turtle with heading := normHeading (s.turtle.heading + s.arg a) }).next
  | .lt a => (s.setTurtle { s.turtle with heading := normHeading (s.turtle.heading - s.arg a) }).next
  | .setAngle a => (s.setTurtle { s.turtle with heading := normHeading (s.arg a) }).next
  | .repeatN n => s.push (Frame.loop (s.pc + 1) (some n)) (s.pc + 1)
  | .repeatForever => s.push (Frame.loop (s.pc + 1) none) (s.pc + 1)
  | .repeatParam => s.push (Frame.loop (s.pc + 1) (some s.curParam)) (s.pc + 1)
  | .endBlock => if closesIf (kinds p.code) s.pc then s.next else s.terminator
  | .elseBlock => { s with pc := skipTarget (kinds p.code) s.pc false }
  | .ifVal c v x =>
    if condition env s c v x then s.next
    else { s with pc := skipTarget (kinds p.code) s.pc true }
  | .ifParam c v =>
    if condition env s c v s.curParam then s.next
    else { s with pc := skipTarget (kinds p.code) s.pc true }
  | .penUp => { s with penDown := false, pc := s.pc + 1 }
  | .penDown => { s with penDown := true, pc := s.pc + 1 }
  | .penToggle => { s with penDown := !s.penDown, pc := s.pc + 1 }
  | .setTurtle t => { s with active := t, pc := s.pc + 1 }
  | .flagOn f => { s with flags := s.flags.set f true, pc := s.pc + 1 }
  | .flagOff f => { s with flags := s.flags.set f false, pc := s.pc + 1 }
  | .flagToggle f => { s with flags := s.flags.set f (!s.flags.get f), pc := s.pc + 1 }
  | .toSub _ => s.terminator
  | .doSub t => s.call p t s.curParam
  | .doParam t => s.call p t s.curParam
  | .doArg t x => s.call p t x
  | .exec t => s.jump p t s.curParam
  | .execParam t => s.jump p t s.curParam
  | .execArg t x => s.jump p t x
  | .paramSet x => (s.setParam x).next
  | .paramAdd x => (s.setParam (s.curParam + x)).next
  | .paramSub x => (s.setParam (s.curParam - x)).next
  | .paramMul x => (s.setParam (s.curParam * x)).next
  | .paramDiv x => (s.setParam (Int.tdiv s.curParam x)).next
  | .loadToParam v =>
    match resolve env s v with
    | some a => (s.setParam a).next
    | none => s.next
  | .setInterrupt t => { s with interrupt := some t, pc := s.pc + 1 }
  | .clearInterrupt => { s with interrupt := none, pc := s.pc + 1 }

/-- Modelled from the spec: one step of the execution engine (section 4.4),
whose C source is not in the header.  A halted engine stays halted; an engine
awaiting arrival resumes only when `hasArrived()` reports true; a running
engine executes the instruction at the program counter, the end of the table
counting as an implicit terminator. -/
def step (p : ResolvedProgram) (env : Env) (s : State) : State :=
  match s.mode with
  | Mode.Halted _ => s
  | Mode.AwaitingArrival => if env.arrived then { s with mode := Mode.Running } else s
  | Mode.Running =>
    match p.code[s.pc]? with
    | some i => execute p env s i
    | none => s.terminator

/-- The state after `n` steps, step `k` reading the environment `envs k`. -/
def run (p : ResolvedProgram) (envs : Nat → Env) : Nat → State → State
  | 0, s => s
  | n + 1, s => step p (envs n) (run p envs n s)

/-! ## Predicates on program points -/

/-- The instruction at `pc` is a block terminator of a loop or a subroutine:
an `END` that does not close an `IF_*`, a `TO` that is run into, or the end of
the table. -/
def atTerminator (p : ResolvedProgram) (pc : Nat) : Bool :=
  match p.code[pc]? with
  | none => true
  | some Instr.endBlock => !closesIf (kinds p.code) pc
  | some (Instr.toSub _) => true
  | some _ => false

/-- The instruction at `pc` is an `EXEC`, `EXEC_ARG` or `EXEC_PARAM`. -/
def isExecAt (p : ResolvedProgram) (pc : Nat) : Bool :=
  match p.code[pc]? with
  | some (Instr.exec _) | some (Instr.execArg _ _) | some (Instr.execParam _) => true
  | _ => false

/-- The instruction at `pc` is a `DO`, `DO_ARG` or `DO_PARAM`. -/
def isCallAt (p : ResolvedProgram) (pc : Nat) : Bool :=
  match p.code[pc]? with
  | some (Instr.doSub _) | some (Instr.doArg _ _) | some (Instr.doParam _) => true
  | _ => false

/-- The subroutine operand of an `EXEC`, `EXEC_ARG` or `EXEC_PARAM`. -/
def Instr.execTarget : Instr → Option Target
  | Instr.exec t => some t
  | Instr.execArg t _ => some t
  | Instr.execParam t => some t
  | _ => none

/-- The return offsets held by the subroutine frames of a stack. -/
def returnOffsets : List Frame → List Nat
  | [] => []
  | Frame.sub ret _ _ :: fs => ret :: returnOffsets fs
  | Frame.loop _ _ :: fs => returnOffsets fs

/-! ## Checking a table in one pass -/

/-- Check every instruction of a table in one pass: `f` sees the offset, the
blocks open there, the instruction and the rest of the table. -/
def scanAll (f : Nat → List Block → Kind → List Kind → Bool) :
    List Kind → Nat → List Block → Bool
  | [], _, _ => true
  | k :: rest, pc, nest => f pc nest k rest && scanAll f rest (pc + 1) (nestStep pc nest k)

/-- The check that subroutines come after the main body, at
one instruction: a `TO` lies after offset `e`, and from offset `t` onwards an
instruction is an `END`, a `TO`, or inside a subroutine definition. -/
def afterMainCheck (e t : Nat) (pc : Nat) (nest : List Block) (k : Kind) (_ : List Kind) : Bool :=
  (!k.isTo || decide (e < pc))
    && (!decide (t ≤ pc) || k == Kind.endK || k.isTo || nest.any Block.isSub)

/-- A table keeps its subroutines after the main program: the main body is
closed by an `END` at some offset `e` and every `TO` lies after `e`; and from
the first `TO` onwards every instruction other than an `END` belongs to a
subroutine definition. -/
def SubroutinesAfterMain (ks : List Kind) : Prop :=
  (∃ e, mainEnd ks = some e
      ∧ ∀ pc, pc < ks.length → (ks[pc]?).any Kind.isTo = true → e < pc)
  ∧ (∃ t, firstTo ks = some t
      ∧ ∀ pc, pc < ks.length → t ≤ pc →
          ks[pc]? = some Kind.endK ∨ inDefinition ks pc = true)

/-! ## Static nesting depth -/

/-- Offset of the instruction that opened a block. -/
def Block.opener : Block → Nat
  | Block.loop o => o
  | Block.cond o => o
  | Block.sub _ o => o

/-- The instruction kind that opens a block. -/
def Block.kind : Block → Kind
  | Block.loop _ => Kind.loopOpen
  | Block.cond _ => Kind.ifOpen
  | Block.sub f _ => Kind.toK f

/-- Stack depth at which a routine is entered at the deepest, according to a
table `cert` of entry depths per subroutine id; the main body is entered with
an empty stack. -/
def entryDepth (cert : List (Nat × Nat)) : Target → Nat
  | Target.LOGO_MAIN => 0
  | Target.sub f => (cert.lookup f).getD 0

/-- Bound on the stack depth at a program point with the given open blocks:
the entry depth of the enclosing routine plus the number of enclosing loops
(conditionals take no frame). -/
def depthBound (cert : List (Nat × Nat)) : List Block → Nat
  | [] => 0
  | Block.cond _ :: nest => depthBound cert nest
  | Block.loop _ :: nest => depthBound cert nest + 1
  | Block.sub f _ :: _ => entryDepth cert (Target.sub f)

/-- The next instruction exists and is not a `TO`. -/
def nextOK : List Kind → Bool
  | k :: _ => !k.isTo
  | [] => false

/-- The check of the control flow at one instruction.  A loop or a call needs
room for one more frame within `STACK_DEPTH`; a call enters its target no
deeper than the target's entry depth; an `IF_*` and an `ELSE` have a matching
closer; and an instruction after which control can pass to the next offset is
followed by an instruction that is not a `TO`. -/
def flowCheck (cert : List (Nat × Nat)) (pc : Nat) (nest : List Block) (k : Kind)
    (rest : List Kind) : Bool :=
  match k with
  | Kind.simple => nextOK rest
  | Kind.arm _ => nextOK rest
  | Kind.toK _ => nextOK rest
  | Kind.jump _ => true
  | Kind.loopOpen => nextOK rest && decide (depthBound cert nest + 1 ≤ STACK_DEPTH)
  | Kind.call t =>
    nextOK rest && decide (depthBound cert nest + 1 ≤ entryDepth cert t)
      && decide (entryDepth cert t ≤ STACK_DEPTH)
  | Kind.ifOpen => nextOK rest && (scanClose rest (pc + 1) 0 true).isSome
  | Kind.elseK => nextOK rest && (scanClose rest (pc + 1) 0 false).isSome
  | Kind.endK =>
    match nest with
    | Block.cond _ :: _ => nextOK rest
    | Block.loop _ :: _ => nextOK rest
    | _ => true

/-- The check of the nesting depth at one instruction: the bound on the stack
depth is within `STACK_DEPTH`, and the control flow check holds. -/
def depthCheck (cert : List (Nat × Nat)) (pc : Nat) (nest : List Block) (k : Kind)
    (rest : List Kind) : Bool :=
  decide (depthBound cert nest ≤ STACK_DEPTH) && flowCheck cert pc nest k rest

/-- A table passes the depth check: its first instruction exists and is not a
`TO`, and `depthCheck` holds at every instruction. -/
def depthOK (cert : List (Nat × Nat)) (ks : List Kind) : Bool :=
  nextOK ks && scanAll (depthCheck cert) ks 0 []

/-- The call stack mirrors the blocks open at the program counter: one loop
frame per open loop, none for a conditional, and below the loops of a
subroutine either nothing (the subroutine was entered by `EXEC`) or the frame
of a `DO` of that subroutine, below which the stack mirrors the blocks open at
the `DO`. -/
inductive Matches (ks : List Kind) : List Block → List Frame → Prop where
  | main : Matches ks [] []
  | entered (f o : Nat) (nest : List Block) : Matches ks (Block.sub f o :: nest) []
  | cond (o : Nat) (nest : List Block) (st : List Frame) :
      Matches ks nest st → Matches ks (Block.cond o :: nest) st
  | loop (o : Nat) (nest : List Block) (st : List Frame) (k : Option Int) :
      Matches ks nest st → Matches ks (Block.loop o :: nest) (Frame.loop (o + 1) k :: st)
  | called (f o : Nat) (nest : List Block) (c : Nat) (v : Int) (st : List Frame) :
      ks[c]? = some (Kind.call (Target.sub f)) → Matches ks (nestAt ks c) st →
      Matches ks (Block.sub f o :: nest) (Frame.sub (c + 1) v (Target.sub f) :: st)

/-- The program counter `pc` is at an instruction that is not a `TO`, and the
stack `st` mirrors the blocks open there. -/
def TrackedAt (ks : List Kind) (pc : Nat) (st : List Frame) : Prop :=
  (∃ k, ks[pc]? = some k ∧ k.isTo = false) ∧ Matches ks (nestAt ks pc) st

/-- The states the depth analysis follows: the stack mirrors the blocks open
at the program counter. -/
def Tracked (p : ResolvedProgram) (s : State) : Prop :=
  TrackedAt (kinds p.code) s.pc s.stack

/-- States reachable from `s0`: by steps of the engine under any telemetry,
and by the interrupt handler changing the state it shares with the main
program (turtles, active turtle, pen, flags, speed, armed handler) between
steps. -/
inductive Reach (p : ResolvedProgram) (s0 : State) : State → Prop where
  | start : Reach p s0 s0
  | step (env : Env) (s : State) : Reach p s0 s → Reach p s0 (step p env s)
  | shared (s : State) (plane camera : Turtle) (active : TurtleSel) (penDown : Bool)
      (flags : Flags) (speed : Int) (interrupt : Option Target) : Reach p s0 s →
      Reach p s0 { s with plane := plane, camera := camera, active := active,
                          penDown := penDown, flags := flags, speed := speed,
                          interrupt := interrupt }

/-- Entry depths of the subroutines of `instructions` reached by `DO`: the
deepest stack at which each is called (subroutines entered only by `EXEC` or
from the main body at depth 0 need no entry). -/
def instructionsEntryDepths : List (Nat × Nat) :=
  [(CRUISE, 3), (CHECK_WIND_GEOFENCE, 1), (CHECK_SOFT_GEOFENCE, 1),
   (CHECK_SOFT_WIND_GEOFENCE, 1), (CHECK_THERMALS, 3), (WAIT_DECREASE_CLIMBRATE, 4),
   (RETURN_MC_GEOFENCE, 5), (CHECK_MC_SOFT_WIND_GEOFENCE, 2), (MOTOR_CLIMB_FORWARD, 2),
   (CHECKS_MC, 7), (CHECK_MC_WIND_GEOFENCE, 2), (SOFT_CHECKS_MC, 4), (PILOT_INPUT_IN_MC, 8),
   (CHECK_MC_SOFT_GEOFENCE, 2), (SOFT_CHECKS, 6), (PILOT_INPUT, 7), (CHECKS, 6),
   (SET_ALT_ALT, 3), (RESET_NAVIGATION, 2), (DESCENT_PATTERN, 2), (DOWNWIND, 2), (BASE, 2),
   (FINAL, 2)]

/-- Every open block was opened by the instruction at its opener offset, and
the blocks open right after that instruction are the block and the ones
listed below it. -/
def NestOK (ks : List Kind) : List Block → Prop
  | [] => True
  | b :: nest =>
    ks[b.opener]? = some b.kind ∧ nestAt ks (b.opener + 1) = b :: nest ∧ NestOK ks nest

/-! ## A concrete configuration for running the tables -/

/-- A sample configuration: speeds in dm/s, the voltage alarm level, and a
throttle channel in use. -/
def sampleConfig : Config := ⟨110, 85, 140, 100, true⟩

/-- A sample environment: the altitude reads `alt`, every input channel is
centred at 3000, every other value reads 0, the vehicle has arrived, and a
move of `d` meters displaces the turtle by `d` along the axis of a heading of
0, 90, 180 or 270 degrees. -/
def sampleEnv (alt : Int) : Env :=
  { value := fun v => match v with
      | SysVal.ALT => some alt
      | SysVal.INPUT_CHANNEL _ => some 3000
      | _ => some 0
    arrived := true
    posX := 0
    posY := 0
    displacement := fun h d =>
      if h = 0 then (0, d) else if h = 90 then (d, 0)
      else if h = 180 then (0, -d) else if h = 270 then (-d, 0) else (0, 0)
    fromAbsolute := fun x y => (x, y) }

/-- The mission table loaded with the sample configuration. -/
def mission : ResolvedProgram :=
  ⟨instructions sampleConfig, subOffsetsFrom (kinds (instructions sampleConfig)) 0⟩

/-- The documented square (source lines 336-342, with the side of the spec's
example): `REPEAT(4) FD(100) RT(90) END`. -/
def squareProgram : ResolvedProgram := ⟨[REPEAT 4, FD 100, RT 90, END], []⟩

/-- The successive values of the plane turtle over the first `n` steps of a
run: a value is logged each time a step changes the plane turtle. -/
def planeLog (p : ResolvedProgram) (envs : Nat → Env) (s : State) : Nat → List Turtle
  | 0 => []
  | n + 1 =>
    if (run p envs (n + 1) s).plane = (run p envs n s).plane then planeLog p envs s n
    else planeLog p envs s n ++ [(run p envs (n + 1) s).plane]

/-- State of the square program between instructions: program counter,
stack, plane turtle and engine mode, everything else as on mode entry. -/
def squareState (alt : Int) (pc : Nat) (stack : List Frame) (x y h : Int) (m : Mode) : State :=
  { State.reset 0 0 alt 0 with pc := pc, stack := stack, plane := ⟨x, y, alt, h⟩, mode := m }

/-- State of the mission in `LOITER_LAND`, inside its `REPEAT_FOREVER`, about
to run `DO (SET_ALT_ALT)` (table offset 693, source line 2211) with the
circuit value 64 in `PARAM`. -/
def loiterState : State :=
  { State.reset 0 0 120 0 with pc := 693, stack := [Frame.loop 692 none], param := 64 }

/-- State of the mission at the `EXEC (LOGO_MAIN)` that ends `PILOT_INPUT`
(table offset 590, source line 2052), called from `CHECKS` (the `DO` at offset
518), itself called from the main body (the `DO` at offset 5). -/
def pilotInputState : State :=
  { State.reset 0 0 100 0 with
    pc := 590
    stack := [Frame.sub 519 0 (Target.sub PILOT_INPUT), Frame.sub 6 0 (Target.sub CHECKS)] }

/-- State of the mission at the `END` of the main body (table offset 12,
source line 1072) with an empty call stack. -/
def mainEndState : State :=
  { State.reset 0 0 100 0 with pc := 12 }

/-! ## Counting the passes of a loop -/

/-- The engine is about to run a block terminator with exactly `d + 1` frames
on the stack: it has run through the body of the loop (or subroutine) whose
frame lies at depth `d`. -/
def hitsTerminator (p : ResolvedProgram) (d : Nat) (s : State) : Bool :=
  decide (s.mode = Mode.Running) && atTerminator p s.pc && decide (s.stack.length = d + 1)

/-- Number of steps among the first `t` of a run at which the engine runs a
block terminator with exactly `d + 1` frames on the stack. -/
def terminatorHits (p : ResolvedProgram) (envs : Nat → Env) (s : State) (d : Nat) : Nat → Nat
  | 0 => 0
  | t + 1 =>
    terminatorHits p envs s d t + (if hitsTerminator p d (run p envs t s) then 1 else 0)

/-- The block `B` is the part of the table `code` that starts at offset
`base`, and no block opened before `base` is still open there. -/
def InWindow (code : List Instr) (base : Nat) (B : List Instr) : Prop :=
  (code.drop base).take B.length = B ∧ nestAt (kinds code) base = []

/-- Run the engine with steady telemetry until the program counter is at an
offset where `stop` holds; the state reached, or `none` when `fuel` steps do
not get there. -/
def runUntil (p : ResolvedProgram) (env : Env) (stop : Nat → Bool) : Nat → State → Option State
  | 0, s => if stop s.pc then some s else none
  | fuel + 1, s =>
    if stop s.pc then some s else runUntil p env stop fuel (step p env s)

/-- The engine is running at offset `pc` with the call stack `stk`, the pen
`pen` and the current parameter `par`. -/
def State.IsAt (s : State) (pc : Nat) (stk : List Frame) (pen : Bool) (par : Int) : Prop :=
  s.mode = Mode.Running ∧ s.pc = pc ∧ s.stack = stk ∧ s.penDown = pen ∧ s.curParam = par

/-- Whether an instruction only turns the turtle, sets a flag, selects a
turtle, arms or disarms the interrupt, or is a timed manoeuvre: the engine
advances by one and the pen, the parameter and the call stack stay. -/
def Instr.isPlain : Instr → Bool
  | .rt _ | .lt _ | .setAngle _ | .useCurrentAngle | .useAngleToGoal | .level1s | .rtBank _
  | .setTurtle _ | .flagOn _ | .flagOff _ | .flagToggle _
  | .setInterrupt _ | .clearInterrupt => true
  | _ => false

/-- The value a parameter command leaves in `PARAM`, given the value `par`
before it and the telemetry (none for the other instructions). -/
def Instr.paramAfter (env : Env) (par : Int) : Instr → Option Int
  | .paramSet x => some x
  | .paramAdd x => some (par + x)
  | .paramSub x => some (par - x)
  | .paramMul x => some (par * x)
  | .paramDiv x => some (Int.tdiv par x)
  | .loadToParam SysVal.PARAM => some par
  | .loadToParam v => some ((env.value v).getD par)
  | _ => none

/-- The pen after a pen command, given the pen before it (none for the other
instructions). -/
def Instr.penAfter (pen : Bool) : Instr → Option Bool
  | .penUp => some false
  | .penDown => some true
  | .penToggle => some (!pen)
  | _ => none

/-! ## The interrupt handler (spec section 4.5) -/

/-- Modelled from the spec: the state in which the interrupt scheduler starts
the armed handler (section 4.5), whose C source is not in the header: a
disposable program counter at the first instruction of the handler and a
fresh, empty call stack; the turtles, the pen and the flags are those of the
main context. -/
def State.handlerEntry (s : State) (off : Nat) : State :=
  { s with pc := off, stack := [], mode := Mode.Running }

/-- Whether an instruction is a `DO*`, an `EXEC*` or a `REPEAT*`. -/
def Kind.leavesOrLoops : Kind → Bool
  | Kind.call _ => true
  | Kind.jump _ => true
  | Kind.loopOpen => true
  | _ => false

/-- The mission table as loaded by `load` for a configuration: the table and
the offsets of its subroutines. -/
def missionOf (c : Config) : ResolvedProgram :=
  ⟨instructions c, subOffsetsFrom (kinds (instructions c)) 0⟩

/-- The failsafe table with the offsets of its subroutines. -/
def rtlOf (c : Config) : ResolvedProgram :=
  ⟨rtlInstructions c, subOffsetsFrom (kinds (rtlInstructions c)) 0⟩

/-! ## The wind sectors of the landing circuit -/

/-- The circuit value of each wind sector as written in the comment above the
`IF_LT` table of `LOITER_LAND` (source lines 2133-2137 and the sector letters
on lines 2138-2170): wind from N (338..22) and NW (293..337) gives -326, from
NE (23..67) and E (68..112) gives 64, from SE (113..157) and S (158..202)
gives 148, from SW (203..247) and W (248..292) gives -243. -/
def sectorParam (w : Int) : Int :=
  if 338 ≤ w ∨ w ≤ 22 then -326
  else if w ≤ 67 then 64
  else if w ≤ 112 then 64
  else if w ≤ 157 then 148
  else if w ≤ 202 then 148
  else if w ≤ 247 then -243
  else if w ≤ 292 then -243
  else -326

/-- The wind table of the landing routine `f` of the table `p` leaves `v` in
`PARAM`: the table starts 8 instructions after the first instruction of the
routine with `IF_LT(WIND_FROM_ANGLE,203)`, and the engine, started there in
any running state, reaches the instruction after the table (the
`IF_GT(PARAM,0)` 33 instructions later) within 13 steps with `PARAM = v`. -/
def WindTableSets (p : ResolvedProgram) (f : Nat) (env : Env) (v : Int) : Prop :=
  ∃ off, targetOffset p (Target.sub f) = some off
    ∧ p.code[off + 8]? = some (IF_LT SysVal.WIND_FROM_ANGLE 203)
    ∧ p.code[off + 41]? = some (IF_GT SysVal.PARAM 0)
    ∧ ∀ s : State, s.mode = Mode.Running → s.pc = off + 8 →
        ∃ s', runUntil p env (fun pc => decide (pc = off + 41)) 13 s = some s'
          ∧ s'.curParam = v

/-- A sample environment in which the wind comes from `w` degrees; everything
else reads as in `sampleEnv 100`. -/
def windEnv (w : Int) : Env :=
  { sampleEnv 100 with
    value := fun v => match v with
      | SysVal.WIND_FROM_ANGLE => some w
      | _ => (sampleEnv 100).value v }

/-! ## The motor checks of `CHECKS` -/

/-- In the table `p`, `CHECKS` comes to an `EXEC (MOTOR_CLIMB)` exactly when
`P` holds.  The only `EXEC (MOTOR_CLIMB)` of the routine are its fourth and its
ninth instruction, and the engine, entering the routine in any running state,
reaches within 10 steps one of these two, which happens exactly when `P` holds,
or else the thirteenth instruction, the first one after the altitude block. -/
def ExecsMotorClimbIff (p : ResolvedProgram) (env : Env) (P : Prop) : Prop :=
  ∃ off, targetOffset p (Target.sub CHECKS) = some off
    ∧ (∀ i, i < 28 → (p.code[off + i]? = some (EXEC MOTOR_CLIMB) ↔ i = 3 ∨ i = 8))
    ∧ ∀ s : State, s.mode = Mode.Running → s.pc = off →
      ∃ s', runUntil p env
          (fun pc => decide (pc = off + 3 ∨ pc = off + 8 ∨ pc = off + 12)) 10 s = some s'
        ∧ ((s'.pc = off + 3 ∨ s'.pc = off + 8) ↔ P)
        ∧ (s'.pc = off + 3 ∨ s'.pc = off + 8 ∨ s'.pc = off + 12)

/-- A sample environment with the given readings of `ALT`, of the throttle
channel and of `AIR_SPEED_Z`; everything else reads as in `sampleEnv`. -/
def checksEnv (alt thr z : Int) : Env :=
  { sampleEnv alt with
    value := fun v => match v with
      | SysVal.INPUT_CHANNEL Channel.THROTTLE => some thr
      | SysVal.AIR_SPEED_Z => some z
      | _ => (sampleEnv alt).value v }

/-! ## The lift test of `THERMALLING_TURN` -/

/-- In the table `p`, an iteration of the `REPEAT(9)` loop of
`THERMALLING_TURN` started with `PARAM = par` executes `EXEC (BETTER_LIFT)`
before its `RT_BANK` exactly when `P` holds.  The loop opens at the fourth
instruction of the routine; its body holds `EXEC (BETTER_LIFT)` at the
instructions 6, 11 and 16 after the first of the routine and `RT_BANK(30)` at
instruction 21; and the engine, at the start of the body in any running state
with `PARAM = par`, reaches within 8 steps one of the three `EXEC`, which
happens exactly when `P` holds, or else the `RT_BANK`. -/
def LiftTestIff (p : ResolvedProgram) (env : Env) (par : Int) (P : Prop) : Prop :=
  ∃ off, targetOffset p (Target.sub THERMALLING_TURN) = some off
    ∧ p.code[off + 3]? = some (REPEAT 9)
    ∧ p.code[off + 21]? = some (RT_BANK 30)
    ∧ (∀ i, i < 22 →
        (p.code[off + i]? = some (EXEC BETTER_LIFT) ↔ i = 6 ∨ i = 11 ∨ i = 16))
    ∧ ∀ s : State, s.mode = Mode.Running → s.pc = off + 4 → s.curParam = par →
      ∃ s', runUntil p env
          (fun pc => decide (pc = off + 6 ∨ pc = off + 11 ∨ pc = off + 16 ∨ pc = off + 21))
          8 s = some s'
        ∧ ((s'.pc = off + 6 ∨ s'.pc = off + 11 ∨ s'.pc = off + 16) ↔ P)
        ∧ (s'.pc = off + 6 ∨ s'.pc = off + 11 ∨ s'.pc = off + 16 ∨ s'.pc = off + 21)

/-! ## The calls made in one pass of a loop -/

/-- The subroutine operand of a `DO`, `DO_ARG` or `DO_PARAM`. -/
def Instr.callTarget : Instr → Option Target
  | Instr.doSub t => some t
  | Instr.doArg t _ => some t
  | Instr.doParam t => some t
  | _ => none

/-- The subroutines called from the state `s` until the program counter
reaches `stop`, a called subroutine being taken to return normally: the engine
runs (at most `fuel` steps at a time, with steady telemetry) to the next `DO*`
or to `stop`; at a `DO*` the callee is recorded and the run resumes at the
instruction after the `DO*` in the state of the caller.  `none` when `stop` is
not reached after `rounds` calls, or a run does not get to a `DO*` or to
`stop`. -/
def callsUntil (p : ResolvedProgram) (env : Env) (stop : Nat) (fuel : Nat) :
    Nat → State → Option (List Target)
  | 0, _ => none
  | rounds + 1, s =>
    match runUntil p env (fun pc => decide (pc = stop) || isCallAt p pc) fuel s with
    | none => none
    | some s' =>
      if s'.pc = stop then some []
      else
        match (p.code[s'.pc]?).bind Instr.callTarget with
        | some t => (callsUntil p env stop fuel rounds s'.next).map (fun ts => t :: ts)
        | none => none

/-- In the table `p`, one pass of the `REPEAT_FOREVER` loop of `LOITER_LAND`
calls the subroutines `ts`, in this order.  The loop opens 63 instructions
after the first instruction of the routine and is closed by the `END` 90
instructions after it; the pass is followed from the start of the loop body,
in any running state, to that `END`. -/
def PassCalls (p : ResolvedProgram) (env : Env) (ts : List Target) : Prop :=
  ∃ off, targetOffset p (Target.sub LOITER_LAND) = some off
    ∧ p.code[off + 63]? = some REPEAT_FOREVER
    ∧ p.code[off + 90]? = some END
    ∧ (nestAt (kinds p.code) (off + 90)).map Block.kind
        = [Kind.loopOpen, Kind.toK LOITER_LAND]
    ∧ ∀ s : State, s.mode = Mode.Running → s.pc = off + 64 →
        callsUntil p env (off + 90) 12 5 s = some ts

/-! ## The precalculated turn of the geofence routines -/

/-- One step of the engine in which a called subroutine is taken to return
normally: at a `DO*` control passes to the instruction after it, in the state
of the caller; every other instruction is executed by `step`. -/
def stepOver (p : ResolvedProgram) (env : Env) (s : State) : State :=
  if s.mode = Mode.Running ∧ isCallAt p s.pc = true then s.next else step p env s

/-- Run with steady telemetry, called subroutines returning normally, until
the program counter is at `stop`; the state reached, or `none` when `fuel`
steps do not get there. -/
def runOverUntil (p : ResolvedProgram) (env : Env) (stop : Nat) : Nat → State → Option State
  | 0, s => if s.pc = stop then some s else none
  | fuel + 1, s => if s.pc = stop then some s else runOverUntil p env stop fuel (stepOver p env s)

/-- An angle reduced into `-180..179`. -/
def norm180 (x : Int) : Int := (x + 180) % 360 - 180

/-- The relative angle to home after a turn: home was `r` degrees to the right
of the nose, and the heading went from `h0` to `h1` (degrees clockwise). -/
def relAngleAfter (r h0 h1 : Int) : Int := norm180 (r - (h1 - h0))

/-- A sample environment for the geofence routines: home is `r` degrees to the
right of the nose, the vehicle has arrived, and the other readings are those
of `sampleEnv 250`. -/
def homeEnv (r : Int) : Env :=
  { sampleEnv 250 with
    value := fun v => match v with
      | SysVal.REL_ANGLE_TO_HOME => some r
      | _ => (sampleEnv 250).value v }

/-- State of the mission about to run the instruction at `pc`, heading North,
with an empty call stack and the pen down. -/
def turnStart (pc : Nat) : State := { State.reset 0 0 250 0 with pc := pc }

/-- The relative angle to home after the precalculated turn of a geofence
routine of the sample mission: the turn starts at the `LOAD_TO_PARAM` at
offset `start` and is over at the `FD` at offset `stop` that follows the three
branches. -/
def turnResult (start stop : Nat) (r : Int) : Option Int :=
  (runOverUntil mission (homeEnv r) stop 200 (turnStart start)).map
    fun s => relAngleAfter r 0 s.plane.heading

/-- The eight geofence-return routines with, counted from the first
instruction of the routine, the position of the `LOAD_TO_PARAM` that starts
the precalculated turn and of the `FD` that follows its three branches. -/
def geofenceTurns : List (Nat × Nat × Nat) :=
  [(RETURN_GEOFENCE, 0, 32), (CHECK_SOFT_GEOFENCE, 1, 39), (CHECK_WIND_GEOFENCE, 1, 39),
   (CHECK_SOFT_WIND_GEOFENCE, 1, 39), (RETURN_MC_GEOFENCE, 0, 32),
   (CHECK_MC_SOFT_GEOFENCE, 1, 36), (CHECK_MC_WIND_GEOFENCE, 1, 36),
   (CHECK_MC_SOFT_WIND_GEOFENCE, 1, 36)]

/-- The relative angle to home after the precalculated turn of the routine
`f` of the sample mission, home being `r` degrees to the right of the nose
before it; `none` unless the turn starts with `LOAD_TO_PARAM(REL_ANGLE_TO_HOME)`
at position `i` of the routine, is followed by an `FD` at position `j`, and
the engine gets from the one to the other. -/
def turnOf (f i j : Nat) (r : Int) : Option Int :=
  (targetOffset mission (Target.sub f)).bind fun off =>
    if mission.code[off + i]? = some (LOAD_TO_PARAM SysVal.REL_ANGLE_TO_HOME)
        ∧ (mission.code[off + j]?).map Instr.isMove = some true then
      turnResult (off + i) (off + j) r
    else none

/-- The instructions of the precalculated turn of the routine `f` of the
sample mission, from position `i` to position `j` of the routine, without the
`DO` of the checks called in its loops. -/
def turnCode (f i j : Nat) : Option (List Instr) :=
  (targetOffset mission (Target.sub f)).map fun off =>
    ((mission.code.drop (off + i)).take (j - i)).filter fun x => x.callTarget.isNone

/-! ## What every `END` ends -/

/-- What an `END` does, scanning the table from its start: it closes the
innermost open `REPEAT*` or `IF_*` block, it terminates the innermost open
`TO` definition, it terminates the main body (the first `END` met with nothing
open), or it is met with nothing open to end. -/
inductive EndRole where
  | closesBlock
  | endsSubroutine
  | endsMain
  | nothing
  deriving DecidableEq, Repr

/-- The role of the `END` at offset `pc`. -/
def endRole (ks : List Kind) (pc : Nat) : EndRole :=
  match nestAt ks pc with
  | Block.loop _ :: _ => EndRole.closesBlock
  | Block.cond _ :: _ => EndRole.closesBlock
  | Block.sub _ _ :: _ => EndRole.endsSubroutine
  | [] => if mainEnd ks = some pc then EndRole.endsMain else EndRole.nothing

/-- Every `END` of a table ends a block, a subroutine definition or the main
body, or else it stands, with nothing open, right behind another `END`. -/
def EndsAccounted (ks : List Kind) : Prop :=
  ∀ pc, ks[pc]? = some Kind.endK →
    endRole ks pc ≠ EndRole.nothing ∨ (0 < pc ∧ ks[pc - 1]? = some Kind.endK)

/-- The check of `EndsAccounted` at one instruction, for a table whose main
body ends at offset `e`: when the next instruction is an `END` that will find
nothing open and is not the `END` of the main body, this instruction is an
`END` too. -/
def endCheck (e : Nat) (pc : Nat) (nest : List Block) (k : Kind) (rest : List Kind) : Bool :=
  match rest with
  | Kind.endK :: _ => !(nestStep pc nest k).isEmpty || decide (pc + 1 = e) || k == Kind.endK
  | _ => true

/-! ## The system values the tables name -/

/-- Whether a system value is in the list documented for `LOAD_TO_PARAM` and
the `IF_*` commands (source lines 206-226). -/
def SysVal.documented : SysVal → Bool
  | SysVal.DIST_TO_UPWIND_POINT => false
  | SysVal.BATTERY_VOLTAGE => false
  | _ => true

/-- The system value an `IF_*` or a `LOAD_TO_PARAM` names. -/
def Instr.sysVal : Instr → Option SysVal
  | Instr.ifVal _ v _ => some v
  | Instr.ifParam _ v => some v
  | Instr.loadToParam v => some v
  | _ => none

/-- The system values named in a table, in table order. -/
def valuesUsed (code : List Instr) : List SysVal := code.filterMap Instr.sysVal

/-! ## The soft geofences -/

/-- The threshold of the soft geofence, `GEOFENCE_SIZE * 2 / 3` in C integer
arithmetic (source lines 1161, 1676). -/
def SOFT_GEOFENCE : Int := Int.tdiv (GEOFENCE_SIZE * 2) 3

/-- The threshold of the soft wind geofence, `GEOFENCE_SIZE * 4 / 5` in C
integer arithmetic (source lines 1307, 1823). -/
def SOFT_WIND_GEOFENCE : Int := Int.tdiv (GEOFENCE_SIZE * 4) 5

/-! ## The documented closed figures -/

/-- The documented circle, a 36-point regular polygon of side `d` (source
lines 321-327, where the side is 8): `REPEAT(36) RT(10) FD(d) END`. -/
def circleProgram (d : Int) : ResolvedProgram := ⟨[REPEAT 36, RT 10, FD d, END], []⟩

/-- The documented 10-pointed star (source lines 378-390):
`FLAG_ON(F_CROSS_TRACK) REPEAT(10) FD(2000) REPEAT(18) RT(14) FD(50) END END`. -/
def starProgram : ResolvedProgram :=
  ⟨[FLAG_ON Flag.F_CROSS_TRACK, REPEAT 10, FD 2000, REPEAT 18, RT 14, FD 50, END, END], []⟩

/-- The turn, in degrees to the right, that the engine makes in the step it
takes from state `s`: the argument of the `RT` it executes, minus that of an
`LT`, and 0 for any other step. -/
def turnOfStep (p : ResolvedProgram) (s : State) : Int :=
  match s.mode, p.code[s.pc]? with
  | Mode.Running, some (Instr.rt a) => s.arg a
  | Mode.Running, some (Instr.lt a) => -(s.arg a)
  | _, _ => 0

/-- The total turn, in degrees to the right, of the first `n` steps of a
run. -/
def turned (p : ResolvedProgram) (envs : Nat → Env) (s : State) : Nat → Int
  | 0 => 0
  | n + 1 => turned p envs s n + turnOfStep p (run p envs n s)

/-- An environment in which the vehicle has arrived at every step. -/
def Env.arriving (env : Env) : Env := { env with arrived := true }

/-- After `n` steps from `s`, with the vehicle arriving at every goal, the
program has run to its end, at offset `pc` with an empty call stack; it has
turned by `t` degrees in total and the plane turtle has the heading it had at
the start. -/
def FigureRestores (p : ResolvedProgram) (env : Env) (s : State) (n : Nat) (t : Int)
    (pc : Nat) : Prop :=
  (run p (fun _ => env.arriving) n s).mode = Mode.Running
    ∧ (run p (fun _ => env.arriving) n s).pc = pc
    ∧ p.code.length = pc
    ∧ (run p (fun _ => env.arriving) n s).stack = []
    ∧ turned p (fun _ => env.arriving) s n = t
    ∧ (run p (fun _ => env.arriving) n s).plane.heading = s.plane.heading

/-- The engine, `n` steps into the run of a figure from `s0`, is about to run
the instruction at `pc` with call stack `stk`, the plane turtle active with
heading `h` and the pen down, having turned by `t` degrees in total. -/
def FigAt (p : ResolvedProgram) (env : Env) (s0 : State) (n : Nat) (t : Int) (pc : Nat)
    (stk : List Frame) (h : Int) : Prop :=
  (run p (fun _ => env.arriving) n s0).mode = Mode.Running
    ∧ (run p (fun _ => env.arriving) n s0).pc = pc
    ∧ (run p (fun _ => env.arriving) n s0).stack = stk
    ∧ (run p (fun _ => env.arriving) n s0).active = TurtleSel.PLANE
    ∧ (run p (fun _ => env.arriving) n s0).penDown = true
    ∧ (run p (fun _ => env.arriving) n s0).plane.heading = h
    ∧ turned p (fun _ => env.arriving) s0 n = t

/-! ## The numbering of the subroutines -/

/-- The routines named as checks of the flight state (source lines 1006, 1019,
1021, 1026, 1028, 1029): `CHECK_THERMALS`, `CHECKS_MC`, `SOFT_CHECKS_MC`,
`SOFT_CHECKS`, `CHECKS`, `CHECKS_RETURN_GF`. -/
def stateChecks : List Nat :=
  [CHECK_THERMALS, CHECKS_MC, SOFT_CHECKS_MC, SOFT_CHECKS, CHECKS, CHECKS_RETURN_GF]

/-- The routines named `CHECK_*_GEOFENCE` (source lines 1001-1003, 1017, 1020,
1023). -/
def geofenceChecks : List Nat :=
  [CHECK_WIND_GEOFENCE, CHECK_SOFT_GEOFENCE, CHECK_SOFT_WIND_GEOFENCE,
   CHECK_MC_SOFT_WIND_GEOFENCE, CHECK_MC_WIND_GEOFENCE, CHECK_MC_SOFT_GEOFENCE]

/-- The routines whose name marks them as check routines. -/
def checkRoutines : List Nat := stateChecks ++ geofenceChecks

/-- Whether a subroutine id is even. -/
def evenId (f : Nat) : Bool := f % 2 == 0

/-! ## The repeat count of the geofence turns -/

/-- The layout of the precalculated turn of a geofence-return routine, in
positions counted from the first instruction of the routine `f`: the
`LOAD_TO_PARAM` that starts the turn, the `REPEAT_PARAM` of each of the three
branches with the `END` that closes it, and the `FD` that follows the
branches. -/
structure TurnShape where
  f : Nat
  load : Nat
  loop1 : Nat
  end1 : Nat
  loop2 : Nat
  end2 : Nat
  loop3 : Nat
  end3 : Nat
  after : Nat
  deriving DecidableEq, Repr

/-- The eight geofence-return routines of the mission table (source lines
1088-1377 and 1605-1889) with the layout of their turn. -/
def geofenceShapes : List TurnShape :=
  [⟨RETURN_GEOFENCE, 0, 5, 9, 15, 19, 24, 28, 32⟩,
   ⟨CHECK_SOFT_GEOFENCE, 1, 6, 12, 18, 24, 29, 35, 39⟩,
   ⟨CHECK_WIND_GEOFENCE, 1, 6, 12, 18, 24, 29, 35, 39⟩,
   ⟨CHECK_SOFT_WIND_GEOFENCE, 1, 6, 12, 18, 24, 29, 35, 39⟩,
   ⟨RETURN_MC_GEOFENCE, 0, 5, 9, 15, 19, 24, 28, 32⟩,
   ⟨CHECK_MC_SOFT_GEOFENCE, 1, 6, 11, 17, 22, 27, 32, 36⟩,
   ⟨CHECK_MC_WIND_GEOFENCE, 1, 6, 11, 17, 22, 27, 32, 36⟩,
   ⟨CHECK_MC_SOFT_WIND_GEOFENCE, 1, 6, 11, 17, 22, 27, 32, 36⟩]

/-- Where the engine is stopped to observe a turn of the routine at offset
`off`: at one of the three `REPEAT_PARAM`, or at the `FD` after the
branches. -/
def TurnShape.stops (t : TurnShape) (off : Nat) : Nat → Bool :=
  fun pc => decide (pc = off + t.loop1 ∨ pc = off + t.loop2 ∨ pc = off + t.loop3
    ∨ pc = off + t.after)

/-- In the routine laid out as `t`, with the telemetry `env`, exactly one of
the three `REPEAT_PARAM` blocks is entered, with a repeat count from 0 to 20.
The layout is that of the table: the turn starts with
`LOAD_TO_PARAM(REL_ANGLE_TO_HOME)`, the `REPEAT_PARAM` of the turn are the
three of the layout, each closed by its `END`, and an `FD` follows the
branches.  The engine, at the `LOAD_TO_PARAM` in any running state, reaches
one of the three `REPEAT_PARAM` within 8 instructions, with `PARAM` from 0 to
20; and once control has passed the `END` of any of the three blocks, it
reaches the `FD` after the branches without coming to a `REPEAT_PARAM`. -/
def EntersOneTurnLoop (p : ResolvedProgram) (env : Env) (t : TurnShape) : Prop :=
  ∃ off, targetOffset p (Target.sub t.f) = some off
    ∧ p.code[off + t.load]? = some (LOAD_TO_PARAM SysVal.REL_ANGLE_TO_HOME)
    ∧ (∀ k, t.load ≤ k → k ≤ t.after →
        (p.code[off + k]? = some REPEAT_PARAM ↔ k = t.loop1 ∨ k = t.loop2 ∨ k = t.loop3))
    ∧ skipTarget (kinds p.code) (off + t.loop1) false = off + t.end1
    ∧ skipTarget (kinds p.code) (off + t.loop2) false = off + t.end2
    ∧ skipTarget (kinds p.code) (off + t.loop3) false = off + t.end3
    ∧ (p.code[off + t.after]?).map Instr.isMove = some true
    ∧ (∀ s : State, s.mode = Mode.Running → s.pc = off + t.load →
        ∃ s', runUntil p env (t.stops off) 8 s = some s'
          ∧ s'.mode = Mode.Running
          ∧ (s'.pc = off + t.loop1 ∨ s'.pc = off + t.loop2 ∨ s'.pc = off + t.loop3)
          ∧ 0 ≤ s'.curParam ∧ s'.curParam ≤ 20)
    ∧ (∀ (s : State) (x : Nat), s.mode = Mode.Running →
        x = t.end1 ∨ x = t.end2 ∨ x = t.end3 → s.pc = off + x + 1 →
        ∃ s', runUntil p env (t.stops off) 5 s = some s' ∧ s'.pc = off + t.after)

/-- In each of the eight geofence-return routines exactly one of the three
`REPEAT_PARAM` blocks is entered, with a repeat count from 0 to 20. -/
def TurnsEnterOneLoop (p : ResolvedProgram) (env : Env) : Prop :=
  ∀ t ∈ geofenceShapes, EntersOneTurnLoop p env t

/-! # Theorems -/

/-! ## The control skeleton does not depend on the numeric constants -/

set_option maxRecDepth 20000 in
theorem kinds_instructions (c : Config) :
    kinds (instructions c) = kinds (instructions (Config.shape c.throttleChannelUsed)) := by
  obtain ⟨a, b, d, e, t⟩ := c
  cases t <;> rfl

theorem kinds_rtlInstructions (c : Config) :
    kinds (rtlInstructions c) = kinds (rtlInstructions (Config.shape c.throttleChannelUsed)) := by
  obtain ⟨a, b, d, e, t⟩ := c
  cases t <;> rfl


/-! ## Theorems: structure of the two tables -/

theorem load_instructions (c : Config) :
    load (instructions c) =
      Except.ok ⟨instructions c, subOffsetsFrom (kinds (instructions c)) 0⟩ := by
  unfold load
  rw [kinds_instructions]
  generalize c.throttleChannelUsed = b
  have h1 : firstDuplicate (declaredIds (kinds (instructions (Config.shape b)))) = none := by
    cases b <;> decide!
  have h2 : (referencedIds (kinds (instructions (Config.shape b)))).find?
      (fun id => !(declaredIds (kinds (instructions (Config.shape b)))).contains id) = none := by
    cases b <;> decide!
  rw [h1, h2]

theorem load_rtlInstructions (c : Config) :
    load (rtlInstructions c) = Except.error (LoadError.UnresolvedSymbol SET_ALT_ALT) := by
  unfold load
  rw [kinds_rtlInstructions]
  generalize c.throttleChannelUsed = b
  have h1 : firstDuplicate (declaredIds (kinds (rtlInstructions (Config.shape b)))) = none := by
    cases b <;> decide!
  have h2 : (referencedIds (kinds (rtlInstructions (Config.shape b)))).find?
      (fun id => !(declaredIds (kinds (rtlInstructions (Config.shape b)))).contains id)
      = some SET_ALT_ALT := by
    cases b <;> decide!
  rw [h1, h2]

/-! ## Basic facts about the engine -/

theorem run_succ (p : ResolvedProgram) (envs : Nat → Env) (n : Nat) (s : State) :
    run p envs (n + 1) s = step p (envs n) (run p envs n s) := rfl

theorem run_zero (p : ResolvedProgram) (envs : Nat → Env) (s : State) :
    run p envs 0 s = s := rfl

theorem step_atTerminator (p : ResolvedProgram) (env : Env) (s : State)
    (hm : s.mode = Mode.Running) (ht : atTerminator p s.pc = true) :
    step p env s = s.terminator := by
  unfold step
  rw [hm]
  simp only
  unfold atTerminator at ht
  cases hi : p.code[s.pc]? with
  | none => rfl
  | some i =>
    rw [hi] at ht
    cases i <;> simp at ht <;> simp [execute, ht]

theorem setParam_stack (s : State) (v : Int) :
    ((s.setParam v).stack = s.stack ∧ frameParam s.stack = none)
    ∨ ((s.setParam v).stack = setFrameParam v s.stack ∧ (s.setParam v).param = s.param
        ∧ frameParam s.stack ≠ none) := by
  unfold State.setParam
  cases h : frameParam s.stack <;> simp

theorem setParam_pc (s : State) (v : Int) : (s.setParam v).pc = s.pc := by
  unfold State.setParam
  cases h : frameParam s.stack <;> simp

theorem setParam_mode (s : State) (v : Int) : (s.setParam v).mode = s.mode := by
  unfold State.setParam
  cases h : frameParam s.stack <;> simp

theorem setTurtle_stack (s : State) (t : Turtle) : (s.setTurtle t).stack = s.stack := by
  unfold State.setTurtle
  cases s.active <;> rfl

theorem setTurtle_param (s : State) (t : Turtle) : (s.setTurtle t).param = s.param := by
  unfold State.setTurtle
  cases s.active <;> rfl

theorem setTurtle_pc (s : State) (t : Turtle) : (s.setTurtle t).pc = s.pc := by
  unfold State.setTurtle
  cases s.active <;> rfl

theorem setTurtle_mode (s : State) (t : Turtle) : (s.setTurtle t).mode = s.mode := by
  unfold State.setTurtle
  cases s.active <;> rfl

theorem setTurtle_penDown (s : State) (t : Turtle) : (s.setTurtle t).penDown = s.penDown := by
  unfold State.setTurtle
  cases s.active <;> rfl

theorem moveEffect_stack (env : Env) (s : State) (i : Instr) :
    (moveEffect env s i).stack = s.stack := by
  cases i <;> simp [moveEffect, setTurtle_stack]

theorem moveEffect_param (env : Env) (s : State) (i : Instr) :
    (moveEffect env s i).param = s.param := by
  cases i <;> simp [moveEffect, setTurtle_param]

theorem moveEffect_pc (env : Env) (s : State) (i : Instr) :
    (moveEffect env s i).pc = s.pc := by
  cases i <;> simp [moveEffect, setTurtle_pc]

theorem moveEffect_mode (env : Env) (s : State) (i : Instr) :
    (moveEffect env s i).mode = s.mode := by
  cases i <;> simp [moveEffect, setTurtle_mode]

theorem moveEffect_penDown (env : Env) (s : State) (i : Instr) :
    (moveEffect env s i).penDown = s.penDown := by
  cases i <;> simp [moveEffect, setTurtle_penDown]

theorem moved_stack (s : State) : s.moved.stack = s.stack := by
  unfold State.moved
  split <;> rfl

theorem moved_param (s : State) : s.moved.param = s.param := by
  unfold State.moved
  split <;> rfl

theorem moved_pc (s : State) : s.moved.pc = s.pc + 1 := by
  unfold State.moved
  split <;> rfl

theorem push_cases (s : State) (f : Frame) (pc : Nat) :
    ((s.push f pc).stack = s.stack ∧ (s.push f pc).param = s.param
        ∧ (s.push f pc).pc = s.pc ∧ ¬ s.stack.length < STACK_DEPTH)
    ∨ ((s.push f pc).stack = f :: s.stack ∧ (s.push f pc).param = s.param
        ∧ (s.push f pc).pc = pc ∧ (s.push f pc).mode = s.mode
        ∧ s.stack.length < STACK_DEPTH) := by
  unfold State.push
  split
  · right; simp_all
  · left; simp_all

theorem call_cases (p : ResolvedProgram) (s : State) (t : Target) (v : Int) :
    ((s.call p t v).stack = s.stack ∧ (s.call p t v).param = s.param
        ∧ (s.call p t v).pc = s.pc)
    ∨ (∃ off, targetOffset p t = some off
        ∧ (s.call p t v).stack = Frame.sub (s.pc + 1) v t :: s.stack
        ∧ (s.call p t v).param = s.param ∧ (s.call p t v).pc = off
        ∧ (s.call p t v).mode = s.mode ∧ s.stack.length < STACK_DEPTH) := by
  unfold State.call
  cases h : targetOffset p t with
  | none => left; simp
  | some off =>
    simp only
    rcases push_cases s (Frame.sub (s.pc + 1) v t) off with h1 | h1
    · left; exact ⟨h1.1, h1.2.1, h1.2.2.1⟩
    · right; exact ⟨off, rfl, h1⟩

theorem jump_cases (p : ResolvedProgram) (s : State) (t : Target) (v : Int) :
    ((s.jump p t v).stack = s.stack ∧ (s.jump p t v).param = s.param
        ∧ (s.jump p t v).pc = s.pc ∧ targetOffset p t = none)
    ∨ (∃ off, targetOffset p t = some off ∧ (s.jump p t v).stack = []
        ∧ (s.jump p t v).param = v ∧ (s.jump p t v).pc = off
        ∧ (s.jump p t v).mode = s.mode) := by
  unfold State.jump
  cases h : targetOffset p t with
  | none => left; simp
  | some off => right; exact ⟨off, rfl, rfl, rfl, rfl, rfl⟩

theorem setParam_next_cases (s : State) (v : Int) :
    ((s.setParam v).next.stack = s.stack ∧ frameParam s.stack = none)
    ∨ ((s.setParam v).next.stack = setFrameParam v s.stack
        ∧ (s.setParam v).next.param = s.param ∧ frameParam s.stack ≠ none) := by
  simpa [State.next] using setParam_stack s v

/-- Shape of a stack step that is not a block terminator: the stack is left
alone, or a frame is pushed, or the parameter of the topmost subroutine frame
is assigned, or an `EXEC` empties the stack. -/
theorem step_not_terminator (p : ResolvedProgram) (env : Env) (s : State)
    (h : ¬ (s.mode = Mode.Running ∧ atTerminator p s.pc = true)) :
    ((step p env s).stack = s.stack
        ∧ ((step p env s).param = s.param ∨ frameParam s.stack = none))
    ∨ (s.mode = Mode.Running ∧ s.stack.length < STACK_DEPTH
        ∧ (step p env s).param = s.param
        ∧ ((∃ k, (step p env s).stack = Frame.loop (s.pc + 1) k :: s.stack
              ∧ (step p env s).pc = s.pc + 1)
          ∨ (∃ v t, (step p env s).stack = Frame.sub (s.pc + 1) v t :: s.stack
              ∧ isCallAt p s.pc = true)))
    ∨ (∃ v, (step p env s).stack = setFrameParam v s.stack
        ∧ (step p env s).param = s.param ∧ frameParam s.stack ≠ none)
    ∨ (s.mode = Mode.Running ∧ isExecAt p s.pc = true ∧ (step p env s).stack = []) := by
  have hpush : ∀ k, ((s.push (Frame.loop (s.pc + 1) k) (s.pc + 1)).stack = s.stack
        ∧ ((s.push (Frame.loop (s.pc + 1) k) (s.pc + 1)).param = s.param
            ∨ frameParam s.stack = none))
      ∨ (s.stack.length < STACK_DEPTH
        ∧ (s.push (Frame.loop (s.pc + 1) k) (s.pc + 1)).param = s.param
        ∧ ((∃ k', (s.push (Frame.loop (s.pc + 1) k) (s.pc + 1)).stack
                = Frame.loop (s.pc + 1) k' :: s.stack
              ∧ (s.push (Frame.loop (s.pc + 1) k) (s.pc + 1)).pc = s.pc + 1)
          ∨ (∃ v t, (s.push (Frame.loop (s.pc + 1) k) (s.pc + 1)).stack
                = Frame.sub (s.pc + 1) v t :: s.stack ∧ isCallAt p s.pc = true))) := by
    intro k
    rcases push_cases s (Frame.loop (s.pc + 1) k) (s.pc + 1) with h1 | h1
    · left; exact ⟨h1.1, Or.inl h1.2.1⟩
    · right; exact ⟨h1.2.2.2.2, h1.2.1, Or.inl ⟨k, h1.1, h1.2.2.1⟩⟩
  have hcall : ∀ t v, isCallAt p s.pc = true →
      ((s.call p t v).stack = s.stack
        ∧ ((s.call p t v).param = s.param ∨ frameParam s.stack = none))
      ∨ (s.stack.length < STACK_DEPTH ∧ (s.call p t v).param = s.param
        ∧ ((∃ k', (s.call p t v).stack = Frame.loop (s.pc + 1) k' :: s.stack
              ∧ (s.call p t v).pc = s.pc + 1)
          ∨ (∃ v' t', (s.call p t v).stack = Frame.sub (s.pc + 1) v' t' :: s.stack
              ∧ isCallAt p s.pc = true))) := by
    intro t v hc
    rcases call_cases p s t v with h1 | ⟨off, _, h1, h2, _, _, h5⟩
    · left; exact ⟨h1.1, Or.inl h1.2.1⟩
    · right; exact ⟨h5, h2, Or.inr ⟨v, t, h1, hc⟩⟩
  have hjump : ∀ t v, ((s.jump p t v).stack = s.stack
        ∧ ((s.jump p t v).param = s.param ∨ frameParam s.stack = none))
      ∨ (s.jump p t v).stack = [] := by
    intro t v
    rcases jump_cases p s t v with h1 | ⟨off, _, h1, _⟩
    · left; exact ⟨h1.1, Or.inl h1.2.1⟩
    · right; exact h1
  have hset : ∀ v, ((s.setParam v).next.stack = s.stack
        ∧ ((s.setParam v).next.param = s.param ∨ frameParam s.stack = none))
      ∨ (∃ v', (s.setParam v).next.stack = setFrameParam v' s.stack
        ∧ (s.setParam v).next.param = s.param ∧ frameParam s.stack ≠ none) := by
    intro v
    rcases setParam_next_cases s v with h1 | h1
    · left; exact ⟨h1.1, Or.inr h1.2⟩
    · right; exact ⟨v, h1⟩
  unfold step
  cases hm : s.mode with
  | Halted f => simp
  | AwaitingArrival =>
    simp only
    split <;> simp
  | Running =>
    simp only [hm, true_and] at h
    simp only
    cases hi : p.code[s.pc]? with
    | none => simp [atTerminator, hi] at h
    | some i =>
      simp only [atTerminator, hi] at h
      cases i with
      | repeatN n =>
        rcases hpush (some n) with h1 | h1
        · exact Or.inl h1
        · exact Or.inr (Or.inl ⟨trivial, h1⟩)
      | repeatForever =>
        rcases hpush none with h1 | h1
        · exact Or.inl h1
        · exact Or.inr (Or.inl ⟨trivial, h1⟩)
      | repeatParam =>
        rcases hpush (some s.curParam) with h1 | h1
        · exact Or.inl h1
        · exact Or.inr (Or.inl ⟨trivial, h1⟩)
      | endBlock =>
        simp only [Bool.not_eq_true', Bool.not_eq_false] at h
        left
        simp [execute, h, State.next]
      | toSub f => simp at h
      | ifVal c v x =>
        left
        simp only [execute]
        split <;> simp [State.next]
      | ifParam c v =>
        left
        simp only [execute]
        split <;> simp [State.next]
      | doSub t =>
        rcases hcall t s.curParam (by simp [isCallAt, hi]) with h1 | h1
        · exact Or.inl h1
        · exact Or.inr (Or.inl ⟨trivial, h1⟩)
      | doArg t x =>
        rcases hcall t x (by simp [isCallAt, hi]) with h1 | h1
        · exact Or.inl h1
        · exact Or.inr (Or.inl ⟨trivial, h1⟩)
      | doParam t =>
        rcases hcall t s.curParam (by simp [isCallAt, hi]) with h1 | h1
        · exact Or.inl h1
        · exact Or.inr (Or.inl ⟨trivial, h1⟩)
      | exec t =>
        rcases hjump t s.curParam with h1 | h1
        · exact Or.inl h1
        · exact Or.inr (Or.inr (Or.inr ⟨trivial, by simp [isExecAt, hi], h1⟩))
      | execArg t x =>
        rcases hjump t x with h1 | h1
        · exact Or.inl h1
        · exact Or.inr (Or.inr (Or.inr ⟨trivial, by simp [isExecAt, hi], h1⟩))
      | execParam t =>
        rcases hjump t s.curParam with h1 | h1
        · exact Or.inl h1
        · exact Or.inr (Or.inr (Or.inr ⟨trivial, by simp [isExecAt, hi], h1⟩))
      | paramSet x =>
        rcases hset x with h1 | h1
        · exact Or.inl h1
        · exact Or.inr (Or.inr (Or.inl h1))
      | paramAdd x =>
        rcases hset (s.curParam + x) with h1 | h1
        · exact Or.inl h1
        · exact Or.inr (Or.inr (Or.inl h1))
      | paramSub x =>
        rcases hset (s.curParam - x) with h1 | h1
        · exact Or.inl h1
        · exact Or.inr (Or.inr (Or.inl h1))
      | paramMul x =>
        rcases hset (s.curParam * x) with h1 | h1
        · exact Or.inl h1
        · exact Or.inr (Or.inr (Or.inl h1))
      | paramDiv x =>
        rcases hset (Int.tdiv s.curParam x) with h1 | h1
        · exact Or.inl h1
        · exact Or.inr (Or.inr (Or.inl h1))
      | loadToParam v =>
        simp only [execute]
        cases hr : resolve env s v with
        | none => left; simp [State.next]
        | some a =>
          rcases hset a with h1 | h1
          · exact Or.inl h1
          · exact Or.inr (Or.inr (Or.inl h1))
      | _ =>
        left
        simp [execute, moved_stack, moved_param, moveEffect_stack, moveEffect_param,
          State.next, setTurtle_stack, setTurtle_param]

/-! ## Subroutine calls: the frame discipline -/

theorem terminator_param (s : State) : s.terminator.param = s.param := by
  unfold State.terminator
  split
  · rfl
  · rfl
  · split <;> rfl
  · rfl

theorem terminator_mode (s : State) : s.terminator.mode = s.mode := by
  unfold State.terminator
  split
  · rfl
  · rfl
  · split <;> rfl
  · rfl

theorem frameParam_append_sub (top : List Frame) (r : Nat) (q : Int) (t : Target)
    (st : List Frame) : frameParam (top ++ Frame.sub r q t :: st) ≠ none := by
  induction top with
  | nil => simp [frameParam]
  | cons f fs ih =>
    cases f with
    | sub r' q' t' => simp [frameParam]
    | loop a k => simpa [frameParam] using ih

theorem setFrameParam_append_sub (v : Int) (top : List Frame) (r : Nat) (q : Int) (t : Target)
    (st : List Frame) :
    ∃ top' q', setFrameParam v (top ++ Frame.sub r q t :: st) = top' ++ Frame.sub r q' t :: st := by
  induction top with
  | nil => exact ⟨[], v, rfl⟩
  | cons f fs ih =>
    cases f with
    | sub r' q' t' => exact ⟨Frame.sub r' v t' :: fs, q, rfl⟩
    | loop a k =>
      obtain ⟨top', q', h⟩ := ih
      exact ⟨Frame.loop a k :: top', q', by simp [setFrameParam, h]⟩

/-- A step taken while the frame of a call is on the stack either keeps that
frame (and everything below it) in place, or is the return of the call: the
frame is popped, control is at the return offset, and the rest of the stack
and the parameter of the main body are as they were. -/
theorem step_keeps_call_frame (p : ResolvedProgram) (env : Env) (s : State)
    (top st : List Frame) (ret : Nat) (q : Int) (t : Target)
    (hs : s.stack = top ++ Frame.sub ret q t :: st)
    (hx : ¬ (s.mode = Mode.Running ∧ isExecAt p s.pc = true)) :
    ((∃ top' q', (step p env s).stack = top' ++ Frame.sub ret q' t :: st)
        ∧ (step p env s).param = s.param)
    ∨ ((step p env s).stack = st ∧ (step p env s).pc = ret
        ∧ (step p env s).param = s.param) := by
  by_cases ht : s.mode = Mode.Running ∧ atTerminator p s.pc = true
  · rw [step_atTerminator p env s ht.1 ht.2]
    cases top with
    | nil =>
      right
      simp only [List.nil_append] at hs
      simp [State.terminator, hs]
    | cons f fs =>
      left
      simp only [List.cons_append] at hs
      refine ⟨?_, terminator_param s⟩
      cases f with
      | sub r' q' t' => exact ⟨fs, q, by simp [State.terminator, hs]⟩
      | loop a k =>
        cases k with
        | none => exact ⟨Frame.loop a none :: fs, q, by simp [State.terminator, hs]⟩
        | some k =>
          by_cases hk : 0 < k - 1
          · exact ⟨Frame.loop a (some (k - 1)) :: fs, q, by simp [State.terminator, hs, hk]⟩
          · exact ⟨fs, q, by simp [State.terminator, hs, hk]⟩
  · left
    have hfp : frameParam s.stack ≠ none := by
      rw [hs]; exact frameParam_append_sub top ret q t st
    rcases step_not_terminator p env s ht with h | h | h | h
    · exact ⟨⟨top, q, by rw [h.1, hs]⟩, h.2.resolve_right hfp⟩
    · obtain ⟨_, _, hp, h⟩ := h
      refine ⟨?_, hp⟩
      rcases h with ⟨k, h, _⟩ | ⟨v, t', h, _⟩
      · exact ⟨Frame.loop (s.pc + 1) k :: top, q, by rw [h, hs]; rfl⟩
      · exact ⟨Frame.sub (s.pc + 1) v t' :: top, q, by rw [h, hs]; rfl⟩
    · obtain ⟨v, h, hp, _⟩ := h
      obtain ⟨top', q', h'⟩ := setFrameParam_append_sub v top ret q t st
      exact ⟨⟨top', q', by rw [h, hs, h']⟩, hp⟩
    · exact absurd ⟨h.1, h.2.1⟩ hx

theorem step_call (p : ResolvedProgram) (env : Env) (s : State)
    (hm : s.mode = Mode.Running) (hc : isCallAt p s.pc = true) :
    ∃ t v, step p env s = s.call p t v := by
  unfold step
  rw [hm]
  simp only
  unfold isCallAt at hc
  cases hi : p.code[s.pc]? with
  | none => rw [hi] at hc; simp at hc
  | some i =>
    rw [hi] at hc
    cases i <;> simp at hc
    · exact ⟨_, _, rfl⟩
    · exact ⟨_, _, rfl⟩
    · exact ⟨_, _, rfl⟩

/-- C3: when `DO(F)`, `DO_ARG(F, x)` or `DO_PARAM(F)` is executed and the body
of F runs to its terminating `END` without executing an `EXEC` (step `n` is the
first at which the stack is back to its depth before the call), execution
resumes at the instruction immediately after the `DO`, the stack is the one
before the call, and `PARAM` has the value it had before the call, whatever
the body did to its own parameter. -/
theorem do_returns_and_restores_param (p : ResolvedProgram) (envs : Nat → Env) (s0 : State)
    (n : Nat) (hm : s0.mode = Mode.Running) (hdo : isCallAt p s0.pc = true) (hn : 2 ≤ n)
    (hin : ∀ j, j < n → 1 ≤ j → s0.stack.length < (run p envs j s0).stack.length)
    (hout : (run p envs n s0).stack.length ≤ s0.stack.length)
    (hx : ∀ j, j < n →
      ¬ ((run p envs j s0).mode = Mode.Running ∧ isExecAt p (run p envs j s0).pc = true)) :
    (run p envs n s0).pc = s0.pc + 1 ∧ (run p envs n s0).stack = s0.stack
      ∧ (run p envs n s0).curParam = s0.curParam := by
  have hinv : ∀ j, 1 ≤ j → j < n →
      (∃ top q t, (run p envs j s0).stack = top ++ Frame.sub (s0.pc + 1) q t :: s0.stack)
        ∧ (run p envs j s0).param = s0.param := by
    intro j
    induction j with
    | zero => intro h; omega
    | succ j ih =>
      intro _ hj
      have hlen := hin (j + 1) hj (by omega)
      rw [run_succ] at hlen ⊢
      by_cases hj0 : j = 0
      · subst hj0
        rw [run_zero] at hlen ⊢
        obtain ⟨t, v, hcall⟩ := step_call p (envs 0) s0 hm hdo
        rw [hcall] at hlen ⊢
        rcases call_cases p s0 t v with h | ⟨off, _, h1, h2, _⟩
        · rw [h.1] at hlen; omega
        · exact ⟨⟨[], v, t, by rw [h1]; rfl⟩, h2⟩
      · obtain ⟨⟨top, q, t, hs⟩, hp⟩ := ih (by omega) (by omega)
        rcases step_keeps_call_frame p (envs j) (run p envs j s0) top s0.stack (s0.pc + 1) q t hs
            (hx j (by omega)) with h | h
        · exact ⟨⟨h.1.choose, h.1.choose_spec.choose, t, h.1.choose_spec.choose_spec⟩,
            by rw [h.2, hp]⟩
        · rw [h.1] at hlen; omega
  obtain ⟨m, rfl⟩ : ∃ m, n = m + 1 := ⟨n - 1, by omega⟩
  obtain ⟨⟨top, q, t, hs⟩, hp⟩ := hinv m (by omega) (by omega)
  rw [run_succ] at hout ⊢
  rcases step_keeps_call_frame p (envs m) (run p envs m s0) top s0.stack (s0.pc + 1) q t hs
      (hx m (by omega)) with h | h
  · obtain ⟨⟨top', q', h1⟩, _⟩ := h
    rw [h1] at hout
    simp at hout
    omega
  · refine ⟨h.2.1, h.1, ?_⟩
    unfold State.curParam
    rw [h.1, h.2.2, hp]

/-! ## `EXEC` and the restart at the top -/

theorem returnOffsets_setFrameParam (v : Int) (st : List Frame) :
    returnOffsets (setFrameParam v st) = returnOffsets st := by
  induction st with
  | nil => rfl
  | cons f fs ih =>
    cases f with
    | sub r q t => rfl
    | loop a k => simpa [setFrameParam, returnOffsets] using ih

theorem returnOffsets_terminator (s : State) :
    ∀ r ∈ returnOffsets s.terminator.stack, r ∈ returnOffsets s.stack := by
  intro r hr
  unfold State.terminator at hr
  split at hr
  · simp_all
  · simp_all
  · rename_i start k fs hs
    split at hr
    · simp_all [returnOffsets]
    · simp_all [returnOffsets]
  · rename_i ret v t fs hs
    simp_all [returnOffsets]

/-- Every return offset on the stack follows a `DO`, `DO_ARG` or `DO_PARAM`;
a step keeps it so. -/
theorem step_returns_follow_calls (p : ResolvedProgram) (env : Env) (s : State)
    (h : ∀ r ∈ returnOffsets s.stack, ∃ c, r = c + 1 ∧ isCallAt p c = true) :
    ∀ r ∈ returnOffsets (step p env s).stack, ∃ c, r = c + 1 ∧ isCallAt p c = true := by
  by_cases ht : s.mode = Mode.Running ∧ atTerminator p s.pc = true
  · rw [step_atTerminator p env s ht.1 ht.2]
    intro r hr
    exact h r (returnOffsets_terminator s r hr)
  · rcases step_not_terminator p env s ht with h1 | h1 | h1 | h1
    · rw [h1.1]; exact h
    · obtain ⟨_, _, _, h1⟩ := h1
      rcases h1 with ⟨k, h1, _⟩ | ⟨v, t, h1, hc⟩
      · rw [h1]; simpa [returnOffsets] using h
      · rw [h1]
        intro r hr
        simp only [returnOffsets, List.mem_cons] at hr
        rcases hr with rfl | hr
        · exact ⟨s.pc, rfl, hc⟩
        · exact h r hr
    · obtain ⟨v, h1, _⟩ := h1
      rw [h1, returnOffsets_setFrameParam]; exact h
    · rw [h1.2.2]; simp [returnOffsets]

theorem run_returns_follow_calls (p : ResolvedProgram) (envs : Nat → Env) (s : State)
    (h : ∀ r ∈ returnOffsets s.stack, ∃ c, r = c + 1 ∧ isCallAt p c = true) (n : Nat) :
    ∀ r ∈ returnOffsets (run p envs n s).stack, ∃ c, r = c + 1 ∧ isCallAt p c = true := by
  induction n with
  | zero => exact h
  | succ n ih => exact step_returns_follow_calls p (envs n) _ ih

theorem lookup_subOffsetsFrom (ks : List Kind) (pc f off : Nat)
    (h : (subOffsetsFrom ks pc).lookup f = some off) :
    pc + 1 ≤ off ∧ ks[off - 1 - pc]? = some (Kind.toK f) := by
  induction ks generalizing pc with
  | nil => simp [subOffsetsFrom] at h
  | cons k ks ih =>
    have hrec : ∀ (hh : (subOffsetsFrom ks (pc + 1)).lookup f = some off),
        pc + 1 ≤ off ∧ (k :: ks)[off - 1 - pc]? = some (Kind.toK f) := by
      intro hh
      obtain ⟨h1, h2⟩ := ih (pc + 1) hh
      refine ⟨by omega, ?_⟩
      have : off - 1 - pc = (off - 1 - (pc + 1)) + 1 := by omega
      rw [this, List.getElem?_cons_succ]
      exact h2
    cases k with
    | toK g =>
      simp only [subOffsetsFrom, List.lookup] at h
      by_cases hfg : f = g
      · subst hfg
        simp at h
        subst h
        simp
      · have : (f == g) = false := by simpa using hfg
        rw [this] at h
        exact hrec h
    | _ => exact hrec (by simpa [subOffsetsFrom] using h)

/-- C4: executing `EXEC(F)` (also `EXEC_ARG`, `EXEC_PARAM`, and with `LOGO_MAIN`
for F) leaves the call stack empty and jumps to the offset F resolves to, which
for a subroutine id is the instruction after its `TO`.  From then on no frame
on the stack ever returns to the instruction that follows the `EXEC`, and when
a block terminator is reached with the stack empty, as at the terminating `END`
of F, execution continues at instruction 0 with the stack still empty. -/
theorem exec_never_returns (p : ResolvedProgram) (envs : Nat → Env) (s0 : State) (i : Instr)
    (t : Target) (off : Nat)
    (hsubs : p.subs = subOffsetsFrom (kinds p.code) 0)
    (hm : s0.mode = Mode.Running) (hi : p.code[s0.pc]? = some i)
    (ht : i.execTarget = some t) (hoff : targetOffset p t = some off) :
    (run p envs 1 s0).stack = [] ∧ (run p envs 1 s0).pc = off
      ∧ (run p envs 1 s0).mode = Mode.Running
      ∧ (∀ f, t = Target.sub f → 1 ≤ off ∧ (kinds p.code)[off - 1]? = some (Kind.toK f))
      ∧ (∀ n, s0.pc + 1 ∉ returnOffsets (run p envs (n + 1) s0).stack)
      ∧ (∀ n, (run p envs (n + 1) s0).mode = Mode.Running →
          atTerminator p (run p envs (n + 1) s0).pc = true →
          (run p envs (n + 1) s0).stack = [] →
          (run p envs (n + 2) s0).pc = 0 ∧ (run p envs (n + 2) s0).stack = []) := by
  have h1 : run p envs 1 s0 = s0.jump p t s0.curParam ∨ ∃ x, run p envs 1 s0 = s0.jump p t x := by
    rw [run_succ, run_zero]
    unfold step
    rw [hm]
    simp only [hi]
    cases i <;> simp [Instr.execTarget] at ht <;> subst ht
    · left; rfl
    · right; exact ⟨_, rfl⟩
    · left; rfl
  have h2 : ∃ x, run p envs 1 s0 = s0.jump p t x := by
    rcases h1 with h | h
    · exact ⟨_, h⟩
    · exact h
  obtain ⟨x, h2⟩ := h2
  have hj : (s0.jump p t x).stack = [] ∧ (s0.jump p t x).pc = off
      ∧ (s0.jump p t x).mode = Mode.Running := by
    simp [State.jump, hoff, hm]
  have hexec : isCallAt p s0.pc = false := by
    unfold isCallAt
    rw [hi]
    cases i <;> simp [Instr.execTarget] at ht <;> rfl
  refine ⟨by rw [h2]; exact hj.1, by rw [h2]; exact hj.2.1, by rw [h2]; exact hj.2.2, ?_, ?_, ?_⟩
  · intro f hf
    subst hf
    simp only [targetOffset, hsubs] at hoff
    have := lookup_subOffsetsFrom _ 0 f off hoff
    simpa using this
  · intro n hmem
    have hinv : ∀ r ∈ returnOffsets (run p envs (n + 1) s0).stack,
        ∃ c, r = c + 1 ∧ isCallAt p c = true := by
      have hshift : ∀ m, run p envs (m + 1) s0
          = run p (fun k => envs (k + 1)) m (run p envs 1 s0) := by
        intro m
        induction m with
        | zero => rfl
        | succ m ih => rw [run_succ, ih]; rfl
      rw [hshift]
      apply run_returns_follow_calls
      rw [h2, hj.1]
      simp [returnOffsets]
    obtain ⟨c, hc1, hc2⟩ := hinv _ hmem
    have : c = s0.pc := by omega
    subst this
    rw [hexec] at hc2
    exact absurd hc2 (by simp)
  · intro n hrun hterm hstack
    have : run p envs (n + 2) s0 = (run p envs (n + 1) s0).terminator := by
      rw [run_succ]
      exact step_atTerminator p _ _ hrun hterm
    rw [this]
    simp [State.terminator, hstack]

/-! ## Restart at the top, and the pen -/

/-- C8: when the end of the main body is reached (a block terminator met while
running) with an empty call stack, the program counter becomes 0 and nothing
else changes: both turtles, the pen and every flag keep their values, and no
frame is pushed, so the stack depth is still 0. -/
theorem restart_keeps_state (p : ResolvedProgram) (env : Env) (s : State)
    (hm : s.mode = Mode.Running) (ht : atTerminator p s.pc = true) (hs : s.stack = []) :
    step p env s = { s with pc := 0 }
      ∧ (step p env s).pc = 0
      ∧ (step p env s).plane = s.plane ∧ (step p env s).camera = s.camera
      ∧ (step p env s).active = s.active ∧ (step p env s).penDown = s.penDown
      ∧ (∀ f, (step p env s).flags.get f = s.flags.get f)
      ∧ (step p env s).stack.length = 0 := by
  have h : step p env s = { s with pc := 0 } := by
    rw [step_atTerminator p env s hm ht]
    simp [State.terminator, hs]
  rw [h]
  simp [hs]

theorem nestScan_succ (l : List Kind) (pc0 i : Nat) (n0 : List Block) (k : Kind)
    (h : l[i]? = some k) :
    nestScan l pc0 (i + 1) n0 = nestStep (pc0 + i) (nestScan l pc0 i n0) k := by
  induction l generalizing pc0 i n0 with
  | nil => simp at h
  | cons a l ih =>
    cases i with
    | zero =>
      simp at h
      subst h
      cases l <;> simp [nestScan]
    | succ i =>
      simp only [List.getElem?_cons_succ] at h
      have := ih (pc0 + 1) i (nestStep pc0 n0 a) h
      simp only [nestScan]
      rw [this]
      congr 1
      omega

theorem nestAt_succ (ks : List Kind) (pc : Nat) (k : Kind) (h : ks[pc]? = some k) :
    nestAt ks (pc + 1) = nestStep pc (nestAt ks pc) k := by
  unfold nestAt
  rw [nestScan_succ ks 0 pc [] k h]
  simp

theorem scanAll_sound_aux (f : Nat → List Block → Kind → List Kind → Bool) (l : List Kind)
    (pc0 : Nat) (n0 : List Block) (h : scanAll f l pc0 n0 = true) (i : Nat) (k : Kind)
    (hk : l[i]? = some k) :
    f (pc0 + i) (nestScan l pc0 i n0) k (l.drop (i + 1)) = true := by
  induction l generalizing pc0 i n0 with
  | nil => simp at hk
  | cons a l ih =>
    simp only [scanAll, Bool.and_eq_true] at h
    cases i with
    | zero =>
      simp at hk
      subst hk
      simpa [nestScan] using h.1
    | succ i =>
      simp only [List.getElem?_cons_succ] at hk
      have := ih (pc0 + 1) (nestStep pc0 n0 a) h.2 i hk
      simp only [nestScan, List.drop_succ_cons]
      have e : pc0 + (i + 1) = pc0 + 1 + i := by omega
      rw [e]
      exact this

/-- A one-pass check of a table holds at every instruction, with the blocks
open there. -/
theorem scanAll_sound (f : Nat → List Block → Kind → List Kind → Bool) (ks : List Kind)
    (h : scanAll f ks 0 [] = true) (pc : Nat) (k : Kind) (hk : ks[pc]? = some k) :
    f pc (nestAt ks pc) k (ks.drop (pc + 1)) = true := by
  have := scanAll_sound_aux f ks 0 [] h pc k hk
  simpa [nestAt] using this

theorem nestAt_zero (ks : List Kind) : nestAt ks 0 = [] := by
  cases ks <;> rfl

theorem nestOK_tail (ks : List Kind) (nest : List Block) (h : NestOK ks nest) :
    NestOK ks nest.tail := by
  cases nest with
  | nil => exact h
  | cons b n => exact h.2.2

/-- The blocks open at any offset of a table are consistent with the
instructions that opened them. -/
theorem nestOK_nestAt (ks : List Kind) : ∀ pc, pc ≤ ks.length → NestOK ks (nestAt ks pc) := by
  intro pc
  induction pc with
  | zero => intro _; rw [nestAt_zero]; trivial
  | succ pc ih =>
    intro hpc
    have hlt : pc < ks.length := by omega
    have hk : ks[pc]? = some ks[pc] := List.getElem?_eq_getElem hlt
    have hs := nestAt_succ ks pc _ hk
    have ih' := ih (by omega)
    generalize ks[pc] = k at hk hs
    cases k with
    | loopOpen => rw [hs]; exact ⟨hk, hs, ih'⟩
    | ifOpen => rw [hs]; exact ⟨hk, hs, ih'⟩
    | toK f => rw [hs]; exact ⟨hk, hs, ih'⟩
    | endK => rw [hs]; exact nestOK_tail ks _ ih'
    | simple => rw [hs]; exact ih'
    | elseK => rw [hs]; exact ih'
    | call t => rw [hs]; exact ih'
    | jump t => rw [hs]; exact ih'
    | arm t => rw [hs]; exact ih'

theorem drop_eq_cons_info (ks : List Kind) (p : Nat) (k : Kind) (l : List Kind)
    (h : ks.drop p = k :: l) : ks[p]? = some k ∧ ks.drop (p + 1) = l := by
  constructor
  · have : (ks.drop p)[0]? = some k := by rw [h]; simp
    simpa using this
  · have : (ks.drop p).drop 1 = l := by rw [h]; rfl
    simpa [List.drop_drop, Nat.add_comm] using this

/-- The closer found by `scanClose` closes the block that was innermost when
the scan started: the blocks open at the closer are those open at the start
of the scan, less the ones closed on the way. -/
theorem scanClose_nest (ks : List Kind) (l : List Kind) :
    ∀ (p d : Nat) (e : Bool) (q : Nat), ks.drop p = l → scanClose l p d e = some q →
      p ≤ q ∧ nestAt ks q = (nestAt ks p).drop d
        ∧ (ks[q]? = some Kind.endK ∨ (e = true ∧ ks[q]? = some Kind.elseK)) := by
  induction l with
  | nil => intro p d e q _ h; simp [scanClose] at h
  | cons k l ih =>
    intro p d e q hd h
    obtain ⟨hk, hd'⟩ := drop_eq_cons_info ks p k l hd
    have hs := nestAt_succ ks p k hk
    have push : ∀ b, nestAt ks (p + 1) = b :: nestAt ks p →
        scanClose l (p + 1) (d + 1) e = some q →
        p ≤ q ∧ nestAt ks q = (nestAt ks p).drop d
          ∧ (ks[q]? = some Kind.endK ∨ (e = true ∧ ks[q]? = some Kind.elseK)) := by
      intro b hb hq
      obtain ⟨h1, h2, h3⟩ := ih (p + 1) (d + 1) e q hd' hq
      exact ⟨by omega, by rw [h2, hb]; rfl, h3⟩
    have same : nestAt ks (p + 1) = nestAt ks p →
        scanClose l (p + 1) d e = some q →
        p ≤ q ∧ nestAt ks q = (nestAt ks p).drop d
          ∧ (ks[q]? = some Kind.endK ∨ (e = true ∧ ks[q]? = some Kind.elseK)) := by
      intro hb hq
      obtain ⟨h1, h2, h3⟩ := ih (p + 1) d e q hd' hq
      exact ⟨by omega, by rw [h2, hb], h3⟩
    cases k with
    | loopOpen => exact push _ hs (by simpa [scanClose] using h)
    | ifOpen => exact push _ hs (by simpa [scanClose] using h)
    | toK f => exact push _ hs (by simpa [scanClose] using h)
    | endK =>
      cases d with
      | zero =>
        simp [scanClose] at h
        subst h
        exact ⟨le_refl _, rfl, Or.inl hk⟩
      | succ d =>
        simp only [scanClose] at h
        obtain ⟨h1, h2, h3⟩ := ih (p + 1) d e q hd' h
        refine ⟨by omega, ?_, h3⟩
        rw [h2, hs]
        simp only [nestStep]
        cases nestAt ks p <;> simp
    | elseK =>
      cases d with
      | zero =>
        cases e with
        | true =>
          simp [scanClose] at h
          subst h
          exact ⟨le_refl _, rfl, Or.inr ⟨rfl, hk⟩⟩
        | false => exact same hs (by simpa [scanClose] using h)
      | succ d => exact same hs (by simpa [scanClose] using h)
    | simple => exact same hs (by simpa [scanClose] using h)
    | call t => exact same hs (by simpa [scanClose] using h)
    | jump t => exact same hs (by simpa [scanClose] using h)
    | arm t => exact same hs (by simpa [scanClose] using h)

/-! ## The structure of the two tables -/

/-- C1 (refuted for `rtlInstructions`): in `rtlInstructions` the subroutine
`FS_BASE` runs `DO (SET_ALT_ALT)` (table offset 182, source line 2737), and
`SET_ALT_ALT` is referenced but not declared by any `TO` of that table, so
loading it fails with `UnresolvedSymbol`.  In `instructions` every referenced
id is declared and loading succeeds. -/
theorem rtlInstructions_unresolved_SET_ALT_ALT (c : Config) :
    (rtlInstructions c)[182]? = some (DO SET_ALT_ALT)
      ∧ SET_ALT_ALT ∈ referencedIds (kinds (rtlInstructions c))
      ∧ SET_ALT_ALT ∉ declaredIds (kinds (rtlInstructions c))
      ∧ load (rtlInstructions c) = Except.error (LoadError.UnresolvedSymbol SET_ALT_ALT)
      ∧ (∀ id ∈ referencedIds (kinds (instructions c)), id ∈ declaredIds (kinds (instructions c)))
      ∧ (∃ r, load (instructions c) = Except.ok r) := by
  refine ⟨?_, ?_, ?_, load_rtlInstructions c, ?_, ⟨_, load_instructions c⟩⟩
  · obtain ⟨a, b, d, e, t⟩ := c
    cases t <;> rfl
  · rw [kinds_rtlInstructions]
    generalize c.throttleChannelUsed = b
    cases b <;> decide!
  · rw [kinds_rtlInstructions]
    generalize c.throttleChannelUsed = b
    cases b <;> decide!
  · rw [kinds_instructions]
    generalize c.throttleChannelUsed = b
    cases b <;> decide!

/-- C9: within each of the two tables the subroutine ids carried by the `TO`
declarations are pairwise distinct, the numeric values `#define`d for the
subroutine names are pairwise distinct, and loading neither table fails with
`DuplicateSubroutine`. -/
theorem subroutine_ids_unique (c : Config) :
    (declaredIds (kinds (instructions c))).Nodup
      ∧ (declaredIds (kinds (rtlInstructions c))).Nodup
      ∧ subroutineDefines.Nodup
      ∧ (∀ id, load (instructions c) ≠ Except.error (LoadError.DuplicateSubroutine id))
      ∧ (∀ id, load (rtlInstructions c) ≠ Except.error (LoadError.DuplicateSubroutine id)) := by
  refine ⟨?_, ?_, by decide!, ?_, ?_⟩
  · rw [kinds_instructions]
    generalize c.throttleChannelUsed = b
    cases b <;> decide!
  · rw [kinds_rtlInstructions]
    generalize c.throttleChannelUsed = b
    cases b <;> decide!
  · intro id
    rw [load_instructions]
    simp
  · intro id
    rw [load_rtlInstructions]
    simp

theorem afterMain_of_scan (ks : List Kind) (e t : Nat)
    (h : scanAll (afterMainCheck e t) ks 0 [] = true) :
    (∀ pc, pc < ks.length → (ks[pc]?).any Kind.isTo = true → e < pc)
      ∧ (∀ pc, pc < ks.length → t ≤ pc →
          ks[pc]? = some Kind.endK ∨ inDefinition ks pc = true) := by
  have key : ∀ pc, pc < ks.length → ∃ k, ks[pc]? = some k
      ∧ afterMainCheck e t pc (nestAt ks pc) k (ks.drop (pc + 1)) = true := by
    intro pc hpc
    have hk : ks[pc]? = some ks[pc] := List.getElem?_eq_getElem hpc
    exact ⟨ks[pc], hk, scanAll_sound _ ks h pc _ hk⟩
  constructor
  · intro pc hpc hto
    obtain ⟨k, hk, hc⟩ := key pc hpc
    rw [hk] at hto
    simp only [Option.any_some] at hto
    simp only [afterMainCheck, Bool.and_eq_true, Bool.or_eq_true, Bool.not_eq_true',
      decide_eq_true_eq] at hc
    rcases hc.1 with h1 | h1
    · rw [hto] at h1; exact absurd h1 (by simp)
    · exact h1
  · intro pc hpc htp
    obtain ⟨k, hk, hc⟩ := key pc hpc
    simp only [afterMainCheck, Bool.and_eq_true, Bool.or_eq_true, Bool.not_eq_true',
      decide_eq_true_eq, decide_eq_false_iff_not, beq_iff_eq] at hc
    rcases hc.2 with ((h1 | h1) | h1) | h1
    · exact absurd htp h1
    · left; rw [hk, h1]
    · right; simp [inDefinition, hk, h1]
    · right; simp [inDefinition, h1]

/-- C10: in both tables all subroutines come after the end of the main
program.  The main body is terminated by an `END` (the first `END` met with no
block open), every `TO` lies after it, and from the first `TO` onwards every
instruction other than an `END` belongs to a subroutine definition. -/
theorem subroutines_after_main (c : Config) :
    SubroutinesAfterMain (kinds (instructions c))
      ∧ SubroutinesAfterMain (kinds (rtlInstructions c)) := by
  unfold SubroutinesAfterMain
  constructor
  · rw [kinds_instructions]
    generalize c.throttleChannelUsed = b
    have h1 : mainEnd (kinds (instructions (Config.shape b))) = some 12 := by
      cases b <;> decide!
    have h2 : firstTo (kinds (instructions (Config.shape b))) = some 14 := by
      cases b <;> decide!
    have h3 : scanAll (afterMainCheck 12 14) (kinds (instructions (Config.shape b))) 0 []
        = true := by
      cases b <;> decide!
    have h4 := afterMain_of_scan _ 12 14 h3
    exact ⟨⟨12, h1, h4.1⟩, ⟨14, h2, h4.2⟩⟩
  · rw [kinds_rtlInstructions]
    generalize c.throttleChannelUsed = b
    have h1 : mainEnd (kinds (rtlInstructions (Config.shape b))) = some 1 := by
      cases b <;> decide!
    have h2 : firstTo (kinds (rtlInstructions (Config.shape b))) = some 3 := by
      cases b <;> decide!
    have h3 : scanAll (afterMainCheck 1 3) (kinds (rtlInstructions (Config.shape b))) 0 []
        = true := by
      cases b <;> decide!
    have h4 := afterMain_of_scan _ 1 3 h3
    exact ⟨⟨1, h1, h4.1⟩, ⟨3, h2, h4.2⟩⟩


/-! ## The stack mirrors the block structure -/

theorem kinds_getElem? (code : List Instr) (pc : Nat) :
    (kinds code)[pc]? = (code[pc]?).map Instr.kind := by
  simp [kinds]

theorem matches_setFrameParam (ks : List Kind) (nest : List Block) (st : List Frame) (v : Int)
    (h : Matches ks nest st) : Matches ks nest (setFrameParam v st) := by
  induction h with
  | main => exact Matches.main
  | entered f o nest => exact Matches.entered f o nest
  | cond o nest st _ ih => exact Matches.cond o nest _ ih
  | loop o nest st k _ ih => exact Matches.loop o nest _ k ih
  | called f o nest c v' st hc hm _ => exact Matches.called f o nest c v st hc hm

theorem matches_cond_inv (ks : List Kind) (o : Nat) (nest : List Block) (st : List Frame)
    (h : Matches ks (Block.cond o :: nest) st) : Matches ks nest st := by
  cases h with
  | cond _ _ _ h => exact h

theorem matches_loop_inv (ks : List Kind) (o : Nat) (nest : List Block) (st : List Frame)
    (h : Matches ks (Block.loop o :: nest) st) :
    ∃ k st', st = Frame.loop (o + 1) k :: st' ∧ Matches ks nest st' := by
  cases h with
  | loop _ _ st' k h => exact ⟨k, st', rfl, h⟩

theorem matches_sub_inv (ks : List Kind) (f o : Nat) (nest : List Block) (st : List Frame)
    (h : Matches ks (Block.sub f o :: nest) st) :
    st = [] ∨ ∃ c v st', st = Frame.sub (c + 1) v (Target.sub f) :: st'
      ∧ ks[c]? = some (Kind.call (Target.sub f)) ∧ Matches ks (nestAt ks c) st' := by
  cases h with
  | entered => exact Or.inl rfl
  | called _ _ _ c v st' hc hm => exact Or.inr ⟨c, v, st', rfl, hc, hm⟩

theorem matches_nil_inv (ks : List Kind) (st : List Frame) (h : Matches ks [] st) : st = [] := by
  cases h with
  | main => rfl

theorem nextOK_drop (ks : List Kind) (pc : Nat) (h : nextOK (ks.drop (pc + 1)) = true) :
    ∃ k, ks[pc + 1]? = some k ∧ k.isTo = false := by
  cases hd : ks.drop (pc + 1) with
  | nil => rw [hd] at h; simp [nextOK] at h
  | cons k l =>
    rw [hd] at h
    refine ⟨k, (drop_eq_cons_info ks (pc + 1) k l hd).1, ?_⟩
    simpa [nextOK] using h

theorem nextOK_head (ks : List Kind) (h : nextOK ks = true) :
    ∃ k, ks[0]? = some k ∧ k.isTo = false := by
  cases ks with
  | nil => simp [nextOK] at h
  | cons k l => exact ⟨k, by simp, by simpa [nextOK] using h⟩

/-- The stack is no deeper than the static bound at the program point it
mirrors. -/
theorem matches_length (cert : List (Nat × Nat)) (ks : List Kind)
    (hOK : scanAll (depthCheck cert) ks 0 [] = true) (nest : List Block) (st : List Frame)
    (h : Matches ks nest st) : st.length ≤ depthBound cert nest := by
  induction h with
  | main => simp
  | entered f o nest => simp
  | cond o nest st _ ih => simpa [depthBound] using ih
  | loop o nest st k _ ih => simpa [depthBound] using ih
  | called f o nest c v st hc _ ih =>
    have chk := scanAll_sound _ ks hOK c _ hc
    simp only [depthCheck, flowCheck, Bool.and_eq_true, decide_eq_true_eq] at chk
    simp only [depthBound, List.length_cons]
    omega

/-- What executing an instruction does to the program counter and the stack,
by the kind of the instruction. -/
theorem execute_by_kind (p : ResolvedProgram) (env : Env) (s : State) (i : Instr) :
    match i.kind with
    | Kind.simple | Kind.arm _ =>
      (execute p env s i).pc = s.pc + 1
        ∧ ((execute p env s i).stack = s.stack
            ∨ ∃ v, (execute p env s i).stack = setFrameParam v s.stack)
        ∧ ((execute p env s i).mode = s.mode
            ∨ (execute p env s i).mode = Mode.AwaitingArrival)
    | Kind.loopOpen => ∃ k, execute p env s i = s.push (Frame.loop (s.pc + 1) k) (s.pc + 1)
    | Kind.ifOpen =>
      ((execute p env s i).pc = s.pc + 1
          ∨ (execute p env s i).pc = skipTarget (kinds p.code) s.pc true)
        ∧ (execute p env s i).stack = s.stack ∧ (execute p env s i).mode = s.mode
    | Kind.elseK =>
      (execute p env s i).pc = skipTarget (kinds p.code) s.pc false
        ∧ (execute p env s i).stack = s.stack ∧ (execute p env s i).mode = s.mode
    | Kind.endK =>
      execute p env s i = if closesIf (kinds p.code) s.pc then s.next else s.terminator
    | Kind.toK _ => True
    | Kind.call t => ∃ v, execute p env s i = s.call p t v
    | Kind.jump t => ∃ v, execute p env s i = s.jump p t v := by
  have hset : ∀ v, (s.setParam v).next.pc = s.pc + 1
      ∧ ((s.setParam v).next.stack = s.stack
          ∨ ∃ v', (s.setParam v).next.stack = setFrameParam v' s.stack)
      ∧ ((s.setParam v).next.mode = s.mode
          ∨ (s.setParam v).next.mode = Mode.AwaitingArrival) := by
    intro v
    refine ⟨by simp [State.next, setParam_pc], ?_, Or.inl (by simp [State.next, setParam_mode])⟩
    rcases setParam_next_cases s v with h | h
    · exact Or.inl h.1
    · exact Or.inr ⟨v, h.1⟩
  have hmoved : ∀ s' : State, s'.pc = s.pc → s'.stack = s.stack → s'.mode = s.mode →
      s'.moved.pc = s.pc + 1
      ∧ (s'.moved.stack = s.stack ∨ ∃ v', s'.moved.stack = setFrameParam v' s.stack)
      ∧ (s'.moved.mode = s.mode ∨ s'.moved.mode = Mode.AwaitingArrival) := by
    intro s' h1 h2 h3
    refine ⟨by rw [moved_pc, h1], Or.inl (by rw [moved_stack, h2]), ?_⟩
    unfold State.moved
    split
    · right; rfl
    · left; exact h3
  have hme : ∀ j, (moveEffect env s j).moved.pc = s.pc + 1
      ∧ ((moveEffect env s j).moved.stack = s.stack
          ∨ ∃ v', (moveEffect env s j).moved.stack = setFrameParam v' s.stack)
      ∧ ((moveEffect env s j).moved.mode = s.mode
          ∨ (moveEffect env s j).moved.mode = Mode.AwaitingArrival) :=
    fun j => hmoved _ (moveEffect_pc env s j) (moveEffect_stack env s j) (moveEffect_mode env s j)
  cases i with
  | repeatN n => exact ⟨_, rfl⟩
  | repeatForever => exact ⟨_, rfl⟩
  | repeatParam => exact ⟨_, rfl⟩
  | ifVal c v x =>
    simp only [Instr.kind, execute]
    split <;> simp [State.next]
  | ifParam c v =>
    simp only [Instr.kind, execute]
    split <;> simp [State.next]
  | elseBlock => simp [Instr.kind, execute]
  | endBlock => simp [Instr.kind, execute]
  | toSub f => trivial
  | doSub t => exact ⟨_, rfl⟩
  | doArg t x => exact ⟨_, rfl⟩
  | doParam t => exact ⟨_, rfl⟩
  | exec t => exact ⟨_, rfl⟩
  | execArg t x => exact ⟨_, rfl⟩
  | execParam t => exact ⟨_, rfl⟩
  | paramSet x => exact hset _
  | paramAdd x => exact hset _
  | paramSub x => exact hset _
  | paramMul x => exact hset _
  | paramDiv x => exact hset _
  | loadToParam v =>
    simp only [Instr.kind, execute]
    cases resolve env s v with
    | none => simp [State.next]
    | some a => exact hset a
  | home => exact hme _
  | useCurrentPos => exact hme _
  | fd a => exact hme _
  | bk a => exact hme _
  | east a => exact hme _
  | west a => exact hme _
  | setXPos a => exact hme _
  | north a => exact hme _
  | south a => exact hme _
  | setYPos a => exact hme _
  | setPos x y => exact hme _
  | setAbsPos x y => exact hme _
  | altUp a => exact hme _
  | altDown a => exact hme _
  | setAlt a => exact hme _
  | speedIncrease a => exact hme _
  | speedDecrease a => exact hme _
  | setSpeed a => exact hme _
  | _ => simp [Instr.kind, execute, State.next, setTurtle_pc, setTurtle_stack, setTurtle_mode]

/-! ## A step keeps the stack in line with the block structure -/

theorem depthCheck_at (cert : List (Nat × Nat)) (ks : List Kind)
    (hOK : depthOK cert ks = true) (pc : Nat) (k : Kind) (hk : ks[pc]? = some k) :
    flowCheck cert pc (nestAt ks pc) k (ks.drop (pc + 1)) = true := by
  simp only [depthOK, Bool.and_eq_true] at hOK
  have := scanAll_sound _ ks hOK.2 pc k hk
  unfold depthCheck at this
  simp only [Bool.and_eq_true] at this
  exact this.2

theorem depthBound_at (cert : List (Nat × Nat)) (ks : List Kind)
    (hOK : depthOK cert ks = true) (pc : Nat) (k : Kind) (hk : ks[pc]? = some k) :
    depthBound cert (nestAt ks pc) ≤ STACK_DEPTH := by
  simp only [depthOK, Bool.and_eq_true] at hOK
  have := scanAll_sound _ ks hOK.2 pc k hk
  unfold depthCheck at this
  simp only [Bool.and_eq_true, decide_eq_true_eq] at this
  exact this.1

theorem trackedAt_zero (cert : List (Nat × Nat)) (ks : List Kind)
    (hOK : depthOK cert ks = true) : TrackedAt ks 0 [] := by
  simp only [depthOK, Bool.and_eq_true] at hOK
  refine ⟨nextOK_head ks hOK.1, ?_⟩
  rw [nestAt_zero]
  exact Matches.main

theorem lt_length_of_getElem? (ks : List Kind) (pc : Nat) (k : Kind) (h : ks[pc]? = some k) :
    pc < ks.length := by
  by_contra hc
  rw [List.getElem?_eq_none (by omega)] at h
  exact absurd h (by simp)

/-- Entering a subroutine: the offset a subroutine id resolves to holds an
instruction that is not a `TO`, and the only block open there is the
definition of that subroutine. -/
theorem entry_point (cert : List (Nat × Nat)) (ks : List Kind) (hOK : depthOK cert ks = true)
    (f off : Nat) (h : (subOffsetsFrom ks 0).lookup f = some off) :
    (∃ k, ks[off]? = some k ∧ k.isTo = false)
      ∧ ∃ o nest, nestAt ks off = Block.sub f o :: nest := by
  obtain ⟨h1, h2⟩ := lookup_subOffsetsFrom ks 0 f off h
  simp only [Nat.sub_zero] at h2
  obtain ⟨o, rfl⟩ : ∃ o, off = o + 1 := ⟨off - 1, by omega⟩
  simp only [Nat.add_sub_cancel] at h2
  have chk := depthCheck_at cert ks hOK o _ h2
  simp only [flowCheck] at chk
  exact ⟨nextOK_drop ks o chk, o, nestAt ks o, by rw [nestAt_succ ks o _ h2]; rfl⟩

/-- A block terminator keeps the stack in line with the blocks: it goes back
to the start of the loop, leaves the loop, returns from the subroutine, or
restarts at the top. -/
theorem tracked_terminator (cert : List (Nat × Nat)) (ks : List Kind)
    (hOK : depthOK cert ks = true) (s : State)
    (hk : ks[s.pc]? = some Kind.endK) (hM : Matches ks (nestAt ks s.pc) s.stack)
    (hc : closesIf ks s.pc = false) :
    TrackedAt ks s.terminator.pc s.terminator.stack := by
  have hlt := lt_length_of_getElem? ks s.pc _ hk
  have hnest := nestOK_nestAt ks s.pc (by omega)
  have chk := depthCheck_at cert ks hOK s.pc _ hk
  have hs := nestAt_succ ks s.pc _ hk
  cases hN : nestAt ks s.pc with
  | nil =>
    rw [hN] at hM
    have := matches_nil_inv ks _ hM
    simp only [State.terminator, this]
    exact trackedAt_zero cert ks hOK
  | cons b nest =>
    rw [hN] at hM hnest hs chk
    cases b with
    | cond o => simp [closesIf, hN] at hc
    | loop o =>
      obtain ⟨k, st', hst, hM'⟩ := matches_loop_inv ks o nest _ hM
      obtain ⟨hko, hno, _⟩ := hnest
      simp only [Block.opener, Block.kind] at hko hno
      have chko := depthCheck_at cert ks hOK o _ hko
      simp only [flowCheck, Bool.and_eq_true] at chko
      have back : ∀ k', TrackedAt ks (o + 1) (Frame.loop (o + 1) k' :: st') :=
        fun k' => ⟨nextOK_drop ks o chko.1, by rw [hno]; exact Matches.loop o nest st' k' hM'⟩
      simp only [flowCheck] at chk
      have out : TrackedAt ks (s.pc + 1) st' :=
        ⟨nextOK_drop ks s.pc chk, by rw [hs]; exact hM'⟩
      cases k with
      | none =>
        simp only [State.terminator, hst]
        exact back none
      | some j =>
        simp only [State.terminator, hst]
        split
        · exact back _
        · exact out
    | sub f o =>
      rcases matches_sub_inv ks f o nest _ hM with hst | ⟨c, v, st', hst, hcall, hM'⟩
      · simp only [State.terminator, hst]
        exact trackedAt_zero cert ks hOK
      · simp only [State.terminator, hst]
        have chkc := depthCheck_at cert ks hOK c _ hcall
        simp only [flowCheck, Bool.and_eq_true] at chkc
        exact ⟨nextOK_drop ks c chkc.1.1, by rw [nestAt_succ ks c _ hcall]; exact hM'⟩

/-- Skipping a block keeps the stack in line with the blocks: the target of
the skip lies in the block the skip started from. -/
theorem tracked_skip (cert : List (Nat × Nat)) (ks : List Kind)
    (hOK : depthOK cert ks = true) (pc : Nat) (st : List Frame) (e : Bool)
    (hnext : Matches ks (nestAt ks (pc + 1)) st)
    (hsome : (scanClose (ks.drop (pc + 1)) (pc + 1) 0 e).isSome = true) :
    TrackedAt ks (skipTarget ks pc e) st := by
  obtain ⟨q, hq⟩ := Option.isSome_iff_exists.mp hsome
  obtain ⟨_, hn, hkq⟩ := scanClose_nest ks _ (pc + 1) 0 e q rfl hq
  simp only [List.drop_zero] at hn
  simp only [skipTarget, hq]
  rcases hkq with hend | ⟨_, helse⟩
  · rw [hend]
    simp only [reduceCtorEq, ↓reduceIte, Option.some.injEq]
    exact ⟨⟨_, hend, rfl⟩, by rw [hn]; exact hnext⟩
  · rw [helse]
    simp only [↓reduceIte]
    have chk := depthCheck_at cert ks hOK q _ helse
    simp only [flowCheck, Bool.and_eq_true] at chk
    exact ⟨nextOK_drop ks q chk.1, by
      rw [nestAt_succ ks q _ helse]
      simp only [nestStep]
      rw [hn]
      exact hnext⟩

/-- One step of the engine keeps the stack in line with the block structure,
and never overflows the stack. -/
theorem tracked_step (cert : List (Nat × Nat)) (p : ResolvedProgram)
    (hOK : depthOK cert (kinds p.code) = true)
    (hsubs : p.subs = subOffsetsFrom (kinds p.code) 0) (env : Env) (s : State)
    (hT : Tracked p s) (hmode : s.mode ≠ Mode.Halted Fault.StackOverflow) :
    Tracked p (step p env s) ∧ (step p env s).mode ≠ Mode.Halted Fault.StackOverflow := by
  obtain ⟨⟨k, hk, hkto⟩, hM⟩ := hT
  have hscan : scanAll (depthCheck cert) (kinds p.code) 0 [] = true := by
    simp only [depthOK, Bool.and_eq_true] at hOK
    exact hOK.2
  have hlen := matches_length cert _ hscan _ _ hM
  have chk := depthCheck_at cert _ hOK s.pc k hk
  have hs := nestAt_succ _ s.pc k hk
  unfold step
  cases hm : s.mode with
  | Halted f =>
    simp only
    exact ⟨⟨⟨k, hk, hkto⟩, hM⟩, hmode⟩
  | AwaitingArrival =>
    simp only
    split
    · exact ⟨⟨⟨k, hk, hkto⟩, hM⟩, by simp⟩
    · exact ⟨⟨⟨k, hk, hkto⟩, hM⟩, by rw [hm]; simp⟩
  | Running =>
    simp only
    rw [kinds_getElem?] at hk
    cases hi : p.code[s.pc]? with
    | none => rw [hi] at hk; simp at hk
    | some i =>
      rw [hi] at hk
      simp only [Option.map_some', Option.some.injEq] at hk
      simp only
      have hex := execute_by_kind p env s i
      rw [hk] at hex
      have hk' : (kinds p.code)[s.pc]? = some k := by rw [kinds_getElem?, hi, ← hk]; rfl
      have hpush : ∀ (fr : Frame) (pc' : Nat), s.stack.length < STACK_DEPTH →
          TrackedAt (kinds p.code) pc' (fr :: s.stack) →
          Tracked p (s.push fr pc') ∧ (s.push fr pc').mode ≠ Mode.Halted Fault.StackOverflow := by
        intro fr pc' hroom htr
        rcases push_cases s fr pc' with h | h
        · exact absurd hroom h.2.2.2
        · refine ⟨?_, by rw [h.2.2.2.1, hm]; simp⟩
          unfold Tracked
          rw [h.1, h.2.2.1]
          exact htr
      cases k with
      | toK f => simp [Kind.isTo] at hkto
      | simple =>
        simp only at hex
        simp only [flowCheck] at chk
        refine ⟨⟨by rw [hex.1]; exact nextOK_drop _ s.pc chk, ?_⟩, ?_⟩
        · rw [hex.1, hs]
          rcases hex.2.1 with h | ⟨v, h⟩
          · rw [h]; exact hM
          · rw [h]; exact matches_setFrameParam _ _ _ v hM
        · rcases hex.2.2 with h | h
          · rw [h, hm]; simp
          · rw [h]; simp
      | arm t =>
        simp only at hex
        simp only [flowCheck] at chk
        refine ⟨⟨by rw [hex.1]; exact nextOK_drop _ s.pc chk, ?_⟩, ?_⟩
        · rw [hex.1, hs]
          rcases hex.2.1 with h | ⟨v, h⟩
          · rw [h]; exact hM
          · rw [h]; exact matches_setFrameParam _ _ _ v hM
        · rcases hex.2.2 with h | h
          · rw [h, hm]; simp
          · rw [h]; simp
      | loopOpen =>
        simp only at hex
        obtain ⟨j, hex⟩ := hex
        simp only [flowCheck, Bool.and_eq_true, decide_eq_true_eq] at chk
        rw [hex]
        refine hpush _ _ (by omega) ⟨nextOK_drop _ s.pc chk.1, ?_⟩
        rw [hs]
        exact Matches.loop s.pc _ _ j hM
      | ifOpen =>
        simp only at hex
        simp only [flowCheck, Bool.and_eq_true] at chk
        have hM' : Matches (kinds p.code) (nestAt (kinds p.code) (s.pc + 1)) s.stack := by
          rw [hs]; exact Matches.cond s.pc _ _ hM
        refine ⟨?_, by rw [hex.2.2, hm]; simp⟩
        unfold Tracked
        rw [hex.2.1]
        rcases hex.1 with h | h
        · rw [h]; exact ⟨nextOK_drop _ s.pc chk.1, hM'⟩
        · rw [h]; exact tracked_skip cert _ hOK s.pc _ true hM' chk.2
      | elseK =>
        simp only at hex
        simp only [flowCheck, Bool.and_eq_true] at chk
        have hM' : Matches (kinds p.code) (nestAt (kinds p.code) (s.pc + 1)) s.stack := by
          rw [hs]; exact hM
        refine ⟨?_, by rw [hex.2.2, hm]; simp⟩
        unfold Tracked
        rw [hex.2.1, hex.1]
        exact tracked_skip cert _ hOK s.pc _ false hM' chk.2
      | endK =>
        simp only at hex
        rw [hex]
        cases hc : closesIf (kinds p.code) s.pc with
        | true =>
          simp only [↓reduceIte]
          refine ⟨?_, by simp [State.next, hm]⟩
          unfold closesIf at hc
          cases hN : nestAt (kinds p.code) s.pc with
          | nil => rw [hN] at hc; simp at hc
          | cons b nest =>
            rw [hN] at hc hM hs chk
            cases b with
            | cond o =>
              simp only [flowCheck] at chk
              exact ⟨nextOK_drop _ s.pc chk,
                by simp only [State.next]; rw [hs]; exact matches_cond_inv _ o nest _ hM⟩
            | loop o => simp at hc
            | sub f o => simp at hc
        | false =>
          simp only [Bool.false_eq_true, ↓reduceIte]
          exact ⟨tracked_terminator cert _ hOK s hk' hM hc, by rw [terminator_mode, hm]; simp⟩
      | call t =>
        simp only at hex
        obtain ⟨v, hex⟩ := hex
        simp only [flowCheck, Bool.and_eq_true, decide_eq_true_eq] at chk
        rw [hex]
        unfold State.call
        cases hoff : targetOffset p t with
        | none => exact ⟨⟨⟨_, hk', hkto⟩, hM⟩, by simp⟩
        | some off =>
          simp only
          refine hpush _ _ (by omega) ?_
          cases t with
          | LOGO_MAIN => simp [entryDepth] at chk
          | sub f =>
            simp only [targetOffset, hsubs] at hoff
            obtain ⟨hko, o, nest, hno⟩ := entry_point cert _ hOK f off hoff
            exact ⟨hko, by rw [hno]; exact Matches.called f o nest s.pc v _ hk' hM⟩
      | jump t =>
        simp only at hex
        obtain ⟨v, hex⟩ := hex
        rw [hex]
        unfold State.jump
        cases hoff : targetOffset p t with
        | none => exact ⟨⟨⟨_, hk', hkto⟩, hM⟩, by simp⟩
        | some off =>
          simp only
          refine ⟨?_, by rw [hm]; simp⟩
          cases t with
          | LOGO_MAIN =>
            simp only [targetOffset, Option.some.injEq] at hoff
            subst hoff
            exact trackedAt_zero cert _ hOK
          | sub f =>
            simp only [targetOffset, hsubs] at hoff
            obtain ⟨hko, o, nest, hno⟩ := entry_point cert _ hOK f off hoff
            exact ⟨hko, by rw [hno]; exact Matches.entered f o nest⟩

/-- A tracked state has a stack within the static bound of its program point,
which is within `STACK_DEPTH`. -/
theorem tracked_depth (cert : List (Nat × Nat)) (p : ResolvedProgram)
    (hOK : depthOK cert (kinds p.code) = true) (s : State) (hT : Tracked p s) :
    s.stack.length ≤ STACK_DEPTH := by
  obtain ⟨⟨k, hk, _⟩, hM⟩ := hT
  have hscan : scanAll (depthCheck cert) (kinds p.code) 0 [] = true := by
    simp only [depthOK, Bool.and_eq_true] at hOK
    exact hOK.2
  have h1 := matches_length cert _ hscan _ _ hM
  have h2 := depthBound_at cert _ hOK s.pc k hk
  omega

theorem depthOK_instructions (b : Bool) :
    depthOK instructionsEntryDepths (kinds (instructions (Config.shape b))) = true := by
  cases b <;> decide!

/-- C2: executing the mission table `instructions` from an empty call stack,
from the top of the main body or from the first instruction of any subroutine
(so of any `EXEC` target), under every telemetry and with the interrupt
handler changing the shared turtle state between steps, the call stack (one
frame per active `REPEAT*` loop and per active `DO*` call) never holds more
than 12 frames and the engine never halts with `StackOverflow`. -/
theorem mission_never_overflows (c : Config) (p : ResolvedProgram)
    (hload : load (instructions c) = Except.ok p) (s0 : State) (hstack : s0.stack = [])
    (hmode : s0.mode ≠ Mode.Halted Fault.StackOverflow)
    (hpc : s0.pc = 0 ∨ ∃ f off, targetOffset p (Target.sub f) = some off ∧ s0.pc = off)
    (s : State) (hr : Reach p s0 s) :
    s.stack.length ≤ 12 ∧ s.mode ≠ Mode.Halted Fault.StackOverflow := by
  rw [load_instructions] at hload
  simp only [Except.ok.injEq] at hload
  have hcode : p.code = instructions c := by rw [← hload]
  have hsubs : p.subs = subOffsetsFrom (kinds p.code) 0 := by rw [← hload]
  have hOK : depthOK instructionsEntryDepths (kinds p.code) = true := by
    rw [hcode, kinds_instructions]
    exact depthOK_instructions _
  have h0 : Tracked p s0 := by
    unfold Tracked
    rw [hstack]
    rcases hpc with h | ⟨f, off, hoff, h⟩
    · rw [h]; exact trackedAt_zero _ _ hOK
    · rw [h]
      simp only [targetOffset, hsubs] at hoff
      obtain ⟨hko, o, nest, hno⟩ := entry_point _ _ hOK f off hoff
      exact ⟨hko, by rw [hno]; exact Matches.entered f o nest⟩
  have hinv : Tracked p s ∧ s.mode ≠ Mode.Halted Fault.StackOverflow := by
    induction hr with
    | start => exact ⟨h0, hmode⟩
    | step env s _ ih => exact tracked_step _ p hOK hsubs env s ih.1 ih.2
    | shared s pl ca ac pe fl sp it _ ih => exact ih
  exact ⟨tracked_depth _ p hOK s hinv.1, hinv.2⟩

/-! ## The documented square -/

theorem sq_repeat (alt : Int) (env : Env) :
    step squareProgram env (squareState alt 0 [] 0 0 0 Mode.Running)
      = squareState alt 1 [Frame.loop 1 (some 4)] 0 0 0 Mode.Running := by
  simp [step, squareProgram, squareState, execute, State.push, STACK_DEPTH, State.reset]

theorem sq_fd (alt : Int) (env : Env) (k : Option Int) (x y h : Int) :
    step squareProgram env (squareState alt 1 [Frame.loop 1 k] x y h Mode.Running)
      = squareState alt 2 [Frame.loop 1 k] (x + (env.displacement h 100).1)
          (y + (env.displacement h 100).2) h Mode.AwaitingArrival := by
  simp [step, squareProgram, squareState, execute, State.reset, moveEffect, State.moved,
    State.setTurtle, State.turtle, State.arg]

theorem sq_rt (alt : Int) (env : Env) (k : Option Int) (x y h : Int) :
    step squareProgram env (squareState alt 2 [Frame.loop 1 k] x y h Mode.Running)
      = squareState alt 3 [Frame.loop 1 k] x y (normHeading (h + 90)) Mode.Running := by
  simp [step, squareProgram, squareState, execute, State.reset, State.next,
    State.setTurtle, State.turtle, State.arg]

theorem sq_end_back (alt : Int) (env : Env) (k : Int) (x y h : Int) (hk : 0 < k - 1) :
    step squareProgram env (squareState alt 3 [Frame.loop 1 (some k)] x y h Mode.Running)
      = squareState alt 1 [Frame.loop 1 (some (k - 1))] x y h Mode.Running := by
  have hc : closesIf (kinds squareProgram.code) 3 = false := by decide
  simp [step, squareState, execute, State.reset, State.terminator, hk, hc]
  simp [squareProgram]

theorem sq_end_exit (alt : Int) (env : Env) (x y h : Int) :
    step squareProgram env (squareState alt 3 [Frame.loop 1 (some 1)] x y h Mode.Running)
      = squareState alt 4 [] x y h Mode.Running := by
  have hc : closesIf (kinds squareProgram.code) 3 = false := by decide
  simp [step, squareState, execute, State.reset, State.terminator, hc]
  simp [squareProgram]

theorem sq_wait (alt : Int) (env : Env) (pc : Nat) (st : List Frame) (x y h : Int) :
    step squareProgram env (squareState alt pc st x y h Mode.AwaitingArrival)
      = if env.arrived then squareState alt pc st x y h Mode.Running
        else squareState alt pc st x y h Mode.AwaitingArrival := by
  simp [step, squareState]

theorem planeLog_succ_same (p : ResolvedProgram) (envs : Nat → Env) (s : State) (n : Nat)
    (h : (run p envs (n + 1) s).plane = (run p envs n s).plane) :
    planeLog p envs s (n + 1) = planeLog p envs s n := by
  simp [planeLog, h]

theorem planeLog_succ_changed (p : ResolvedProgram) (envs : Nat → Env) (s : State) (n : Nat)
    (h : (run p envs (n + 1) s).plane ≠ (run p envs n s).plane) :
    planeLog p envs s (n + 1) = planeLog p envs s n ++ [(run p envs (n + 1) s).plane] := by
  simp [planeLog, h]

/-- While the square program waits for arrival nothing is logged, and once
`hasArrived()` is true the program runs on from the same state. -/
theorem sq_wait_until (alt : Int) (envs : Nat → Env) (s0 : State) (pc : Nat) (st : List Frame)
    (x y h : Int) (L : List Turtle) :
    ∀ d t, (envs (t + d)).arrived = true →
      run squareProgram envs t s0 = squareState alt pc st x y h Mode.AwaitingArrival →
      planeLog squareProgram envs s0 t = L →
      ∃ t', run squareProgram envs t' s0 = squareState alt pc st x y h Mode.Running
        ∧ planeLog squareProgram envs s0 t' = L := by
  intro d
  induction d with
  | zero =>
    intro t ha hr hl
    simp only [Nat.add_zero] at ha
    refine ⟨t + 1, ?_, ?_⟩
    · rw [run_succ, hr, sq_wait, ha]; simp
    · rw [planeLog_succ_same, hl]
      rw [run_succ, hr, sq_wait, ha]; simp [squareState]
  | succ d ih =>
    intro t ha hr hl
    cases hat : (envs t).arrived with
    | true =>
      refine ⟨t + 1, ?_, ?_⟩
      · rw [run_succ, hr, sq_wait, hat]; simp
      · rw [planeLog_succ_same, hl]
        rw [run_succ, hr, sq_wait, hat]; simp [squareState]
    | false =>
      have hr' : run squareProgram envs (t + 1) s0
          = squareState alt pc st x y h Mode.AwaitingArrival := by
        rw [run_succ, hr, sq_wait, hat]; simp
      have hl' : planeLog squareProgram envs s0 (t + 1) = L := by
        rw [planeLog_succ_same, hl]
        rw [hr', hr]
      exact ih (t + 1) (by rw [show t + 1 + d = t + (d + 1) by omega]; exact ha) hr' hl'

/-- One side of the square: a forward move that is waited for, then the turn. -/
theorem sq_side (alt : Int) (envs : Nat → Env) (s0 : State) (k : Option Int)
    (x y h dx dy x' y' h' : Int) (L L' : List Turtle)
    (harr : ∀ t, ∃ j, t ≤ j ∧ (envs j).arrived = true)
    (hd : ∀ t, (envs t).displacement h 100 = (dx, dy))
    (hx : x + dx = x') (hy : y + dy = y') (hh : normHeading (h + 90) = h')
    (hL : L ++ [⟨x', y', alt, h⟩, ⟨x', y', alt, h'⟩] = L')
    (hmove : dx ≠ 0 ∨ dy ≠ 0) (hturn : h' ≠ h) (t : Nat)
    (hr : run squareProgram envs t s0 = squareState alt 1 [Frame.loop 1 k] x y h Mode.Running)
    (hl : planeLog squareProgram envs s0 t = L) :
    ∃ t', run squareProgram envs t' s0 = squareState alt 3 [Frame.loop 1 k] x' y' h' Mode.Running
      ∧ planeLog squareProgram envs s0 t' = L' := by
  subst hx hy hh hL
  have h1 : run squareProgram envs (t + 1) s0
      = squareState alt 2 [Frame.loop 1 k] (x + dx) (y + dy) h Mode.AwaitingArrival := by
    rw [run_succ, hr, sq_fd, hd]
  have l1 : planeLog squareProgram envs s0 (t + 1) = L ++ [⟨x + dx, y + dy, alt, h⟩] := by
    rw [planeLog_succ_changed, hl, h1]
    · simp [squareState]
    · rw [h1, hr]
      simp only [squareState, ne_eq, Turtle.mk.injEq, not_and]
      intro hx hy
      rcases hmove with hm | hm
      · omega
      · omega
  obtain ⟨j, hj, hja⟩ := harr (t + 1)
  obtain ⟨t2, h2, l2⟩ := sq_wait_until alt envs s0 2 [Frame.loop 1 k] (x + dx) (y + dy) h _
    (j - (t + 1)) (t + 1) (by rw [show t + 1 + (j - (t + 1)) = j by omega]; exact hja) h1 l1
  have h3 : run squareProgram envs (t2 + 1) s0
      = squareState alt 3 [Frame.loop 1 k] (x + dx) (y + dy) (normHeading (h + 90))
          Mode.Running := by
    rw [run_succ, h2, sq_rt]
  refine ⟨t2 + 1, h3, ?_⟩
  rw [planeLog_succ_changed, l2, h3]
  · simp [squareState]
  · rw [h3, h2]
    simp only [squareState, ne_eq, Turtle.mk.injEq, not_and]
    intro _ _ _
    exact hturn

/-- C6: running `REPEAT(4) FD(100) RT(90) END` with the pen down from turtle
position (0,0) and heading 0, whenever the vehicle arrives at each goal in the
end, the plane turtle takes the positions (0,100), (100,100), (100,0), (0,0)
in that order, each followed by the turn to heading 90, 180, 270 and 0, and
the loop is left with the turtle at its starting position and heading. -/
theorem square_goals (alt : Int) (envs : Nat → Env)
    (harr : ∀ t, ∃ j, t ≤ j ∧ (envs j).arrived = true)
    (hd : ∀ t, (envs t).displacement 0 100 = (0, 100) ∧ (envs t).displacement 90 100 = (100, 0)
      ∧ (envs t).displacement 180 100 = (0, -100) ∧ (envs t).displacement 270 100 = (-100, 0)) :
    ∃ T, run squareProgram envs T (State.reset 0 0 alt 0)
          = { State.reset 0 0 alt 0 with pc := 4 }
      ∧ planeLog squareProgram envs (State.reset 0 0 alt 0) T
          = [⟨0, 100, alt, 0⟩, ⟨0, 100, alt, 90⟩, ⟨100, 100, alt, 90⟩, ⟨100, 100, alt, 180⟩,
             ⟨100, 0, alt, 180⟩, ⟨100, 0, alt, 270⟩, ⟨0, 0, alt, 270⟩, ⟨0, 0, alt, 0⟩] := by
  have r1 : run squareProgram envs 1 (State.reset 0 0 alt 0)
      = squareState alt 1 [Frame.loop 1 (some 4)] 0 0 0 Mode.Running := by
    rw [run_succ, run_zero]
    exact sq_repeat alt (envs 0)
  have l1 : planeLog squareProgram envs (State.reset 0 0 alt 0) 1 = [] := by
    rw [planeLog_succ_same]
    · rfl
    · rw [r1, run_zero]; rfl
  obtain ⟨t1, a1, b1⟩ := sq_side alt envs _ _ 0 0 0 0 100 0 100 90 [] _ harr
    (fun t => (hd t).1) rfl rfl (by decide) rfl (by omega) (by omega) 1 r1 l1
  have a1' : run squareProgram envs (t1 + 1) (State.reset 0 0 alt 0)
      = squareState alt 1 [Frame.loop 1 (some 3)] 0 100 90 Mode.Running := by
    rw [run_succ, a1, sq_end_back _ _ 4 _ _ _ (by omega)]; rfl
  have b1' := b1
  rw [← planeLog_succ_same squareProgram envs _ t1 (by rw [a1', a1]; rfl)] at b1'
  obtain ⟨t2, a2, b2⟩ := sq_side alt envs _ _ 0 100 90 100 0 100 100 180 _ _ harr
    (fun t => (hd t).2.1) rfl rfl (by decide) rfl (by omega) (by omega) (t1 + 1) a1' b1'
  have a2' : run squareProgram envs (t2 + 1) (State.reset 0 0 alt 0)
      = squareState alt 1 [Frame.loop 1 (some 2)] 100 100 180 Mode.Running := by
    rw [run_succ, a2, sq_end_back _ _ 3 _ _ _ (by omega)]; rfl
  have b2' := b2
  rw [← planeLog_succ_same squareProgram envs _ t2 (by rw [a2', a2]; rfl)] at b2'
  obtain ⟨t3, a3, b3⟩ := sq_side alt envs _ _ 100 100 180 0 (-100) 100 0 270 _ _ harr
    (fun t => (hd t).2.2.1) rfl rfl (by decide) rfl (by omega) (by omega) (t2 + 1) a2' b2'
  have a3' : run squareProgram envs (t3 + 1) (State.reset 0 0 alt 0)
      = squareState alt 1 [Frame.loop 1 (some 1)] 100 0 270 Mode.Running := by
    rw [run_succ, a3, sq_end_back _ _ 2 _ _ _ (by omega)]; rfl
  have b3' := b3
  rw [← planeLog_succ_same squareProgram envs _ t3 (by rw [a3', a3]; rfl)] at b3'
  obtain ⟨t4, a4, b4⟩ := sq_side alt envs _ _ 100 0 270 (-100) 0 0 0 0 _ _ harr
    (fun t => (hd t).2.2.2) rfl rfl (by decide) rfl (by omega) (by omega) (t3 + 1) a3' b3'
  have a4' : run squareProgram envs (t4 + 1) (State.reset 0 0 alt 0)
      = squareState alt 4 [] 0 0 0 Mode.Running := by
    rw [run_succ, a4, sq_end_exit]
  refine ⟨t4 + 1, by rw [a4']; rfl, ?_⟩
  rw [planeLog_succ_same squareProgram envs _ t4 (by rw [a4', a4]; rfl), b4]
  rfl

/-! ## `REPEAT(n)` -/

theorem setFrameParam_append_loop (v : Int) (top : List Frame) (a : Nat) (k : Option Int)
    (base : List Frame) :
    ∃ top' base', setFrameParam v (top ++ Frame.loop a k :: base) = top' ++ Frame.loop a k :: base'
      ∧ base'.length = base.length := by
  induction top with
  | nil =>
    refine ⟨[], setFrameParam v base, rfl, ?_⟩
    clear a k
    induction base with
    | nil => rfl
    | cons f fs ih =>
      cases f with
      | sub r q t => rfl
      | loop a k => simpa [setFrameParam] using ih
  | cons f fs ih =>
    cases f with
    | sub r q t => exact ⟨Frame.sub r v t :: fs, base, rfl, rfl⟩
    | loop a' k' =>
      obtain ⟨top', base', h, hl⟩ := ih
      exact ⟨Frame.loop a' k' :: top', base', by simp [setFrameParam, h], hl⟩

/-- A step taken while the frame of a loop is on the stack: either it is not a
pass of that loop and the frame stays where it is; or the body has been run
through with iterations remaining, and control goes back to the start of the
body with the count decremented; or the body has been run through with no
iteration remaining, and the frame is popped and control passes the
terminator. -/
theorem step_keeps_loop_frame (p : ResolvedProgram) (env : Env) (s : State)
    (top base : List Frame) (a : Nat) (k : Int)
    (hs : s.stack = top ++ Frame.loop a (some k) :: base)
    (hx : ¬ (s.mode = Mode.Running ∧ isExecAt p s.pc = true)) :
    (hitsTerminator p base.length s = false
        ∧ ∃ top' base', (step p env s).stack = top' ++ Frame.loop a (some k) :: base'
            ∧ base'.length = base.length)
    ∨ (hitsTerminator p base.length s = true ∧ 0 < k - 1
        ∧ (step p env s).stack = Frame.loop a (some (k - 1)) :: base ∧ (step p env s).pc = a)
    ∨ (hitsTerminator p base.length s = true ∧ ¬ 0 < k - 1
        ∧ (step p env s).stack = base ∧ (step p env s).pc = s.pc + 1) := by
  by_cases ht : s.mode = Mode.Running ∧ atTerminator p s.pc = true
  · rw [step_atTerminator p env s ht.1 ht.2]
    cases top with
    | nil =>
      simp only [List.nil_append] at hs
      have hhit : hitsTerminator p base.length s = true := by
        simp [hitsTerminator, ht.1, ht.2, hs]
      by_cases hk : 0 < k - 1
      · right; left
        exact ⟨hhit, hk, by simp [State.terminator, hs, hk], by simp [State.terminator, hs, hk]⟩
      · right; right
        exact ⟨hhit, hk, by simp [State.terminator, hs, hk], by simp [State.terminator, hs, hk]⟩
    | cons f fs =>
      left
      simp only [List.cons_append] at hs
      refine ⟨by simp [hitsTerminator, hs]; intros; omega, ?_⟩
      cases f with
      | sub r' q' t' => exact ⟨fs, base, by simp [State.terminator, hs], rfl⟩
      | loop a' k' =>
        cases k' with
        | none => exact ⟨Frame.loop a' none :: fs, base, by simp [State.terminator, hs], rfl⟩
        | some k' =>
          by_cases hk : 0 < k' - 1
          · exact ⟨Frame.loop a' (some (k' - 1)) :: fs, base,
              by simp [State.terminator, hs, hk], rfl⟩
          · exact ⟨fs, base, by simp [State.terminator, hs, hk], rfl⟩
  · left
    refine ⟨?_, ?_⟩
    · simp only [hitsTerminator, Bool.and_eq_false_iff, decide_eq_false_iff_not]
      by_cases hm : s.mode = Mode.Running
      · left; right
        simpa using fun h => ht ⟨hm, h⟩
      · left; left; exact hm
    · rcases step_not_terminator p env s ht with h | h | h | h
      · exact ⟨top, base, by rw [h.1, hs], rfl⟩
      · obtain ⟨_, _, _, h⟩ := h
        rcases h with ⟨j, h, _⟩ | ⟨v, t', h, _⟩
        · exact ⟨Frame.loop (s.pc + 1) j :: top, base, by rw [h, hs]; rfl, rfl⟩
        · exact ⟨Frame.sub (s.pc + 1) v t' :: top, base, by rw [h, hs]; rfl, rfl⟩
      · obtain ⟨v, h, _⟩ := h
        obtain ⟨top', base', h', hl⟩ := setFrameParam_append_loop v top a (some k) base
        exact ⟨top', base', by rw [h, hs, h'], hl⟩
      · exact absurd ⟨h.1, h.2.1⟩ hx

theorem terminatorHits_succ (p : ResolvedProgram) (envs : Nat → Env) (s : State) (d t : Nat) :
    terminatorHits p envs s d (t + 1)
      = terminatorHits p envs s d t + (if hitsTerminator p d (run p envs t s) then 1 else 0) :=
  rfl

/-- The passes of a `REPEAT(n)` block on the engine modelled from spec section
4.4: when `REPEAT(n)` is executed and its block runs without
executing an `EXEC` until the loop is left (step `T` is the first at which the
stack is back to its depth before the loop), the body is entered right away,
it is run through to the loop's terminator exactly `n` times if `n >= 1` and
exactly once if `n <= 0`, every pass but the last goes back to the first
instruction of the body, and after the last pass execution continues with the
instruction after the terminator, at the stack depth before the loop. -/
theorem repeat_runs_body (p : ResolvedProgram) (envs : Nat → Env) (s0 : State) (n : Int)
    (T : Nat) (hm : s0.mode = Mode.Running) (hi : p.code[s0.pc]? = some (REPEAT n))
    (hT : 2 ≤ T)
    (hin : ∀ t, t < T → 1 ≤ t → s0.stack.length < (run p envs t s0).stack.length)
    (hout : (run p envs T s0).stack.length ≤ s0.stack.length)
    (hx : ∀ t, t < T →
      ¬ ((run p envs t s0).mode = Mode.Running ∧ isExecAt p (run p envs t s0).pc = true)) :
    (run p envs 1 s0).pc = s0.pc + 1
      ∧ terminatorHits p envs s0 s0.stack.length T = (if 1 ≤ n then n.toNat else 1)
      ∧ (∀ t, t + 1 < T → hitsTerminator p s0.stack.length (run p envs t s0) = true →
          (run p envs (t + 1) s0).pc = s0.pc + 1)
      ∧ hitsTerminator p s0.stack.length (run p envs (T - 1) s0) = true
      ∧ (run p envs T s0).pc = (run p envs (T - 1) s0).pc + 1
      ∧ (run p envs T s0).stack.length = s0.stack.length := by
  have h1 : run p envs 1 s0 = s0.push (Frame.loop (s0.pc + 1) (some n)) (s0.pc + 1) := by
    rw [run_succ, run_zero]
    unfold step
    rw [hm]
    simp only [hi]
    rfl
  have hlen1 := hin 1 (by omega) (by omega)
  have h1s : (run p envs 1 s0).stack = Frame.loop (s0.pc + 1) (some n) :: s0.stack
      ∧ (run p envs 1 s0).pc = s0.pc + 1 := by
    rw [h1] at hlen1 ⊢
    rcases push_cases s0 (Frame.loop (s0.pc + 1) (some n)) (s0.pc + 1) with h | h
    · rw [h.1] at hlen1; omega
    · exact ⟨h.1, h.2.2.1⟩
  have hH1 : terminatorHits p envs s0 s0.stack.length 1 = 0 := by
    rw [terminatorHits_succ, run_zero]
    simp [terminatorHits, hitsTerminator]
  have hinv : ∀ t, 1 ≤ t → t < T →
      ∃ top base k, (run p envs t s0).stack = top ++ Frame.loop (s0.pc + 1) (some k) :: base
        ∧ base.length = s0.stack.length
        ∧ k = n - (terminatorHits p envs s0 s0.stack.length t : Int)
        ∧ (terminatorHits p envs s0 s0.stack.length t = 0 ∨ 0 < k) := by
    intro t
    induction t with
    | zero => intro h; omega
    | succ t ih =>
      intro _ ht
      by_cases ht0 : t = 0
      · subst ht0
        exact ⟨[], s0.stack, n, by rw [h1s.1]; rfl, rfl, by rw [hH1]; simp, Or.inl hH1⟩
      · obtain ⟨top, base, k, hs, hb, hk, hpos⟩ := ih (by omega) (by omega)
        have hlen := hin (t + 1) ht (by omega)
        rw [run_succ] at hlen ⊢
        rw [terminatorHits_succ]
        rcases step_keeps_loop_frame p (envs t) _ top base (s0.pc + 1) k hs (hx t (by omega))
          with ⟨hh, top', base', hs', hb'⟩ | ⟨hh, hk1, hs', _⟩ | ⟨_, _, hs', _⟩
        · rw [hb] at hh
          refine ⟨top', base', k, hs', by omega, ?_, ?_⟩
          · simp [hh, hk]
          · simpa [hh] using hpos
        · rw [hb] at hh
          refine ⟨[], base, k - 1, hs', hb, ?_, Or.inr hk1⟩
          simp only [hh, ↓reduceIte, Nat.cast_add, Nat.cast_one]
          omega
        · rw [hs'] at hlen; omega
  obtain ⟨m, rfl⟩ : ∃ m, T = m + 1 := ⟨T - 1, by omega⟩
  obtain ⟨top, base, k, hs, hb, hk, hpos⟩ := hinv m (by omega) (by omega)
  have hfin := step_keeps_loop_frame p (envs m) _ top base (s0.pc + 1) k hs (hx m (by omega))
  rw [run_succ] at hout ⊢
  rcases hfin with ⟨_, top', base', hs', hb'⟩ | ⟨_, _, hs', _⟩ | ⟨hh, hk1, hs', hpc⟩
  · rw [hs'] at hout
    simp only [List.length_append, List.length_cons] at hout
    omega
  · rw [hs'] at hout
    simp only [List.length_cons] at hout
    omega
  · rw [hb] at hh
    refine ⟨h1s.2, ?_, ?_, ?_, ?_, ?_⟩
    · rw [terminatorHits_succ]
      simp only [hh, ↓reduceIte]
      split
      · rename_i hn
        rcases hpos with h0 | h0
        · rw [h0] at hk ⊢
          simp only [CharP.cast_eq_zero, sub_zero] at hk
          have : n = 1 := by omega
          subst this
          rfl
        · have : n = (terminatorHits p envs s0 s0.stack.length m : Int) + 1 := by omega
          rw [this]
          simp
      · rename_i hn
        rcases hpos with h0 | h0
        · rw [h0]
        · omega
    · intro t ht hhit
      have ht1 : 1 ≤ t := by
        by_contra hc
        have : t = 0 := by omega
        subst this
        rw [run_zero] at hhit
        simp [hitsTerminator] at hhit
      obtain ⟨top2, base2, k2, hs2, hb2, _, _⟩ := hinv t ht1 (by omega)
      have hlen := hin (t + 1) (by omega) (by omega)
      rw [run_succ] at hlen ⊢
      rcases step_keeps_loop_frame p (envs t) _ top2 base2 (s0.pc + 1) k2 hs2 (hx t (by omega))
        with ⟨hh2, _⟩ | ⟨_, _, _, hpc2⟩ | ⟨_, _, hs2', _⟩
      · rw [hb2, hhit] at hh2
        exact absurd hh2 (by simp)
      · exact hpc2
      · rw [hs2'] at hlen; omega
    · simpa using hh
    · simpa using hpc
    · rw [run_succ, hs', hb]

/-! ## The theorems at concrete inputs -/

theorem reach_run (p : ResolvedProgram) (envs : Nat → Env) (s0 : State) (n : Nat) :
    Reach p s0 (run p envs n s0) := by
  induction n with
  | zero => exact Reach.start
  | succ n ih => exact Reach.step (envs n) _ ih

/-- C2 at a concrete input: the mission table with the sample configuration,
run for 1000 steps from mode entry. -/
theorem mission_never_overflows_witness :
    (run mission (fun _ => sampleEnv 100) 1000 (State.reset 0 0 100 0)).stack.length ≤ 12
      ∧ (run mission (fun _ => sampleEnv 100) 1000 (State.reset 0 0 100 0)).mode
          ≠ Mode.Halted Fault.StackOverflow :=
  mission_never_overflows sampleConfig mission (load_instructions sampleConfig)
    (State.reset 0 0 100 0) rfl (by decide) (Or.inl rfl) _
    (reach_run mission (fun _ => sampleEnv 100) (State.reset 0 0 100 0) 1000)

/-- C3 at a concrete input: the `DO (SET_ALT_ALT)` of `LOITER_LAND` in the
mission table.  Inside `SET_ALT_ALT` the parameter is the altitude 120 loaded
by `LOAD_TO_PARAM(ALT)`; after the return it is the circuit value 64 again. -/
theorem do_returns_and_restores_param_witness :
    (run mission (fun _ => sampleEnv 120) 2 loiterState).curParam = 120
      ∧ (run mission (fun _ => sampleEnv 120) 5 loiterState).pc = loiterState.pc + 1
      ∧ (run mission (fun _ => sampleEnv 120) 5 loiterState).stack = loiterState.stack
      ∧ (run mission (fun _ => sampleEnv 120) 5 loiterState).curParam = loiterState.curParam :=
  ⟨by decide!,
    do_returns_and_restores_param mission (fun _ => sampleEnv 120) loiterState 5 rfl
      (by decide!) (by decide) (by decide!) (by decide!) (by decide!)⟩

/-- C4 at a concrete input: the `EXEC (LOGO_MAIN)` that ends `PILOT_INPUT` in
the mission table, with the frames of `DO (PILOT_INPUT)` and `DO (CHECKS)` on
the stack: the stack is emptied and execution is at instruction 0, so
`PILOT_INPUT` does not return into `CHECKS`. -/
theorem exec_never_returns_witness :
    (run mission (fun _ => sampleEnv 100) 1 pilotInputState).stack = []
      ∧ (run mission (fun _ => sampleEnv 100) 1 pilotInputState).pc = 0
      ∧ (∀ n, pilotInputState.pc + 1
          ∉ returnOffsets (run mission (fun _ => sampleEnv 100) (n + 1) pilotInputState).stack) :=
  have h := exec_never_returns mission (fun _ => sampleEnv 100) pilotInputState
    (EXEC LOGO_MAIN) LOGO_MAIN 0 rfl rfl (by decide!) rfl rfl
  ⟨h.1, h.2.1, h.2.2.2.2.1⟩

/-- C8 at a concrete input: the `END` of the main body of the mission table,
reached with an empty call stack. -/
theorem restart_keeps_state_witness :
    step mission (sampleEnv 100) mainEndState = { mainEndState with pc := 0 }
      ∧ (step mission (sampleEnv 100) mainEndState).stack.length = 0 :=
  have h := restart_keeps_state mission (sampleEnv 100) mainEndState rfl (by decide!) rfl
  ⟨h.1, h.2.2.2.2.2.2.2⟩

/-- C6 at a concrete input: the square flown at altitude 0 with a vehicle
that arrives within one step. -/
theorem square_goals_witness :
    ∃ T, run squareProgram (fun _ => sampleEnv 0) T (State.reset 0 0 0 0)
          = { State.reset 0 0 0 0 with pc := 4 }
      ∧ planeLog squareProgram (fun _ => sampleEnv 0) (State.reset 0 0 0 0) T
          = [⟨0, 100, 0, 0⟩, ⟨0, 100, 0, 90⟩, ⟨100, 100, 0, 90⟩, ⟨100, 100, 0, 180⟩,
             ⟨100, 0, 0, 180⟩, ⟨100, 0, 0, 270⟩, ⟨0, 0, 0, 270⟩, ⟨0, 0, 0, 0⟩] :=
  have h0 : (sampleEnv 0).displacement 0 100 = (0, 100) := by decide
  have h1 : (sampleEnv 0).displacement 90 100 = (100, 0) := by decide
  have h2 : (sampleEnv 0).displacement 180 100 = (0, -100) := by decide
  have h3 : (sampleEnv 0).displacement 270 100 = (-100, 0) := by decide
  square_goals 0 (fun _ => sampleEnv 0) (fun t => ⟨t, le_refl t, rfl⟩)
    (fun _ => ⟨h0, h1, h2, h3⟩)

/-- The passes of a loop at a concrete input: the square `REPEAT(4) FD(100) RT(90) END`
run for its 17 steps; the body is run through 4 times. -/
theorem repeat_runs_body_witness :
    terminatorHits squareProgram (fun _ => sampleEnv 0) (State.reset 0 0 0 0)
        (State.reset 0 0 0 0).stack.length 17 = (if (1 : Int) ≤ 4 then (4 : Int).toNat else 1)
      ∧ (run squareProgram (fun _ => sampleEnv 0) 17 (State.reset 0 0 0 0)).pc
          = (run squareProgram (fun _ => sampleEnv 0) (17 - 1) (State.reset 0 0 0 0)).pc + 1 :=
  have h := repeat_runs_body squareProgram (fun _ => sampleEnv 0) (State.reset 0 0 0 0) 4 17
    rfl rfl (by decide) (by decide!) (by decide!) (by decide!)
  ⟨h.2.1, h.2.2.2.2.1⟩

/-! ## Execution inside a routine does not depend on where the routine sits -/

theorem inWindow_getElem? (code : List Instr) (base : Nat) (B : List Instr)
    (h : InWindow code base B) (i : Nat) (hi : i < B.length) :
    code[base + i]? = B[i]? := by
  have h1 := h.1
  have : ((code.drop base).take B.length)[i]? = code[base + i]? := by
    rw [List.getElem?_take_of_lt hi, List.getElem?_drop]
  rw [← this, h1]

theorem inWindow_kinds (code : List Instr) (base : Nat) (B : List Instr)
    (h : InWindow code base B) :
    ((kinds code).drop base).take (kinds B).length = kinds B := by
  have h1 := h.1
  unfold kinds
  rw [List.length_map, ← List.map_drop, ← List.map_take, h1]

theorem inWindow_kinds_getElem? (code : List Instr) (base : Nat) (B : List Instr)
    (h : InWindow code base B) (i : Nat) (hi : i < B.length) :
    (kinds code)[base + i]? = (kinds B)[i]? := by
  unfold kinds
  rw [List.getElem?_map, List.getElem?_map, inWindow_getElem? code base B h i hi]

theorem nestStep_kind (pc pc' : Nat) (nest nest' : List Block) (k : Kind)
    (h : nest.map Block.kind = nest'.map Block.kind) :
    (nestStep pc nest k).map Block.kind = (nestStep pc' nest' k).map Block.kind := by
  cases k <;> simp [nestStep, Block.kind, h]

theorem nestScan_kind (l : List Kind) :
    ∀ (pc pc' n : Nat) (nest nest' : List Block),
      nest.map Block.kind = nest'.map Block.kind →
      (nestScan l pc n nest).map Block.kind = (nestScan l pc' n nest').map Block.kind := by
  induction l with
  | nil => intro pc pc' n nest nest' h; cases n <;> simpa [nestScan] using h
  | cons k l ih =>
    intro pc pc' n nest nest' h
    cases n with
    | zero => simpa [nestScan] using h
    | succ n =>
      simp only [nestScan]
      exact ih _ _ _ _ _ (nestStep_kind pc pc' nest nest' k h)

theorem nestScan_add (l : List Kind) :
    ∀ (pc m n : Nat) (nest : List Block),
      nestScan l pc (m + n) nest = nestScan (l.drop m) (pc + m) n (nestScan l pc m nest) := by
  induction l with
  | nil =>
    intro pc m n nest
    cases m <;> cases n <;> simp [nestScan]
  | cons k l ih =>
    intro pc m n nest
    cases m with
    | zero => simp [nestScan]
    | succ m =>
      have : m + 1 + n = (m + n) + 1 := by omega
      rw [this]
      simp only [nestScan, List.drop_succ_cons]
      rw [ih (pc + 1) m n]
      congr 1
      omega

theorem nestScan_take (l : List Kind) :
    ∀ (pc m n : Nat) (nest : List Block), n ≤ m →
      nestScan (l.take m) pc n nest = nestScan l pc n nest := by
  induction l with
  | nil => intro pc m n nest _; simp
  | cons k l ih =>
    intro pc m n nest h
    cases n with
    | zero => cases m <;> simp [nestScan]
    | succ n =>
      cases m with
      | zero => omega
      | succ m =>
        simp only [List.take_succ_cons, nestScan]
        exact ih _ _ _ _ (by omega)

theorem closesIf_eq (ks : List Kind) (pc : Nat) :
    closesIf ks pc = (((nestAt ks pc).map Block.kind).head? == some Kind.ifOpen) := by
  unfold closesIf
  cases h : nestAt ks pc with
  | nil => rfl
  | cons b n => cases b <;> simp [Block.kind]

/-- Inside a routine, the blocks open at an instruction are those opened
inside the routine. -/
theorem inWindow_nest (code : List Instr) (base : Nat) (B : List Instr)
    (h : InWindow code base B) (i : Nat) (hi : i ≤ B.length) :
    (nestAt (kinds code) (base + i)).map Block.kind = (nestAt (kinds B) i).map Block.kind := by
  have hk := inWindow_kinds code base B h
  have hlen : (kinds B).length = B.length := by simp [kinds]
  have e1 : nestAt (kinds code) (base + i)
      = nestScan ((kinds code).drop base) base i [] := by
    unfold nestAt
    rw [nestScan_add (kinds code) 0 base i []]
    have := h.2
    unfold nestAt at this
    rw [this]
    simp
  have e2 : nestScan ((kinds code).drop base) base i []
      = nestScan (kinds B) base i [] := by
    rw [← hk, nestScan_take _ _ _ _ _ (by omega)]
  rw [e1, e2]
  unfold nestAt
  rw [nestScan_kind (kinds B) base 0 i [] [] rfl]

theorem inWindow_closesIf (code : List Instr) (base : Nat) (B : List Instr)
    (h : InWindow code base B) (i : Nat) (hi : i ≤ B.length) :
    closesIf (kinds code) (base + i) = closesIf (kinds B) i := by
  rw [closesIf_eq, closesIf_eq, inWindow_nest code base B h i hi]

theorem scanClose_append (l1 l2 : List Kind) :
    ∀ (pc d : Nat) (e : Bool) (q : Nat), scanClose l1 pc d e = some q →
      scanClose (l1 ++ l2) pc d e = some q := by
  induction l1 with
  | nil => intro pc d e q h; simp [scanClose] at h
  | cons k l ih =>
    intro pc d e q h
    cases k <;> cases d <;> cases e <;>
      simp only [scanClose, List.cons_append] at h ⊢ <;>
      first
        | exact h
        | exact ih _ _ _ _ h

theorem scanClose_shift (l : List Kind) (n : Nat) :
    ∀ (pc d : Nat) (e : Bool),
      scanClose l (pc + n) d e = (scanClose l pc d e).map (· + n) := by
  induction l with
  | nil => intro pc d e; simp [scanClose]
  | cons k l ih =>
    intro pc d e
    have hs : pc + n + 1 = (pc + 1) + n := by omega
    cases k <;> cases d <;> cases e <;>
      simp only [scanClose, Option.map_some', hs] <;>
      exact ih _ _ _

/-- Inside a routine, a skipped `IF_*` or `ELSE` that is closed inside the
routine leads to the same instruction of the routine wherever the routine
sits. -/
theorem inWindow_skipTarget (code : List Instr) (base : Nat) (B : List Instr)
    (h : InWindow code base B) (i : Nat) (e : Bool)
    (hs : (scanClose ((kinds B).drop (i + 1)) (i + 1) 0 e).isSome = true) :
    skipTarget (kinds code) (base + i) e = base + skipTarget (kinds B) i e := by
  obtain ⟨q, hq⟩ := Option.isSome_iff_exists.mp hs
  have hk := inWindow_kinds code base B h
  have hlen : (kinds B).length = B.length := by simp [kinds]
  obtain ⟨hpq, _, hat⟩ := scanClose_nest (kinds B) _ (i + 1) 0 e q rfl hq
  have hqlt : q < B.length := by
    rcases hat with hat | ⟨_, hat⟩ <;>
    · have := lt_length_of_getElem? _ _ _ hat
      omega
  have hdrop : (kinds code).drop (base + i + 1)
      = (kinds B).drop (i + 1) ++ (kinds code).drop (base + B.length) := by
    have h0 : (kinds code).drop base
        = kinds B ++ (kinds code).drop (base + B.length) := by
      conv_lhs => rw [← List.take_append_drop B.length ((kinds code).drop base)]
      rw [← hlen, hk, List.drop_drop, hlen]
    have h1 : (kinds code).drop (base + i + 1) = ((kinds code).drop base).drop (i + 1) := by
      rw [List.drop_drop, Nat.add_assoc]
    rw [h1, h0, List.drop_append_of_le_length (by omega)]
  have hglob : scanClose ((kinds code).drop (base + i + 1)) (base + i + 1) 0 e
      = some (q + base) := by
    have hpc : base + i + 1 = (i + 1) + base := by omega
    rw [hdrop]
    conv_lhs => rw [hpc]
    rw [scanClose_shift, scanClose_append _ _ _ _ _ _ hq]
    rfl
  have hat2 : (kinds code)[q + base]? = (kinds B)[q]? := by
    rw [Nat.add_comm]; exact inWindow_kinds_getElem? code base B h q hqlt
  unfold skipTarget
  rw [hglob, hq]
  simp only [hat2]
  split <;> omega

/-! ## Where the routines sit in their tables -/

set_option maxRecDepth 100000 in
theorem window_INT_FORCE_TARGET_AHAID (c : Config) :
    ∃ base, targetOffset (missionOf c) (Target.sub INT_FORCE_TARGET_AHAID) = some (base + 1)
      ∧ InWindow (missionOf c).code base (TO_INT_FORCE_TARGET_AHAID c) := by
  obtain ⟨a, b, d, e, t⟩ := c
  cases t
  · exact ⟨831, rfl, rfl, rfl⟩
  · exact ⟨841, rfl, rfl, rfl⟩
/-- Control flow inside the interrupt handler, wherever it sits in a table. -/
theorem flow_INT_FORCE_TARGET_AHAID (c : Config) (code : List Instr) (base : Nat)
    (hw : InWindow code base (TO_INT_FORCE_TARGET_AHAID c)) :
    (∀ i, i < 18 → code[base + i]? = (TO_INT_FORCE_TARGET_AHAID c)[i]?)
    ∧ skipTarget (kinds code) (base + 1) true = base + 8
    ∧ skipTarget (kinds code) (base + 7) false = base + 15
    ∧ skipTarget (kinds code) (base + 8) true = base + 14
    ∧ closesIf (kinds code) (base + 14) = true
    ∧ closesIf (kinds code) (base + 15) = true
    ∧ closesIf (kinds code) (base + 16) = false
    ∧ closesIf (kinds code) (base + 17) = false := by
  refine ⟨fun i hi => inWindow_getElem? code base _ hw i (Nat.lt_of_lt_of_le hi (Nat.le_of_ble_eq_true rfl)), ?_, ?_, ?_, ?_, ?_, ?_, ?_⟩
  · rw [inWindow_skipTarget code base _ hw 1 true rfl]; rfl
  · rw [inWindow_skipTarget code base _ hw 7 false rfl]; rfl
  · rw [inWindow_skipTarget code base _ hw 8 true rfl]; rfl
  · rw [inWindow_closesIf code base _ hw 14 (Nat.le_of_ble_eq_true rfl)]; rfl
  · rw [inWindow_closesIf code base _ hw 15 (Nat.le_of_ble_eq_true rfl)]; rfl
  · rw [inWindow_closesIf code base _ hw 16 (Nat.le_of_ble_eq_true rfl)]; rfl
  · rw [inWindow_closesIf code base _ hw 17 (Nat.le_of_ble_eq_true rfl)]; rfl


/-! ## Rules for following the engine through a routine -/

theorem runUntil_stop {p : ResolvedProgram} {env : Env} {stop : Nat → Bool} {n : Nat} {s : State}
    {Q : State → Prop} (h : stop s.pc = true) (hq : Q s) :
    ∃ s', runUntil p env stop n s = some s' ∧ Q s' := by
  cases n <;> exact ⟨s, by simp [runUntil, h], hq⟩

theorem runUntil_exec (p : ResolvedProgram) (env : Env) (stop : Nat → Bool) (n : Nat) (s : State)
    (i : Instr) (hm : s.mode = Mode.Running) (hs : stop s.pc = false)
    (hi : p.code[s.pc]? = some i) :
    runUntil p env stop (n + 1) s = runUntil p env stop n (execute p env s i) := by
  simp [runUntil, hs, step, hm, hi]

theorem curParam_congr (s t : State) (h1 : t.stack = s.stack) (h2 : t.param = s.param) :
    t.curParam = s.curParam := by
  simp [State.curParam, h1, h2]

theorem setTurtle_curParam (s : State) (t : Turtle) : (s.setTurtle t).curParam = s.curParam :=
  curParam_congr _ _ (setTurtle_stack s t) (setTurtle_param s t)

theorem moveEffect_curParam (env : Env) (s : State) (i : Instr) :
    (moveEffect env s i).curParam = s.curParam :=
  curParam_congr _ _ (moveEffect_stack env s i) (moveEffect_param env s i)

theorem setParam_curParam (s : State) (v : Int) : (s.setParam v).curParam = v := by
  unfold State.setParam State.curParam
  cases h : frameParam s.stack with
  | none => simp [h]
  | some a =>
    have : ∀ st : List Frame, frameParam st = some a → frameParam (setFrameParam v st) = some v := by
      intro st
      induction st with
      | nil => intro h; simp [frameParam] at h
      | cons f fs ih =>
        cases f with
        | sub r x id => intro _; simp [setFrameParam, frameParam]
        | loop st k => intro h; simp only [frameParam] at h; simpa [setFrameParam, frameParam] using ih h
    simp [this s.stack h]

theorem setParam_penDown (s : State) (v : Int) : (s.setParam v).penDown = s.penDown := by
  unfold State.setParam
  cases h : frameParam s.stack <;> simp

theorem plain_fields (p : ResolvedProgram) (env : Env) (s : State) (i : Instr)
    (hc : i.isPlain = true) :
    (execute p env s i).mode = s.mode ∧ (execute p env s i).pc = s.pc + 1
      ∧ (execute p env s i).stack = s.stack ∧ (execute p env s i).penDown = s.penDown
      ∧ (execute p env s i).param = s.param := by
  cases i <;> simp [Instr.isPlain] at hc <;>
    simp [execute, State.next, setTurtle_mode, setTurtle_pc, setTurtle_stack,
      setTurtle_penDown, setTurtle_param]

/-- A turn, a flag command, a turtle selection, an interrupt command, a timed
manoeuvre, or a move made with the pen up: the engine goes on to the next
instruction. -/
theorem sym_plain {p : ResolvedProgram} {env : Env} {stop : Nat → Bool} {Q : State → Prop}
    {n : Nat} {s : State} {pc : Nat} {stk : List Frame} {pen : Bool} {par : Int} (i : Instr)
    (h : s.IsAt pc stk pen par) (hi : p.code[pc]? = some i)
    (hc : i.isPlain = true ∨ (i.isMove = true ∧ pen = false)) (hs : stop pc = false)
    (k : ∀ s1 : State, s1.IsAt (pc + 1) stk pen par → ∃ s', runUntil p env stop n s1 = some s' ∧ Q s') :
    ∃ s', runUntil p env stop (n + 1) s = some s' ∧ Q s' := by
  obtain ⟨hm, hpc, hst, hpen, hpar⟩ := h
  subst hpc
  rw [runUntil_exec p env stop n s i hm hs hi]
  apply k
  rcases hc with hc | ⟨hc, hp⟩
  · obtain ⟨h1, h2, h3, h4, h5⟩ := plain_fields p env s i hc
    exact ⟨h1.trans hm, h2, h3.trans hst, h4.trans hpen,
      (curParam_congr _ _ h3 h5).trans hpar⟩
  · subst hp
    have hmv : execute p env s i = (moveEffect env s i).moved := by
      cases i <;> simp [Instr.isMove] at hc <;> rfl
    rw [hmv]
    have hpd : (moveEffect env s i).penDown = false := by rw [moveEffect_penDown, hpen]
    refine ⟨?_, ?_, ?_, ?_, ?_⟩
    · simp [State.moved, hpd, moveEffect_mode, hm]
    · rw [moved_pc, moveEffect_pc]
    · rw [moved_stack, moveEffect_stack, hst]
    · simp [State.moved, hpd]
    · rw [curParam_congr (moveEffect env s i) _ (moved_stack _) (moved_param _),
        moveEffect_curParam, hpar]

/-- A pen command: the engine goes on to the next instruction with the new
pen. -/
theorem sym_pen {p : ResolvedProgram} {env : Env} {stop : Nat → Bool} {Q : State → Prop}
    {n : Nat} {s : State} {pc : Nat} {stk : List Frame} {pen : Bool} {par : Int} (i : Instr)
    (pen' : Bool)
    (h : s.IsAt pc stk pen par) (hi : p.code[pc]? = some i)
    (hc : i.penAfter pen = some pen') (hs : stop pc = false)
    (k : ∀ s1 : State, s1.IsAt (pc + 1) stk pen' par →
      ∃ s', runUntil p env stop n s1 = some s' ∧ Q s') :
    ∃ s', runUntil p env stop (n + 1) s = some s' ∧ Q s' := by
  obtain ⟨hm, hpc, hst, hpen, hpar⟩ := h
  subst hpc
  rw [runUntil_exec p env stop n s i hm hs hi]
  apply k
  cases i <;> simp [Instr.penAfter] at hc <;> subst hc <;>
    exact ⟨hm, rfl, hst, by simp [execute, hpen], (curParam_congr s _ rfl rfl).trans hpar⟩

/-- A parameter command: the engine goes on to the next instruction with the
new parameter. -/
theorem sym_param {p : ResolvedProgram} {env : Env} {stop : Nat → Bool} {Q : State → Prop}
    {n : Nat} {s : State} {pc : Nat} {stk : List Frame} {pen : Bool} {par : Int} (i : Instr)
    (par' : Int)
    (h : s.IsAt pc stk pen par) (hi : p.code[pc]? = some i)
    (hc : i.paramAfter env par = some par') (hs : stop pc = false)
    (k : ∀ (s1 : State) (stk' : List Frame), s1.IsAt (pc + 1) stk' pen par' →
      ∃ s', runUntil p env stop n s1 = some s' ∧ Q s') :
    ∃ s', runUntil p env stop (n + 1) s = some s' ∧ Q s' := by
  obtain ⟨hm, hpc, hst, hpen, hpar⟩ := h
  subst hpc
  rw [runUntil_exec p env stop n s i hm hs hi]
  subst hpar
  have key : ∀ v : Int, ((s.setParam v).next).IsAt (s.pc + 1) ((s.setParam v).next).stack pen v := by
    intro v
    refine ⟨?_, ?_, rfl, ?_, ?_⟩
    · simp [State.next, setParam_mode, hm]
    · simp [State.next, setParam_pc]
    · simp [State.next, setParam_penDown, hpen]
    · exact (curParam_congr (s.setParam v) _ rfl rfl).trans (setParam_curParam s v)
  have keep : (s.next).IsAt (s.pc + 1) s.stack pen s.curParam :=
    ⟨hm, rfl, rfl, hpen, curParam_congr s _ rfl rfl⟩
  cases i <;> simp only [Instr.paramAfter] at hc <;> try (simp at hc)
  case paramSet x => subst hc; exact k _ _ (key x)
  case paramAdd x => subst hc; exact k _ _ (key _)
  case paramSub x => subst hc; exact k _ _ (key _)
  case paramMul x => subst hc; exact k _ _ (key _)
  case paramDiv x => subst hc; exact k _ _ (key _)
  case loadToParam v =>
    by_cases hv : v = SysVal.PARAM
    · subst hv
      simp only [Instr.paramAfter, Option.some.injEq] at hc
      subst hc
      have : execute p env s (Instr.loadToParam SysVal.PARAM) = (s.setParam s.curParam).next := by
        simp [execute, resolve]
      rw [this]
      exact k _ _ (key _)
    · have hr : resolve env s v = env.value v := by
        unfold resolve
        cases v <;> simp_all
      have hc' : par' = (env.value v).getD s.curParam := by
        cases v <;> simp_all [Instr.paramAfter]
      subst hc'
      cases hval : env.value v with
      | none =>
        have : execute p env s (Instr.loadToParam v) = s.next := by
          simp [execute, hr, hval]
        rw [this]
        have hk := k
        rw [hval] at hk
        exact hk _ _ keep
      | some a =>
        have : execute p env s (Instr.loadToParam v) = (s.setParam a).next := by
          simp [execute, hr, hval]
        rw [this]
        have hk := k
        rw [hval] at hk
        exact hk _ _ (key a)

/-- An `IF_*` on a system value whose condition holds: the engine enters
the block. -/
theorem sym_if_true {p : ResolvedProgram} {env : Env} {stop : Nat → Bool} {Q : State → Prop}
    {n : Nat} {s : State} {pc : Nat} {stk : List Frame} {pen : Bool} {par : Int}
    (c : Cmp) (v : SysVal) (x : Int)
    (h : s.IsAt pc stk pen par) (hi : p.code[pc]? = some (Instr.ifVal c v x))
    (hb : condition env s c v x = true) (hs : stop pc = false)
    (k : ∀ s1 : State, s1.IsAt (pc + 1) stk pen par →
      ∃ s', runUntil p env stop n s1 = some s' ∧ Q s') :
    ∃ s', runUntil p env stop (n + 1) s = some s' ∧ Q s' := by
  obtain ⟨hm, hpc, hst, hpen, hpar⟩ := h
  subst hpc
  rw [runUntil_exec p env stop n s _ hm hs hi]
  apply k
  simp only [execute, hb]
  exact ⟨hm, rfl, hst, hpen, (curParam_congr s _ rfl rfl).trans hpar⟩

/-- An `IF_*` on a system value whose condition fails: the engine skips to
the matching `ELSE` or `END`. -/
theorem sym_if_false {p : ResolvedProgram} {env : Env} {stop : Nat → Bool} {Q : State → Prop}
    {n : Nat} {s : State} {pc : Nat} {stk : List Frame} {pen : Bool} {par : Int}
    (c : Cmp) (v : SysVal) (x : Int) (tgt : Nat)
    (h : s.IsAt pc stk pen par) (hi : p.code[pc]? = some (Instr.ifVal c v x))
    (hb : condition env s c v x = false) (ht : skipTarget (kinds p.code) pc true = tgt)
    (hs : stop pc = false)
    (k : ∀ s1 : State, s1.IsAt tgt stk pen par →
      ∃ s', runUntil p env stop n s1 = some s' ∧ Q s') :
    ∃ s', runUntil p env stop (n + 1) s = some s' ∧ Q s' := by
  obtain ⟨hm, hpc, hst, hpen, hpar⟩ := h
  subst hpc
  rw [runUntil_exec p env stop n s _ hm hs hi]
  apply k
  simp only [execute, hb]
  exact ⟨hm, ht, hst, hpen, (curParam_congr s _ rfl rfl).trans hpar⟩

/-- An `ELSE` reached at the end of the true branch: the engine skips to the
matching `END`. -/
theorem sym_else {p : ResolvedProgram} {env : Env} {stop : Nat → Bool} {Q : State → Prop}
    {n : Nat} {s : State} {pc : Nat} {stk : List Frame} {pen : Bool} {par : Int} (tgt : Nat)
    (h : s.IsAt pc stk pen par) (hi : p.code[pc]? = some Instr.elseBlock)
    (ht : skipTarget (kinds p.code) pc false = tgt) (hs : stop pc = false)
    (k : ∀ s1 : State, s1.IsAt tgt stk pen par →
      ∃ s', runUntil p env stop n s1 = some s' ∧ Q s') :
    ∃ s', runUntil p env stop (n + 1) s = some s' ∧ Q s' := by
  obtain ⟨hm, hpc, hst, hpen, hpar⟩ := h
  subst hpc
  rw [runUntil_exec p env stop n s _ hm hs hi]
  apply k
  exact ⟨hm, ht, hst, hpen, (curParam_congr s _ rfl rfl).trans hpar⟩

/-- An `END` that closes an `IF_*`: the engine goes on to the next
instruction. -/
theorem sym_endif {p : ResolvedProgram} {env : Env} {stop : Nat → Bool} {Q : State → Prop}
    {n : Nat} {s : State} {pc : Nat} {stk : List Frame} {pen : Bool} {par : Int}
    (h : s.IsAt pc stk pen par) (hi : p.code[pc]? = some Instr.endBlock)
    (hc : closesIf (kinds p.code) pc = true) (hs : stop pc = false)
    (k : ∀ s1 : State, s1.IsAt (pc + 1) stk pen par →
      ∃ s', runUntil p env stop n s1 = some s' ∧ Q s') :
    ∃ s', runUntil p env stop (n + 1) s = some s' ∧ Q s' := by
  obtain ⟨hm, hpc, hst, hpen, hpar⟩ := h
  subst hpc
  rw [runUntil_exec p env stop n s _ hm hs hi]
  apply k
  simp only [execute, hc, if_true]
  exact ⟨hm, rfl, hst, hpen, (curParam_congr s _ rfl rfl).trans hpar⟩

/-- The outcome of a conditional on a telemetry value. -/
theorem condition_value (env : Env) (s : State) (c : Cmp) (v : SysVal) (x a : Int)
    (hv : v ≠ SysVal.PARAM) (ha : env.value v = some a) :
    condition env s c v x = c.eval a x := by
  unfold condition resolve
  cases v <;> simp_all

/-- The outcome of a conditional on `PARAM`. -/
theorem condition_param (env : Env) (s : State) (c : Cmp) (x : Int) :
    condition env s c SysVal.PARAM x = c.eval s.curParam x := by
  simp [condition, resolve]

theorem condition_lt (env : Env) (s : State) (v : SysVal) (x a : Int)
    (hv : v ≠ SysVal.PARAM) (ha : env.value v = some a) :
    condition env s Cmp.LT v x = decide (a < x) :=
  condition_value env s Cmp.LT v x a hv ha

theorem condition_gt (env : Env) (s : State) (v : SysVal) (x a : Int)
    (hv : v ≠ SysVal.PARAM) (ha : env.value v = some a) :
    condition env s Cmp.GT v x = decide (a > x) :=
  condition_value env s Cmp.GT v x a hv ha

theorem condition_ge (env : Env) (s : State) (v : SysVal) (x a : Int)
    (hv : v ≠ SysVal.PARAM) (ha : env.value v = some a) :
    condition env s Cmp.GE v x = decide (a ≥ x) :=
  condition_value env s Cmp.GE v x a hv ha

theorem condition_le (env : Env) (s : State) (v : SysVal) (x a : Int)
    (hv : v ≠ SysVal.PARAM) (ha : env.value v = some a) :
    condition env s Cmp.LE v x = decide (a ≤ x) :=
  condition_value env s Cmp.LE v x a hv ha

/-! ## The interrupt handler terminates -/

theorem load_missionOf (c : Config) : load (instructions c) = Except.ok (missionOf c) :=
  load_instructions c

/-- The handler `INT_FORCE_TARGET_AHAID`, entered at its first instruction
with a fresh call stack, runs to the `END` of its definition within 15
instructions, whatever the telemetry reads. -/
theorem handler_runs_to_end (c : Config) (env : Env) (s : State) :
    ∃ off, targetOffset (missionOf c) (Target.sub INT_FORCE_TARGET_AHAID) = some off
      ∧ (∀ i, i < 15 →
          ((missionOf c).code[off + i]?).map (fun x => x.kind.leavesOrLoops) = some false)
      ∧ (missionOf c).code[off + 15]? = some END
      ∧ (nestAt (kinds (missionOf c).code) (off + 15)).map Block.kind
          = [Kind.toK INT_FORCE_TARGET_AHAID]
      ∧ ∃ s', runUntil (missionOf c) env (fun pc => decide (pc = off + 15)) 15
            (s.handlerEntry off) = some s'
          ∧ s'.pc = off + 15 ∧ s'.stack = [] ∧ s'.mode = Mode.Running := by
  obtain ⟨base, hoff, hw⟩ := window_INT_FORCE_TARGET_AHAID c
  obtain ⟨hL, hs1, hs7, hs8, hc14, hc15, hc16, hc17⟩ :=
    flow_INT_FORCE_TARGET_AHAID c (missionOf c).code base hw
  refine ⟨base + 1, hoff, ?_, ?_, ?_, ?_⟩
  · intro i hi
    rw [Nat.add_assoc, hL (1 + i) (by omega)]
    interval_cases i <;> rfl
  · rw [Nat.add_assoc, hL (1 + 15) (by omega)]; rfl
  · rw [Nat.add_assoc, inWindow_nest (missionOf c).code base _ hw (1 + 15)
      (Nat.le_of_ble_eq_true rfl)]
    rfl
  · generalize missionOf c = p at *
    have h0 : (s.handlerEntry (base + 1)).IsAt (base + 1) [] s.penDown
        (s.handlerEntry (base + 1)).curParam := ⟨rfl, rfl, rfl, rfl, rfl⟩
    generalize (s.handlerEntry (base + 1)).curParam = par at h0
    generalize s.handlerEntry (base + 1) = s0 at h0
    generalize s.penDown = pen at h0
    have fin : ∀ (s9 : State) (pen9 : Bool), s9.IsAt (base + 15 + 1) [] pen9 par →
        ∀ n, ∃ s', runUntil p env (fun pc => decide (pc = base + 1 + 15)) n s9 = some s'
          ∧ s'.pc = base + 1 + 15 ∧ s'.stack = [] ∧ s'.mode = Mode.Running := by
      intro s9 pen9 h9 n
      exact runUntil_stop (by simp [h9.2.1]) ⟨by rw [h9.2.1], h9.2.2.1, h9.1⟩
    cases hb1 : condition env s0 Cmp.LT SysVal.REL_ANGLE_TO_GOAL (-60) with
    | true =>
      refine sym_if_true _ _ _ h0 ((hL 1 (by omega)).trans rfl) hb1 (by simp) ?_
      intro s2 h2
      refine sym_pen PEN_UP false h2 ((hL 2 (by omega)).trans rfl) rfl (by simp) ?_
      intro s3 h3
      refine sym_plain USE_CURRENT_ANGLE h3 ((hL 3 (by omega)).trans rfl) (Or.inl rfl) (by simp) ?_
      intro s4 h4
      refine sym_plain USE_CURRENT_POS h4 ((hL 4 (by omega)).trans rfl) (Or.inr ⟨rfl, rfl⟩)
        (by simp) ?_
      intro s5 h5
      refine sym_plain (FD WAYPOINT_RADIUS) h5 ((hL 5 (by omega)).trans rfl) (Or.inr ⟨rfl, rfl⟩)
        (by simp) ?_
      intro s6 h6
      refine sym_pen PEN_DOWN true h6 ((hL 6 (by omega)).trans rfl) rfl (by simp) ?_
      intro s7 h7
      refine sym_else (base + 15) h7 ((hL 7 (by omega)).trans rfl) hs7 (by simp) ?_
      intro s8 h8
      refine sym_endif h8 ((hL 15 (by omega)).trans rfl) hc15 (by simp) ?_
      intro s9 h9
      exact fin s9 _ h9 _
    | false =>
      refine sym_if_false _ _ _ (base + 8) h0 ((hL 1 (by omega)).trans rfl) hb1 hs1 (by simp) ?_
      intro s2 h2
      cases hb2 : condition env s2 Cmp.GT SysVal.REL_ANGLE_TO_GOAL 60 with
      | true =>
        refine sym_if_true _ _ _ h2 ((hL 8 (by omega)).trans rfl) hb2 (by simp) ?_
        intro s3 h3
        refine sym_pen PEN_UP false h3 ((hL 9 (by omega)).trans rfl) rfl (by simp) ?_
        intro s4 h4
        refine sym_plain USE_CURRENT_ANGLE h4 ((hL 10 (by omega)).trans rfl) (Or.inl rfl)
          (by simp) ?_
        intro s5 h5
        refine sym_plain USE_CURRENT_POS h5 ((hL 11 (by omega)).trans rfl) (Or.inr ⟨rfl, rfl⟩)
          (by simp) ?_
        intro s6 h6
        refine sym_plain (FD WAYPOINT_RADIUS) h6 ((hL 12 (by omega)).trans rfl)
          (Or.inr ⟨rfl, rfl⟩) (by simp) ?_
        intro s7 h7
        refine sym_pen PEN_DOWN true h7 ((hL 13 (by omega)).trans rfl) rfl (by simp) ?_
        intro s8 h8
        refine sym_endif h8 ((hL 14 (by omega)).trans rfl) hc14 (by simp) ?_
        intro s9 h9
        refine sym_endif h9 ((hL 15 (by omega)).trans rfl) hc15 (by simp) ?_
        intro s10 h10
        exact fin s10 _ h10 _
      | false =>
        refine sym_if_false _ _ _ (base + 14) h2 ((hL 8 (by omega)).trans rfl) hb2 hs8
          (by simp) ?_
        intro s3 h3
        refine sym_endif h3 ((hL 14 (by omega)).trans rfl) hc14 (by simp) ?_
        intro s4 h4
        refine sym_endif h4 ((hL 15 (by omega)).trans rfl) hc15 (by simp) ?_
        intro s5 h5
        exact fin s5 _ h5 _

/-- C17: the main body of the mission table arms `INT_FORCE_TARGET_AHAID` as
the interrupt handler (offset 4, source line 1060); the handler contains no
`DO`, `EXEC` or `REPEAT` instruction, and started by the interrupt scheduler
(fresh call stack) it reaches the `END` that terminates its definition, for
every telemetry, after executing no more instructions than the 15 of its
body, with the call stack empty again. -/
theorem handler_terminates (c : Config) (env : Env) (s : State) :
    (missionOf c).code[4]? = some (SET_INTERRUPT INT_FORCE_TARGET_AHAID)
      ∧ ∃ off, targetOffset (missionOf c) (Target.sub INT_FORCE_TARGET_AHAID) = some off
      ∧ (∀ i, i < 15 →
          ((missionOf c).code[off + i]?).map (fun x => x.kind.leavesOrLoops) = some false)
      ∧ (missionOf c).code[off + 15]? = some END
      ∧ (nestAt (kinds (missionOf c).code) (off + 15)).map Block.kind
          = [Kind.toK INT_FORCE_TARGET_AHAID]
      ∧ ∃ s', runUntil (missionOf c) env (fun pc => decide (pc = off + 15)) 15
            (s.handlerEntry off) = some s'
          ∧ s'.pc = off + 15 ∧ s'.stack = [] ∧ s'.mode = Mode.Running := by
  refine ⟨?_, handler_runs_to_end c env s⟩
  obtain ⟨a, b, d, e, t⟩ := c
  cases t <;> rfl

/-! ## The wind table of the landing circuit -/

set_option maxRecDepth 100000 in
theorem window_LOITER_LAND (c : Config) :
    ∃ base, targetOffset (missionOf c) (Target.sub LOITER_LAND) = some (base + 1)
      ∧ InWindow (missionOf c).code base (TO_LOITER_LAND c) := by
  obtain ⟨a, b, d, e, t⟩ := c
  cases t
  · exact ⟨617, rfl, rfl, rfl⟩
  · exact ⟨627, rfl, rfl, rfl⟩

set_option maxRecDepth 100000 in
theorem window_FS_LOITER_LAND (c : Config) :
    ∃ base, targetOffset (rtlOf c) (Target.sub FS_LOITER_LAND) = some (base + 1)
      ∧ InWindow (rtlOf c).code base (TO_FS_LOITER_LAND c) := by
  obtain ⟨a, b, d, e, t⟩ := c
  cases t
  · exact ⟨23, rfl, rfl, rfl⟩
  · exact ⟨23, rfl, rfl, rfl⟩

/-- Control flow inside `LOITER_LAND`, wherever it sits in a table. -/
theorem flow_LOITER_LAND (c : Config) (code : List Instr) (base : Nat)
    (hw : InWindow code base (TO_LOITER_LAND c)) :
    (∀ i, i < 94 → code[base + i]? = (TO_LOITER_LAND c)[i]?)
    ∧ skipTarget (kinds code) (base + 9) true = base + 28
    ∧ skipTarget (kinds code) (base + 10) true = base + 21
    ∧ skipTarget (kinds code) (base + 11) true = base + 18
    ∧ skipTarget (kinds code) (base + 12) true = base + 15
    ∧ skipTarget (kinds code) (base + 14) false = base + 16
    ∧ closesIf (kinds code) (base + 16) = true
    ∧ skipTarget (kinds code) (base + 17) false = base + 19
    ∧ closesIf (kinds code) (base + 19) = true
    ∧ skipTarget (kinds code) (base + 20) false = base + 26
    ∧ skipTarget (kinds code) (base + 21) true = base + 24
    ∧ skipTarget (kinds code) (base + 23) false = base + 25
    ∧ closesIf (kinds code) (base + 25) = true
    ∧ closesIf (kinds code) (base + 26) = true
    ∧ skipTarget (kinds code) (base + 27) false = base + 41
    ∧ skipTarget (kinds code) (base + 28) true = base + 35
    ∧ skipTarget (kinds code) (base + 29) true = base + 32
    ∧ skipTarget (kinds code) (base + 31) false = base + 33
    ∧ closesIf (kinds code) (base + 33) = true
    ∧ skipTarget (kinds code) (base + 34) false = base + 40
    ∧ skipTarget (kinds code) (base + 35) true = base + 38
    ∧ skipTarget (kinds code) (base + 37) false = base + 39
    ∧ closesIf (kinds code) (base + 39) = true
    ∧ closesIf (kinds code) (base + 40) = true
    ∧ closesIf (kinds code) (base + 41) = true
    ∧ skipTarget (kinds code) (base + 42) true = base + 47
    ∧ skipTarget (kinds code) (base + 46) false = base + 52
    ∧ closesIf (kinds code) (base + 52) = true
    ∧ skipTarget (kinds code) (base + 55) true = base + 58
    ∧ skipTarget (kinds code) (base + 57) false = base + 61
    ∧ closesIf (kinds code) (base + 61) = true
    ∧ skipTarget (kinds code) (base + 65) true = base + 69
    ∧ skipTarget (kinds code) (base + 68) false = base + 90
    ∧ skipTarget (kinds code) (base + 69) true = base + 88
    ∧ skipTarget (kinds code) (base + 73) true = base + 78
    ∧ skipTarget (kinds code) (base + 77) false = base + 83
    ∧ closesIf (kinds code) (base + 83) = true
    ∧ closesIf (kinds code) (base + 88) = true
    ∧ closesIf (kinds code) (base + 90) = true
    ∧ closesIf (kinds code) (base + 91) = false
    ∧ closesIf (kinds code) (base + 92) = false
    ∧ closesIf (kinds code) (base + 93) = false := by
  refine ⟨fun i hi => inWindow_getElem? code base _ hw i (Nat.lt_of_lt_of_le hi (Nat.le_of_ble_eq_true rfl)), ?_, ?_, ?_, ?_, ?_, ?_, ?_, ?_, ?_, ?_, ?_, ?_, ?_, ?_, ?_, ?_, ?_, ?_, ?_, ?_, ?_, ?_, ?_, ?_, ?_, ?_, ?_, ?_, ?_, ?_, ?_, ?_, ?_, ?_, ?_, ?_, ?_, ?_, ?_, ?_, ?_⟩
  · rw [inWindow_skipTarget code base _ hw 9 true rfl]; rfl
  · rw [inWindow_skipTarget code base _ hw 10 true rfl]; rfl
  · rw [inWindow_skipTarget code base _ hw 11 true rfl]; rfl
  · rw [inWindow_skipTarget code base _ hw 12 true rfl]; rfl
  · rw [inWindow_skipTarget code base _ hw 14 false rfl]; rfl
  · rw [inWindow_closesIf code base _ hw 16 (Nat.le_of_ble_eq_true rfl)]; rfl
  · rw [inWindow_skipTarget code base _ hw 17 false rfl]; rfl
  · rw [inWindow_closesIf code base _ hw 19 (Nat.le_of_ble_eq_true rfl)]; rfl
  · rw [inWindow_skipTarget code base _ hw 20 false rfl]; rfl
  · rw [inWindow_skipTarget code base _ hw 21 true rfl]; rfl
  · rw [inWindow_skipTarget code base _ hw 23 false rfl]; rfl
  · rw [inWindow_closesIf code base _ hw 25 (Nat.le_of_ble_eq_true rfl)]; rfl
  · rw [inWindow_closesIf code base _ hw 26 (Nat.le_of_ble_eq_true rfl)]; rfl
  · rw [inWindow_skipTarget code base _ hw 27 false rfl]; rfl
  · rw [inWindow_skipTarget code base _ hw 28 true rfl]; rfl
  · rw [inWindow_skipTarget code base _ hw 29 true rfl]; rfl
  · rw [inWindow_skipTarget code base _ hw 31 false rfl]; rfl
  · rw [inWindow_closesIf code base _ hw 33 (Nat.le_of_ble_eq_true rfl)]; rfl
  · rw [inWindow_skipTarget code base _ hw 34 false rfl]; rfl
  · rw [inWindow_skipTarget code base _ hw 35 true rfl]; rfl
  · rw [inWindow_skipTarget code base _ hw 37 false rfl]; rfl
  · rw [inWindow_closesIf code base _ hw 39 (Nat.le_of_ble_eq_true rfl)]; rfl
  · rw [inWindow_closesIf code base _ hw 40 (Nat.le_of_ble_eq_true rfl)]; rfl
  · rw [inWindow_closesIf code base _ hw 41 (Nat.le_of_ble_eq_true rfl)]; rfl
  · rw [inWindow_skipTarget code base _ hw 42 true rfl]; rfl
  · rw [inWindow_skipTarget code base _ hw 46 false rfl]; rfl
  · rw [inWindow_closesIf code base _ hw 52 (Nat.le_of_ble_eq_true rfl)]; rfl
  · rw [inWindow_skipTarget code base _ hw 55 true rfl]; rfl
  · rw [inWindow_skipTarget code base _ hw 57 false rfl]; rfl
  · rw [inWindow_closesIf code base _ hw 61 (Nat.le_of_ble_eq_true rfl)]; rfl
  · rw [inWindow_skipTarget code base _ hw 65 true rfl]; rfl
  · rw [inWindow_skipTarget code base _ hw 68 false rfl]; rfl
  · rw [inWindow_skipTarget code base _ hw 69 true rfl]; rfl
  · rw [inWindow_skipTarget code base _ hw 73 true rfl]; rfl
  · rw [inWindow_skipTarget code base _ hw 77 false rfl]; rfl
  · rw [inWindow_closesIf code base _ hw 83 (Nat.le_of_ble_eq_true rfl)]; rfl
  · rw [inWindow_closesIf code base _ hw 88 (Nat.le_of_ble_eq_true rfl)]; rfl
  · rw [inWindow_closesIf code base _ hw 90 (Nat.le_of_ble_eq_true rfl)]; rfl
  · rw [inWindow_closesIf code base _ hw 91 (Nat.le_of_ble_eq_true rfl)]; rfl
  · rw [inWindow_closesIf code base _ hw 92 (Nat.le_of_ble_eq_true rfl)]; rfl
  · rw [inWindow_closesIf code base _ hw 93 (Nat.le_of_ble_eq_true rfl)]; rfl

/-- Control flow inside `FS_LOITER_LAND`, wherever it sits in a table. -/
theorem flow_FS_LOITER_LAND (c : Config) (code : List Instr) (base : Nat)
    (hw : InWindow code base (TO_FS_LOITER_LAND c)) :
    (∀ i, i < 94 → code[base + i]? = (TO_FS_LOITER_LAND c)[i]?)
    ∧ skipTarget (kinds code) (base + 9) true = base + 28
    ∧ skipTarget (kinds code) (base + 10) true = base + 21
    ∧ skipTarget (kinds code) (base + 11) true = base + 18
    ∧ skipTarget (kinds code) (base + 12) true = base + 15
    ∧ skipTarget (kinds code) (base + 14) false = base + 16
    ∧ closesIf (kinds code) (base + 16) = true
    ∧ skipTarget (kinds code) (base + 17) false = base + 19
    ∧ closesIf (kinds code) (base + 19) = true
    ∧ skipTarget (kinds code) (base + 20) false = base + 26
    ∧ skipTarget (kinds code) (base + 21) true = base + 24
    ∧ skipTarget (kinds code) (base + 23) false = base + 25
    ∧ closesIf (kinds code) (base + 25) = true
    ∧ closesIf (kinds code) (base + 26) = true
    ∧ skipTarget (kinds code) (base + 27) false = base + 41
    ∧ skipTarget (kinds code) (base + 28) true = base + 35
    ∧ skipTarget (kinds code) (base + 29) true = base + 32
    ∧ skipTarget (kinds code) (base + 31) false = base + 33
    ∧ closesIf (kinds code) (base + 33) = true
    ∧ skipTarget (kinds code) (base + 34) false = base + 40
    ∧ skipTarget (kinds code) (base + 35) true = base + 38
    ∧ skipTarget (kinds code) (base + 37) false = base + 39
    ∧ closesIf (kinds code) (base + 39) = true
    ∧ closesIf (kinds code) (base + 40) = true
    ∧ closesIf (kinds code) (base + 41) = true
    ∧ skipTarget (kinds code) (base + 42) true = base + 47
    ∧ skipTarget (kinds code) (base + 46) false = base + 52
    ∧ closesIf (kinds code) (base + 52) = true
    ∧ skipTarget (kinds code) (base + 55) true = base + 58
    ∧ skipTarget (kinds code) (base + 57) false = base + 61
    ∧ closesIf (kinds code) (base + 61) = true
    ∧ skipTarget (kinds code) (base + 65) true = base + 69
    ∧ skipTarget (kinds code) (base + 68) false = base + 90
    ∧ skipTarget (kinds code) (base + 69) true = base + 88
    ∧ skipTarget (kinds code) (base + 73) true = base + 78
    ∧ skipTarget (kinds code) (base + 77) false = base + 83
    ∧ closesIf (kinds code) (base + 83) = true
    ∧ closesIf (kinds code) (base + 88) = true
    ∧ closesIf (kinds code) (base + 90) = true
    ∧ closesIf (kinds code) (base + 91) = false
    ∧ closesIf (kinds code) (base + 92) = false
    ∧ closesIf (kinds code) (base + 93) = false := by
  refine ⟨fun i hi => inWindow_getElem? code base _ hw i (Nat.lt_of_lt_of_le hi (Nat.le_of_ble_eq_true rfl)), ?_, ?_, ?_, ?_, ?_, ?_, ?_, ?_, ?_, ?_, ?_, ?_, ?_, ?_, ?_, ?_, ?_, ?_, ?_, ?_, ?_, ?_, ?_, ?_, ?_, ?_, ?_, ?_, ?_, ?_, ?_, ?_, ?_, ?_, ?_, ?_, ?_, ?_, ?_, ?_, ?_⟩
  · rw [inWindow_skipTarget code base _ hw 9 true rfl]; rfl
  · rw [inWindow_skipTarget code base _ hw 10 true rfl]; rfl
  · rw [inWindow_skipTarget code base _ hw 11 true rfl]; rfl
  · rw [inWindow_skipTarget code base _ hw 12 true rfl]; rfl
  · rw [inWindow_skipTarget code base _ hw 14 false rfl]; rfl
  · rw [inWindow_closesIf code base _ hw 16 (Nat.le_of_ble_eq_true rfl)]; rfl
  · rw [inWindow_skipTarget code base _ hw 17 false rfl]; rfl
  · rw [inWindow_closesIf code base _ hw 19 (Nat.le_of_ble_eq_true rfl)]; rfl
  · rw [inWindow_skipTarget code base _ hw 20 false rfl]; rfl
  · rw [inWindow_skipTarget code base _ hw 21 true rfl]; rfl
  · rw [inWindow_skipTarget code base _ hw 23 false rfl]; rfl
  · rw [inWindow_closesIf code base _ hw 25 (Nat.le_of_ble_eq_true rfl)]; rfl
  · rw [inWindow_closesIf code base _ hw 26 (Nat.le_of_ble_eq_true rfl)]; rfl
  · rw [inWindow_skipTarget code base _ hw 27 false rfl]; rfl
  · rw [inWindow_skipTarget code base _ hw 28 true rfl]; rfl
  · rw [inWindow_skipTarget code base _ hw 29 true rfl]; rfl
  · rw [inWindow_skipTarget code base _ hw 31 false rfl]; rfl
  · rw [inWindow_closesIf code base _ hw 33 (Nat.le_of_ble_eq_true rfl)]; rfl
  · rw [inWindow_skipTarget code base _ hw 34 false rfl]; rfl
  · rw [inWindow_skipTarget code base _ hw 35 true rfl]; rfl
  · rw [inWindow_skipTarget code base _ hw 37 false rfl]; rfl
  · rw [inWindow_closesIf code base _ hw 39 (Nat.le_of_ble_eq_true rfl)]; rfl
  · rw [inWindow_closesIf code base _ hw 40 (Nat.le_of_ble_eq_true rfl)]; rfl
  · rw [inWindow_closesIf code base _ hw 41 (Nat.le_of_ble_eq_true rfl)]; rfl
  · rw [inWindow_skipTarget code base _ hw 42 true rfl]; rfl
  · rw [inWindow_skipTarget code base _ hw 46 false rfl]; rfl
  · rw [inWindow_closesIf code base _ hw 52 (Nat.le_of_ble_eq_true rfl)]; rfl
  · rw [inWindow_skipTarget code base _ hw 55 true rfl]; rfl
  · rw [inWindow_skipTarget code base _ hw 57 false rfl]; rfl
  · rw [inWindow_closesIf code base _ hw 61 (Nat.le_of_ble_eq_true rfl)]; rfl
  · rw [inWindow_skipTarget code base _ hw 65 true rfl]; rfl
  · rw [inWindow_skipTarget code base _ hw 68 false rfl]; rfl
  · rw [inWindow_skipTarget code base _ hw 69 true rfl]; rfl
  · rw [inWindow_skipTarget code base _ hw 73 true rfl]; rfl
  · rw [inWindow_skipTarget code base _ hw 77 false rfl]; rfl
  · rw [inWindow_closesIf code base _ hw 83 (Nat.le_of_ble_eq_true rfl)]; rfl
  · rw [inWindow_closesIf code base _ hw 88 (Nat.le_of_ble_eq_true rfl)]; rfl
  · rw [inWindow_closesIf code base _ hw 90 (Nat.le_of_ble_eq_true rfl)]; rfl
  · rw [inWindow_closesIf code base _ hw 91 (Nat.le_of_ble_eq_true rfl)]; rfl
  · rw [inWindow_closesIf code base _ hw 92 (Nat.le_of_ble_eq_true rfl)]; rfl
  · rw [inWindow_closesIf code base _ hw 93 (Nat.le_of_ble_eq_true rfl)]; rfl



theorem sector_north (w : Int) (h0 : 0 ≤ w) (h : w < 22) :
    (-326 : Int) = if w = 22 then 64 else sectorParam w := by
  unfold sectorParam
  repeat' split
  all_goals omega

theorem sector_east (w : Int) (h1 : ¬ w < 22) (h2 : w < 113) :
    (64 : Int) = if w = 22 then 64 else sectorParam w := by
  unfold sectorParam
  repeat' split
  all_goals omega

theorem sector_south (w : Int) (h1 : ¬ w < 113) (h2 : w < 203) :
    (148 : Int) = if w = 22 then 64 else sectorParam w := by
  unfold sectorParam
  repeat' split
  all_goals omega

theorem sector_west (w : Int) (h1 : ¬ w < 203) (h2 : w < 293) :
    (-243 : Int) = if w = 22 then 64 else sectorParam w := by
  unfold sectorParam
  repeat' split
  all_goals omega

theorem sector_north_west (w : Int) (h1 : ¬ w < 293) (h2 : w ≤ 359) :
    (-326 : Int) = if w = 22 then 64 else sectorParam w := by
  unfold sectorParam
  repeat' split
  all_goals omega

set_option maxHeartbeats 1000000 in
/-- The wind table of `LOITER_LAND` run from its first `IF_LT` to the
instruction after its last `END`: the value left in `PARAM`. -/
theorem wind_table_LOITER_LAND (c : Config) (p : ResolvedProgram) (base : Nat)
    (hwin : InWindow p.code base (TO_LOITER_LAND c)) (env : Env) (w : Int)
    (hw : env.value SysVal.WIND_FROM_ANGLE = some w) (h0 : 0 ≤ w) (h359 : w ≤ 359)
    (s : State) (stk : List Frame) (pen : Bool) (par : Int) (h : s.IsAt (base + 9) stk pen par) :
    ∃ s', runUntil p env (fun pc => decide (pc = base + 42)) 13 s = some s'
      ∧ s'.curParam = if w = 22 then 64 else sectorParam w := by
  obtain ⟨hL, hs9, hs10, hs11, hs12, hs14, hc16, hs17, hc19, hs20, hs21, hs23, hc25, hc26, hs27, hs28, hs29, hs31, hc33, hs34, hs35, hs37, hc39, hc40, hc41, hs42, hs46, hc52, hs55, hs57, hc61, hs65, hs68, hs69, hs73, hs77, hc83, hc88, hc90, hc91, hc92, hc93⟩ := flow_LOITER_LAND c p.code base hwin
  by_cases hw203 : w < 203
  · refine sym_if_true _ _ _ h ((hL 9 (by omega)).trans rfl) ((condition_lt env _ SysVal.WIND_FROM_ANGLE 203 w (by decide) hw).trans (decide_eq_true hw203)) (decide_eq_false (by omega)) ?_
    intro s1 h1
    by_cases hw113 : w < 113
    · refine sym_if_true _ _ _ h1 ((hL 10 (by omega)).trans rfl) ((condition_lt env _ SysVal.WIND_FROM_ANGLE 113 w (by decide) hw).trans (decide_eq_true hw113)) (decide_eq_false (by omega)) ?_
      intro s2 h2
      by_cases hw64 : w < 64
      · refine sym_if_true _ _ _ h2 ((hL 11 (by omega)).trans rfl) ((condition_lt env _ SysVal.WIND_FROM_ANGLE 64 w (by decide) hw).trans (decide_eq_true hw64)) (decide_eq_false (by omega)) ?_
        intro s3 h3
        by_cases hw22 : w < 22
        · refine sym_if_true _ _ _ h3 ((hL 12 (by omega)).trans rfl) ((condition_lt env _ SysVal.WIND_FROM_ANGLE 22 w (by decide) hw).trans (decide_eq_true hw22)) (decide_eq_false (by omega)) ?_
          intro s4 h4
          refine sym_param (PARAM_SET (-326)) (-326) h4 ((hL 13 (by omega)).trans rfl) rfl (decide_eq_false (by omega)) ?_
          intro s5 stk5 h5
          refine sym_else (base + 16) h5 ((hL 14 (by omega)).trans rfl) hs14 (decide_eq_false (by omega)) ?_
          intro s6 h6
          refine sym_endif h6 ((hL 16 (by omega)).trans rfl) hc16 (decide_eq_false (by omega)) ?_
          intro s7 h7
          refine sym_else (base + 19) h7 ((hL 17 (by omega)).trans rfl) hs17 (decide_eq_false (by omega)) ?_
          intro s8 h8
          refine sym_endif h8 ((hL 19 (by omega)).trans rfl) hc19 (decide_eq_false (by omega)) ?_
          intro s9 h9
          refine sym_else (base + 26) h9 ((hL 20 (by omega)).trans rfl) hs20 (decide_eq_false (by omega)) ?_
          intro s10 h10
          refine sym_endif h10 ((hL 26 (by omega)).trans rfl) hc26 (decide_eq_false (by omega)) ?_
          intro s11 h11
          refine sym_else (base + 41) h11 ((hL 27 (by omega)).trans rfl) hs27 (decide_eq_false (by omega)) ?_
          intro s12 h12
          refine sym_endif h12 ((hL 41 (by omega)).trans rfl) hc41 (decide_eq_false (by omega)) ?_
          intro s13 h13
          exact runUntil_stop (decide_eq_true h13.2.1) (h13.2.2.2.2.trans (sector_north w h0 hw22))
        · refine sym_if_false _ _ _ (base + 15) h3 ((hL 12 (by omega)).trans rfl) ((condition_lt env _ SysVal.WIND_FROM_ANGLE 22 w (by decide) hw).trans (decide_eq_false hw22)) hs12 (decide_eq_false (by omega)) ?_
          intro s4 h4
          refine sym_param (PARAM_SET 64) 64 h4 ((hL 15 (by omega)).trans rfl) rfl (decide_eq_false (by omega)) ?_
          intro s14 stk14 h14
          refine sym_endif h14 ((hL 16 (by omega)).trans rfl) hc16 (decide_eq_false (by omega)) ?_
          intro s15 h15
          refine sym_else (base + 19) h15 ((hL 17 (by omega)).trans rfl) hs17 (decide_eq_false (by omega)) ?_
          intro s16 h16
          refine sym_endif h16 ((hL 19 (by omega)).trans rfl) hc19 (decide_eq_false (by omega)) ?_
          intro s17 h17
          refine sym_else (base + 26) h17 ((hL 20 (by omega)).trans rfl) hs20 (decide_eq_false (by omega)) ?_
          intro s18 h18
          refine sym_endif h18 ((hL 26 (by omega)).trans rfl) hc26 (decide_eq_false (by omega)) ?_
          intro s19 h19
          refine sym_else (base + 41) h19 ((hL 27 (by omega)).trans rfl) hs27 (decide_eq_false (by omega)) ?_
          intro s20 h20
          refine sym_endif h20 ((hL 41 (by omega)).trans rfl) hc41 (decide_eq_false (by omega)) ?_
          intro s21 h21
          exact runUntil_stop (decide_eq_true h21.2.1) (h21.2.2.2.2.trans (sector_east w (by omega) (by omega)))
      · refine sym_if_false _ _ _ (base + 18) h2 ((hL 11 (by omega)).trans rfl) ((condition_lt env _ SysVal.WIND_FROM_ANGLE 64 w (by decide) hw).trans (decide_eq_false hw64)) hs11 (decide_eq_false (by omega)) ?_
        intro s3 h3
        refine sym_param (PARAM_SET 64) 64 h3 ((hL 18 (by omega)).trans rfl) rfl (decide_eq_false (by omega)) ?_
        intro s22 stk22 h22
        refine sym_endif h22 ((hL 19 (by omega)).trans rfl) hc19 (decide_eq_false (by omega)) ?_
        intro s23 h23
        refine sym_else (base + 26) h23 ((hL 20 (by omega)).trans rfl) hs20 (decide_eq_false (by omega)) ?_
        intro s24 h24
        refine sym_endif h24 ((hL 26 (by omega)).trans rfl) hc26 (decide_eq_false (by omega)) ?_
        intro s25 h25
        refine sym_else (base + 41) h25 ((hL 27 (by omega)).trans rfl) hs27 (decide_eq_false (by omega)) ?_
        intro s26 h26
        refine sym_endif h26 ((hL 41 (by omega)).trans rfl) hc41 (decide_eq_false (by omega)) ?_
        intro s27 h27
        exact runUntil_stop (decide_eq_true h27.2.1) (h27.2.2.2.2.trans (sector_east w (by omega) (by omega)))
    · refine sym_if_false _ _ _ (base + 21) h1 ((hL 10 (by omega)).trans rfl) ((condition_lt env _ SysVal.WIND_FROM_ANGLE 113 w (by decide) hw).trans (decide_eq_false hw113)) hs10 (decide_eq_false (by omega)) ?_
      intro s2 h2
      by_cases hw158 : w < 158
      · refine sym_if_true _ _ _ h2 ((hL 21 (by omega)).trans rfl) ((condition_lt env _ SysVal.WIND_FROM_ANGLE 158 w (by decide) hw).trans (decide_eq_true hw158)) (decide_eq_false (by omega)) ?_
        intro s28 h28
        refine sym_param (PARAM_SET 148) 148 h28 ((hL 22 (by omega)).trans rfl) rfl (decide_eq_false (by omega)) ?_
        intro s29 stk29 h29
        refine sym_else (base + 25) h29 ((hL 23 (by omega)).trans rfl) hs23 (decide_eq_false (by omega)) ?_
        intro s30 h30
        refine sym_endif h30 ((hL 25 (by omega)).trans rfl) hc25 (decide_eq_false (by omega)) ?_
        intro s31 h31
        refine sym_endif h31 ((hL 26 (by omega)).trans rfl) hc26 (decide_eq_false (by omega)) ?_
        intro s32 h32
        refine sym_else (base + 41) h32 ((hL 27 (by omega)).trans rfl) hs27 (decide_eq_false (by omega)) ?_
        intro s33 h33
        refine sym_endif h33 ((hL 41 (by omega)).trans rfl) hc41 (decide_eq_false (by omega)) ?_
        intro s34 h34
        exact runUntil_stop (decide_eq_true h34.2.1) (h34.2.2.2.2.trans (sector_south w (by omega) (by omega)))
      · refine sym_if_false _ _ _ (base + 24) h2 ((hL 21 (by omega)).trans rfl) ((condition_lt env _ SysVal.WIND_FROM_ANGLE 158 w (by decide) hw).trans (decide_eq_false hw158)) hs21 (decide_eq_false (by omega)) ?_
        intro s28 h28
        refine sym_param (PARAM_SET 148) 148 h28 ((hL 24 (by omega)).trans rfl) rfl (decide_eq_false (by omega)) ?_
        intro s35 stk35 h35
        refine sym_endif h35 ((hL 25 (by omega)).trans rfl) hc25 (decide_eq_false (by omega)) ?_
        intro s36 h36
        refine sym_endif h36 ((hL 26 (by omega)).trans rfl) hc26 (decide_eq_false (by omega)) ?_
        intro s37 h37
        refine sym_else (base + 41) h37 ((hL 27 (by omega)).trans rfl) hs27 (decide_eq_false (by omega)) ?_
        intro s38 h38
        refine sym_endif h38 ((hL 41 (by omega)).trans rfl) hc41 (decide_eq_false (by omega)) ?_
        intro s39 h39
        exact runUntil_stop (decide_eq_true h39.2.1) (h39.2.2.2.2.trans (sector_south w (by omega) (by omega)))
  · refine sym_if_false _ _ _ (base + 28) h ((hL 9 (by omega)).trans rfl) ((condition_lt env _ SysVal.WIND_FROM_ANGLE 203 w (by decide) hw).trans (decide_eq_false hw203)) hs9 (decide_eq_false (by omega)) ?_
    intro s1 h1
    by_cases hw293 : w < 293
    · refine sym_if_true _ _ _ h1 ((hL 28 (by omega)).trans rfl) ((condition_lt env _ SysVal.WIND_FROM_ANGLE 293 w (by decide) hw).trans (decide_eq_true hw293)) (decide_eq_false (by omega)) ?_
      intro s40 h40
      by_cases hw248 : w < 248
      · refine sym_if_true _ _ _ h40 ((hL 29 (by omega)).trans rfl) ((condition_lt env _ SysVal.WIND_FROM_ANGLE 248 w (by decide) hw).trans (decide_eq_true hw248)) (decide_eq_false (by omega)) ?_
        intro s41 h41
        refine sym_param (PARAM_SET (-243)) (-243) h41 ((hL 30 (by omega)).trans rfl) rfl (decide_eq_false (by omega)) ?_
        intro s42 stk42 h42
        refine sym_else (base + 33) h42 ((hL 31 (by omega)).trans rfl) hs31 (decide_eq_false (by omega)) ?_
        intro s43 h43
        refine sym_endif h43 ((hL 33 (by omega)).trans rfl) hc33 (decide_eq_false (by omega)) ?_
        intro s44 h44
        refine sym_else (base + 40) h44 ((hL 34 (by omega)).trans rfl) hs34 (decide_eq_false (by omega)) ?_
        intro s45 h45
        refine sym_endif h45 ((hL 40 (by omega)).trans rfl) hc40 (decide_eq_false (by omega)) ?_
        intro s46 h46
        refine sym_endif h46 ((hL 41 (by omega)).trans rfl) hc41 (decide_eq_false (by omega)) ?_
        intro s47 h47
        exact runUntil_stop (decide_eq_true h47.2.1) (h47.2.2.2.2.trans (sector_west w (by omega) (by omega)))
      · refine sym_if_false _ _ _ (base + 32) h40 ((hL 29 (by omega)).trans rfl) ((condition_lt env _ SysVal.WIND_FROM_ANGLE 248 w (by decide) hw).trans (decide_eq_false hw248)) hs29 (decide_eq_false (by omega)) ?_
        intro s41 h41
        refine sym_param (PARAM_SET (-243)) (-243) h41 ((hL 32 (by omega)).trans rfl) rfl (decide_eq_false (by omega)) ?_
        intro s48 stk48 h48
        refine sym_endif h48 ((hL 33 (by omega)).trans rfl) hc33 (decide_eq_false (by omega)) ?_
        intro s49 h49
        refine sym_else (base + 40) h49 ((hL 34 (by omega)).trans rfl) hs34 (decide_eq_false (by omega)) ?_
        intro s50 h50
        refine sym_endif h50 ((hL 40 (by omega)).trans rfl) hc40 (decide_eq_false (by omega)) ?_
        intro s51 h51
        refine sym_endif h51 ((hL 41 (by omega)).trans rfl) hc41 (decide_eq_false (by omega)) ?_
        intro s52 h52
        exact runUntil_stop (decide_eq_true h52.2.1) (h52.2.2.2.2.trans (sector_west w (by omega) (by omega)))
    · refine sym_if_false _ _ _ (base + 35) h1 ((hL 28 (by omega)).trans rfl) ((condition_lt env _ SysVal.WIND_FROM_ANGLE 293 w (by decide) hw).trans (decide_eq_false hw293)) hs28 (decide_eq_false (by omega)) ?_
      intro s40 h40
      by_cases hw338 : w < 338
      · refine sym_if_true _ _ _ h40 ((hL 35 (by omega)).trans rfl) ((condition_lt env _ SysVal.WIND_FROM_ANGLE 338 w (by decide) hw).trans (decide_eq_true hw338)) (decide_eq_false (by omega)) ?_
        intro s53 h53
        refine sym_param (PARAM_SET (-326)) (-326) h53 ((hL 36 (by omega)).trans rfl) rfl (decide_eq_false (by omega)) ?_
        intro s54 stk54 h54
        refine sym_else (base + 39) h54 ((hL 37 (by omega)).trans rfl) hs37 (decide_eq_false (by omega)) ?_
        intro s55 h55
        refine sym_endif h55 ((hL 39 (by omega)).trans rfl) hc39 (decide_eq_false (by omega)) ?_
        intro s56 h56
        refine sym_endif h56 ((hL 40 (by omega)).trans rfl) hc40 (decide_eq_false (by omega)) ?_
        intro s57 h57
        refine sym_endif h57 ((hL 41 (by omega)).trans rfl) hc41 (decide_eq_false (by omega)) ?_
        intro s58 h58
        exact runUntil_stop (decide_eq_true h58.2.1) (h58.2.2.2.2.trans (sector_north_west w (by omega) h359))
      · refine sym_if_false _ _ _ (base + 38) h40 ((hL 35 (by omega)).trans rfl) ((condition_lt env _ SysVal.WIND_FROM_ANGLE 338 w (by decide) hw).trans (decide_eq_false hw338)) hs35 (decide_eq_false (by omega)) ?_
        intro s53 h53
        refine sym_param (PARAM_SET (-326)) (-326) h53 ((hL 38 (by omega)).trans rfl) rfl (decide_eq_false (by omega)) ?_
        intro s59 stk59 h59
        refine sym_endif h59 ((hL 39 (by omega)).trans rfl) hc39 (decide_eq_false (by omega)) ?_
        intro s60 h60
        refine sym_endif h60 ((hL 40 (by omega)).trans rfl) hc40 (decide_eq_false (by omega)) ?_
        intro s61 h61
        refine sym_endif h61 ((hL 41 (by omega)).trans rfl) hc41 (decide_eq_false (by omega)) ?_
        intro s62 h62
        exact runUntil_stop (decide_eq_true h62.2.1) (h62.2.2.2.2.trans (sector_north_west w (by omega) h359))

set_option maxHeartbeats 1000000 in
/-- The wind table of `FS_LOITER_LAND` run from its first `IF_LT` to the
instruction after its last `END`: the value left in `PARAM`. -/
theorem wind_table_FS_LOITER_LAND (c : Config) (p : ResolvedProgram) (base : Nat)
    (hwin : InWindow p.code base (TO_FS_LOITER_LAND c)) (env : Env) (w : Int)
    (hw : env.value SysVal.WIND_FROM_ANGLE = some w) (h0 : 0 ≤ w) (h359 : w ≤ 359)
    (s : State) (stk : List Frame) (pen : Bool) (par : Int) (h : s.IsAt (base + 9) stk pen par) :
    ∃ s', runUntil p env (fun pc => decide (pc = base + 42)) 13 s = some s'
      ∧ s'.curParam = if w = 22 then 64 else sectorParam w := by
  obtain ⟨hL, hs9, hs10, hs11, hs12, hs14, hc16, hs17, hc19, hs20, hs21, hs23, hc25, hc26, hs27, hs28, hs29, hs31, hc33, hs34, hs35, hs37, hc39, hc40, hc41, hs42, hs46, hc52, hs55, hs57, hc61, hs65, hs68, hs69, hs73, hs77, hc83, hc88, hc90, hc91, hc92, hc93⟩ := flow_FS_LOITER_LAND c p.code base hwin
  by_cases hw203 : w < 203
  · refine sym_if_true _ _ _ h ((hL 9 (by omega)).trans rfl) ((condition_lt env _ SysVal.WIND_FROM_ANGLE 203 w (by decide) hw).trans (decide_eq_true hw203)) (decide_eq_false (by omega)) ?_
    intro s1 h1
    by_cases hw113 : w < 113
    · refine sym_if_true _ _ _ h1 ((hL 10 (by omega)).trans rfl) ((condition_lt env _ SysVal.WIND_FROM_ANGLE 113 w (by decide) hw).trans (decide_eq_true hw113)) (decide_eq_false (by omega)) ?_
      intro s2 h2
      by_cases hw64 : w < 64
      · refine sym_if_true _ _ _ h2 ((hL 11 (by omega)).trans rfl) ((condition_lt env _ SysVal.WIND_FROM_ANGLE 64 w (by decide) hw).trans (decide_eq_true hw64)) (decide_eq_false (by omega)) ?_
        intro s3 h3
        by_cases hw22 : w < 22
        · refine sym_if_true _ _ _ h3 ((hL 12 (by omega)).trans rfl) ((condition_lt env _ SysVal.WIND_FROM_ANGLE 22 w (by decide) hw).trans (decide_eq_true hw22)) (decide_eq_false (by omega)) ?_
          intro s4 h4
          refine sym_param (PARAM_SET (-326)) (-326) h4 ((hL 13 (by omega)).trans rfl) rfl (decide_eq_false (by omega)) ?_
          intro s5 stk5 h5
          refine sym_else (base + 16) h5 ((hL 14 (by omega)).trans rfl) hs14 (decide_eq_false (by omega)) ?_
          intro s6 h6
          refine sym_endif h6 ((hL 16 (by omega)).trans rfl) hc16 (decide_eq_false (by omega)) ?_
          intro s7 h7
          refine sym_else (base + 19) h7 ((hL 17 (by omega)).trans rfl) hs17 (decide_eq_false (by omega)) ?_
          intro s8 h8
          refine sym_endif h8 ((hL 19 (by omega)).trans rfl) hc19 (decide_eq_false (by omega)) ?_
          intro s9 h9
          refine sym_else (base + 26) h9 ((hL 20 (by omega)).trans rfl) hs20 (decide_eq_false (by omega)) ?_
          intro s10 h10
          refine sym_endif h10 ((hL 26 (by omega)).trans rfl) hc26 (decide_eq_false (by omega)) ?_
          intro s11 h11
          refine sym_else (base + 41) h11 ((hL 27 (by omega)).trans rfl) hs27 (decide_eq_false (by omega)) ?_
          intro s12 h12
          refine sym_endif h12 ((hL 41 (by omega)).trans rfl) hc41 (decide_eq_false (by omega)) ?_
          intro s13 h13
          exact runUntil_stop (decide_eq_true h13.2.1) (h13.2.2.2.2.trans (sector_north w h0 hw22))
        · refine sym_if_false _ _ _ (base + 15) h3 ((hL 12 (by omega)).trans rfl) ((condition_lt env _ SysVal.WIND_FROM_ANGLE 22 w (by decide) hw).trans (decide_eq_false hw22)) hs12 (decide_eq_false (by omega)) ?_
          intro s4 h4
          refine sym_param (PARAM_SET 64) 64 h4 ((hL 15 (by omega)).trans rfl) rfl (decide_eq_false (by omega)) ?_
          intro s14 stk14 h14
          refine sym_endif h14 ((hL 16 (by omega)).trans rfl) hc16 (decide_eq_false (by omega)) ?_
          intro s15 h15
          refine sym_else (base + 19) h15 ((hL 17 (by omega)).trans rfl) hs17 (decide_eq_false (by omega)) ?_
          intro s16 h16
          refine sym_endif h16 ((hL 19 (by omega)).trans rfl) hc19 (decide_eq_false (by omega)) ?_
          intro s17 h17
          refine sym_else (base + 26) h17 ((hL 20 (by omega)).trans rfl) hs20 (decide_eq_false (by omega)) ?_
          intro s18 h18
          refine sym_endif h18 ((hL 26 (by omega)).trans rfl) hc26 (decide_eq_false (by omega)) ?_
          intro s19 h19
          refine sym_else (base + 41) h19 ((hL 27 (by omega)).trans rfl) hs27 (decide_eq_false (by omega)) ?_
          intro s20 h20
          refine sym_endif h20 ((hL 41 (by omega)).trans rfl) hc41 (decide_eq_false (by omega)) ?_
          intro s21 h21
          exact runUntil_stop (decide_eq_true h21.2.1) (h21.2.2.2.2.trans (sector_east w (by omega) (by omega)))
      · refine sym_if_false _ _ _ (base + 18) h2 ((hL 11 (by omega)).trans rfl) ((condition_lt env _ SysVal.WIND_FROM_ANGLE 64 w (by decide) hw).trans (decide_eq_false hw64)) hs11 (decide_eq_false (by omega)) ?_
        intro s3 h3
        refine sym_param (PARAM_SET 64) 64 h3 ((hL 18 (by omega)).trans rfl) rfl (decide_eq_false (by omega)) ?_
        intro s22 stk22 h22
        refine sym_endif h22 ((hL 19 (by omega)).trans rfl) hc19 (decide_eq_false (by omega)) ?_
        intro s23 h23
        refine sym_else (base + 26) h23 ((hL 20 (by omega)).trans rfl) hs20 (decide_eq_false (by omega)) ?_
        intro s24 h24
        refine sym_endif h24 ((hL 26 (by omega)).trans rfl) hc26 (decide_eq_false (by omega)) ?_
        intro s25 h25
        refine sym_else (base + 41) h25 ((hL 27 (by omega)).trans rfl) hs27 (decide_eq_false (by omega)) ?_
        intro s26 h26
        refine sym_endif h26 ((hL 41 (by omega)).trans rfl) hc41 (decide_eq_false (by omega)) ?_
        intro s27 h27
        exact runUntil_stop (decide_eq_true h27.2.1) (h27.2.2.2.2.trans (sector_east w (by omega) (by omega)))
    · refine sym_if_false _ _ _ (base + 21) h1 ((hL 10 (by omega)).trans rfl) ((condition_lt env _ SysVal.WIND_FROM_ANGLE 113 w (by decide) hw).trans (decide_eq_false hw113)) hs10 (decide_eq_false (by omega)) ?_
      intro s2 h2
      by_cases hw158 : w < 158
      · refine sym_if_true _ _ _ h2 ((hL 21 (by omega)).trans rfl) ((condition_lt env _ SysVal.WIND_FROM_ANGLE 158 w (by decide) hw).trans (decide_eq_true hw158)) (decide_eq_false (by omega)) ?_
        intro s28 h28
        refine sym_param (PARAM_SET 148) 148 h28 ((hL 22 (by omega)).trans rfl) rfl (decide_eq_false (by omega)) ?_
        intro s29 stk29 h29
        refine sym_else (base + 25) h29 ((hL 23 (by omega)).trans rfl) hs23 (decide_eq_false (by omega)) ?_
        intro s30 h30
        refine sym_endif h30 ((hL 25 (by omega)).trans rfl) hc25 (decide_eq_false (by omega)) ?_
        intro s31 h31
        refine sym_endif h31 ((hL 26 (by omega)).trans rfl) hc26 (decide_eq_false (by omega)) ?_
        intro s32 h32
        refine sym_else (base + 41) h32 ((hL 27 (by omega)).trans rfl) hs27 (decide_eq_false (by omega)) ?_
        intro s33 h33
        refine sym_endif h33 ((hL 41 (by omega)).trans rfl) hc41 (decide_eq_false (by omega)) ?_
        intro s34 h34
        exact runUntil_stop (decide_eq_true h34.2.1) (h34.2.2.2.2.trans (sector_south w (by omega) (by omega)))
      · refine sym_if_false _ _ _ (base + 24) h2 ((hL 21 (by omega)).trans rfl) ((condition_lt env _ SysVal.WIND_FROM_ANGLE 158 w (by decide) hw).trans (decide_eq_false hw158)) hs21 (decide_eq_false (by omega)) ?_
        intro s28 h28
        refine sym_param (PARAM_SET 148) 148 h28 ((hL 24 (by omega)).trans rfl) rfl (decide_eq_false (by omega)) ?_
        intro s35 stk35 h35
        refine sym_endif h35 ((hL 25 (by omega)).trans rfl) hc25 (decide_eq_false (by omega)) ?_
        intro s36 h36
        refine sym_endif h36 ((hL 26 (by omega)).trans rfl) hc26 (decide_eq_false (by omega)) ?_
        intro s37 h37
        refine sym_else (base + 41) h37 ((hL 27 (by omega)).trans rfl) hs27 (decide_eq_false (by omega)) ?_
        intro s38 h38
        refine sym_endif h38 ((hL 41 (by omega)).trans rfl) hc41 (decide_eq_false (by omega)) ?_
        intro s39 h39
        exact runUntil_stop (decide_eq_true h39.2.1) (h39.2.2.2.2.trans (sector_south w (by omega) (by omega)))
  · refine sym_if_false _ _ _ (base + 28) h ((hL 9 (by omega)).trans rfl) ((condition_lt env _ SysVal.WIND_FROM_ANGLE 203 w (by decide) hw).trans (decide_eq_false hw203)) hs9 (decide_eq_false (by omega)) ?_
    intro s1 h1
    by_cases hw293 : w < 293
    · refine sym_if_true _ _ _ h1 ((hL 28 (by omega)).trans rfl) ((condition_lt env _ SysVal.WIND_FROM_ANGLE 293 w (by decide) hw).trans (decide_eq_true hw293)) (decide_eq_false (by omega)) ?_
      intro s40 h40
      by_cases hw248 : w < 248
      · refine sym_if_true _ _ _ h40 ((hL 29 (by omega)).trans rfl) ((condition_lt env _ SysVal.WIND_FROM_ANGLE 248 w (by decide) hw).trans (decide_eq_true hw248)) (decide_eq_false (by omega)) ?_
        intro s41 h41
        refine sym_param (PARAM_SET (-243)) (-243) h41 ((hL 30 (by omega)).trans rfl) rfl (decide_eq_false (by omega)) ?_
        intro s42 stk42 h42
        refine sym_else (base + 33) h42 ((hL 31 (by omega)).trans rfl) hs31 (decide_eq_false (by omega)) ?_
        intro s43 h43
        refine sym_endif h43 ((hL 33 (by omega)).trans rfl) hc33 (decide_eq_false (by omega)) ?_
        intro s44 h44
        refine sym_else (base + 40) h44 ((hL 34 (by omega)).trans rfl) hs34 (decide_eq_false (by omega)) ?_
        intro s45 h45
        refine sym_endif h45 ((hL 40 (by omega)).trans rfl) hc40 (decide_eq_false (by omega)) ?_
        intro s46 h46
        refine sym_endif h46 ((hL 41 (by omega)).trans rfl) hc41 (decide_eq_false (by omega)) ?_
        intro s47 h47
        exact runUntil_stop (decide_eq_true h47.2.1) (h47.2.2.2.2.trans (sector_west w (by omega) (by omega)))
      · refine sym_if_false _ _ _ (base + 32) h40 ((hL 29 (by omega)).trans rfl) ((condition_lt env _ SysVal.WIND_FROM_ANGLE 248 w (by decide) hw).trans (decide_eq_false hw248)) hs29 (decide_eq_false (by omega)) ?_
        intro s41 h41
        refine sym_param (PARAM_SET (-243)) (-243) h41 ((hL 32 (by omega)).trans rfl) rfl (decide_eq_false (by omega)) ?_
        intro s48 stk48 h48
        refine sym_endif h48 ((hL 33 (by omega)).trans rfl) hc33 (decide_eq_false (by omega)) ?_
        intro s49 h49
        refine sym_else (base + 40) h49 ((hL 34 (by omega)).trans rfl) hs34 (decide_eq_false (by omega)) ?_
        intro s50 h50
        refine sym_endif h50 ((hL 40 (by omega)).trans rfl) hc40 (decide_eq_false (by omega)) ?_
        intro s51 h51
        refine sym_endif h51 ((hL 41 (by omega)).trans rfl) hc41 (decide_eq_false (by omega)) ?_
        intro s52 h52
        exact runUntil_stop (decide_eq_true h52.2.1) (h52.2.2.2.2.trans (sector_west w (by omega) (by omega)))
    · refine sym_if_false _ _ _ (base + 35) h1 ((hL 28 (by omega)).trans rfl) ((condition_lt env _ SysVal.WIND_FROM_ANGLE 293 w (by decide) hw).trans (decide_eq_false hw293)) hs28 (decide_eq_false (by omega)) ?_
      intro s40 h40
      by_cases hw338 : w < 338
      · refine sym_if_true _ _ _ h40 ((hL 35 (by omega)).trans rfl) ((condition_lt env _ SysVal.WIND_FROM_ANGLE 338 w (by decide) hw).trans (decide_eq_true hw338)) (decide_eq_false (by omega)) ?_
        intro s53 h53
        refine sym_param (PARAM_SET (-326)) (-326) h53 ((hL 36 (by omega)).trans rfl) rfl (decide_eq_false (by omega)) ?_
        intro s54 stk54 h54
        refine sym_else (base + 39) h54 ((hL 37 (by omega)).trans rfl) hs37 (decide_eq_false (by omega)) ?_
        intro s55 h55
        refine sym_endif h55 ((hL 39 (by omega)).trans rfl) hc39 (decide_eq_false (by omega)) ?_
        intro s56 h56
        refine sym_endif h56 ((hL 40 (by omega)).trans rfl) hc40 (decide_eq_false (by omega)) ?_
        intro s57 h57
        refine sym_endif h57 ((hL 41 (by omega)).trans rfl) hc41 (decide_eq_false (by omega)) ?_
        intro s58 h58
        exact runUntil_stop (decide_eq_true h58.2.1) (h58.2.2.2.2.trans (sector_north_west w (by omega) h359))
      · refine sym_if_false _ _ _ (base + 38) h40 ((hL 35 (by omega)).trans rfl) ((condition_lt env _ SysVal.WIND_FROM_ANGLE 338 w (by decide) hw).trans (decide_eq_false hw338)) hs35 (decide_eq_false (by omega)) ?_
        intro s53 h53
        refine sym_param (PARAM_SET (-326)) (-326) h53 ((hL 38 (by omega)).trans rfl) rfl (decide_eq_false (by omega)) ?_
        intro s59 stk59 h59
        refine sym_endif h59 ((hL 39 (by omega)).trans rfl) hc39 (decide_eq_false (by omega)) ?_
        intro s60 h60
        refine sym_endif h60 ((hL 40 (by omega)).trans rfl) hc40 (decide_eq_false (by omega)) ?_
        intro s61 h61
        refine sym_endif h61 ((hL 41 (by omega)).trans rfl) hc41 (decide_eq_false (by omega)) ?_
        intro s62 h62
        exact runUntil_stop (decide_eq_true h62.2.1) (h62.2.2.2.2.trans (sector_north_west w (by omega) h359))

theorem windTableSets_of_window (p : ResolvedProgram) (f base : Nat) (B : List Instr)
    (env : Env) (v : Int)
    (hoff : targetOffset p (Target.sub f) = some (base + 1))
    (hL : ∀ i, i < 94 → p.code[base + i]? = B[i]?)
    (h9 : B[9]? = some (IF_LT SysVal.WIND_FROM_ANGLE 203))
    (h42 : B[42]? = some (IF_GT SysVal.PARAM 0))
    (hrun : ∀ (s : State) (stk : List Frame) (pen : Bool) (par : Int),
      s.IsAt (base + 9) stk pen par →
      ∃ s', runUntil p env (fun pc => decide (pc = base + 42)) 13 s = some s'
        ∧ s'.curParam = v) :
    WindTableSets p f env v := by
  refine ⟨base + 1, hoff, ?_, ?_, ?_⟩
  · rw [Nat.add_assoc, hL (1 + 8) (by omega)]; exact h9
  · rw [Nat.add_assoc, hL (1 + 41) (by omega)]; exact h42
  · intro s hm hpc
    have e : (fun pc => decide (pc = base + 1 + 41)) = (fun pc => decide (pc = base + 42)) := by
      funext pc; rw [Nat.add_assoc]
    rw [e]
    exact hrun s s.stack s.penDown s.curParam ⟨hm, by rw [hpc, Nat.add_assoc], rfl, rfl, rfl⟩

/-- C12 (refuted at `WIND_FROM_ANGLE = 22`): for every wind direction `w` in
0..359 the nested `IF_LT` table of `LOITER_LAND` (mission table) and of
`FS_LOITER_LAND` (failsafe table) leaves in `PARAM` the value of the wind
sector written in the comment above the table, except at `w = 22`, which the
comment counts as North (-326) and the table treats as North-East (64). -/
theorem wind_sector_param (c : Config) (env : Env) (w : Int)
    (hw : env.value SysVal.WIND_FROM_ANGLE = some w) (h0 : 0 ≤ w) (h359 : w ≤ 359) :
    WindTableSets (missionOf c) LOITER_LAND env (if w = 22 then 64 else sectorParam w)
      ∧ WindTableSets (rtlOf c) FS_LOITER_LAND env (if w = 22 then 64 else sectorParam w) := by
  constructor
  · obtain ⟨base, hoff, hwin⟩ := window_LOITER_LAND c
    exact windTableSets_of_window _ _ base (TO_LOITER_LAND c) env _ hoff
      (flow_LOITER_LAND c _ base hwin).1 rfl rfl
      (fun s stk pen par h => wind_table_LOITER_LAND c _ base hwin env w hw h0 h359 s stk pen par h)
  · obtain ⟨base, hoff, hwin⟩ := window_FS_LOITER_LAND c
    exact windTableSets_of_window _ _ base (TO_FS_LOITER_LAND c) env _ hoff
      (flow_FS_LOITER_LAND c _ base hwin).1 rfl rfl
      (fun s stk pen par h =>
        wind_table_FS_LOITER_LAND c _ base hwin env w hw h0 h359 s stk pen par h)

/-- Witness for C12 at the failing input: with the wind from 22 degrees both
tables leave 64 in `PARAM`, where the sector comment says -326. -/
theorem wind_sector_param_witness :
    (windEnv 22).value SysVal.WIND_FROM_ANGLE = some 22 ∧ (0 : Int) ≤ 22 ∧ (22 : Int) ≤ 359
      ∧ sectorParam 22 = -326
      ∧ WindTableSets (missionOf sampleConfig) LOITER_LAND (windEnv 22) 64
      ∧ WindTableSets (rtlOf sampleConfig) FS_LOITER_LAND (windEnv 22) 64 :=
  ⟨rfl, by decide, by decide, by decide,
    wind_sector_param sampleConfig (windEnv 22) 22 rfl (by decide) (by decide)⟩

/-! ## The motor checks of `CHECKS` -/

set_option maxRecDepth 100000 in
theorem window_CHECKS (c : Config) (ht : c.throttleChannelUsed = true) :
    ∃ base, targetOffset (missionOf c) (Target.sub CHECKS) = some (base + 1)
      ∧ InWindow (missionOf c).code base (TO_CHECKS c) := by
  obtain ⟨a, b, d, e, t⟩ := c
  cases ht
  exact ⟨496, rfl, rfl, rfl⟩

/-- Control flow inside `CHECKS` compiled with a throttle channel, wherever it sits in a table. -/
theorem flow_CHECKS (c : Config) (ht : c.throttleChannelUsed = true) (code : List Instr) (base : Nat)
    (hw : InWindow code base (TO_CHECKS c)) :
    (∀ i, i < 29 → code[base + i]? = (TO_CHECKS c)[i]?)
    ∧ skipTarget (kinds code) (base + 1) true = base + 12
    ∧ skipTarget (kinds code) (base + 2) true = base + 6
    ∧ skipTarget (kinds code) (base + 3) true = base + 5
    ∧ closesIf (kinds code) (base + 5) = true
    ∧ closesIf (kinds code) (base + 6) = true
    ∧ skipTarget (kinds code) (base + 7) true = base + 11
    ∧ skipTarget (kinds code) (base + 8) true = base + 10
    ∧ closesIf (kinds code) (base + 10) = true
    ∧ closesIf (kinds code) (base + 11) = true
    ∧ closesIf (kinds code) (base + 12) = true
    ∧ skipTarget (kinds code) (base + 13) true = base + 17
    ∧ skipTarget (kinds code) (base + 14) true = base + 16
    ∧ closesIf (kinds code) (base + 16) = true
    ∧ closesIf (kinds code) (base + 17) = true
    ∧ skipTarget (kinds code) (base + 18) true = base + 20
    ∧ closesIf (kinds code) (base + 20) = true
    ∧ skipTarget (kinds code) (base + 21) true = base + 23
    ∧ closesIf (kinds code) (base + 23) = true
    ∧ skipTarget (kinds code) (base + 24) true = base + 26
    ∧ closesIf (kinds code) (base + 26) = true
    ∧ closesIf (kinds code) (base + 27) = false
    ∧ closesIf (kinds code) (base + 28) = false := by
  obtain ⟨a, b, d, e, t⟩ := c
  subst ht
  refine ⟨fun i hi => inWindow_getElem? code base _ hw i (Nat.lt_of_lt_of_le hi (Nat.le_of_ble_eq_true rfl)), ?_, ?_, ?_, ?_, ?_, ?_, ?_, ?_, ?_, ?_, ?_, ?_, ?_, ?_, ?_, ?_, ?_, ?_, ?_, ?_, ?_, ?_⟩
  · rw [inWindow_skipTarget code base _ hw 1 true rfl]; rfl
  · rw [inWindow_skipTarget code base _ hw 2 true rfl]; rfl
  · rw [inWindow_skipTarget code base _ hw 3 true rfl]; rfl
  · rw [inWindow_closesIf code base _ hw 5 (Nat.le_of_ble_eq_true rfl)]; rfl
  · rw [inWindow_closesIf code base _ hw 6 (Nat.le_of_ble_eq_true rfl)]; rfl
  · rw [inWindow_skipTarget code base _ hw 7 true rfl]; rfl
  · rw [inWindow_skipTarget code base _ hw 8 true rfl]; rfl
  · rw [inWindow_closesIf code base _ hw 10 (Nat.le_of_ble_eq_true rfl)]; rfl
  · rw [inWindow_closesIf code base _ hw 11 (Nat.le_of_ble_eq_true rfl)]; rfl
  · rw [inWindow_closesIf code base _ hw 12 (Nat.le_of_ble_eq_true rfl)]; rfl
  · rw [inWindow_skipTarget code base _ hw 13 true rfl]; rfl
  · rw [inWindow_skipTarget code base _ hw 14 true rfl]; rfl
  · rw [inWindow_closesIf code base _ hw 16 (Nat.le_of_ble_eq_true rfl)]; rfl
  · rw [inWindow_closesIf code base _ hw 17 (Nat.le_of_ble_eq_true rfl)]; rfl
  · rw [inWindow_skipTarget code base _ hw 18 true rfl]; rfl
  · rw [inWindow_closesIf code base _ hw 20 (Nat.le_of_ble_eq_true rfl)]; rfl
  · rw [inWindow_skipTarget code base _ hw 21 true rfl]; rfl
  · rw [inWindow_closesIf code base _ hw 23 (Nat.le_of_ble_eq_true rfl)]; rfl
  · rw [inWindow_skipTarget code base _ hw 24 true rfl]; rfl
  · rw [inWindow_closesIf code base _ hw 26 (Nat.le_of_ble_eq_true rfl)]; rfl
  · rw [inWindow_closesIf code base _ hw 27 (Nat.le_of_ble_eq_true rfl)]; rfl
  · rw [inWindow_closesIf code base _ hw 28 (Nat.le_of_ble_eq_true rfl)]; rfl

set_option maxHeartbeats 1000000 in
/-- The altitude block of `CHECKS` run from the first instruction of the
routine: the engine comes to one of the two `EXEC (MOTOR_CLIMB)` or to the
instruction after the block. -/
theorem checks_block (c : Config) (ht : c.throttleChannelUsed = true) (p : ResolvedProgram)
    (base : Nat) (hwin : InWindow p.code base (TO_CHECKS c)) (env : Env) (a t z : Int)
    (ha : env.value SysVal.ALT = some a) (hthr : env.value THROTTLE_INPUT_CHANNEL = some t)
    (hz : env.value SysVal.AIR_SPEED_Z = some z)
    (s : State) (stk : List Frame) (pen : Bool) (par : Int) (h : s.IsAt (base + 1) stk pen par) :
    ∃ s', runUntil p env (fun pc => decide (pc = base + 4 ∨ pc = base + 9 ∨ pc = base + 13))
        10 s = some s'
      ∧ ((s'.pc = base + 4 ∨ s'.pc = base + 9 ↔
            t > 3400 ∧ (a < 180 ∨ (a < 200 ∧ z > -140)))
          ∧ (s'.pc = base + 4 ∨ s'.pc = base + 9 ∨ s'.pc = base + 13)) := by
  obtain ⟨hL, hs1, hs2, hs3, hc5, hc6, hs7, hs8, hc10, hc11, hc12, hs13, hs14, hc16, hc17, hs18, hc20, hs21, hc23, hs24, hc26, hc27, hc28⟩ := flow_CHECKS c ht p.code base hwin
  have e1 : MOTOR_ON_TRIGGER_ALT = 200 := rfl
  have e2 : MOTOR_ON_IN_SINK_ALT = 180 := rfl
  have e3 : MOTOR_CLIMB_MIN - 90 = -140 := rfl
  obtain ⟨c1, c2, c3, c4, c5⟩ := c
  cases ht
  by_cases hc_a_MOTORONTRIGGERALT : a < MOTOR_ON_TRIGGER_ALT
  · refine sym_if_true _ _ _ h ((hL 1 (by omega)).trans rfl) ((condition_lt env _ SysVal.ALT MOTOR_ON_TRIGGER_ALT a (by decide) ha).trans (decide_eq_true hc_a_MOTORONTRIGGERALT)) (decide_eq_false (by omega)) ?_
    intro s1 h1
    by_cases hc_a_MOTORONINSINKALT : a < MOTOR_ON_IN_SINK_ALT
    · refine sym_if_true _ _ _ h1 ((hL 2 (by omega)).trans rfl) ((condition_lt env _ SysVal.ALT MOTOR_ON_IN_SINK_ALT a (by decide) ha).trans (decide_eq_true hc_a_MOTORONINSINKALT)) (decide_eq_false (by omega)) ?_
      intro s2 h2
      by_cases hc_t_3400 : t > 3400
      · refine sym_if_true _ _ _ h2 ((hL 3 (by omega)).trans rfl) ((condition_gt env _ THROTTLE_INPUT_CHANNEL 3400 t (by decide) hthr).trans (decide_eq_true hc_t_3400)) (decide_eq_false (by omega)) ?_
        intro s3 h3
        exact runUntil_stop (decide_eq_true (by rw [h3.2.1]; omega)) (by rw [h3.2.1]; omega)
      · refine sym_if_false _ _ _ (base + 5) h2 ((hL 3 (by omega)).trans rfl) ((condition_gt env _ THROTTLE_INPUT_CHANNEL 3400 t (by decide) hthr).trans (decide_eq_false hc_t_3400)) hs3 (decide_eq_false (by omega)) ?_
        intro s3 h3
        refine sym_endif h3 ((hL 5 (by omega)).trans rfl) hc5 (decide_eq_false (by omega)) ?_
        intro s4 h4
        refine sym_endif h4 ((hL 6 (by omega)).trans rfl) hc6 (decide_eq_false (by omega)) ?_
        intro s5 h5
        by_cases hc_z_MOTORCLIMBMIN90 : z > (MOTOR_CLIMB_MIN - 90)
        · refine sym_if_true _ _ _ h5 ((hL 7 (by omega)).trans rfl) ((condition_gt env _ SysVal.AIR_SPEED_Z (MOTOR_CLIMB_MIN - 90) z (by decide) hz).trans (decide_eq_true hc_z_MOTORCLIMBMIN90)) (decide_eq_false (by omega)) ?_
          intro s6 h6
          refine sym_if_false _ _ _ (base + 10) h6 ((hL 8 (by omega)).trans rfl) ((condition_gt env _ THROTTLE_INPUT_CHANNEL 3400 t (by decide) hthr).trans (decide_eq_false hc_t_3400)) hs8 (decide_eq_false (by omega)) ?_
          intro s7 h7
          refine sym_endif h7 ((hL 10 (by omega)).trans rfl) hc10 (decide_eq_false (by omega)) ?_
          intro s8 h8
          refine sym_endif h8 ((hL 11 (by omega)).trans rfl) hc11 (decide_eq_false (by omega)) ?_
          intro s9 h9
          refine sym_endif h9 ((hL 12 (by omega)).trans rfl) hc12 (decide_eq_false (by omega)) ?_
          intro s10 h10
          exact runUntil_stop (decide_eq_true (by rw [h10.2.1]; omega)) (by rw [h10.2.1]; omega)
        · refine sym_if_false _ _ _ (base + 11) h5 ((hL 7 (by omega)).trans rfl) ((condition_gt env _ SysVal.AIR_SPEED_Z (MOTOR_CLIMB_MIN - 90) z (by decide) hz).trans (decide_eq_false hc_z_MOTORCLIMBMIN90)) hs7 (decide_eq_false (by omega)) ?_
          intro s6 h6
          refine sym_endif h6 ((hL 11 (by omega)).trans rfl) hc11 (decide_eq_false (by omega)) ?_
          intro s11 h11
          refine sym_endif h11 ((hL 12 (by omega)).trans rfl) hc12 (decide_eq_false (by omega)) ?_
          intro s12 h12
          exact runUntil_stop (decide_eq_true (by rw [h12.2.1]; omega)) (by rw [h12.2.1]; omega)
    · refine sym_if_false _ _ _ (base + 6) h1 ((hL 2 (by omega)).trans rfl) ((condition_lt env _ SysVal.ALT MOTOR_ON_IN_SINK_ALT a (by decide) ha).trans (decide_eq_false hc_a_MOTORONINSINKALT)) hs2 (decide_eq_false (by omega)) ?_
      intro s2 h2
      refine sym_endif h2 ((hL 6 (by omega)).trans rfl) hc6 (decide_eq_false (by omega)) ?_
      intro s13 h13
      by_cases hc_z_MOTORCLIMBMIN90 : z > (MOTOR_CLIMB_MIN - 90)
      · refine sym_if_true _ _ _ h13 ((hL 7 (by omega)).trans rfl) ((condition_gt env _ SysVal.AIR_SPEED_Z (MOTOR_CLIMB_MIN - 90) z (by decide) hz).trans (decide_eq_true hc_z_MOTORCLIMBMIN90)) (decide_eq_false (by omega)) ?_
        intro s14 h14
        by_cases hc_t_3400 : t > 3400
        · refine sym_if_true _ _ _ h14 ((hL 8 (by omega)).trans rfl) ((condition_gt env _ THROTTLE_INPUT_CHANNEL 3400 t (by decide) hthr).trans (decide_eq_true hc_t_3400)) (decide_eq_false (by omega)) ?_
          intro s15 h15
          exact runUntil_stop (decide_eq_true (by rw [h15.2.1]; omega)) (by rw [h15.2.1]; omega)
        · refine sym_if_false _ _ _ (base + 10) h14 ((hL 8 (by omega)).trans rfl) ((condition_gt env _ THROTTLE_INPUT_CHANNEL 3400 t (by decide) hthr).trans (decide_eq_false hc_t_3400)) hs8 (decide_eq_false (by omega)) ?_
          intro s15 h15
          refine sym_endif h15 ((hL 10 (by omega)).trans rfl) hc10 (decide_eq_false (by omega)) ?_
          intro s16 h16
          refine sym_endif h16 ((hL 11 (by omega)).trans rfl) hc11 (decide_eq_false (by omega)) ?_
          intro s17 h17
          refine sym_endif h17 ((hL 12 (by omega)).trans rfl) hc12 (decide_eq_false (by omega)) ?_
          intro s18 h18
          exact runUntil_stop (decide_eq_true (by rw [h18.2.1]; omega)) (by rw [h18.2.1]; omega)
      · refine sym_if_false _ _ _ (base + 11) h13 ((hL 7 (by omega)).trans rfl) ((condition_gt env _ SysVal.AIR_SPEED_Z (MOTOR_CLIMB_MIN - 90) z (by decide) hz).trans (decide_eq_false hc_z_MOTORCLIMBMIN90)) hs7 (decide_eq_false (by omega)) ?_
        intro s14 h14
        refine sym_endif h14 ((hL 11 (by omega)).trans rfl) hc11 (decide_eq_false (by omega)) ?_
        intro s19 h19
        refine sym_endif h19 ((hL 12 (by omega)).trans rfl) hc12 (decide_eq_false (by omega)) ?_
        intro s20 h20
        exact runUntil_stop (decide_eq_true (by rw [h20.2.1]; omega)) (by rw [h20.2.1]; omega)
  · refine sym_if_false _ _ _ (base + 12) h ((hL 1 (by omega)).trans rfl) ((condition_lt env _ SysVal.ALT MOTOR_ON_TRIGGER_ALT a (by decide) ha).trans (decide_eq_false hc_a_MOTORONTRIGGERALT)) hs1 (decide_eq_false (by omega)) ?_
    intro s1 h1
    refine sym_endif h1 ((hL 12 (by omega)).trans rfl) hc12 (decide_eq_false (by omega)) ?_
    intro s21 h21
    exact runUntil_stop (decide_eq_true (by rw [h21.2.1]; omega)) (by rw [h21.2.1]; omega)

/-- C15: in `CHECKS` compiled with a throttle channel, for all readings of
`ALT`, of the throttle channel and of `AIR_SPEED_Z`, the engine entering the
routine comes to an `EXEC (MOTOR_CLIMB)` exactly when the throttle reads above
3400 and either `ALT < MOTOR_ON_IN_SINK_ALT`, or `ALT < MOTOR_ON_TRIGGER_ALT`
and `AIR_SPEED_Z > MOTOR_CLIMB_MIN - 90`; otherwise it leaves the altitude
block for the rest of the routine, which holds no `EXEC (MOTOR_CLIMB)`. -/
theorem checks_motor_climb (c : Config) (ht : c.throttleChannelUsed = true) (env : Env)
    (a t z : Int) (ha : env.value SysVal.ALT = some a)
    (hthr : env.value THROTTLE_INPUT_CHANNEL = some t)
    (hz : env.value SysVal.AIR_SPEED_Z = some z) :
    ExecsMotorClimbIff (missionOf c) env
      (t > 3400 ∧ (a < MOTOR_ON_IN_SINK_ALT
        ∨ (a < MOTOR_ON_TRIGGER_ALT ∧ z > MOTOR_CLIMB_MIN - 90))) := by
  obtain ⟨base, hoff, hwin⟩ := window_CHECKS c ht
  have hL := (flow_CHECKS c ht _ base hwin).1
  refine ⟨base + 1, hoff, ?_, ?_⟩
  · intro i hi
    rw [Nat.add_assoc, hL (1 + i) (by omega)]
    obtain ⟨c1, c2, c3, c4, c5⟩ := c
    cases ht
    interval_cases i <;>
      simp [TO_CHECKS, TO_CHECKS_head, TO_CHECKS_throttle, TO_CHECKS_tail, LOITER_LAND, MOTOR_CLIMB]
  · intro s hm hpc
    obtain ⟨s', h1, h2, h3⟩ := checks_block c ht _ base hwin env a t z ha hthr hz s s.stack
      s.penDown s.curParam ⟨hm, hpc, rfl, rfl, rfl⟩
    have e : (fun pc => decide (pc = base + 1 + 3 ∨ pc = base + 1 + 8 ∨ pc = base + 1 + 12))
        = (fun pc => decide (pc = base + 4 ∨ pc = base + 9 ∨ pc = base + 13)) := by
      funext pc; simp only [Nat.add_assoc]
    rw [e]
    have e1 : MOTOR_ON_TRIGGER_ALT = 200 := rfl
    have e2 : MOTOR_ON_IN_SINK_ALT = 180 := rfl
    have e3 : MOTOR_CLIMB_MIN - 90 = -140 := rfl
    refine ⟨s', h1, ?_, ?_⟩
    · rw [e1, e2, e3]
      simp only [Nat.add_assoc]
      exact h2
    · simp only [Nat.add_assoc]
      exact h3

/-- Witness for C15: at 150 m with the throttle at 3500 `CHECKS` comes to an
`EXEC (MOTOR_CLIMB)`. -/
theorem checks_motor_climb_witness :
    sampleConfig.throttleChannelUsed = true
      ∧ (checksEnv 150 3500 0).value SysVal.ALT = some 150
      ∧ (checksEnv 150 3500 0).value THROTTLE_INPUT_CHANNEL = some 3500
      ∧ (checksEnv 150 3500 0).value SysVal.AIR_SPEED_Z = some 0
      ∧ ExecsMotorClimbIff (missionOf sampleConfig) (checksEnv 150 3500 0)
          ((3500 : Int) > 3400 ∧ ((150 : Int) < MOTOR_ON_IN_SINK_ALT
            ∨ ((150 : Int) < MOTOR_ON_TRIGGER_ALT ∧ (0 : Int) > MOTOR_CLIMB_MIN - 90))) :=
  ⟨rfl, rfl, rfl, rfl, checks_motor_climb sampleConfig rfl (checksEnv 150 3500 0) 150 3500 0
    rfl rfl rfl⟩

/-! ## The lift test of `THERMALLING_TURN` -/

set_option maxRecDepth 100000 in
theorem window_THERMALLING_TURN (c : Config) :
    ∃ base, targetOffset (missionOf c) (Target.sub THERMALLING_TURN) = some (base + 1)
      ∧ InWindow (missionOf c).code base (TO_THERMALLING_TURN c) := by
  obtain ⟨a, b, d, e, t⟩ := c
  cases t
  · exact ⟨231, rfl, rfl, rfl⟩
  · exact ⟨231, rfl, rfl, rfl⟩

theorem condition_par (env : Env) (s : State) (c : Cmp) (x par : Int) (h : s.curParam = par) :
    condition env s c SysVal.PARAM x = c.eval par x := by
  rw [condition_param, h]

/-- Control flow inside `THERMALLING_TURN`, wherever it sits in a table. -/
theorem flow_THERMALLING_TURN (c : Config) (code : List Instr) (base : Nat)
    (hw : InWindow code base (TO_THERMALLING_TURN c)) :
    (∀ i, i < 33 → code[base + i]? = (TO_THERMALLING_TURN c)[i]?)
    ∧ skipTarget (kinds code) (base + 5) true = base + 10
    ∧ skipTarget (kinds code) (base + 6) true = base + 8
    ∧ closesIf (kinds code) (base + 8) = true
    ∧ skipTarget (kinds code) (base + 9) false = base + 21
    ∧ skipTarget (kinds code) (base + 10) true = base + 15
    ∧ skipTarget (kinds code) (base + 11) true = base + 13
    ∧ closesIf (kinds code) (base + 13) = true
    ∧ skipTarget (kinds code) (base + 14) false = base + 20
    ∧ skipTarget (kinds code) (base + 15) true = base + 19
    ∧ skipTarget (kinds code) (base + 16) true = base + 18
    ∧ closesIf (kinds code) (base + 18) = true
    ∧ closesIf (kinds code) (base + 19) = true
    ∧ closesIf (kinds code) (base + 20) = true
    ∧ closesIf (kinds code) (base + 21) = true
    ∧ closesIf (kinds code) (base + 26) = false
    ∧ closesIf (kinds code) (base + 29) = false
    ∧ closesIf (kinds code) (base + 30) = false
    ∧ closesIf (kinds code) (base + 31) = false
    ∧ closesIf (kinds code) (base + 32) = false := by
  refine ⟨fun i hi => inWindow_getElem? code base _ hw i (Nat.lt_of_lt_of_le hi (Nat.le_of_ble_eq_true rfl)), ?_, ?_, ?_, ?_, ?_, ?_, ?_, ?_, ?_, ?_, ?_, ?_, ?_, ?_, ?_, ?_, ?_, ?_, ?_⟩
  · rw [inWindow_skipTarget code base _ hw 5 true rfl]; rfl
  · rw [inWindow_skipTarget code base _ hw 6 true rfl]; rfl
  · rw [inWindow_closesIf code base _ hw 8 (Nat.le_of_ble_eq_true rfl)]; rfl
  · rw [inWindow_skipTarget code base _ hw 9 false rfl]; rfl
  · rw [inWindow_skipTarget code base _ hw 10 true rfl]; rfl
  · rw [inWindow_skipTarget code base _ hw 11 true rfl]; rfl
  · rw [inWindow_closesIf code base _ hw 13 (Nat.le_of_ble_eq_true rfl)]; rfl
  · rw [inWindow_skipTarget code base _ hw 14 false rfl]; rfl
  · rw [inWindow_skipTarget code base _ hw 15 true rfl]; rfl
  · rw [inWindow_skipTarget code base _ hw 16 true rfl]; rfl
  · rw [inWindow_closesIf code base _ hw 18 (Nat.le_of_ble_eq_true rfl)]; rfl
  · rw [inWindow_closesIf code base _ hw 19 (Nat.le_of_ble_eq_true rfl)]; rfl
  · rw [inWindow_closesIf code base _ hw 20 (Nat.le_of_ble_eq_true rfl)]; rfl
  · rw [inWindow_closesIf code base _ hw 21 (Nat.le_of_ble_eq_true rfl)]; rfl
  · rw [inWindow_closesIf code base _ hw 26 (Nat.le_of_ble_eq_true rfl)]; rfl
  · rw [inWindow_closesIf code base _ hw 29 (Nat.le_of_ble_eq_true rfl)]; rfl
  · rw [inWindow_closesIf code base _ hw 30 (Nat.le_of_ble_eq_true rfl)]; rfl
  · rw [inWindow_closesIf code base _ hw 31 (Nat.le_of_ble_eq_true rfl)]; rfl
  · rw [inWindow_closesIf code base _ hw 32 (Nat.le_of_ble_eq_true rfl)]; rfl

set_option maxHeartbeats 1000000 in
/-- The lift test at the start of an iteration of the loop of
`THERMALLING_TURN`: the engine comes to one of the three `EXEC (BETTER_LIFT)`
or to the `RT_BANK`. -/
theorem lift_test_block (c : Config) (p : ResolvedProgram)
    (base : Nat) (hwin : InWindow p.code base (TO_THERMALLING_TURN c)) (env : Env) (z : Int)
    (hz : env.value SysVal.AIR_SPEED_Z = some z)
    (s : State) (stk : List Frame) (pen : Bool) (par : Int) (h : s.IsAt (base + 5) stk pen par) :
    ∃ s', runUntil p env
        (fun pc => decide (pc = base + 7 ∨ pc = base + 12 ∨ pc = base + 17 ∨ pc = base + 22))
        8 s = some s'
      ∧ ((s'.pc = base + 7 ∨ s'.pc = base + 12 ∨ s'.pc = base + 17 ↔
            (200 ≤ z ∧ par ≤ 150) ∨ (150 ≤ z ∧ z < 200 ∧ par ≤ 100)
              ∨ (100 ≤ z ∧ z < 150 ∧ par ≤ 50))
          ∧ (s'.pc = base + 7 ∨ s'.pc = base + 12 ∨ s'.pc = base + 17 ∨ s'.pc = base + 22)) := by
  obtain ⟨hL, hs5, hs6, hc8, hs9, hs10, hs11, hc13, hs14, hs15, hs16, hc18, hc19, hc20, hc21, hc26, hc29, hc30, hc31, hc32⟩ := flow_THERMALLING_TURN c p.code base hwin
  by_cases hz200 : z ≥ 200
  · refine sym_if_true _ _ _ h ((hL 5 (by omega)).trans rfl) ((condition_ge env _ SysVal.AIR_SPEED_Z 200 z (by decide) hz).trans (decide_eq_true hz200)) (decide_eq_false (by omega)) ?_
    intro s1 h1
    by_cases hp150 : par ≤ 150
    · refine sym_if_true _ _ _ h1 ((hL 6 (by omega)).trans rfl) ((condition_par env _ Cmp.LE 150 par h1.2.2.2.2).trans (decide_eq_true hp150)) (decide_eq_false (by omega)) ?_
      intro s2 h2
      exact runUntil_stop (decide_eq_true (by rw [h2.2.1]; omega)) (by rw [h2.2.1]; omega)
    · refine sym_if_false _ _ _ (base + 8) h1 ((hL 6 (by omega)).trans rfl) ((condition_par env _ Cmp.LE 150 par h1.2.2.2.2).trans (decide_eq_false hp150)) hs6 (decide_eq_false (by omega)) ?_
      intro s2 h2
      refine sym_endif h2 ((hL 8 (by omega)).trans rfl) hc8 (decide_eq_false (by omega)) ?_
      intro s3 h3
      refine sym_else (base + 21) h3 ((hL 9 (by omega)).trans rfl) hs9 (decide_eq_false (by omega)) ?_
      intro s4 h4
      refine sym_endif h4 ((hL 21 (by omega)).trans rfl) hc21 (decide_eq_false (by omega)) ?_
      intro s5 h5
      exact runUntil_stop (decide_eq_true (by rw [h5.2.1]; omega)) (by rw [h5.2.1]; omega)
  · refine sym_if_false _ _ _ (base + 10) h ((hL 5 (by omega)).trans rfl) ((condition_ge env _ SysVal.AIR_SPEED_Z 200 z (by decide) hz).trans (decide_eq_false hz200)) hs5 (decide_eq_false (by omega)) ?_
    intro s1 h1
    by_cases hz150 : z ≥ 150
    · refine sym_if_true _ _ _ h1 ((hL 10 (by omega)).trans rfl) ((condition_ge env _ SysVal.AIR_SPEED_Z 150 z (by decide) hz).trans (decide_eq_true hz150)) (decide_eq_false (by omega)) ?_
      intro s6 h6
      by_cases hp100 : par ≤ 100
      · refine sym_if_true _ _ _ h6 ((hL 11 (by omega)).trans rfl) ((condition_par env _ Cmp.LE 100 par h6.2.2.2.2).trans (decide_eq_true hp100)) (decide_eq_false (by omega)) ?_
        intro s7 h7
        exact runUntil_stop (decide_eq_true (by rw [h7.2.1]; omega)) (by rw [h7.2.1]; omega)
      · refine sym_if_false _ _ _ (base + 13) h6 ((hL 11 (by omega)).trans rfl) ((condition_par env _ Cmp.LE 100 par h6.2.2.2.2).trans (decide_eq_false hp100)) hs11 (decide_eq_false (by omega)) ?_
        intro s7 h7
        refine sym_endif h7 ((hL 13 (by omega)).trans rfl) hc13 (decide_eq_false (by omega)) ?_
        intro s8 h8
        refine sym_else (base + 20) h8 ((hL 14 (by omega)).trans rfl) hs14 (decide_eq_false (by omega)) ?_
        intro s9 h9
        refine sym_endif h9 ((hL 20 (by omega)).trans rfl) hc20 (decide_eq_false (by omega)) ?_
        intro s10 h10
        refine sym_endif h10 ((hL 21 (by omega)).trans rfl) hc21 (decide_eq_false (by omega)) ?_
        intro s11 h11
        exact runUntil_stop (decide_eq_true (by rw [h11.2.1]; omega)) (by rw [h11.2.1]; omega)
    · refine sym_if_false _ _ _ (base + 15) h1 ((hL 10 (by omega)).trans rfl) ((condition_ge env _ SysVal.AIR_SPEED_Z 150 z (by decide) hz).trans (decide_eq_false hz150)) hs10 (decide_eq_false (by omega)) ?_
      intro s6 h6
      by_cases hz100 : z ≥ 100
      · refine sym_if_true _ _ _ h6 ((hL 15 (by omega)).trans rfl) ((condition_ge env _ SysVal.AIR_SPEED_Z 100 z (by decide) hz).trans (decide_eq_true hz100)) (decide_eq_false (by omega)) ?_
        intro s12 h12
        by_cases hp50 : par ≤ 50
        · refine sym_if_true _ _ _ h12 ((hL 16 (by omega)).trans rfl) ((condition_par env _ Cmp.LE 50 par h12.2.2.2.2).trans (decide_eq_true hp50)) (decide_eq_false (by omega)) ?_
          intro s13 h13
          exact runUntil_stop (decide_eq_true (by rw [h13.2.1]; omega)) (by rw [h13.2.1]; omega)
        · refine sym_if_false _ _ _ (base + 18) h12 ((hL 16 (by omega)).trans rfl) ((condition_par env _ Cmp.LE 50 par h12.2.2.2.2).trans (decide_eq_false hp50)) hs16 (decide_eq_false (by omega)) ?_
          intro s13 h13
          refine sym_endif h13 ((hL 18 (by omega)).trans rfl) hc18 (decide_eq_false (by omega)) ?_
          intro s14 h14
          refine sym_endif h14 ((hL 19 (by omega)).trans rfl) hc19 (decide_eq_false (by omega)) ?_
          intro s15 h15
          refine sym_endif h15 ((hL 20 (by omega)).trans rfl) hc20 (decide_eq_false (by omega)) ?_
          intro s16 h16
          refine sym_endif h16 ((hL 21 (by omega)).trans rfl) hc21 (decide_eq_false (by omega)) ?_
          intro s17 h17
          exact runUntil_stop (decide_eq_true (by rw [h17.2.1]; omega)) (by rw [h17.2.1]; omega)
      · refine sym_if_false _ _ _ (base + 19) h6 ((hL 15 (by omega)).trans rfl) ((condition_ge env _ SysVal.AIR_SPEED_Z 100 z (by decide) hz).trans (decide_eq_false hz100)) hs15 (decide_eq_false (by omega)) ?_
        intro s12 h12
        refine sym_endif h12 ((hL 19 (by omega)).trans rfl) hc19 (decide_eq_false (by omega)) ?_
        intro s18 h18
        refine sym_endif h18 ((hL 20 (by omega)).trans rfl) hc20 (decide_eq_false (by omega)) ?_
        intro s19 h19
        refine sym_endif h19 ((hL 21 (by omega)).trans rfl) hc21 (decide_eq_false (by omega)) ?_
        intro s20 h20
        exact runUntil_stop (decide_eq_true (by rw [h20.2.1]; omega)) (by rw [h20.2.1]; omega)


theorem liftTestIff_of_window (c : Config) (env : Env) (z par : Int)
    (hz : env.value SysVal.AIR_SPEED_Z = some z) (P : Prop)
    (hP : P ↔ (200 ≤ z ∧ par ≤ 150) ∨ (150 ≤ z ∧ z < 200 ∧ par ≤ 100)
      ∨ (100 ≤ z ∧ z < 150 ∧ par ≤ 50)) :
    LiftTestIff (missionOf c) env par P := by
  obtain ⟨base, hoff, hwin⟩ := window_THERMALLING_TURN c
  have hL := (flow_THERMALLING_TURN c _ base hwin).1
  refine ⟨base + 1, hoff, ?_, ?_, ?_, ?_⟩
  · rw [Nat.add_assoc, hL (1 + 3) (by omega)]; rfl
  · rw [Nat.add_assoc, hL (1 + 21) (by omega)]; rfl
  · intro i hi
    rw [Nat.add_assoc, hL (1 + i) (by omega)]
    interval_cases i <;> simp [TO_THERMALLING_TURN, BETTER_LIFT, THERMALLING_SHIFT_CIRCLE]
  · intro s hm hpc hpar
    obtain ⟨s', h1, h2, h3⟩ := lift_test_block c _ base hwin env z hz s s.stack
      s.penDown par ⟨hm, by rw [hpc, Nat.add_assoc], rfl, rfl, hpar⟩
    have e : (fun pc => decide (pc = base + 1 + 6 ∨ pc = base + 1 + 11 ∨ pc = base + 1 + 16
          ∨ pc = base + 1 + 21))
        = (fun pc => decide (pc = base + 7 ∨ pc = base + 12 ∨ pc = base + 17
          ∨ pc = base + 22)) := by
      funext pc; simp only [Nat.add_assoc]
    rw [e]
    refine ⟨s', h1, ?_, ?_⟩
    · rw [hP]
      simp only [Nat.add_assoc]
      exact h2
    · simp only [Nat.add_assoc]
      exact h3

/-- C16 (amended): in every iteration of the `REPEAT(9)` loop of
`THERMALLING_TURN`, with `AIR_SPEED_Z` reading `z` and `PARAM` holding `par`,
the iteration executes `EXEC (BETTER_LIFT)` before its `RT_BANK` exactly when
`z ≥ 200` and `par ≤ 150`, or `150 ≤ z < 200` and `par ≤ 100`, or
`100 ≤ z < 150` and `par ≤ 50`; in each of these cases `z` exceeds `par` by at
least 50. -/
theorem lift_test_exec (c : Config) (env : Env) (z par : Int)
    (hz : env.value SysVal.AIR_SPEED_Z = some z) :
    LiftTestIff (missionOf c) env par
        ((200 ≤ z ∧ par ≤ 150) ∨ (150 ≤ z ∧ z < 200 ∧ par ≤ 100)
          ∨ (100 ≤ z ∧ z < 150 ∧ par ≤ 50))
      ∧ ((200 ≤ z ∧ par ≤ 150) ∨ (150 ≤ z ∧ z < 200 ∧ par ≤ 100)
          ∨ (100 ≤ z ∧ z < 150 ∧ par ≤ 50) → par + 50 ≤ z) :=
  ⟨liftTestIff_of_window c env z par hz _ Iff.rfl, by omega⟩

/-- Witness for C16 (amended): a climb rate of 210 against a stored 150. -/
theorem lift_test_exec_witness :
    (checksEnv 100 3000 210).value SysVal.AIR_SPEED_Z = some 210
      ∧ LiftTestIff (missionOf sampleConfig) (checksEnv 100 3000 210) 150
          (((200 : Int) ≤ 210 ∧ (150 : Int) ≤ 150)
            ∨ ((150 : Int) ≤ 210 ∧ (210 : Int) < 200 ∧ (150 : Int) ≤ 100)
            ∨ ((100 : Int) ≤ 210 ∧ (210 : Int) < 150 ∧ (150 : Int) ≤ 50))
      ∧ (((200 : Int) ≤ 210 ∧ (150 : Int) ≤ 150)
            ∨ ((150 : Int) ≤ 210 ∧ (210 : Int) < 200 ∧ (150 : Int) ≤ 100)
            ∨ ((100 : Int) ≤ 210 ∧ (210 : Int) < 150 ∧ (150 : Int) ≤ 50)
          → (150 : Int) + 50 ≤ 210) :=
  ⟨rfl, lift_test_exec sampleConfig (checksEnv 100 3000 210) 210 150 rfl⟩

/-- C16 as stated fails: with `AIR_SPEED_Z` reading 60 and `PARAM` holding
10 the climb rate is greater than `PARAM`, yet the iteration comes to its
`RT_BANK` without executing `EXEC (BETTER_LIFT)`. -/
theorem lift_test_misses_small_climb :
    (checksEnv 100 3000 60).value SysVal.AIR_SPEED_Z = some 60 ∧ (60 : Int) > 10
      ∧ LiftTestIff (missionOf sampleConfig) (checksEnv 100 3000 60) 10 False :=
  ⟨rfl, by decide,
    liftTestIff_of_window sampleConfig (checksEnv 100 3000 60) 60 10 rfl False (by decide)⟩

/-! ## One pass of the loop of `LOITER_LAND` -/

theorem isCallAt_false (p : ResolvedProgram) (pc : Nat) (i : Instr)
    (hi : p.code[pc]? = some i) (hc : i.callTarget = none) : isCallAt p pc = false := by
  unfold isCallAt
  rw [hi]
  cases i <;> simp [Instr.callTarget] at hc <;> rfl

theorem isCallAt_true (p : ResolvedProgram) (pc : Nat) (i : Instr) (t : Target)
    (hi : p.code[pc]? = some i) (hc : i.callTarget = some t) : isCallAt p pc = true := by
  unfold isCallAt
  rw [hi]
  cases i <;> simp [Instr.callTarget] at hc <;> rfl

theorem stop_false (p : ResolvedProgram) (stop pc : Nat) (h1 : pc ≠ stop)
    (h2 : isCallAt p pc = false) : (decide (pc = stop) || isCallAt p pc) = false := by
  simp [h1, h2]

theorem stop_true_call (p : ResolvedProgram) (stop : Nat) (s : State) (pc : Nat)
    (hpc : s.pc = pc) (h : isCallAt p pc = true) :
    (decide (s.pc = stop) || isCallAt p s.pc) = true := by
  simp [hpc, h]

theorem stop_true_end (p : ResolvedProgram) (stop : Nat) (s : State) (hpc : s.pc = stop) :
    (decide (s.pc = stop) || isCallAt p s.pc) = true := by
  simp [hpc]

theorem calls_round (p : ResolvedProgram) (env : Env) (stop fuel r : Nat) (s s' : State)
    (i : Instr) (t : Target) (ts : List Target)
    (hrun : runUntil p env (fun pc => decide (pc = stop) || isCallAt p pc) fuel s = some s')
    (hpc : s'.pc ≠ stop) (hi : p.code[s'.pc]? = some i) (ht : i.callTarget = some t)
    (hrest : callsUntil p env stop fuel r s'.next = some ts) :
    callsUntil p env stop fuel (r + 1) s = some (t :: ts) := by
  simp [callsUntil, hrun, hpc, hi, ht, hrest]

theorem calls_done (p : ResolvedProgram) (env : Env) (stop fuel r : Nat) (s s' : State)
    (hrun : runUntil p env (fun pc => decide (pc = stop) || isCallAt p pc) fuel s = some s')
    (hpc : s'.pc = stop) :
    callsUntil p env stop fuel (r + 1) s = some [] := by
  simp [callsUntil, hrun, hpc]

set_option maxHeartbeats 1000000 in
/-- High above the circuit the pass comes to `DO (SET_ALT_ALT)` first. -/
theorem pass_high (c : Config) (p : ResolvedProgram) (base : Nat)
    (hwin : InWindow p.code base (TO_LOITER_LAND c)) (env : Env) (a : Int)
    (ha : env.value SysVal.ALT = some a) (hA : a > (FINAL_ALT * 3) + 20)
    (s : State) (stk : List Frame) (pen : Bool) (par : Int)
    (h : s.IsAt (base + 65) stk pen par) :
    ∃ s', runUntil p env (fun pc => decide (pc = base + 91) || isCallAt p pc) 12 s = some s'
      ∧ s'.mode = Mode.Running ∧ s'.pc = base + 66 := by
  obtain ⟨hL, hs9, hs10, hs11, hs12, hs14, hc16, hs17, hc19, hs20, hs21, hs23, hc25, hc26, hs27, hs28, hs29, hs31, hc33, hs34, hs35, hs37, hc39, hc40, hc41, hs42, hs46, hc52, hs55, hs57, hc61, hs65, hs68, hs69, hs73, hs77, hc83, hc88, hc90, hc91, hc92, hc93⟩ := flow_LOITER_LAND c p.code base hwin
  refine sym_if_true _ _ _ h ((hL 65 (by omega)).trans rfl) ((condition_gt env _ SysVal.ALT ((FINAL_ALT * 3) + 20) a (by decide) ha).trans (decide_eq_true hA)) (stop_false p _ _ (by omega) (isCallAt_false p _ _ ((hL 65 (by omega)).trans rfl) rfl)) ?_
  intro s1 h1
  exact runUntil_stop (stop_true_call p _ _ _ h1.2.1 (isCallAt_true p _ _ _ ((hL 66 (by omega)).trans rfl) rfl)) ⟨h1.1, h1.2.1⟩

set_option maxHeartbeats 1000000 in
/-- After `DO (DESCENT_PATTERN)` the pass is over. -/
theorem pass_high_end (c : Config) (p : ResolvedProgram) (base : Nat)
    (hwin : InWindow p.code base (TO_LOITER_LAND c)) (env : Env)
    (s : State) (stk : List Frame) (pen : Bool) (par : Int)
    (h : s.IsAt (base + 68) stk pen par) :
    ∃ s', runUntil p env (fun pc => decide (pc = base + 91) || isCallAt p pc) 12 s = some s'
      ∧ s'.mode = Mode.Running ∧ s'.pc = base + 91 := by
  obtain ⟨hL, hs9, hs10, hs11, hs12, hs14, hc16, hs17, hc19, hs20, hs21, hs23, hc25, hc26, hs27, hs28, hs29, hs31, hc33, hs34, hs35, hs37, hc39, hc40, hc41, hs42, hs46, hc52, hs55, hs57, hc61, hs65, hs68, hs69, hs73, hs77, hc83, hc88, hc90, hc91, hc92, hc93⟩ := flow_LOITER_LAND c p.code base hwin
  refine sym_else (base + 90) h ((hL 68 (by omega)).trans rfl) hs68 (stop_false p _ _ (by omega) (isCallAt_false p _ _ ((hL 68 (by omega)).trans rfl) rfl)) ?_
  intro s1 h1
  refine sym_endif h1 ((hL 90 (by omega)).trans rfl) hc90 (stop_false p _ _ (by omega) (isCallAt_false p _ _ ((hL 90 (by omega)).trans rfl) rfl)) ?_
  intro s2 h2
  exact runUntil_stop (stop_true_end p _ _ h2.2.1) ⟨h2.1, h2.2.1⟩

set_option maxHeartbeats 1000000 in
/-- Between the two altitudes the pass comes to the second `DO (SET_ALT_ALT)` first. -/
theorem pass_mid (c : Config) (p : ResolvedProgram) (base : Nat)
    (hwin : InWindow p.code base (TO_LOITER_LAND c)) (env : Env) (a : Int)
    (ha : env.value SysVal.ALT = some a) (hA : ¬ a > (FINAL_ALT * 3) + 20)
    (hB : a > FINAL_ALT + 10)
    (s : State) (stk : List Frame) (pen : Bool) (par : Int)
    (h : s.IsAt (base + 65) stk pen par) :
    ∃ s', runUntil p env (fun pc => decide (pc = base + 91) || isCallAt p pc) 12 s = some s'
      ∧ s'.mode = Mode.Running ∧ s'.pc = base + 70 := by
  obtain ⟨hL, hs9, hs10, hs11, hs12, hs14, hc16, hs17, hc19, hs20, hs21, hs23, hc25, hc26, hs27, hs28, hs29, hs31, hc33, hs34, hs35, hs37, hc39, hc40, hc41, hs42, hs46, hc52, hs55, hs57, hc61, hs65, hs68, hs69, hs73, hs77, hc83, hc88, hc90, hc91, hc92, hc93⟩ := flow_LOITER_LAND c p.code base hwin
  refine sym_if_false _ _ _ (base + 69) h ((hL 65 (by omega)).trans rfl) ((condition_gt env _ SysVal.ALT ((FINAL_ALT * 3) + 20) a (by decide) ha).trans (decide_eq_false hA)) hs65 (stop_false p _ _ (by omega) (isCallAt_false p _ _ ((hL 65 (by omega)).trans rfl) rfl)) ?_
  intro s1 h1
  refine sym_if_true _ _ _ h1 ((hL 69 (by omega)).trans rfl) ((condition_gt env _ SysVal.ALT (FINAL_ALT + 10) a (by decide) ha).trans (decide_eq_true hB)) (stop_false p _ _ (by omega) (isCallAt_false p _ _ ((hL 69 (by omega)).trans rfl) rfl)) ?_
  intro s2 h2
  exact runUntil_stop (stop_true_call p _ _ _ h2.2.1 (isCallAt_true p _ _ _ ((hL 70 (by omega)).trans rfl) rfl)) ⟨h2.1, h2.2.1⟩

set_option maxHeartbeats 1000000 in
/-- After the second `DO (SET_ALT_ALT)` the pass goes to the circuit entry point and comes to `DO_PARAM (DOWNWIND)`. -/
theorem pass_mid_entry (c : Config) (p : ResolvedProgram) (base : Nat)
    (hwin : InWindow p.code base (TO_LOITER_LAND c)) (env : Env)
    (s : State) (stk : List Frame) (pen : Bool) (par : Int)
    (h : s.IsAt (base + 71) stk pen par) :
    ∃ s', runUntil p env (fun pc => decide (pc = base + 91) || isCallAt p pc) 12 s = some s'
      ∧ s'.mode = Mode.Running ∧ s'.pc = base + 86 := by
  obtain ⟨hL, hs9, hs10, hs11, hs12, hs14, hc16, hs17, hc19, hs20, hs21, hs23, hc25, hc26, hs27, hs28, hs29, hs31, hc33, hs34, hs35, hs37, hc39, hc40, hc41, hs42, hs46, hc52, hs55, hs57, hc61, hs65, hs68, hs69, hs73, hs77, hc83, hc88, hc90, hc91, hc92, hc93⟩ := flow_LOITER_LAND c p.code base hwin
  refine sym_pen (PEN_UP) false h ((hL 71 (by omega)).trans rfl) rfl (stop_false p _ _ (by omega) (isCallAt_false p _ _ ((hL 71 (by omega)).trans rfl) rfl)) ?_
  intro s1 h1
  refine sym_plain (HOME) h1 ((hL 72 (by omega)).trans rfl) (Or.inr ⟨rfl, rfl⟩) (stop_false p _ _ (by omega) (isCallAt_false p _ _ ((hL 72 (by omega)).trans rfl) rfl)) ?_
  intro s2 h2
  cases hb3 : condition env s2 Cmp.GE SysVal.PARAM 0 with
  | true =>
    refine sym_if_true _ _ _ h2 ((hL 73 (by omega)).trans rfl) hb3 (stop_false p _ _ (by omega) (isCallAt_false p _ _ ((hL 73 (by omega)).trans rfl) rfl)) ?_
    intro s3 h3
    refine sym_plain (SET_ANGLE_PARAM) h3 ((hL 74 (by omega)).trans rfl) (Or.inl rfl) (stop_false p _ _ (by omega) (isCallAt_false p _ _ ((hL 74 (by omega)).trans rfl) rfl)) ?_
    intro s4 h4
    refine sym_plain (FD 150) h4 ((hL 75 (by omega)).trans rfl) (Or.inr ⟨rfl, rfl⟩) (stop_false p _ _ (by omega) (isCallAt_false p _ _ ((hL 75 (by omega)).trans rfl) rfl)) ?_
    intro s5 h5
    refine sym_plain (RT 90) h5 ((hL 76 (by omega)).trans rfl) (Or.inl rfl) (stop_false p _ _ (by omega) (isCallAt_false p _ _ ((hL 76 (by omega)).trans rfl) rfl)) ?_
    intro s6 h6
    refine sym_else (base + 83) h6 ((hL 77 (by omega)).trans rfl) hs77 (stop_false p _ _ (by omega) (isCallAt_false p _ _ ((hL 77 (by omega)).trans rfl) rfl)) ?_
    intro s7 h7
    refine sym_endif h7 ((hL 83 (by omega)).trans rfl) hc83 (stop_false p _ _ (by omega) (isCallAt_false p _ _ ((hL 83 (by omega)).trans rfl) rfl)) ?_
    intro s8 h8
    refine sym_plain (FD 150) h8 ((hL 84 (by omega)).trans rfl) (Or.inr ⟨rfl, rfl⟩) (stop_false p _ _ (by omega) (isCallAt_false p _ _ ((hL 84 (by omega)).trans rfl) rfl)) ?_
    intro s9 h9
    refine sym_pen (PEN_DOWN) true h9 ((hL 85 (by omega)).trans rfl) rfl (stop_false p _ _ (by omega) (isCallAt_false p _ _ ((hL 85 (by omega)).trans rfl) rfl)) ?_
    intro s10 h10
    exact runUntil_stop (stop_true_call p _ _ _ h10.2.1 (isCallAt_true p _ _ _ ((hL 86 (by omega)).trans rfl) rfl)) ⟨h10.1, h10.2.1⟩
  | false =>
    refine sym_if_false _ _ _ (base + 78) h2 ((hL 73 (by omega)).trans rfl) hb3 hs73 (stop_false p _ _ (by omega) (isCallAt_false p _ _ ((hL 73 (by omega)).trans rfl) rfl)) ?_
    intro s3 h3
    refine sym_param (PARAM_MUL (-1)) (par * (-1)) h3 ((hL 78 (by omega)).trans rfl) rfl (stop_false p _ _ (by omega) (isCallAt_false p _ _ ((hL 78 (by omega)).trans rfl) rfl)) ?_
    intro s11 stk11 h11
    refine sym_plain (SET_ANGLE_PARAM) h11 ((hL 79 (by omega)).trans rfl) (Or.inl rfl) (stop_false p _ _ (by omega) (isCallAt_false p _ _ ((hL 79 (by omega)).trans rfl) rfl)) ?_
    intro s12 h12
    refine sym_param (PARAM_MUL (-1)) ((par * (-1)) * (-1)) h12 ((hL 80 (by omega)).trans rfl) rfl (stop_false p _ _ (by omega) (isCallAt_false p _ _ ((hL 80 (by omega)).trans rfl) rfl)) ?_
    intro s13 stk13 h13
    refine sym_plain (FD 150) h13 ((hL 81 (by omega)).trans rfl) (Or.inr ⟨rfl, rfl⟩) (stop_false p _ _ (by omega) (isCallAt_false p _ _ ((hL 81 (by omega)).trans rfl) rfl)) ?_
    intro s14 h14
    refine sym_plain (LT 90) h14 ((hL 82 (by omega)).trans rfl) (Or.inl rfl) (stop_false p _ _ (by omega) (isCallAt_false p _ _ ((hL 82 (by omega)).trans rfl) rfl)) ?_
    intro s15 h15
    refine sym_endif h15 ((hL 83 (by omega)).trans rfl) hc83 (stop_false p _ _ (by omega) (isCallAt_false p _ _ ((hL 83 (by omega)).trans rfl) rfl)) ?_
    intro s16 h16
    refine sym_plain (FD 150) h16 ((hL 84 (by omega)).trans rfl) (Or.inr ⟨rfl, rfl⟩) (stop_false p _ _ (by omega) (isCallAt_false p _ _ ((hL 84 (by omega)).trans rfl) rfl)) ?_
    intro s17 h17
    refine sym_pen (PEN_DOWN) true h17 ((hL 85 (by omega)).trans rfl) rfl (stop_false p _ _ (by omega) (isCallAt_false p _ _ ((hL 85 (by omega)).trans rfl) rfl)) ?_
    intro s18 h18
    exact runUntil_stop (stop_true_call p _ _ _ h18.2.1 (isCallAt_true p _ _ _ ((hL 86 (by omega)).trans rfl) rfl)) ⟨h18.1, h18.2.1⟩

set_option maxHeartbeats 1000000 in
/-- After `DO_PARAM (BASE)` the pass comes to `DO_PARAM (FINAL)`. -/
theorem pass_mid_final (c : Config) (p : ResolvedProgram) (base : Nat)
    (hwin : InWindow p.code base (TO_LOITER_LAND c)) (env : Env)
    (s : State) (stk : List Frame) (pen : Bool) (par : Int)
    (h : s.IsAt (base + 88) stk pen par) :
    ∃ s', runUntil p env (fun pc => decide (pc = base + 91) || isCallAt p pc) 12 s = some s'
      ∧ s'.mode = Mode.Running ∧ s'.pc = base + 89 := by
  obtain ⟨hL, hs9, hs10, hs11, hs12, hs14, hc16, hs17, hc19, hs20, hs21, hs23, hc25, hc26, hs27, hs28, hs29, hs31, hc33, hs34, hs35, hs37, hc39, hc40, hc41, hs42, hs46, hc52, hs55, hs57, hc61, hs65, hs68, hs69, hs73, hs77, hc83, hc88, hc90, hc91, hc92, hc93⟩ := flow_LOITER_LAND c p.code base hwin
  refine sym_endif h ((hL 88 (by omega)).trans rfl) hc88 (stop_false p _ _ (by omega) (isCallAt_false p _ _ ((hL 88 (by omega)).trans rfl) rfl)) ?_
  intro s1 h1
  exact runUntil_stop (stop_true_call p _ _ _ h1.2.1 (isCallAt_true p _ _ _ ((hL 89 (by omega)).trans rfl) rfl)) ⟨h1.1, h1.2.1⟩

set_option maxHeartbeats 1000000 in
/-- Low, the pass comes to `DO_PARAM (FINAL)` first. -/
theorem pass_low (c : Config) (p : ResolvedProgram) (base : Nat)
    (hwin : InWindow p.code base (TO_LOITER_LAND c)) (env : Env) (a : Int)
    (ha : env.value SysVal.ALT = some a) (hA : ¬ a > (FINAL_ALT * 3) + 20)
    (hB : ¬ a > FINAL_ALT + 10)
    (s : State) (stk : List Frame) (pen : Bool) (par : Int)
    (h : s.IsAt (base + 65) stk pen par) :
    ∃ s', runUntil p env (fun pc => decide (pc = base + 91) || isCallAt p pc) 12 s = some s'
      ∧ s'.mode = Mode.Running ∧ s'.pc = base + 89 := by
  obtain ⟨hL, hs9, hs10, hs11, hs12, hs14, hc16, hs17, hc19, hs20, hs21, hs23, hc25, hc26, hs27, hs28, hs29, hs31, hc33, hs34, hs35, hs37, hc39, hc40, hc41, hs42, hs46, hc52, hs55, hs57, hc61, hs65, hs68, hs69, hs73, hs77, hc83, hc88, hc90, hc91, hc92, hc93⟩ := flow_LOITER_LAND c p.code base hwin
  refine sym_if_false _ _ _ (base + 69) h ((hL 65 (by omega)).trans rfl) ((condition_gt env _ SysVal.ALT ((FINAL_ALT * 3) + 20) a (by decide) ha).trans (decide_eq_false hA)) hs65 (stop_false p _ _ (by omega) (isCallAt_false p _ _ ((hL 65 (by omega)).trans rfl) rfl)) ?_
  intro s1 h1
  refine sym_if_false _ _ _ (base + 88) h1 ((hL 69 (by omega)).trans rfl) ((condition_gt env _ SysVal.ALT (FINAL_ALT + 10) a (by decide) ha).trans (decide_eq_false hB)) hs69 (stop_false p _ _ (by omega) (isCallAt_false p _ _ ((hL 69 (by omega)).trans rfl) rfl)) ?_
  intro s2 h2
  refine sym_endif h2 ((hL 88 (by omega)).trans rfl) hc88 (stop_false p _ _ (by omega) (isCallAt_false p _ _ ((hL 88 (by omega)).trans rfl) rfl)) ?_
  intro s3 h3
  exact runUntil_stop (stop_true_call p _ _ _ h3.2.1 (isCallAt_true p _ _ _ ((hL 89 (by omega)).trans rfl) rfl)) ⟨h3.1, h3.2.1⟩

set_option maxHeartbeats 1000000 in
/-- After `DO_PARAM (FINAL)` the pass is over. -/
theorem pass_final_end (c : Config) (p : ResolvedProgram) (base : Nat)
    (hwin : InWindow p.code base (TO_LOITER_LAND c)) (env : Env)
    (s : State) (stk : List Frame) (pen : Bool) (par : Int)
    (h : s.IsAt (base + 90) stk pen par) :
    ∃ s', runUntil p env (fun pc => decide (pc = base + 91) || isCallAt p pc) 12 s = some s'
      ∧ s'.mode = Mode.Running ∧ s'.pc = base + 91 := by
  obtain ⟨hL, hs9, hs10, hs11, hs12, hs14, hc16, hs17, hc19, hs20, hs21, hs23, hc25, hc26, hs27, hs28, hs29, hs31, hc33, hs34, hs35, hs37, hc39, hc40, hc41, hs42, hs46, hc52, hs55, hs57, hc61, hs65, hs68, hs69, hs73, hs77, hc83, hc88, hc90, hc91, hc92, hc93⟩ := flow_LOITER_LAND c p.code base hwin
  refine sym_endif h ((hL 90 (by omega)).trans rfl) hc90 (stop_false p _ _ (by omega) (isCallAt_false p _ _ ((hL 90 (by omega)).trans rfl) rfl)) ?_
  intro s1 h1
  exact runUntil_stop (stop_true_end p _ _ h1.2.1) ⟨h1.1, h1.2.1⟩

theorem calls_chain (p : ResolvedProgram) (env : Env) (stop fuel r : Nat) (s : State)
    (pc : Nat) (i : Instr) (t : Target) (ts : List Target)
    (hseg : ∃ s', runUntil p env (fun pc => decide (pc = stop) || isCallAt p pc) fuel s = some s'
      ∧ s'.mode = Mode.Running ∧ s'.pc = pc)
    (hne : pc ≠ stop) (hi : p.code[pc]? = some i) (ht : i.callTarget = some t)
    (hrest : ∀ s1 : State, s1.mode = Mode.Running → s1.pc = pc + 1 →
      callsUntil p env stop fuel r s1 = some ts) :
    callsUntil p env stop fuel (r + 1) s = some (t :: ts) := by
  obtain ⟨s', hrun, hm, hpc⟩ := hseg
  exact calls_round p env stop fuel r s s' i t ts hrun (by rw [hpc]; exact hne)
    (by rw [hpc]; exact hi) ht (hrest _ hm (by simp [State.next, hpc]))

theorem calls_end (p : ResolvedProgram) (env : Env) (stop fuel r : Nat) (s : State)
    (hseg : ∃ s', runUntil p env (fun pc => decide (pc = stop) || isCallAt p pc) fuel s = some s'
      ∧ s'.mode = Mode.Running ∧ s'.pc = stop) :
    callsUntil p env stop fuel (r + 1) s = some [] := by
  obtain ⟨s', hrun, _, hpc⟩ := hseg
  exact calls_done p env stop fuel r s s' hrun hpc

theorem seg_at_call (p : ResolvedProgram) (env : Env) (stop fuel : Nat) (s : State)
    (pc : Nat) (i : Instr) (t : Target) (hm : s.mode = Mode.Running) (hpc : s.pc = pc)
    (hi : p.code[pc]? = some i) (ht : i.callTarget = some t) :
    ∃ s', runUntil p env (fun pc => decide (pc = stop) || isCallAt p pc) fuel s = some s'
      ∧ s'.mode = Mode.Running ∧ s'.pc = pc :=
  runUntil_stop (stop_true_call p _ _ _ hpc (isCallAt_true p _ _ _ hi ht)) ⟨hm, hpc⟩

/-- The calls of one pass of the loop of `LOITER_LAND`, by altitude. -/
theorem pass_calls_window (c : Config) (p : ResolvedProgram) (base : Nat)
    (hwin : InWindow p.code base (TO_LOITER_LAND c)) (env : Env) (a : Int)
    (ha : env.value SysVal.ALT = some a) (s : State) (hm : s.mode = Mode.Running)
    (hpc : s.pc = base + 65) :
    callsUntil p env (base + 91) 12 5 s
      = some (if a > (FINAL_ALT * 3) + 20 then
          [Target.sub SET_ALT_ALT, Target.sub DESCENT_PATTERN]
        else if a > FINAL_ALT + 10 then
          [Target.sub SET_ALT_ALT, Target.sub DOWNWIND, Target.sub BASE, Target.sub FINAL]
        else [Target.sub FINAL]) := by
  have hL := (flow_LOITER_LAND c p.code base hwin).1
  have at_ : ∀ (s1 : State) (k : Nat), s1.mode = Mode.Running → s1.pc = base + k →
      s1.IsAt (base + k) s1.stack s1.penDown s1.curParam :=
    fun s1 k h1 h2 => ⟨h1, h2, rfl, rfl, rfl⟩
  have fin_ : ∀ s1 : State, s1.mode = Mode.Running → s1.pc = base + 89 + 1 →
      callsUntil p env (base + 91) 12 1 s1 = some [] := by
    intro s1 h1 h2
    exact calls_end p env _ 12 0 s1
      (pass_final_end c p base hwin env s1 _ _ _ (at_ s1 90 h1 h2))
  by_cases hA : a > (FINAL_ALT * 3) + 20
  · rw [if_pos hA]
    refine calls_chain p env _ 12 4 s (base + 66) _ _ _
      (pass_high c p base hwin env a ha hA s _ _ _ (at_ s 65 hm hpc)) (by omega)
      ((hL 66 (by omega)).trans rfl) rfl ?_
    intro s1 hm1 hpc1
    refine calls_chain p env _ 12 3 s1 (base + 67) _ _ _
      (seg_at_call p env _ 12 s1 _ _ _ hm1 hpc1 ((hL 67 (by omega)).trans rfl) rfl) (by omega)
      ((hL 67 (by omega)).trans rfl) rfl ?_
    intro s2 hm2 hpc2
    exact calls_end p env _ 12 2 s2
      (pass_high_end c p base hwin env s2 _ _ _ (at_ s2 68 hm2 hpc2))
  · rw [if_neg hA]
    by_cases hB : a > FINAL_ALT + 10
    · rw [if_pos hB]
      refine calls_chain p env _ 12 4 s (base + 70) _ _ _
        (pass_mid c p base hwin env a ha hA hB s _ _ _ (at_ s 65 hm hpc)) (by omega)
        ((hL 70 (by omega)).trans rfl) rfl ?_
      intro s1 hm1 hpc1
      refine calls_chain p env _ 12 3 s1 (base + 86) _ _ _
        (pass_mid_entry c p base hwin env s1 _ _ _ (at_ s1 71 hm1 hpc1)) (by omega)
        ((hL 86 (by omega)).trans rfl) rfl ?_
      intro s2 hm2 hpc2
      refine calls_chain p env _ 12 2 s2 (base + 87) _ _ _
        (seg_at_call p env _ 12 s2 _ _ _ hm2 hpc2 ((hL 87 (by omega)).trans rfl) rfl) (by omega)
        ((hL 87 (by omega)).trans rfl) rfl ?_
      intro s3 hm3 hpc3
      refine calls_chain p env _ 12 1 s3 (base + 89) _ _ _
        (pass_mid_final c p base hwin env s3 _ _ _ (at_ s3 88 hm3 hpc3)) (by omega)
        ((hL 89 (by omega)).trans rfl) rfl ?_
      intro s4 hm4 hpc4
      exact calls_end p env _ 12 0 s4
        (pass_final_end c p base hwin env s4 _ _ _ (at_ s4 90 hm4 hpc4))
    · rw [if_neg hB]
      refine calls_chain p env _ 12 4 s (base + 89) _ _ _
        (pass_low c p base hwin env a ha hA hB s _ _ _ (at_ s 65 hm hpc)) (by omega)
        ((hL 89 (by omega)).trans rfl) rfl ?_
      intro s1 hm1 hpc1
      exact calls_end p env _ 12 3 s1
        (pass_final_end c p base hwin env s1 _ _ _ (at_ s1 90 hm1 hpc1))

theorem passCalls_of_window (c : Config) (env : Env) (a : Int)
    (ha : env.value SysVal.ALT = some a) :
    PassCalls (missionOf c) env
      (if a > (FINAL_ALT * 3) + 20 then
          [Target.sub SET_ALT_ALT, Target.sub DESCENT_PATTERN]
        else if a > FINAL_ALT + 10 then
          [Target.sub SET_ALT_ALT, Target.sub DOWNWIND, Target.sub BASE, Target.sub FINAL]
        else [Target.sub FINAL]) := by
  obtain ⟨base, hoff, hwin⟩ := window_LOITER_LAND c
  have hL := (flow_LOITER_LAND c _ base hwin).1
  refine ⟨base + 1, hoff, ?_, ?_, ?_, ?_⟩
  · rw [Nat.add_assoc, hL (1 + 63) (by omega)]; rfl
  · rw [Nat.add_assoc, hL (1 + 90) (by omega)]; rfl
  · rw [Nat.add_assoc, inWindow_nest (missionOf c).code base _ hwin (1 + 90)
      (Nat.le_of_ble_eq_true rfl)]
    rfl
  · intro s hm hpc
    have := pass_calls_window c _ base hwin env a ha s hm (by rw [hpc, Nat.add_assoc])
    rw [Nat.add_assoc]
    exact this

/-- The calls of a pass of the `REPEAT_FOREVER` loop of `LOITER_LAND`, for
every altitude reading `a`: the pass calls `SET_ALT_ALT`
and `DESCENT_PATTERN` when `a > FINAL_ALT * 3 + 20` (86 m); it calls
`SET_ALT_ALT`, `DOWNWIND`, `BASE` and `FINAL`, in this order, when
`FINAL_ALT + 10 < a ≤ FINAL_ALT * 3 + 20` (33..86 m); and it goes straight to
`FINAL` when `a ≤ FINAL_ALT + 10` (32 m). -/
theorem loiter_pass_calls (c : Config) (env : Env) (a : Int)
    (ha : env.value SysVal.ALT = some a) :
    PassCalls (missionOf c) env
        (if a > (FINAL_ALT * 3) + 20 then
          [Target.sub SET_ALT_ALT, Target.sub DESCENT_PATTERN]
        else if a > FINAL_ALT + 10 then
          [Target.sub SET_ALT_ALT, Target.sub DOWNWIND, Target.sub BASE, Target.sub FINAL]
        else [Target.sub FINAL])
      ∧ (FINAL_ALT * 3) + 20 = 86 ∧ FINAL_ALT + 10 = 32 :=
  ⟨passCalls_of_window c env a ha, rfl, rfl⟩

/-- A pass of the loop of `LOITER_LAND` at 120 m. -/
theorem loiter_pass_calls_witness :
    (sampleEnv 120).value SysVal.ALT = some 120
      ∧ PassCalls (missionOf sampleConfig) (sampleEnv 120)
          (if (120 : Int) > (FINAL_ALT * 3) + 20 then
            [Target.sub SET_ALT_ALT, Target.sub DESCENT_PATTERN]
          else if (120 : Int) > FINAL_ALT + 10 then
            [Target.sub SET_ALT_ALT, Target.sub DOWNWIND, Target.sub BASE, Target.sub FINAL]
          else [Target.sub FINAL])
      ∧ (FINAL_ALT * 3) + 20 = 86 ∧ FINAL_ALT + 10 = 32 :=
  ⟨rfl, loiter_pass_calls sampleConfig (sampleEnv 120) 120 rfl⟩

/-- C14 (refuted at 85 m and at 40 m): in a pass of the `REPEAT_FOREVER` loop
of `LOITER_LAND` at 85 m, above the 80 m of the comments, the engine does not
call `DESCENT_PATTERN` but flies the circuit; and at 40 m, below the 50 m of
the comments, the pass calls `DOWNWIND` and `BASE` before `FINAL`.  The
thresholds of the table are `FINAL_ALT * 3 + 20` (86) and `FINAL_ALT + 10`
(32). -/
theorem loiter_pass_at_85_and_40 :
    (85 : Int) > 80
      ∧ PassCalls (missionOf sampleConfig) (sampleEnv 85)
          [Target.sub SET_ALT_ALT, Target.sub DOWNWIND, Target.sub BASE, Target.sub FINAL]
      ∧ (40 : Int) < 50
      ∧ PassCalls (missionOf sampleConfig) (sampleEnv 40)
          [Target.sub SET_ALT_ALT, Target.sub DOWNWIND, Target.sub BASE, Target.sub FINAL]
      ∧ (FINAL_ALT * 3) + 20 = 86 ∧ FINAL_ALT + 10 = 32 :=
  ⟨by decide, passCalls_of_window sampleConfig (sampleEnv 85) 85 rfl, by decide,
    passCalls_of_window sampleConfig (sampleEnv 40) 40 rfl, rfl, rfl⟩

/-! ## The precalculated turn of the geofence routines -/

/-- C13 (refuted for home more than 150 degrees to the right): with
`REL_ANGLE_TO_HOME` reading 160, the precalculated turn of `RETURN_GEOFENCE`
and of `CHECK_SOFT_GEOFENCE` (the checks called in the loop returning
normally) is 20 times `LT(10)` and leaves home dead ahead, at a relative angle
of 0 and not between -39 and -21; readings of 151 and 179 leave home at -9 and
at -1, while readings of -100 and 100 leave it at -30.  The eight
geofence-return routines have the same turn instructions, up to the checks
they call. -/
theorem geofence_turn_misses_at_160 :
    turnOf RETURN_GEOFENCE 0 32 160 = some 0
      ∧ turnOf CHECK_SOFT_GEOFENCE 1 39 160 = some 0
      ∧ turnOf RETURN_GEOFENCE 0 32 151 = some (-9)
      ∧ turnOf RETURN_GEOFENCE 0 32 179 = some (-1)
      ∧ turnOf RETURN_GEOFENCE 0 32 (-100) = some (-30)
      ∧ turnOf RETURN_GEOFENCE 0 32 100 = some (-30)
      ∧ geofenceTurns.map (fun x => turnCode x.1 x.2.1 x.2.2)
          = List.replicate 8 (turnCode RETURN_GEOFENCE 0 32) := by
  refine ⟨?_, ?_, ?_, ?_, ?_, ?_, ?_⟩
  · decide!
  · decide!
  · decide!
  · decide!
  · decide!
  · decide!
  · decide!

/-! ## Every `END` is accounted for -/

theorem endsAccounted_of_scan (ks : List Kind) (e : Nat)
    (h0 : ks[0]? ≠ some Kind.endK) (he : mainEnd ks = some e)
    (h : scanAll (endCheck e) ks 0 [] = true) : EndsAccounted ks := by
  intro pc hpc
  cases pc with
  | zero => exact absurd hpc h0
  | succ q =>
    have hq : q < ks.length := by
      have := lt_length_of_getElem? _ _ _ hpc
      omega
    obtain ⟨k, hk⟩ : ∃ k, ks[q]? = some k := ⟨ks[q], List.getElem?_eq_getElem hq⟩
    have hs := scanAll_sound (endCheck e) ks h q k hk
    have hd : ks.drop (q + 1) = Kind.endK :: ks.drop (q + 1 + 1) := by
      have hlt : q + 1 < ks.length := lt_length_of_getElem? _ _ _ hpc
      rw [List.drop_eq_getElem_cons hlt]
      congr 1
      rw [List.getElem?_eq_getElem hlt] at hpc
      exact Option.some.inj hpc
    rw [hd] at hs
    simp only [endCheck, Bool.or_eq_true, Bool.not_eq_true', decide_eq_true_eq,
      beq_iff_eq] at hs
    have hn := nestAt_succ ks q k hk
    rcases hs with (hs | hs) | hs
    · left
      unfold endRole
      rw [hn]
      cases hne : nestStep q (nestAt ks q) k with
      | nil => simp [hne] at hs
      | cons b n => cases b <;> simp
    · left
      unfold endRole
      rw [hn]
      cases hne : nestStep q (nestAt ks q) k with
      | nil => simp [he, hs]
      | cons b n => cases b <;> simp
    · right
      refine ⟨by omega, ?_⟩
      simpa [hs] using hk

/-- C11 (amended): in both tables every `END` closes the innermost open
`REPEAT*` or `IF_*` block, or terminates the innermost open `TO` definition,
or is the `END` that terminates the main body, or else it is a redundant
`END` that is met with nothing open and stands right behind another `END`
(the one that terminated the main body or a subroutine, or another redundant
one). -/
theorem every_end_accounted (c : Config) :
    EndsAccounted (kinds (instructions c)) ∧ EndsAccounted (kinds (rtlInstructions c)) := by
  constructor
  · rw [kinds_instructions]
    generalize c.throttleChannelUsed = b
    apply endsAccounted_of_scan _ 12
    · cases b <;> decide!
    · cases b <;> decide!
    · cases b <;> decide!
  · rw [kinds_rtlInstructions]
    generalize c.throttleChannelUsed = b
    apply endsAccounted_of_scan _ 1
    · cases b <;> decide!
    · cases b <;> decide!
    · cases b <;> decide!

/-- C11 as stated fails: in the mission table the `END` at offset 13, right
behind the `END` that terminates the main body (offset 12, source lines
1072-1073), is met with nothing open; so is the `END` at offset 2 of the
failsafe table. -/
theorem second_end_of_main_ends_nothing :
    (kinds (instructions sampleConfig))[13]? = some Kind.endK
      ∧ endRole (kinds (instructions sampleConfig)) 13 = EndRole.nothing
      ∧ nestAt (kinds (instructions sampleConfig)) 13 = []
      ∧ (kinds (rtlInstructions sampleConfig))[2]? = some Kind.endK
      ∧ endRole (kinds (rtlInstructions sampleConfig)) 2 = EndRole.nothing := by
  refine ⟨?_, ?_, ?_, ?_, ?_⟩ <;> decide!

/-! ## The system values the tables name -/

set_option maxRecDepth 20000 in
theorem valuesUsed_instructions (c : Config) :
    valuesUsed (instructions c) = valuesUsed (instructions (Config.shape c.throttleChannelUsed)) := by
  obtain ⟨a, b, d, e, t⟩ := c
  cases t <;> rfl

set_option maxRecDepth 20000 in
theorem valuesUsed_rtlInstructions (c : Config) :
    valuesUsed (rtlInstructions c)
      = valuesUsed (rtlInstructions (Config.shape c.throttleChannelUsed)) := by
  obtain ⟨a, b, d, e, t⟩ := c
  cases t <;> rfl

/-- C18 (amended): every system value named in an `IF_*` or `LOAD_TO_PARAM`
instruction of the two tables is one of the documented system values, or is
`DIST_TO_UPWIND_POINT` or `BATTERY_VOLTAGE`, which the mission table names
without their being in the documented list; the failsafe table names
documented values only. -/
theorem system_values_named (c : Config) :
    (valuesUsed (instructions c)).all
        (fun v => v.documented || v == SysVal.DIST_TO_UPWIND_POINT
          || v == SysVal.BATTERY_VOLTAGE) = true
      ∧ (valuesUsed (rtlInstructions c)).all SysVal.documented = true := by
  rw [valuesUsed_instructions, valuesUsed_rtlInstructions]
  generalize c.throttleChannelUsed = b
  constructor <;> cases b <;> decide!

/-- C18 as stated fails: `CHECK_WIND_GEOFENCE` opens with an `IF_GT` on
`DIST_TO_UPWIND_POINT` (table offset 100, source line 1236) and `CHECKS` tests
`BATTERY_VOLTAGE` (table offset 514, source line 1946); neither value is in
the documented list. -/
theorem undocumented_values_named :
    (instructions sampleConfig)[100]?
        = some (IF_GT SysVal.DIST_TO_UPWIND_POINT GEOFENCE_SIZE)
      ∧ SysVal.DIST_TO_UPWIND_POINT.documented = false
      ∧ (instructions sampleConfig)[514]?
        = some (IF_LT SysVal.BATTERY_VOLTAGE sampleConfig.VOLTAGE_SENSOR_ALARM)
      ∧ SysVal.BATTERY_VOLTAGE.documented = false := by
  refine ⟨?_, ?_, ?_, ?_⟩ <;> decide!

/-! ## The soft geofences are inside the geofence -/

/-- C20: with C integer arithmetic the soft geofence threshold
`GEOFENCE_SIZE * 2 / 3` (266) and the soft wind geofence threshold
`GEOFENCE_SIZE * 4 / 5` (320), which the routines `CHECK_SOFT_GEOFENCE` and
`CHECK_SOFT_WIND_GEOFENCE` test first, are positive and strictly smaller than
`GEOFENCE_SIZE`; so every distance above `GEOFENCE_SIZE` is above both, and a
geofence test that succeeds makes the soft test succeed. -/
theorem soft_geofences_inside (c : Config) :
    (∃ off, targetOffset (missionOf c) (Target.sub CHECK_SOFT_GEOFENCE) = some off
        ∧ (missionOf c).code[off]? = some (IF_GT SysVal.DIST_TO_HOME SOFT_GEOFENCE))
      ∧ (∃ off, targetOffset (missionOf c) (Target.sub CHECK_SOFT_WIND_GEOFENCE) = some off
        ∧ (missionOf c).code[off]?
            = some (IF_GT SysVal.DIST_TO_UPWIND_POINT SOFT_WIND_GEOFENCE))
      ∧ 0 < SOFT_GEOFENCE ∧ SOFT_GEOFENCE < GEOFENCE_SIZE
      ∧ 0 < SOFT_WIND_GEOFENCE ∧ SOFT_WIND_GEOFENCE < GEOFENCE_SIZE
      ∧ (∀ d : Int, d > GEOFENCE_SIZE → d > SOFT_GEOFENCE ∧ d > SOFT_WIND_GEOFENCE)
      ∧ (∀ (env : Env) (s : State) (v : SysVal),
          condition env s Cmp.GT v GEOFENCE_SIZE = true →
            condition env s Cmp.GT v SOFT_GEOFENCE = true
              ∧ condition env s Cmp.GT v SOFT_WIND_GEOFENCE = true) := by
  have e1 : SOFT_GEOFENCE = 266 := by decide
  have e2 : SOFT_WIND_GEOFENCE = 320 := by decide
  have e3 : GEOFENCE_SIZE = 400 := rfl
  refine ⟨?_, ?_, by rw [e1]; decide, by rw [e1, e3]; decide, by rw [e2]; decide,
    by rw [e2, e3]; decide, ?_, ?_⟩
  · obtain ⟨a, b, d, e, t⟩ := c
    cases t
    · exact ⟨56, rfl, rfl⟩
    · exact ⟨56, rfl, rfl⟩
  · obtain ⟨a, b, d, e, t⟩ := c
    cases t
    · exact ⟨144, rfl, rfl⟩
    · exact ⟨144, rfl, rfl⟩
  · intro d hd
    rw [e1, e2]
    rw [e3] at hd
    constructor <;> omega
  · intro env s v h
    unfold condition at h ⊢
    cases hr : resolve env s v with
    | none => simp [hr] at h
    | some a =>
      simp only [hr, Cmp.eval, decide_eq_true_eq] at h ⊢
      rw [e1, e2]
      rw [e3] at h
      constructor <;> omega

/-! ## The documented closed figures restore the heading -/

theorem figAt_rt (p : ResolvedProgram) (env : Env) (s0 : State) (n : Nat) (t : Int) (pc : Nat)
    (stk : List Frame) (h a : Int) (hc : p.code[pc]? = some (RT a))
    (H : FigAt p env s0 n t pc stk h) :
    FigAt p env s0 (n + 1) (t + a) (pc + 1) stk (normHeading (h + a)) := by
  obtain ⟨hm, hpc, hst, hac, hpen, hh, ht⟩ := H
  unfold FigAt
  simp only [run, turned]
  generalize run p (fun _ => env.arriving) n s0 = s at *
  subst hpc
  have hto : turnOfStep p s = a := by simp [turnOfStep, hm, hc, State.arg]
  have hs : step p env.arriving s
      = (s.setTurtle { s.turtle with heading := normHeading (s.turtle.heading + a) }).next := by
    simp [step, hm, hc, execute, State.arg]
  rw [hs, hto, ht]
  simp [State.next, State.setTurtle, State.turtle, hac, hm, hst, hpen, hh]

theorem figAt_fd (p : ResolvedProgram) (env : Env) (s0 : State) (n : Nat) (t : Int) (pc : Nat)
    (stk : List Frame) (h d : Int) (hc : p.code[pc]? = some (FD d))
    (H : FigAt p env s0 n t pc stk h) :
    FigAt p env s0 (n + 2) t (pc + 1) stk h := by
  obtain ⟨hm, hpc, hst, hac, hpen, hh, ht⟩ := H
  unfold FigAt
  simp only [run, turned]
  generalize run p (fun _ => env.arriving) n s0 = s at *
  subst hpc
  have hto : turnOfStep p s = 0 := by simp [turnOfStep, hm, hc]
  have hs : step p env.arriving s = (moveEffect env.arriving s (FD d)).moved := by
    simp [step, hm, hc, execute]
  have hmv : (moveEffect env.arriving s (FD d)).moved
      = { moveEffect env.arriving s (FD d) with
          pc := s.pc + 1, mode := Mode.AwaitingArrival } := by
    simp [State.moved, moveEffect, State.setTurtle, hac, hpen]
  rw [hs, hmv, hto, ht]
  simp [step, turnOfStep, Env.arriving, moveEffect, State.setTurtle, State.turtle, hac, hst,
    hpen, hh]

theorem figAt_flagOn (p : ResolvedProgram) (env : Env) (s0 : State) (n : Nat) (t : Int)
    (pc : Nat) (stk : List Frame) (h : Int) (f : Flag) (hc : p.code[pc]? = some (FLAG_ON f))
    (H : FigAt p env s0 n t pc stk h) :
    FigAt p env s0 (n + 1) t (pc + 1) stk h := by
  obtain ⟨hm, hpc, hst, hac, hpen, hh, ht⟩ := H
  unfold FigAt
  simp only [run, turned]
  generalize run p (fun _ => env.arriving) n s0 = s at *
  subst hpc
  have hto : turnOfStep p s = 0 := by simp [turnOfStep, hm, hc]
  rw [hto, ht]
  simp [step, hm, hc, execute, hst, hac, hpen, hh]

theorem figAt_repeat (p : ResolvedProgram) (env : Env) (s0 : State) (n : Nat) (t : Int)
    (pc : Nat) (stk : List Frame) (h k : Int) (hc : p.code[pc]? = some (REPEAT k))
    (hl : stk.length < STACK_DEPTH) (H : FigAt p env s0 n t pc stk h) :
    FigAt p env s0 (n + 1) t (pc + 1) (Frame.loop (pc + 1) (some k) :: stk) h := by
  obtain ⟨hm, hpc, hst, hac, hpen, hh, ht⟩ := H
  unfold FigAt
  simp only [run, turned]
  generalize run p (fun _ => env.arriving) n s0 = s at *
  subst hpc
  have hto : turnOfStep p s = 0 := by simp [turnOfStep, hm, hc]
  rw [hto, ht]
  subst hst
  simp [step, hm, hc, execute, State.push, hl, hac, hpen, hh]

theorem figAt_end_back (p : ResolvedProgram) (env : Env) (s0 : State) (n : Nat) (t : Int)
    (pc : Nat) (stk : List Frame) (h k : Int) (start : Nat) (hc : p.code[pc]? = some END)
    (hi : closesIf (kinds p.code) pc = false) (hk : 0 < k - 1)
    (H : FigAt p env s0 n t pc (Frame.loop start (some k) :: stk) h) :
    FigAt p env s0 (n + 1) t start (Frame.loop start (some (k - 1)) :: stk) h := by
  obtain ⟨hm, hpc, hst, hac, hpen, hh, ht⟩ := H
  unfold FigAt
  simp only [run, turned]
  generalize run p (fun _ => env.arriving) n s0 = s at *
  subst hpc
  have hto : turnOfStep p s = 0 := by simp [turnOfStep, hm, hc]
  rw [hto, ht]
  simp [step, hm, hc, execute, hi, State.terminator, hst, hk, hac, hpen, hh]

theorem figAt_end_exit (p : ResolvedProgram) (env : Env) (s0 : State) (n : Nat) (t : Int)
    (pc : Nat) (stk : List Frame) (h : Int) (start : Nat) (hc : p.code[pc]? = some END)
    (hi : closesIf (kinds p.code) pc = false)
    (H : FigAt p env s0 n t pc (Frame.loop start (some 1) :: stk) h) :
    FigAt p env s0 (n + 1) t (pc + 1) stk h := by
  obtain ⟨hm, hpc, hst, hac, hpen, hh, ht⟩ := H
  unfold FigAt
  simp only [run, turned]
  generalize run p (fun _ => env.arriving) n s0 = s at *
  subst hpc
  have hto : turnOfStep p s = 0 := by simp [turnOfStep, hm, hc]
  rw [hto, ht]
  simp [step, hm, hc, execute, hi, State.terminator, hst, hac, hpen, hh]

theorem figAt_congr (p : ResolvedProgram) (env : Env) (s0 : State) (n n' : Nat) (t t' : Int)
    (pc : Nat) (stk stk' : List Frame) (h h' : Int) (H : FigAt p env s0 n t pc stk h)
    (hn : n = n') (ht : t = t') (hs : stk = stk') (hh : h = h') :
    FigAt p env s0 n' t' pc stk' h' := by
  subst hn ht hs hh
  exact H

/-- A loop `REPEAT(m + 1) RT(a) FD(d) END` whose body starts at `pc`, entered
with `m + 1` passes to go: it takes 4 steps a pass and turns by `a` each. -/
theorem figAt_turn_loop (p : ResolvedProgram) (env : Env) (s0 : State) (pc : Nat) (a d : Int)
    (stk : List Frame) (h1 : p.code[pc]? = some (RT a)) (h2 : p.code[pc + 1]? = some (FD d))
    (h3 : p.code[pc + 2]? = some END) (hi : closesIf (kinds p.code) (pc + 2) = false) :
    ∀ (m n : Nat) (t h : Int),
      FigAt p env s0 n t pc (Frame.loop pc (some ((m : Int) + 1)) :: stk) h →
      FigAt p env s0 (n + 4 * (m + 1)) (t + a * ((m : Int) + 1)) (pc + 3) stk
        (normHeading (h + a * ((m : Int) + 1))) := by
  intro m
  induction m with
  | zero =>
    intro n t h H
    have A := figAt_fd p env s0 _ _ _ _ _ d h2 (figAt_rt p env s0 _ _ _ _ _ a h1 H)
    have A1 : FigAt p env s0 (n + 1 + 2) (t + a) (pc + 2) (Frame.loop pc (some 1) :: stk)
        (normHeading (h + a)) :=
      figAt_congr p env s0 _ _ _ _ _ _ _ _ _ A rfl rfl (by simp) rfl
    have B := figAt_end_exit p env s0 _ _ _ _ _ pc h3 hi A1
    exact figAt_congr p env s0 _ _ _ _ _ _ _ _ _ B (by omega) (by simp) rfl (by simp)
  | succ m ih =>
    intro n t h H
    have A := figAt_fd p env s0 _ _ _ _ _ d h2 (figAt_rt p env s0 _ _ _ _ _ a h1 H)
    have B := figAt_end_back p env s0 _ _ _ _ _ _ pc h3 hi (by push_cast; omega) A
    have B1 : FigAt p env s0 (n + 1 + 2 + 1) (t + a) pc
        (Frame.loop pc (some ((m : Int) + 1)) :: stk) (normHeading (h + a)) :=
      figAt_congr p env s0 _ _ _ _ _ _ _ _ _ B rfl rfl (by push_cast; simp) rfl
    have C := ih _ _ _ B1
    refine figAt_congr p env s0 _ _ _ _ _ _ _ _ _ C (by omega) (by push_cast; ring) rfl ?_
    unfold normHeading
    push_cast
    rw [Int.emod_add_emod]
    congr 1
    ring

theorem figAt_start (p : ResolvedProgram) (env : Env) (x y alt h : Int) :
    FigAt p env (State.reset x y alt h) 0 0 0 [] h := by
  simp [FigAt, run, turned, State.reset]

theorem figAt_restores (p : ResolvedProgram) (env : Env) (s0 : State) (n : Nat) (t : Int)
    (pc : Nat) (h : Int) (H : FigAt p env s0 n t pc [] h) (hl : p.code.length = pc)
    (hh : h = s0.plane.heading) : FigureRestores p env s0 n t pc := by
  obtain ⟨hm, hpc, hst, _, _, hh', ht⟩ := H
  exact ⟨hm, hpc, hl, hst, ht, hh'.trans hh⟩

theorem circle_restores (env : Env) (x y alt h d : Int) (h0 : 0 ≤ h) (h360 : h < 360) :
    FigureRestores (circleProgram d) env (State.reset x y alt h) 145 360 4 := by
  have A := figAt_repeat (circleProgram d) env _ _ _ _ _ _ 36 rfl (by decide)
    (figAt_start (circleProgram d) env x y alt h)
  have B := figAt_turn_loop (circleProgram d) env _ 1 10 d [] rfl rfl rfl rfl 35 _ _ _ A
  refine figAt_restores _ _ _ _ _ _ _ B rfl ?_
  simp only [State.reset, normHeading]
  push_cast
  omega

/-- The outer loop of the star, entered with `m + 1` passes to go: a pass
takes 76 steps and turns by 18 times 14 degrees. -/
theorem star_outer_loop (env : Env) (s0 : State) :
    ∀ (m n : Nat) (t h : Int),
      FigAt starProgram env s0 n t 2 [Frame.loop 2 (some ((m : Int) + 1))] h →
      FigAt starProgram env s0 (n + 76 * (m + 1)) (t + 252 * ((m : Int) + 1)) 8 []
        (normHeading (h + 252 * ((m : Int) + 1))) := by
  intro m
  induction m with
  | zero =>
    intro n t h H
    have A := figAt_fd starProgram env s0 _ _ _ _ _ 2000 rfl H
    have B := figAt_repeat starProgram env s0 _ _ 3 [_] _ 18 rfl (Nat.le_of_ble_eq_true rfl) A
    have C := figAt_turn_loop starProgram env s0 4 14 50 _ rfl rfl rfl rfl 17 _ _ _ B
    have C1 : FigAt starProgram env s0 (n + 2 + 1 + 4 * (17 + 1)) (t + 252) 7
        [Frame.loop 2 (some 1)] (normHeading (h + 252)) :=
      figAt_congr starProgram env s0 _ _ _ _ _ _ _ _ _ C rfl (by push_cast; ring) (by simp)
        (by push_cast; rfl)
    have D := figAt_end_exit starProgram env s0 _ _ 7 _ _ 2 rfl rfl C1
    exact figAt_congr starProgram env s0 _ _ _ _ _ _ _ _ _ D (by omega) (by simp) rfl (by simp)
  | succ m ih =>
    intro n t h H
    have A := figAt_fd starProgram env s0 _ _ _ _ _ 2000 rfl H
    have B := figAt_repeat starProgram env s0 _ _ 3 [_] _ 18 rfl (Nat.le_of_ble_eq_true rfl) A
    have C := figAt_turn_loop starProgram env s0 4 14 50 _ rfl rfl rfl rfl 17 _ _ _ B
    have C1 : FigAt starProgram env s0 (n + 2 + 1 + 4 * (17 + 1)) (t + 252) 7
        [Frame.loop 2 (some ((m : Int) + 1 + 1))] (normHeading (h + 252)) :=
      figAt_congr starProgram env s0 _ _ _ _ _ _ _ _ _ C rfl (by push_cast; ring)
        (by push_cast; rfl) (by push_cast; rfl)
    have D := figAt_end_back starProgram env s0 _ _ 7 _ _ _ 2 rfl rfl (by omega) C1
    have D1 : FigAt starProgram env s0 (n + 2 + 1 + 4 * (17 + 1) + 1) (t + 252) 2
        [Frame.loop 2 (some ((m : Int) + 1))] (normHeading (h + 252)) :=
      figAt_congr starProgram env s0 _ _ _ _ _ _ _ _ _ D rfl rfl (by simp) rfl
    have E := ih _ _ _ D1
    refine figAt_congr starProgram env s0 _ _ _ _ _ _ _ _ _ E (by omega) (by push_cast; ring)
      rfl ?_
    unfold normHeading
    push_cast
    rw [Int.emod_add_emod]
    congr 1
    ring

theorem star_restores (env : Env) (x y alt h : Int) (h0 : 0 ≤ h) (h360 : h < 360) :
    FigureRestores starProgram env (State.reset x y alt h) 762 2520 8 := by
  have A := figAt_repeat starProgram env _ _ _ _ _ _ 10 rfl (by decide)
    (figAt_flagOn starProgram env _ _ _ _ _ _ Flag.F_CROSS_TRACK rfl
      (figAt_start starProgram env x y alt h))
  have B := star_outer_loop env _ 9 _ _ _ A
  refine figAt_restores _ _ _ _ _ _ _ B rfl ?_
  simp only [State.reset, normHeading]
  push_cast
  omega

/-- C19: run from mode entry with a heading `h` in `[0, 360)`, the vehicle
arriving at every goal, the documented circle `REPEAT(36) RT(10) FD(d) END`
runs to its end in 145 steps having turned by exactly 360 degrees, and the
documented 10-pointed star runs to its end in 762 steps having turned by 2520
degrees, which is 7 times 360; the `RT(14)` of the star is `(180+72)/18`; after
either figure the heading of the plane turtle is `h` again. -/
theorem figures_restore_heading (env : Env) (x y alt h d : Int) (h0 : 0 ≤ h)
    (h360 : h < 360) :
    FigureRestores (circleProgram d) env (State.reset x y alt h) 145 360 4
      ∧ FigureRestores starProgram env (State.reset x y alt h) 762 2520 8
      ∧ (2520 : Int) = 7 * 360
      ∧ starProgram.code[4]? = some (RT (Int.tdiv (180 + 72) 18))
      ∧ (State.reset x y alt h).plane.heading = h :=
  ⟨circle_restores env x y alt h d h0 h360, star_restores env x y alt h h0 h360, by decide,
    rfl, rfl⟩

/-- C19 at a concrete input: the circle of side 8 and the star, started
heading East. -/
theorem figures_restore_heading_witness :
    (0 : Int) ≤ 90 ∧ (90 : Int) < 360
      ∧ FigureRestores (circleProgram 8) (sampleEnv 100) (State.reset 0 0 100 90) 145 360 4
      ∧ FigureRestores starProgram (sampleEnv 100) (State.reset 0 0 100 90) 762 2520 8 :=
  ⟨by decide, by decide,
    (figures_restore_heading (sampleEnv 100) 0 0 100 90 8 (by decide) (by decide)).1,
    (figures_restore_heading (sampleEnv 100) 0 0 100 90 8 (by decide) (by decide)).2.1⟩

/-! ## The numbering of the subroutines -/

theorem declaredIds_instructions (c : Config) :
    declaredIds (kinds (instructions c))
      = [CRUISE, RETURN_GEOFENCE, CHECK_SOFT_GEOFENCE, CHECK_WIND_GEOFENCE,
         CHECK_SOFT_WIND_GEOFENCE, CHECK_THERMALS, WAIT_DECREASE_CLIMBRATE, THERMALLING_TURN,
         THERMALLING_SHIFT_CIRCLE, SINK, MOTOR_CLIMB, RETURN_MC_GEOFENCE, CHECK_MC_SOFT_GEOFENCE,
         CHECK_MC_WIND_GEOFENCE, CHECK_MC_SOFT_WIND_GEOFENCE, MOTOR_CLIMB_FORWARD, TOO_HIGH,
         BETTER_LIFT, CHECKS, SOFT_CHECKS, CHECKS_MC, SOFT_CHECKS_MC, RESET_NAVIGATION,
         PILOT_INPUT, PILOT_INPUT_IN_MC, SET_ALT_ALT, DESCENT_PATTERN, LOITER_LAND, DOWNWIND,
         BASE, FINAL, INT_FORCE_TARGET_AHAID] := by
  rw [kinds_instructions]
  generalize c.throttleChannelUsed = b
  cases b <;> decide!

/-- C21 (amended): the check routines `CHECK_THERMALS`, `CHECKS_MC`,
`SOFT_CHECKS_MC`, `SOFT_CHECKS`, `CHECKS` and `CHECKS_RETURN_GF` have even
ids, while the six `CHECK_*_GEOFENCE` routines have odd ids; the subroutines
defined in the mission table that have an even id are the check routines
`CHECK_THERMALS`, `CHECKS`, `SOFT_CHECKS`, `CHECKS_MC`, `SOFT_CHECKS_MC` and
the three routines `RESET_NAVIGATION`, `SET_ALT_ALT` and
`INT_FORCE_TARGET_AHAID`; every other subroutine of the mission has an odd
id, and none of those is one of the six state checks. -/
theorem check_routine_parity (c : Config) :
    stateChecks.all evenId = true
      ∧ geofenceChecks.all (fun f => !evenId f) = true
      ∧ geofenceChecks.all (fun f => decide (f ∈ declaredIds (kinds (instructions c)))) = true
      ∧ (declaredIds (kinds (instructions c))).filter evenId
          = [CHECK_THERMALS, CHECKS, SOFT_CHECKS, CHECKS_MC, SOFT_CHECKS_MC, RESET_NAVIGATION,
             SET_ALT_ALT, INT_FORCE_TARGET_AHAID]
      ∧ ((declaredIds (kinds (instructions c))).filter (fun f => !evenId f)).all
          (fun f => !stateChecks.contains f) = true := by
  rw [declaredIds_instructions]
  refine ⟨?_, ?_, ?_, ?_, ?_⟩ <;> decide

/-- C21 as stated fails: `CHECK_WIND_GEOFENCE`, a check routine by its name
and a subroutine of the mission, has the odd id 7, and `SET_ALT_ALT`, a
subroutine of the mission that is not named as a check, has the even id 54. -/
theorem check_wind_geofence_is_odd :
    CHECK_WIND_GEOFENCE ∈ checkRoutines
      ∧ CHECK_WIND_GEOFENCE ∈ declaredIds (kinds (instructions sampleConfig))
      ∧ evenId CHECK_WIND_GEOFENCE = false ∧ CHECK_WIND_GEOFENCE = 7
      ∧ SET_ALT_ALT ∉ checkRoutines
      ∧ SET_ALT_ALT ∈ declaredIds (kinds (instructions sampleConfig))
      ∧ evenId SET_ALT_ALT = true ∧ SET_ALT_ALT = 54 := by
  rw [declaredIds_instructions]
  refine ⟨?_, ?_, ?_, ?_, ?_, ?_, ?_, ?_⟩ <;> decide

/-! ## The repeat count of the geofence turns -/

theorem paramAfter_load (env : Env) (par a : Int) (v : SysVal) (hv : v ≠ SysVal.PARAM)
    (ha : env.value v = some a) : (LOAD_TO_PARAM v).paramAfter env par = some a := by
  cases v <;> simp_all [Instr.paramAfter]

theorem tdiv_ten_bounds (a : Int) (h0 : 0 ≤ a) (h1 : a ≤ 209) :
    0 ≤ Int.tdiv a 10 ∧ Int.tdiv a 10 ≤ 20 := by
  rw [Int.tdiv_eq_ediv h0 (by decide)]
  omega

set_option maxRecDepth 100000 in
theorem window_RETURN_GEOFENCE (c : Config) :
    ∃ base, targetOffset (missionOf c) (Target.sub RETURN_GEOFENCE) = some (base + 1)
      ∧ InWindow (missionOf c).code base (TO_RETURN_GEOFENCE c) := by
  obtain ⟨a, b, d, e, t⟩ := c
  cases t
  · exact ⟨18, rfl, rfl, rfl⟩
  · exact ⟨18, rfl, rfl, rfl⟩

/-- Control flow inside `RETURN_GEOFENCE`, wherever it sits in a table. -/
theorem flow_RETURN_GEOFENCE (c : Config) (code : List Instr) (base : Nat)
    (hw : InWindow code base (TO_RETURN_GEOFENCE c)) :
    (∀ i, i < 37 → code[base + i]? = (TO_RETURN_GEOFENCE c)[i]?)
    ∧ skipTarget (kinds code) (base + 2) true = base + 12
    ∧ closesIf (kinds code) (base + 10) = false
    ∧ skipTarget (kinds code) (base + 11) false = base + 32
    ∧ skipTarget (kinds code) (base + 12) true = base + 22
    ∧ closesIf (kinds code) (base + 20) = false
    ∧ skipTarget (kinds code) (base + 21) false = base + 31
    ∧ skipTarget (kinds code) (base + 22) true = base + 30
    ∧ closesIf (kinds code) (base + 29) = false
    ∧ closesIf (kinds code) (base + 30) = true
    ∧ closesIf (kinds code) (base + 31) = true
    ∧ closesIf (kinds code) (base + 32) = true
    ∧ closesIf (kinds code) (base + 35) = false
    ∧ closesIf (kinds code) (base + 36) = false := by
  refine ⟨fun i hi => inWindow_getElem? code base _ hw i (Nat.lt_of_lt_of_le hi (Nat.le_of_ble_eq_true rfl)), ?_, ?_, ?_, ?_, ?_, ?_, ?_, ?_, ?_, ?_, ?_, ?_, ?_⟩
  · rw [inWindow_skipTarget code base _ hw 2 true rfl]; rfl
  · rw [inWindow_closesIf code base _ hw 10 (Nat.le_of_ble_eq_true rfl)]; rfl
  · rw [inWindow_skipTarget code base _ hw 11 false rfl]; rfl
  · rw [inWindow_skipTarget code base _ hw 12 true rfl]; rfl
  · rw [inWindow_closesIf code base _ hw 20 (Nat.le_of_ble_eq_true rfl)]; rfl
  · rw [inWindow_skipTarget code base _ hw 21 false rfl]; rfl
  · rw [inWindow_skipTarget code base _ hw 22 true rfl]; rfl
  · rw [inWindow_closesIf code base _ hw 29 (Nat.le_of_ble_eq_true rfl)]; rfl
  · rw [inWindow_closesIf code base _ hw 30 (Nat.le_of_ble_eq_true rfl)]; rfl
  · rw [inWindow_closesIf code base _ hw 31 (Nat.le_of_ble_eq_true rfl)]; rfl
  · rw [inWindow_closesIf code base _ hw 32 (Nat.le_of_ble_eq_true rfl)]; rfl
  · rw [inWindow_closesIf code base _ hw 35 (Nat.le_of_ble_eq_true rfl)]; rfl
  · rw [inWindow_closesIf code base _ hw 36 (Nat.le_of_ble_eq_true rfl)]; rfl

set_option maxHeartbeats 1000000 in
/-- The start of the turn of `RETURN_GEOFENCE`: from the `LOAD_TO_PARAM` the engine
comes to one of the three `REPEAT_PARAM` with `PARAM` from 0 to 20. -/
theorem turn_entry_RETURN_GEOFENCE (c : Config) (p : ResolvedProgram)
    (base : Nat) (hwin : InWindow p.code base (TO_RETURN_GEOFENCE c)) (env : Env) (r : Int)
    (hr : env.value SysVal.REL_ANGLE_TO_HOME = some r) (hlo : -180 ≤ r) (hhi : r ≤ 180)
    (s : State) (stk : List Frame) (pen : Bool) (par : Int) (h : s.IsAt (base + 1) stk pen par) :
    ∃ s', runUntil p env
        (fun pc => decide (pc = base + 6 ∨ pc = base + 16 ∨ pc = base + 25 ∨ pc = base + 33))
        8 s = some s'
      ∧ (s'.mode = Mode.Running
        ∧ (s'.pc = base + 6 ∨ s'.pc = base + 16 ∨ s'.pc = base + 25)
        ∧ 0 ≤ s'.curParam ∧ s'.curParam ≤ 20) := by
  obtain ⟨hL, hs2, hc10, hs11, hs12, hc20, hs21, hs22, hc29, hc30, hc31, hc32, hc35, hc36⟩ := flow_RETURN_GEOFENCE c p.code base hwin
  refine sym_param (LOAD_TO_PARAM SysVal.REL_ANGLE_TO_HOME) r h ((hL 1 (by omega)).trans rfl) (paramAfter_load env par r _ (by decide) hr) (decide_eq_false (by omega)) ?_
  intro s0 stk0 h0
  by_cases hlt : r < -30
  · refine sym_if_true _ _ _ h0 ((hL 2 (by omega)).trans rfl) ((condition_lt env _ SysVal.REL_ANGLE_TO_HOME (-30) r (by decide) hr).trans (decide_eq_true hlt)) (decide_eq_false (by omega)) ?_
    intro s1 h1
    refine sym_param (PARAM_MUL (-1)) (r * (-1)) h1 ((hL 3 (by omega)).trans rfl) rfl (decide_eq_false (by omega)) ?_
    intro s2 stk2 h2
    refine sym_param (PARAM_SUB 30) ((r * (-1)) - 30) h2 ((hL 4 (by omega)).trans rfl) rfl (decide_eq_false (by omega)) ?_
    intro s3 stk3 h3
    refine sym_param (PARAM_DIV 10) (Int.tdiv ((r * (-1)) - 30) 10) h3 ((hL 5 (by omega)).trans rfl) rfl (decide_eq_false (by omega)) ?_
    intro s4 stk4 h4
    exact runUntil_stop (decide_eq_true (by rw [h4.2.1]; omega))
      ⟨h4.1, by rw [h4.2.1]; omega,
        by rw [h4.2.2.2.2]; exact (tdiv_ten_bounds _ (by omega) (by omega)).1,
        by rw [h4.2.2.2.2]; exact (tdiv_ten_bounds _ (by omega) (by omega)).2⟩
  · refine sym_if_false _ _ _ (base + 12) h0 ((hL 2 (by omega)).trans rfl) ((condition_lt env _ SysVal.REL_ANGLE_TO_HOME (-30) r (by decide) hr).trans (decide_eq_false hlt)) hs2 (decide_eq_false (by omega)) ?_
    intro s1 h1
    by_cases hgt : r > 150
    · refine sym_if_true _ _ _ h1 ((hL 12 (by omega)).trans rfl) ((condition_gt env _ SysVal.REL_ANGLE_TO_HOME 150 r (by decide) hr).trans (decide_eq_true hgt)) (decide_eq_false (by omega)) ?_
      intro s5 h5
      refine sym_param (PARAM_SUB 360) (r - 360) h5 ((hL 13 (by omega)).trans rfl) rfl (decide_eq_false (by omega)) ?_
      intro s6 stk6 h6
      refine sym_param (PARAM_MUL (-1)) ((r - 360) * (-1)) h6 ((hL 14 (by omega)).trans rfl) rfl (decide_eq_false (by omega)) ?_
      intro s7 stk7 h7
      refine sym_param (PARAM_DIV 10) (Int.tdiv ((r - 360) * (-1)) 10) h7 ((hL 15 (by omega)).trans rfl) rfl (decide_eq_false (by omega)) ?_
      intro s8 stk8 h8
      exact runUntil_stop (decide_eq_true (by rw [h8.2.1]; omega))
        ⟨h8.1, by rw [h8.2.1]; omega,
          by rw [h8.2.2.2.2]; exact (tdiv_ten_bounds _ (by omega) (by omega)).1,
          by rw [h8.2.2.2.2]; exact (tdiv_ten_bounds _ (by omega) (by omega)).2⟩
    · refine sym_if_false _ _ _ (base + 22) h1 ((hL 12 (by omega)).trans rfl) ((condition_gt env _ SysVal.REL_ANGLE_TO_HOME 150 r (by decide) hr).trans (decide_eq_false hgt)) hs12 (decide_eq_false (by omega)) ?_
      intro s5 h5
      refine sym_if_true _ _ _ h5 ((hL 22 (by omega)).trans rfl) ((condition_ge env _ SysVal.REL_ANGLE_TO_HOME (-30) r (by decide) hr).trans (decide_eq_true (by omega))) (decide_eq_false (by omega)) ?_
      intro s9 h9
      refine sym_param (PARAM_ADD 30) (r + 30) h9 ((hL 23 (by omega)).trans rfl) rfl (decide_eq_false (by omega)) ?_
      intro s10 stk10 h10
      refine sym_param (PARAM_DIV 10) (Int.tdiv (r + 30) 10) h10 ((hL 24 (by omega)).trans rfl) rfl (decide_eq_false (by omega)) ?_
      intro s11 stk11 h11
      exact runUntil_stop (decide_eq_true (by rw [h11.2.1]; omega))
        ⟨h11.1, by rw [h11.2.1]; omega,
          by rw [h11.2.2.2.2]; exact (tdiv_ten_bounds _ (by omega) (by omega)).1,
          by rw [h11.2.2.2.2]; exact (tdiv_ten_bounds _ (by omega) (by omega)).2⟩

/-- The end of the turn of `RETURN_GEOFENCE`: once control has passed the `END` of one
of the three `REPEAT_PARAM` blocks, the engine comes to the `FD` after the
branches. -/
theorem turn_exit_RETURN_GEOFENCE (c : Config) (p : ResolvedProgram)
    (base : Nat) (hwin : InWindow p.code base (TO_RETURN_GEOFENCE c)) (env : Env)
    (s : State) (stk : List Frame) (pen : Bool) (par : Int) (x : Nat)
    (hx : x = 10 ∨ x = 20 ∨ x = 29) (h : s.IsAt (base + (x + 1)) stk pen par) :
    ∃ s', runUntil p env
        (fun pc => decide (pc = base + 6 ∨ pc = base + 16 ∨ pc = base + 25 ∨ pc = base + 33))
        5 s = some s'
      ∧ s'.pc = base + 33 := by
  obtain ⟨hL, hs2, hc10, hs11, hs12, hc20, hs21, hs22, hc29, hc30, hc31, hc32, hc35, hc36⟩ := flow_RETURN_GEOFENCE c p.code base hwin
  rcases hx with rfl | rfl | rfl
  · refine sym_else (base + 32) h ((hL 11 (by omega)).trans rfl) hs11 (decide_eq_false (by omega)) ?_
    intro s1 h1
    refine sym_endif h1 ((hL 32 (by omega)).trans rfl) hc32 (decide_eq_false (by omega)) ?_
    intro s2 h2
    exact runUntil_stop (decide_eq_true (by rw [h2.2.1]; omega)) h2.2.1
  · refine sym_else (base + 31) h ((hL 21 (by omega)).trans rfl) hs21 (decide_eq_false (by omega)) ?_
    intro s1 h1
    refine sym_endif h1 ((hL 31 (by omega)).trans rfl) hc31 (decide_eq_false (by omega)) ?_
    intro s2 h2
    refine sym_endif h2 ((hL 32 (by omega)).trans rfl) hc32 (decide_eq_false (by omega)) ?_
    intro s3 h3
    exact runUntil_stop (decide_eq_true (by rw [h3.2.1]; omega)) h3.2.1
  · refine sym_endif h ((hL 30 (by omega)).trans rfl) hc30 (decide_eq_false (by omega)) ?_
    intro s1 h1
    refine sym_endif h1 ((hL 31 (by omega)).trans rfl) hc31 (decide_eq_false (by omega)) ?_
    intro s2 h2
    refine sym_endif h2 ((hL 32 (by omega)).trans rfl) hc32 (decide_eq_false (by omega)) ?_
    intro s3 h3
    exact runUntil_stop (decide_eq_true (by rw [h3.2.1]; omega)) h3.2.1

/-- In `RETURN_GEOFENCE` exactly one of the three `REPEAT_PARAM` blocks is entered,
with a repeat count from 0 to 20. -/
theorem entersOne_RETURN_GEOFENCE (c : Config) (env : Env) (r : Int)
    (hr : env.value SysVal.REL_ANGLE_TO_HOME = some r) (hlo : -180 ≤ r) (hhi : r ≤ 180) :
    EntersOneTurnLoop (missionOf c) env
      ⟨RETURN_GEOFENCE, 0, 5, 9, 15, 19, 24, 28, 32⟩ := by
  obtain ⟨base, hoff, hwin⟩ := window_RETURN_GEOFENCE c
  have hF := flow_RETURN_GEOFENCE c _ base hwin
  have hL := hF.1
  have e : (TurnShape.stops ⟨RETURN_GEOFENCE, 0, 5, 9, 15, 19, 24, 28, 32⟩ (base + 1))
      = (fun pc => decide (pc = base + 6 ∨ pc = base + 16 ∨ pc = base + 25 ∨ pc = base + 33)) := by
    funext pc
    simp only [TurnShape.stops, Nat.add_assoc]
  refine ⟨base + 1, hoff, ?_, ?_, ?_, ?_, ?_, ?_, ?_, ?_⟩
  · show (missionOf c).code[base + 1 + 0]? = _
    rw [Nat.add_assoc, hL (1 + 0) (by omega)]; rfl
  · intro k hk1 hk2
    show (missionOf c).code[base + 1 + k]? = _ ↔ k = 5 ∨ k = 15 ∨ k = 24
    have hk3 : k ≤ 32 := hk2
    rw [Nat.add_assoc, hL (1 + k) (by omega)]
    interval_cases k <;> simp [TO_RETURN_GEOFENCE]
  · show skipTarget _ (base + 1 + 5) false = base + 1 + 9
    rw [Nat.add_assoc, inWindow_skipTarget _ base _ hwin (1 + 5) false rfl]; rfl
  · show skipTarget _ (base + 1 + 15) false = base + 1 + 19
    rw [Nat.add_assoc, inWindow_skipTarget _ base _ hwin (1 + 15) false rfl]; rfl
  · show skipTarget _ (base + 1 + 24) false = base + 1 + 28
    rw [Nat.add_assoc, inWindow_skipTarget _ base _ hwin (1 + 24) false rfl]; rfl
  · show ((missionOf c).code[base + 1 + 32]?).map Instr.isMove = _
    rw [Nat.add_assoc, hL (1 + 32) (by omega)]; rfl
  · intro s hm hpc
    rw [e]
    obtain ⟨s', h1, h2, h3, h4, h5⟩ := turn_entry_RETURN_GEOFENCE c _ base hwin env r hr hlo hhi s s.stack
      s.penDown s.curParam ⟨hm, by rw [hpc]; rfl, rfl, rfl, rfl⟩
    exact ⟨s', h1, h2, by simpa only [Nat.add_assoc] using h3, h4, h5⟩
  · intro s x hm hx hpc
    rw [e]
    obtain ⟨s', h1, h2⟩ := turn_exit_RETURN_GEOFENCE c _ base hwin env s s.stack s.penDown s.curParam
      (x + 1) (by rcases hx with rfl | rfl | rfl <;> simp) ⟨hm, by rw [hpc]; omega, rfl, rfl, rfl⟩
    exact ⟨s', h1, by rw [h2]; rfl⟩

set_option maxRecDepth 100000 in
theorem window_CHECK_SOFT_GEOFENCE (c : Config) :
    ∃ base, targetOffset (missionOf c) (Target.sub CHECK_SOFT_GEOFENCE) = some (base + 1)
      ∧ InWindow (missionOf c).code base (TO_CHECK_SOFT_GEOFENCE c) := by
  obtain ⟨a, b, d, e, t⟩ := c
  cases t
  · exact ⟨55, rfl, rfl, rfl⟩
  · exact ⟨55, rfl, rfl, rfl⟩

/-- Control flow inside `CHECK_SOFT_GEOFENCE`, wherever it sits in a table. -/
theorem flow_CHECK_SOFT_GEOFENCE (c : Config) (code : List Instr) (base : Nat)
    (hw : InWindow code base (TO_CHECK_SOFT_GEOFENCE c)) :
    (∀ i, i < 44 → code[base + i]? = (TO_CHECK_SOFT_GEOFENCE c)[i]?)
    ∧ skipTarget (kinds code) (base + 1) true = base + 41
    ∧ skipTarget (kinds code) (base + 3) true = base + 15
    ∧ closesIf (kinds code) (base + 13) = false
    ∧ skipTarget (kinds code) (base + 14) false = base + 39
    ∧ skipTarget (kinds code) (base + 15) true = base + 27
    ∧ closesIf (kinds code) (base + 25) = false
    ∧ skipTarget (kinds code) (base + 26) false = base + 38
    ∧ skipTarget (kinds code) (base + 27) true = base + 37
    ∧ closesIf (kinds code) (base + 36) = false
    ∧ closesIf (kinds code) (base + 37) = true
    ∧ closesIf (kinds code) (base + 38) = true
    ∧ closesIf (kinds code) (base + 39) = true
    ∧ closesIf (kinds code) (base + 41) = true
    ∧ closesIf (kinds code) (base + 42) = false
    ∧ closesIf (kinds code) (base + 43) = false := by
  refine ⟨fun i hi => inWindow_getElem? code base _ hw i (Nat.lt_of_lt_of_le hi (Nat.le_of_ble_eq_true rfl)), ?_, ?_, ?_, ?_, ?_, ?_, ?_, ?_, ?_, ?_, ?_, ?_, ?_, ?_, ?_⟩
  · rw [inWindow_skipTarget code base _ hw 1 true rfl]; rfl
  · rw [inWindow_skipTarget code base _ hw 3 true rfl]; rfl
  · rw [inWindow_closesIf code base _ hw 13 (Nat.le_of_ble_eq_true rfl)]; rfl
  · rw [inWindow_skipTarget code base _ hw 14 false rfl]; rfl
  · rw [inWindow_skipTarget code base _ hw 15 true rfl]; rfl
  · rw [inWindow_closesIf code base _ hw 25 (Nat.le_of_ble_eq_true rfl)]; rfl
  · rw [inWindow_skipTarget code base _ hw 26 false rfl]; rfl
  · rw [inWindow_skipTarget code base _ hw 27 true rfl]; rfl
  · rw [inWindow_closesIf code base _ hw 36 (Nat.le_of_ble_eq_true rfl)]; rfl
  · rw [inWindow_closesIf code base _ hw 37 (Nat.le_of_ble_eq_true rfl)]; rfl
  · rw [inWindow_closesIf code base _ hw 38 (Nat.le_of_ble_eq_true rfl)]; rfl
  · rw [inWindow_closesIf code base _ hw 39 (Nat.le_of_ble_eq_true rfl)]; rfl
  · rw [inWindow_closesIf code base _ hw 41 (Nat.le_of_ble_eq_true rfl)]; rfl
  · rw [inWindow_closesIf code base _ hw 42 (Nat.le_of_ble_eq_true rfl)]; rfl
  · rw [inWindow_closesIf code base _ hw 43 (Nat.le_of_ble_eq_true rfl)]; rfl

set_option maxHeartbeats 1000000 in
/-- The start of the turn of `CHECK_SOFT_GEOFENCE`: from the `LOAD_TO_PARAM` the engine
comes to one of the three `REPEAT_PARAM` with `PARAM` from 0 to 20. -/
theorem turn_entry_CHECK_SOFT_GEOFENCE (c : Config) (p : ResolvedProgram)
    (base : Nat) (hwin : InWindow p.code base (TO_CHECK_SOFT_GEOFENCE c)) (env : Env) (r : Int)
    (hr : env.value SysVal.REL_ANGLE_TO_HOME = some r) (hlo : -180 ≤ r) (hhi : r ≤ 180)
    (s : State) (stk : List Frame) (pen : Bool) (par : Int) (h : s.IsAt (base + 2) stk pen par) :
    ∃ s', runUntil p env
        (fun pc => decide (pc = base + 7 ∨ pc = base + 19 ∨ pc = base + 30 ∨ pc = base + 40))
        8 s = some s'
      ∧ (s'.mode = Mode.Running
        ∧ (s'.pc = base + 7 ∨ s'.pc = base + 19 ∨ s'.pc = base + 30)
        ∧ 0 ≤ s'.curParam ∧ s'.curParam ≤ 20) := by
  obtain ⟨hL, hs1, hs3, hc13, hs14, hs15, hc25, hs26, hs27, hc36, hc37, hc38, hc39, hc41, hc42, hc43⟩ := flow_CHECK_SOFT_GEOFENCE c p.code base hwin
  refine sym_param (LOAD_TO_PARAM SysVal.REL_ANGLE_TO_HOME) r h ((hL 2 (by omega)).trans rfl) (paramAfter_load env par r _ (by decide) hr) (decide_eq_false (by omega)) ?_
  intro s0 stk0 h0
  by_cases hlt : r < -30
  · refine sym_if_true _ _ _ h0 ((hL 3 (by omega)).trans rfl) ((condition_lt env _ SysVal.REL_ANGLE_TO_HOME (-30) r (by decide) hr).trans (decide_eq_true hlt)) (decide_eq_false (by omega)) ?_
    intro s1 h1
    refine sym_param (PARAM_MUL (-1)) (r * (-1)) h1 ((hL 4 (by omega)).trans rfl) rfl (decide_eq_false (by omega)) ?_
    intro s2 stk2 h2
    refine sym_param (PARAM_SUB 30) ((r * (-1)) - 30) h2 ((hL 5 (by omega)).trans rfl) rfl (decide_eq_false (by omega)) ?_
    intro s3 stk3 h3
    refine sym_param (PARAM_DIV 10) (Int.tdiv ((r * (-1)) - 30) 10) h3 ((hL 6 (by omega)).trans rfl) rfl (decide_eq_false (by omega)) ?_
    intro s4 stk4 h4
    exact runUntil_stop (decide_eq_true (by rw [h4.2.1]; omega))
      ⟨h4.1, by rw [h4.2.1]; omega,
        by rw [h4.2.2.2.2]; exact (tdiv_ten_bounds _ (by omega) (by omega)).1,
        by rw [h4.2.2.2.2]; exact (tdiv_ten_bounds _ (by omega) (by omega)).2⟩
  · refine sym_if_false _ _ _ (base + 15) h0 ((hL 3 (by omega)).trans rfl) ((condition_lt env _ SysVal.REL_ANGLE_TO_HOME (-30) r (by decide) hr).trans (decide_eq_false hlt)) hs3 (decide_eq_false (by omega)) ?_
    intro s1 h1
    by_cases hgt : r > 150
    · refine sym_if_true _ _ _ h1 ((hL 15 (by omega)).trans rfl) ((condition_gt env _ SysVal.REL_ANGLE_TO_HOME 150 r (by decide) hr).trans (decide_eq_true hgt)) (decide_eq_false (by omega)) ?_
      intro s5 h5
      refine sym_param (PARAM_SUB 360) (r - 360) h5 ((hL 16 (by omega)).trans rfl) rfl (decide_eq_false (by omega)) ?_
      intro s6 stk6 h6
      refine sym_param (PARAM_MUL (-1)) ((r - 360) * (-1)) h6 ((hL 17 (by omega)).trans rfl) rfl (decide_eq_false (by omega)) ?_
      intro s7 stk7 h7
      refine sym_param (PARAM_DIV 10) (Int.tdiv ((r - 360) * (-1)) 10) h7 ((hL 18 (by omega)).trans rfl) rfl (decide_eq_false (by omega)) ?_
      intro s8 stk8 h8
      exact runUntil_stop (decide_eq_true (by rw [h8.2.1]; omega))
        ⟨h8.1, by rw [h8.2.1]; omega,
          by rw [h8.2.2.2.2]; exact (tdiv_ten_bounds _ (by omega) (by omega)).1,
          by rw [h8.2.2.2.2]; exact (tdiv_ten_bounds _ (by omega) (by omega)).2⟩
    · refine sym_if_false _ _ _ (base + 27) h1 ((hL 15 (by omega)).trans rfl) ((condition_gt env _ SysVal.REL_ANGLE_TO_HOME 150 r (by decide) hr).trans (decide_eq_false hgt)) hs15 (decide_eq_false (by omega)) ?_
      intro s5 h5
      refine sym_if_true _ _ _ h5 ((hL 27 (by omega)).trans rfl) ((condition_ge env _ SysVal.REL_ANGLE_TO_HOME (-30) r (by decide) hr).trans (decide_eq_true (by omega))) (decide_eq_false (by omega)) ?_
      intro s9 h9
      refine sym_param (PARAM_ADD 30) (r + 30) h9 ((hL 28 (by omega)).trans rfl) rfl (decide_eq_false (by omega)) ?_
      intro s10 stk10 h10
      refine sym_param (PARAM_DIV 10) (Int.tdiv (r + 30) 10) h10 ((hL 29 (by omega)).trans rfl) rfl (decide_eq_false (by omega)) ?_
      intro s11 stk11 h11
      exact runUntil_stop (decide_eq_true (by rw [h11.2.1]; omega))
        ⟨h11.1, by rw [h11.2.1]; omega,
          by rw [h11.2.2.2.2]; exact (tdiv_ten_bounds _ (by omega) (by omega)).1,
          by rw [h11.2.2.2.2]; exact (tdiv_ten_bounds _ (by omega) (by omega)).2⟩

/-- The end of the turn of `CHECK_SOFT_GEOFENCE`: once control has passed the `END` of one
of the three `REPEAT_PARAM` blocks, the engine comes to the `FD` after the
branches. -/
theorem turn_exit_CHECK_SOFT_GEOFENCE (c : Config) (p : ResolvedProgram)
    (base : Nat) (hwin : InWindow p.code base (TO_CHECK_SOFT_GEOFENCE c)) (env : Env)
    (s : State) (stk : List Frame) (pen : Bool) (par : Int) (x : Nat)
    (hx : x = 13 ∨ x = 25 ∨ x = 36) (h : s.IsAt (base + (x + 1)) stk pen par) :
    ∃ s', runUntil p env
        (fun pc => decide (pc = base + 7 ∨ pc = base + 19 ∨ pc = base + 30 ∨ pc = base + 40))
        5 s = some s'
      ∧ s'.pc = base + 40 := by
  obtain ⟨hL, hs1, hs3, hc13, hs14, hs15, hc25, hs26, hs27, hc36, hc37, hc38, hc39, hc41, hc42, hc43⟩ := flow_CHECK_SOFT_GEOFENCE c p.code base hwin
  rcases hx with rfl | rfl | rfl
  · refine sym_else (base + 39) h ((hL 14 (by omega)).trans rfl) hs14 (decide_eq_false (by omega)) ?_
    intro s1 h1
    refine sym_endif h1 ((hL 39 (by omega)).trans rfl) hc39 (decide_eq_false (by omega)) ?_
    intro s2 h2
    exact runUntil_stop (decide_eq_true (by rw [h2.2.1]; omega)) h2.2.1
  · refine sym_else (base + 38) h ((hL 26 (by omega)).trans rfl) hs26 (decide_eq_false (by omega)) ?_
    intro s1 h1
    refine sym_endif h1 ((hL 38 (by omega)).trans rfl) hc38 (decide_eq_false (by omega)) ?_
    intro s2 h2
    refine sym_endif h2 ((hL 39 (by omega)).trans rfl) hc39 (decide_eq_false (by omega)) ?_
    intro s3 h3
    exact runUntil_stop (decide_eq_true (by rw [h3.2.1]; omega)) h3.2.1
  · refine sym_endif h ((hL 37 (by omega)).trans rfl) hc37 (decide_eq_false (by omega)) ?_
    intro s1 h1
    refine sym_endif h1 ((hL 38 (by omega)).trans rfl) hc38 (decide_eq_false (by omega)) ?_
    intro s2 h2
    refine sym_endif h2 ((hL 39 (by omega)).trans rfl) hc39 (decide_eq_false (by omega)) ?_
    intro s3 h3
    exact runUntil_stop (decide_eq_true (by rw [h3.2.1]; omega)) h3.2.1

/-- In `CHECK_SOFT_GEOFENCE` exactly one of the three `REPEAT_PARAM` blocks is entered,
with a repeat count from 0 to 20. -/
theorem entersOne_CHECK_SOFT_GEOFENCE (c : Config) (env : Env) (r : Int)
    (hr : env.value SysVal.REL_ANGLE_TO_HOME = some r) (hlo : -180 ≤ r) (hhi : r ≤ 180) :
    EntersOneTurnLoop (missionOf c) env
      ⟨CHECK_SOFT_GEOFENCE, 1, 6, 12, 18, 24, 29, 35, 39⟩ := by
  obtain ⟨base, hoff, hwin⟩ := window_CHECK_SOFT_GEOFENCE c
  have hF := flow_CHECK_SOFT_GEOFENCE c _ base hwin
  have hL := hF.1
  have e : (TurnShape.stops ⟨CHECK_SOFT_GEOFENCE, 1, 6, 12, 18, 24, 29, 35, 39⟩ (base + 1))
      = (fun pc => decide (pc = base + 7 ∨ pc = base + 19 ∨ pc = base + 30 ∨ pc = base + 40)) := by
    funext pc
    simp only [TurnShape.stops, Nat.add_assoc]
  refine ⟨base + 1, hoff, ?_, ?_, ?_, ?_, ?_, ?_, ?_, ?_⟩
  · show (missionOf c).code[base + 1 + 1]? = _
    rw [Nat.add_assoc, hL (1 + 1) (by omega)]; rfl
  · intro k hk1 hk2
    show (missionOf c).code[base + 1 + k]? = _ ↔ k = 6 ∨ k = 18 ∨ k = 29
    have hk3 : k ≤ 39 := hk2
    rw [Nat.add_assoc, hL (1 + k) (by omega)]
    interval_cases k <;> simp [TO_CHECK_SOFT_GEOFENCE]
  · show skipTarget _ (base + 1 + 6) false = base + 1 + 12
    rw [Nat.add_assoc, inWindow_skipTarget _ base _ hwin (1 + 6) false rfl]; rfl
  · show skipTarget _ (base + 1 + 18) false = base + 1 + 24
    rw [Nat.add_assoc, inWindow_skipTarget _ base _ hwin (1 + 18) false rfl]; rfl
  · show skipTarget _ (base + 1 + 29) false = base + 1 + 35
    rw [Nat.add_assoc, inWindow_skipTarget _ base _ hwin (1 + 29) false rfl]; rfl
  · show ((missionOf c).code[base + 1 + 39]?).map Instr.isMove = _
    rw [Nat.add_assoc, hL (1 + 39) (by omega)]; rfl
  · intro s hm hpc
    rw [e]
    obtain ⟨s', h1, h2, h3, h4, h5⟩ := turn_entry_CHECK_SOFT_GEOFENCE c _ base hwin env r hr hlo hhi s s.stack
      s.penDown s.curParam ⟨hm, by rw [hpc]; rfl, rfl, rfl, rfl⟩
    exact ⟨s', h1, h2, by simpa only [Nat.add_assoc] using h3, h4, h5⟩
  · intro s x hm hx hpc
    rw [e]
    obtain ⟨s', h1, h2⟩ := turn_exit_CHECK_SOFT_GEOFENCE c _ base hwin env s s.stack s.penDown s.curParam
      (x + 1) (by rcases hx with rfl | rfl | rfl <;> simp) ⟨hm, by rw [hpc]; omega, rfl, rfl, rfl⟩
    exact ⟨s', h1, by rw [h2]; rfl⟩

set_option maxRecDepth 100000 in
theorem window_CHECK_WIND_GEOFENCE (c : Config) :
    ∃ base, targetOffset (missionOf c) (Target.sub CHECK_WIND_GEOFENCE) = some (base + 1)
      ∧ InWindow (missionOf c).code base (TO_CHECK_WIND_GEOFENCE c) := by
  obtain ⟨a, b, d, e, t⟩ := c
  cases t
  · exact ⟨99, rfl, rfl, rfl⟩
  · exact ⟨99, rfl, rfl, rfl⟩

/-- Control flow inside `CHECK_WIND_GEOFENCE`, wherever it sits in a table. -/
theorem flow_CHECK_WIND_GEOFENCE (c : Config) (code : List Instr) (base : Nat)
    (hw : InWindow code base (TO_CHECK_WIND_GEOFENCE c)) :
    (∀ i, i < 44 → code[base + i]? = (TO_CHECK_WIND_GEOFENCE c)[i]?)
    ∧ skipTarget (kinds code) (base + 1) true = base + 41
    ∧ skipTarget (kinds code) (base + 3) true = base + 15
    ∧ closesIf (kinds code) (base + 13) = false
    ∧ skipTarget (kinds code) (base + 14) false = base + 39
    ∧ skipTarget (kinds code) (base + 15) true = base + 27
    ∧ closesIf (kinds code) (base + 25) = false
    ∧ skipTarget (kinds code) (base + 26) false = base + 38
    ∧ skipTarget (kinds code) (base + 27) true = base + 37
    ∧ closesIf (kinds code) (base + 36) = false
    ∧ closesIf (kinds code) (base + 37) = true
    ∧ closesIf (kinds code) (base + 38) = true
    ∧ closesIf (kinds code) (base + 39) = true
    ∧ closesIf (kinds code) (base + 41) = true
    ∧ closesIf (kinds code) (base + 42) = false
    ∧ closesIf (kinds code) (base + 43) = false := by
  refine ⟨fun i hi => inWindow_getElem? code base _ hw i (Nat.lt_of_lt_of_le hi (Nat.le_of_ble_eq_true rfl)), ?_, ?_, ?_, ?_, ?_, ?_, ?_, ?_, ?_, ?_, ?_, ?_, ?_, ?_, ?_⟩
  · rw [inWindow_skipTarget code base _ hw 1 true rfl]; rfl
  · rw [inWindow_skipTarget code base _ hw 3 true rfl]; rfl
  · rw [inWindow_closesIf code base _ hw 13 (Nat.le_of_ble_eq_true rfl)]; rfl
  · rw [inWindow_skipTarget code base _ hw 14 false rfl]; rfl
  · rw [inWindow_skipTarget code base _ hw 15 true rfl]; rfl
  · rw [inWindow_closesIf code base _ hw 25 (Nat.le_of_ble_eq_true rfl)]; rfl
  · rw [inWindow_skipTarget code base _ hw 26 false rfl]; rfl
  · rw [inWindow_skipTarget code base _ hw 27 true rfl]; rfl
  · rw [inWindow_closesIf code base _ hw 36 (Nat.le_of_ble_eq_true rfl)]; rfl
  · rw [inWindow_closesIf code base _ hw 37 (Nat.le_of_ble_eq_true rfl)]; rfl
  · rw [inWindow_closesIf code base _ hw 38 (Nat.le_of_ble_eq_true rfl)]; rfl
  · rw [inWindow_closesIf code base _ hw 39 (Nat.le_of_ble_eq_true rfl)]; rfl
  · rw [inWindow_closesIf code base _ hw 41 (Nat.le_of_ble_eq_true rfl)]; rfl
  · rw [inWindow_closesIf code base _ hw 42 (Nat.le_of_ble_eq_true rfl)]; rfl
  · rw [inWindow_closesIf code base _ hw 43 (Nat.le_of_ble_eq_true rfl)]; rfl

set_option maxHeartbeats 1000000 in
/-- The start of the turn of `CHECK_WIND_GEOFENCE`: from the `LOAD_TO_PARAM` the engine
comes to one of the three `REPEAT_PARAM` with `PARAM` from 0 to 20. -/
theorem turn_entry_CHECK_WIND_GEOFENCE (c : Config) (p : ResolvedProgram)
    (base : Nat) (hwin : InWindow p.code base (TO_CHECK_WIND_GEOFENCE c)) (env : Env) (r : Int)
    (hr : env.value SysVal.REL_ANGLE_TO_HOME = some r) (hlo : -180 ≤ r) (hhi : r ≤ 180)
    (s : State) (stk : List Frame) (pen : Bool) (par : Int) (h : s.IsAt (base + 2) stk pen par) :
    ∃ s', runUntil p env
        (fun pc => decide (pc = base + 7 ∨ pc = base + 19 ∨ pc = base + 30 ∨ pc = base + 40))
        8 s = some s'
      ∧ (s'.mode = Mode.Running
        ∧ (s'.pc = base + 7 ∨ s'.pc = base + 19 ∨ s'.pc = base + 30)
        ∧ 0 ≤ s'.curParam ∧ s'.curParam ≤ 20) := by
  obtain ⟨hL, hs1, hs3, hc13, hs14, hs15, hc25, hs26, hs27, hc36, hc37, hc38, hc39, hc41, hc42, hc43⟩ := flow_CHECK_WIND_GEOFENCE c p.code base hwin
  refine sym_param (LOAD_TO_PARAM SysVal.REL_ANGLE_TO_HOME) r h ((hL 2 (by omega)).trans rfl) (paramAfter_load env par r _ (by decide) hr) (decide_eq_false (by omega)) ?_
  intro s0 stk0 h0
  by_cases hlt : r < -30
  · refine sym_if_true _ _ _ h0 ((hL 3 (by omega)).trans rfl) ((condition_lt env _ SysVal.REL_ANGLE_TO_HOME (-30) r (by decide) hr).trans (decide_eq_true hlt)) (decide_eq_false (by omega)) ?_
    intro s1 h1
    refine sym_param (PARAM_MUL (-1)) (r * (-1)) h1 ((hL 4 (by omega)).trans rfl) rfl (decide_eq_false (by omega)) ?_
    intro s2 stk2 h2
    refine sym_param (PARAM_SUB 30) ((r * (-1)) - 30) h2 ((hL 5 (by omega)).trans rfl) rfl (decide_eq_false (by omega)) ?_
    intro s3 stk3 h3
    refine sym_param (PARAM_DIV 10) (Int.tdiv ((r * (-1)) - 30) 10) h3 ((hL 6 (by omega)).trans rfl) rfl (decide_eq_false (by omega)) ?_
    intro s4 stk4 h4
    exact runUntil_stop (decide_eq_true (by rw [h4.2.1]; omega))
      ⟨h4.1, by rw [h4.2.1]; omega,
        by rw [h4.2.2.2.2]; exact (tdiv_ten_bounds _ (by omega) (by omega)).1,
        by rw [h4.2.2.2.2]; exact (tdiv_ten_bounds _ (by omega) (by omega)).2⟩
  · refine sym_if_false _ _ _ (base + 15) h0 ((hL 3 (by omega)).trans rfl) ((condition_lt env _ SysVal.REL_ANGLE_TO_HOME (-30) r (by decide) hr).trans (decide_eq_false hlt)) hs3 (decide_eq_false (by omega)) ?_
    intro s1 h1
    by_cases hgt : r > 150
    · refine sym_if_true _ _ _ h1 ((hL 15 (by omega)).trans rfl) ((condition_gt env _ SysVal.REL_ANGLE_TO_HOME 150 r (by decide) hr).trans (decide_eq_true hgt)) (decide_eq_false (by omega)) ?_
      intro s5 h5
      refine sym_param (PARAM_SUB 360) (r - 360) h5 ((hL 16 (by omega)).trans rfl) rfl (decide_eq_false (by omega)) ?_
      intro s6 stk6 h6
      refine sym_param (PARAM_MUL (-1)) ((r - 360) * (-1)) h6 ((hL 17 (by omega)).trans rfl) rfl (decide_eq_false (by omega)) ?_
      intro s7 stk7 h7
      refine sym_param (PARAM_DIV 10) (Int.tdiv ((r - 360) * (-1)) 10) h7 ((hL 18 (by omega)).trans rfl) rfl (decide_eq_false (by omega)) ?_
      intro s8 stk8 h8
      exact runUntil_stop (decide_eq_true (by rw [h8.2.1]; omega))
        ⟨h8.1, by rw [h8.2.1]; omega,
          by rw [h8.2.2.2.2]; exact (tdiv_ten_bounds _ (by omega) (by omega)).1,
          by rw [h8.2.2.2.2]; exact (tdiv_ten_bounds _ (by omega) (by omega)).2⟩
    · refine sym_if_false _ _ _ (base + 27) h1 ((hL 15 (by omega)).trans rfl) ((condition_gt env _ SysVal.REL_ANGLE_TO_HOME 150 r (by decide) hr).trans (decide_eq_false hgt)) hs15 (decide_eq_false (by omega)) ?_
      intro s5 h5
      refine sym_if_true _ _ _ h5 ((hL 27 (by omega)).trans rfl) ((condition_ge env _ SysVal.REL_ANGLE_TO_HOME (-30) r (by decide) hr).trans (decide_eq_true (by omega))) (decide_eq_false (by omega)) ?_
      intro s9 h9
      refine sym_param (PARAM_ADD 30) (r + 30) h9 ((hL 28 (by omega)).trans rfl) rfl (decide_eq_false (by omega)) ?_
      intro s10 stk10 h10
      refine sym_param (PARAM_DIV 10) (Int.tdiv (r + 30) 10) h10 ((hL 29 (by omega)).trans rfl) rfl (decide_eq_false (by omega)) ?_
      intro s11 stk11 h11
      exact runUntil_stop (decide_eq_true (by rw [h11.2.1]; omega))
        ⟨h11.1, by rw [h11.2.1]; omega,
          by rw [h11.2.2.2.2]; exact (tdiv_ten_bounds _ (by omega) (by omega)).1,
          by rw [h11.2.2.2.2]; exact (tdiv_ten_bounds _ (by omega) (by omega)).2⟩

/-- The end of the turn of `CHECK_WIND_GEOFENCE`: once control has passed the `END` of one
of the three `REPEAT_PARAM` blocks, the engine comes to the `FD` after the
branches. -/
theorem turn_exit_CHECK_WIND_GEOFENCE (c : Config) (p : ResolvedProgram)
    (base : Nat) (hwin : InWindow p.code base (TO_CHECK_WIND_GEOFENCE c)) (env : Env)
    (s : State) (stk : List Frame) (pen : Bool) (par : Int) (x : Nat)
    (hx : x = 13 ∨ x = 25 ∨ x = 36) (h : s.IsAt (base + (x + 1)) stk pen par) :
    ∃ s', runUntil p env
        (fun pc => decide (pc = base + 7 ∨ pc = base + 19 ∨ pc = base + 30 ∨ pc = base + 40))
        5 s = some s'
      ∧ s'.pc = base + 40 := by
  obtain ⟨hL, hs1, hs3, hc13, hs14, hs15, hc25, hs26, hs27, hc36, hc37, hc38, hc39, hc41, hc42, hc43⟩ := flow_CHECK_WIND_GEOFENCE c p.code base hwin
  rcases hx with rfl | rfl | rfl
  · refine sym_else (base + 39) h ((hL 14 (by omega)).trans rfl) hs14 (decide_eq_false (by omega)) ?_
    intro s1 h1
    refine sym_endif h1 ((hL 39 (by omega)).trans rfl) hc39 (decide_eq_false (by omega)) ?_
    intro s2 h2
    exact runUntil_stop (decide_eq_true (by rw [h2.2.1]; omega)) h2.2.1
  · refine sym_else (base + 38) h ((hL 26 (by omega)).trans rfl) hs26 (decide_eq_false (by omega)) ?_
    intro s1 h1
    refine sym_endif h1 ((hL 38 (by omega)).trans rfl) hc38 (decide_eq_false (by omega)) ?_
    intro s2 h2
    refine sym_endif h2 ((hL 39 (by omega)).trans rfl) hc39 (decide_eq_false (by omega)) ?_
    intro s3 h3
    exact runUntil_stop (decide_eq_true (by rw [h3.2.1]; omega)) h3.2.1
  · refine sym_endif h ((hL 37 (by omega)).trans rfl) hc37 (decide_eq_false (by omega)) ?_
    intro s1 h1
    refine sym_endif h1 ((hL 38 (by omega)).trans rfl) hc38 (decide_eq_false (by omega)) ?_
    intro s2 h2
    refine sym_endif h2 ((hL 39 (by omega)).trans rfl) hc39 (decide_eq_false (by omega)) ?_
    intro s3 h3
    exact runUntil_stop (decide_eq_true (by rw [h3.2.1]; omega)) h3.2.1

/-- In `CHECK_WIND_GEOFENCE` exactly one of the three `REPEAT_PARAM` blocks is entered,
with a repeat count from 0 to 20. -/
theorem entersOne_CHECK_WIND_GEOFENCE (c : Config) (env : Env) (r : Int)
    (hr : env.value SysVal.REL_ANGLE_TO_HOME = some r) (hlo : -180 ≤ r) (hhi : r ≤ 180) :
    EntersOneTurnLoop (missionOf c) env
      ⟨CHECK_WIND_GEOFENCE, 1, 6, 12, 18, 24, 29, 35, 39⟩ := by
  obtain ⟨base, hoff, hwin⟩ := window_CHECK_WIND_GEOFENCE c
  have hF := flow_CHECK_WIND_GEOFENCE c _ base hwin
  have hL := hF.1
  have e : (TurnShape.stops ⟨CHECK_WIND_GEOFENCE, 1, 6, 12, 18, 24, 29, 35, 39⟩ (base + 1))
      = (fun pc => decide (pc = base + 7 ∨ pc = base + 19 ∨ pc = base + 30 ∨ pc = base + 40)) := by
    funext pc
    simp only [TurnShape.stops, Nat.add_assoc]
  refine ⟨base + 1, hoff, ?_, ?_, ?_, ?_, ?_, ?_, ?_, ?_⟩
  · show (missionOf c).code[base + 1 + 1]? = _
    rw [Nat.add_assoc, hL (1 + 1) (by omega)]; rfl
  · intro k hk1 hk2
    show (missionOf c).code[base + 1 + k]? = _ ↔ k = 6 ∨ k = 18 ∨ k = 29
    have hk3 : k ≤ 39 := hk2
    rw [Nat.add_assoc, hL (1 + k) (by omega)]
    interval_cases k <;> simp [TO_CHECK_WIND_GEOFENCE]
  · show skipTarget _ (base + 1 + 6) false = base + 1 + 12
    rw [Nat.add_assoc, inWindow_skipTarget _ base _ hwin (1 + 6) false rfl]; rfl
  · show skipTarget _ (base + 1 + 18) false = base + 1 + 24
    rw [Nat.add_assoc, inWindow_skipTarget _ base _ hwin (1 + 18) false rfl]; rfl
  · show skipTarget _ (base + 1 + 29) false = base + 1 + 35
    rw [Nat.add_assoc, inWindow_skipTarget _ base _ hwin (1 + 29) false rfl]; rfl
  · show ((missionOf c).code[base + 1 + 39]?).map Instr.isMove = _
    rw [Nat.add_assoc, hL (1 + 39) (by omega)]; rfl
  · intro s hm hpc
    rw [e]
    obtain ⟨s', h1, h2, h3, h4, h5⟩ := turn_entry_CHECK_WIND_GEOFENCE c _ base hwin env r hr hlo hhi s s.stack
      s.penDown s.curParam ⟨hm, by rw [hpc]; rfl, rfl, rfl, rfl⟩
    exact ⟨s', h1, h2, by simpa only [Nat.add_assoc] using h3, h4, h5⟩
  · intro s x hm hx hpc
    rw [e]
    obtain ⟨s', h1, h2⟩ := turn_exit_CHECK_WIND_GEOFENCE c _ base hwin env s s.stack s.penDown s.curParam
      (x + 1) (by rcases hx with rfl | rfl | rfl <;> simp) ⟨hm, by rw [hpc]; omega, rfl, rfl, rfl⟩
    exact ⟨s', h1, by rw [h2]; rfl⟩

set_option maxRecDepth 100000 in
theorem window_CHECK_SOFT_WIND_GEOFENCE (c : Config) :
    ∃ base, targetOffset (missionOf c) (Target.sub CHECK_SOFT_WIND_GEOFENCE) = some (base + 1)
      ∧ InWindow (missionOf c).code base (TO_CHECK_SOFT_WIND_GEOFENCE c) := by
  obtain ⟨a, b, d, e, t⟩ := c
  cases t
  · exact ⟨143, rfl, rfl, rfl⟩
  · exact ⟨143, rfl, rfl, rfl⟩

/-- Control flow inside `CHECK_SOFT_WIND_GEOFENCE`, wherever it sits in a table. -/
theorem flow_CHECK_SOFT_WIND_GEOFENCE (c : Config) (code : List Instr) (base : Nat)
    (hw : InWindow code base (TO_CHECK_SOFT_WIND_GEOFENCE c)) :
    (∀ i, i < 44 → code[base + i]? = (TO_CHECK_SOFT_WIND_GEOFENCE c)[i]?)
    ∧ skipTarget (kinds code) (base + 1) true = base + 41
    ∧ skipTarget (kinds code) (base + 3) true = base + 15
    ∧ closesIf (kinds code) (base + 13) = false
    ∧ skipTarget (kinds code) (base + 14) false = base + 39
    ∧ skipTarget (kinds code) (base + 15) true = base + 27
    ∧ closesIf (kinds code) (base + 25) = false
    ∧ skipTarget (kinds code) (base + 26) false = base + 38
    ∧ skipTarget (kinds code) (base + 27) true = base + 37
    ∧ closesIf (kinds code) (base + 36) = false
    ∧ closesIf (kinds code) (base + 37) = true
    ∧ closesIf (kinds code) (base + 38) = true
    ∧ closesIf (kinds code) (base + 39) = true
    ∧ closesIf (kinds code) (base + 41) = true
    ∧ closesIf (kinds code) (base + 42) = false
    ∧ closesIf (kinds code) (base + 43) = false := by
  refine ⟨fun i hi => inWindow_getElem? code base _ hw i (Nat.lt_of_lt_of_le hi (Nat.le_of_ble_eq_true rfl)), ?_, ?_, ?_, ?_, ?_, ?_, ?_, ?_, ?_, ?_, ?_, ?_, ?_, ?_, ?_⟩
  · rw [inWindow_skipTarget code base _ hw 1 true rfl]; rfl
  · rw [inWindow_skipTarget code base _ hw 3 true rfl]; rfl
  · rw [inWindow_closesIf code base _ hw 13 (Nat.le_of_ble_eq_true rfl)]; rfl
  · rw [inWindow_skipTarget code base _ hw 14 false rfl]; rfl
  · rw [inWindow_skipTarget code base _ hw 15 true rfl]; rfl
  · rw [inWindow_closesIf code base _ hw 25 (Nat.le_of_ble_eq_true rfl)]; rfl
  · rw [inWindow_skipTarget code base _ hw 26 false rfl]; rfl
  · rw [inWindow_skipTarget code base _ hw 27 true rfl]; rfl
  · rw [inWindow_closesIf code base _ hw 36 (Nat.le_of_ble_eq_true rfl)]; rfl
  · rw [inWindow_closesIf code base _ hw 37 (Nat.le_of_ble_eq_true rfl)]; rfl
  · rw [inWindow_closesIf code base _ hw 38 (Nat.le_of_ble_eq_true rfl)]; rfl
  · rw [inWindow_closesIf code base _ hw 39 (Nat.le_of_ble_eq_true rfl)]; rfl
  · rw [inWindow_closesIf code base _ hw 41 (Nat.le_of_ble_eq_true rfl)]; rfl
  · rw [inWindow_closesIf code base _ hw 42 (Nat.le_of_ble_eq_true rfl)]; rfl
  · rw [inWindow_closesIf code base _ hw 43 (Nat.le_of_ble_eq_true rfl)]; rfl

set_option maxHeartbeats 1000000 in
/-- The start of the turn of `CHECK_SOFT_WIND_GEOFENCE`: from the `LOAD_TO_PARAM` the engine
comes to one of the three `REPEAT_PARAM` with `PARAM` from 0 to 20. -/
theorem turn_entry_CHECK_SOFT_WIND_GEOFENCE (c : Config) (p : ResolvedProgram)
    (base : Nat) (hwin : InWindow p.code base (TO_CHECK_SOFT_WIND_GEOFENCE c)) (env : Env) (r : Int)
    (hr : env.value SysVal.REL_ANGLE_TO_HOME = some r) (hlo : -180 ≤ r) (hhi : r ≤ 180)
    (s : State) (stk : List Frame) (pen : Bool) (par : Int) (h : s.IsAt (base + 2) stk pen par) :
    ∃ s', runUntil p env
        (fun pc => decide (pc = base + 7 ∨ pc = base + 19 ∨ pc = base + 30 ∨ pc = base + 40))
        8 s = some s'
      ∧ (s'.mode = Mode.Running
        ∧ (s'.pc = base + 7 ∨ s'.pc = base + 19 ∨ s'.pc = base + 30)
        ∧ 0 ≤ s'.curParam ∧ s'.curParam ≤ 20) := by
  obtain ⟨hL, hs1, hs3, hc13, hs14, hs15, hc25, hs26, hs27, hc36, hc37, hc38, hc39, hc41, hc42, hc43⟩ := flow_CHECK_SOFT_WIND_GEOFENCE c p.code base hwin
  refine sym_param (LOAD_TO_PARAM SysVal.REL_ANGLE_TO_HOME) r h ((hL 2 (by omega)).trans rfl) (paramAfter_load env par r _ (by decide) hr) (decide_eq_false (by omega)) ?_
  intro s0 stk0 h0
  by_cases hlt : r < -30
  · refine sym_if_true _ _ _ h0 ((hL 3 (by omega)).trans rfl) ((condition_lt env _ SysVal.REL_ANGLE_TO_HOME (-30) r (by decide) hr).trans (decide_eq_true hlt)) (decide_eq_false (by omega)) ?_
    intro s1 h1
    refine sym_param (PARAM_MUL (-1)) (r * (-1)) h1 ((hL 4 (by omega)).trans rfl) rfl (decide_eq_false (by omega)) ?_
    intro s2 stk2 h2
    refine sym_param (PARAM_SUB 30) ((r * (-1)) - 30) h2 ((hL 5 (by omega)).trans rfl) rfl (decide_eq_false (by omega)) ?_
    intro s3 stk3 h3
    refine sym_param (PARAM_DIV 10) (Int.tdiv ((r * (-1)) - 30) 10) h3 ((hL 6 (by omega)).trans rfl) rfl (decide_eq_false (by omega)) ?_
    intro s4 stk4 h4
    exact runUntil_stop (decide_eq_true (by rw [h4.2.1]; omega))
      ⟨h4.1, by rw [h4.2.1]; omega,
        by rw [h4.2.2.2.2]; exact (tdiv_ten_bounds _ (by omega) (by omega)).1,
        by rw [h4.2.2.2.2]; exact (tdiv_ten_bounds _ (by omega) (by omega)).2⟩
  · refine sym_if_false _ _ _ (base + 15) h0 ((hL 3 (by omega)).trans rfl) ((condition_lt env _ SysVal.REL_ANGLE_TO_HOME (-30) r (by decide) hr).trans (decide_eq_false hlt)) hs3 (decide_eq_false (by omega)) ?_
    intro s1 h1
    by_cases hgt : r > 150
    · refine sym_if_true _ _ _ h1 ((hL 15 (by omega)).trans rfl) ((condition_gt env _ SysVal.REL_ANGLE_TO_HOME 150 r (by decide) hr).trans (decide_eq_true hgt)) (decide_eq_false (by omega)) ?_
      intro s5 h5
      refine sym_param (PARAM_SUB 360) (r - 360) h5 ((hL 16 (by omega)).trans rfl) rfl (decide_eq_false (by omega)) ?_
      intro s6 stk6 h6
      refine sym_param (PARAM_MUL (-1)) ((r - 360) * (-1)) h6 ((hL 17 (by omega)).trans rfl) rfl (decide_eq_false (by omega)) ?_
      intro s7 stk7 h7
      refine sym_param (PARAM_DIV 10) (Int.tdiv ((r - 360) * (-1)) 10) h7 ((hL 18 (by omega)).trans rfl) rfl (decide_eq_false (by omega)) ?_
      intro s8 stk8 h8
      exact runUntil_stop (decide_eq_true (by rw [h8.2.1]; omega))
        ⟨h8.1, by rw [h8.2.1]; omega,
          by rw [h8.2.2.2.2]; exact (tdiv_ten_bounds _ (by omega) (by omega)).1,
          by rw [h8.2.2.2.2]; exact (tdiv_ten_bounds _ (by omega) (by omega)).2⟩
    · refine sym_if_false _ _ _ (base + 27) h1 ((hL 15 (by omega)).trans rfl) ((condition_gt env _ SysVal.REL_ANGLE_TO_HOME 150 r (by decide) hr).trans (decide_eq_false hgt)) hs15 (decide_eq_false (by omega)) ?_
      intro s5 h5
      refine sym_if_true _ _ _ h5 ((hL 27 (by omega)).trans rfl) ((condition_ge env _ SysVal.REL_ANGLE_TO_HOME (-30) r (by decide) hr).trans (decide_eq_true (by omega))) (decide_eq_false (by omega)) ?_
      intro s9 h9
      refine sym_param (PARAM_ADD 30) (r + 30) h9 ((hL 28 (by omega)).trans rfl) rfl (decide_eq_false (by omega)) ?_
      intro s10 stk10 h10
      refine sym_param (PARAM_DIV 10) (Int.tdiv (r + 30) 10) h10 ((hL 29 (by omega)).trans rfl) rfl (decide_eq_false (by omega)) ?_
      intro s11 stk11 h11
      exact runUntil_stop (decide_eq_true (by rw [h11.2.1]; omega))
        ⟨h11.1, by rw [h11.2.1]; omega,
          by rw [h11.2.2.2.2]; exact (tdiv_ten_bounds _ (by omega) (by omega)).1,
          by rw [h11.2.2.2.2]; exact (tdiv_ten_bounds _ (by omega) (by omega)).2⟩

/-- The end of the turn of `CHECK_SOFT_WIND_GEOFENCE`: once control has passed the `END` of one
of the three `REPEAT_PARAM` blocks, the engine comes to the `FD` after the
branches. -/
theorem turn_exit_CHECK_SOFT_WIND_GEOFENCE (c : Config) (p : ResolvedProgram)
    (base : Nat) (hwin : InWindow p.code base (TO_CHECK_SOFT_WIND_GEOFENCE c)) (env : Env)
    (s : State) (stk : List Frame) (pen : Bool) (par : Int) (x : Nat)
    (hx : x = 13 ∨ x = 25 ∨ x = 36) (h : s.IsAt (base + (x + 1)) stk pen par) :
    ∃ s', runUntil p env
        (fun pc => decide (pc = base + 7 ∨ pc = base + 19 ∨ pc = base + 30 ∨ pc = base + 40))
        5 s = some s'
      ∧ s'.pc = base + 40 := by
  obtain ⟨hL, hs1, hs3, hc13, hs14, hs15, hc25, hs26, hs27, hc36, hc37, hc38, hc39, hc41, hc42, hc43⟩ := flow_CHECK_SOFT_WIND_GEOFENCE c p.code base hwin
  rcases hx with rfl | rfl | rfl
  · refine sym_else (base + 39) h ((hL 14 (by omega)).trans rfl) hs14 (decide_eq_false (by omega)) ?_
    intro s1 h1
    refine sym_endif h1 ((hL 39 (by omega)).trans rfl) hc39 (decide_eq_false (by omega)) ?_
    intro s2 h2
    exact runUntil_stop (decide_eq_true (by rw [h2.2.1]; omega)) h2.2.1
  · refine sym_else (base + 38) h ((hL 26 (by omega)).trans rfl) hs26 (decide_eq_false (by omega)) ?_
    intro s1 h1
    refine sym_endif h1 ((hL 38 (by omega)).trans rfl) hc38 (decide_eq_false (by omega)) ?_
    intro s2 h2
    refine sym_endif h2 ((hL 39 (by omega)).trans rfl) hc39 (decide_eq_false (by omega)) ?_
    intro s3 h3
    exact runUntil_stop (decide_eq_true (by rw [h3.2.1]; omega)) h3.2.1
  · refine sym_endif h ((hL 37 (by omega)).trans rfl) hc37 (decide_eq_false (by omega)) ?_
    intro s1 h1
    refine sym_endif h1 ((hL 38 (by omega)).trans rfl) hc38 (decide_eq_false (by omega)) ?_
    intro s2 h2
    refine sym_endif h2 ((hL 39 (by omega)).trans rfl) hc39 (decide_eq_false (by omega)) ?_
    intro s3 h3
    exact runUntil_stop (decide_eq_true (by rw [h3.2.1]; omega)) h3.2.1

/-- In `CHECK_SOFT_WIND_GEOFENCE` exactly one of the three `REPEAT_PARAM` blocks is entered,
with a repeat count from 0 to 20. -/
theorem entersOne_CHECK_SOFT_WIND_GEOFENCE (c : Config) (env : Env) (r : Int)
    (hr : env.value SysVal.REL_ANGLE_TO_HOME = some r) (hlo : -180 ≤ r) (hhi : r ≤ 180) :
    EntersOneTurnLoop (missionOf c) env
      ⟨CHECK_SOFT_WIND_GEOFENCE, 1, 6, 12, 18, 24, 29, 35, 39⟩ := by
  obtain ⟨base, hoff, hwin⟩ := window_CHECK_SOFT_WIND_GEOFENCE c
  have hF := flow_CHECK_SOFT_WIND_GEOFENCE c _ base hwin
  have hL := hF.1
  have e : (TurnShape.stops ⟨CHECK_SOFT_WIND_GEOFENCE, 1, 6, 12, 18, 24, 29, 35, 39⟩ (base + 1))
      = (fun pc => decide (pc = base + 7 ∨ pc = base + 19 ∨ pc = base + 30 ∨ pc = base + 40)) := by
    funext pc
    simp only [TurnShape.stops, Nat.add_assoc]
  refine ⟨base + 1, hoff, ?_, ?_, ?_, ?_, ?_, ?_, ?_, ?_⟩
  · show (missionOf c).code[base + 1 + 1]? = _
    rw [Nat.add_assoc, hL (1 + 1) (by omega)]; rfl
  · intro k hk1 hk2
    show (missionOf c).code[base + 1 + k]? = _ ↔ k = 6 ∨ k = 18 ∨ k = 29
    have hk3 : k ≤ 39 := hk2
    rw [Nat.add_assoc, hL (1 + k) (by omega)]
    interval_cases k <;> simp [TO_CHECK_SOFT_WIND_GEOFENCE]
  · show skipTarget _ (base + 1 + 6) false = base + 1 + 12
    rw [Nat.add_assoc, inWindow_skipTarget _ base _ hwin (1 + 6) false rfl]; rfl
  · show skipTarget _ (base + 1 + 18) false = base + 1 + 24
    rw [Nat.add_assoc, inWindow_skipTarget _ base _ hwin (1 + 18) false rfl]; rfl
  · show skipTarget _ (base + 1 + 29) false = base + 1 + 35
    rw [Nat.add_assoc, inWindow_skipTarget _ base _ hwin (1 + 29) false rfl]; rfl
  · show ((missionOf c).code[base + 1 + 39]?).map Instr.isMove = _
    rw [Nat.add_assoc, hL (1 + 39) (by omega)]; rfl
  · intro s hm hpc
    rw [e]
    obtain ⟨s', h1, h2, h3, h4, h5⟩ := turn_entry_CHECK_SOFT_WIND_GEOFENCE c _ base hwin env r hr hlo hhi s s.stack
      s.penDown s.curParam ⟨hm, by rw [hpc]; rfl, rfl, rfl, rfl⟩
    exact ⟨s', h1, h2, by simpa only [Nat.add_assoc] using h3, h4, h5⟩
  · intro s x hm hx hpc
    rw [e]
    obtain ⟨s', h1, h2⟩ := turn_exit_CHECK_SOFT_WIND_GEOFENCE c _ base hwin env s s.stack s.penDown s.curParam
      (x + 1) (by rcases hx with rfl | rfl | rfl <;> simp) ⟨hm, by rw [hpc]; omega, rfl, rfl, rfl⟩
    exact ⟨s', h1, by rw [h2]; rfl⟩

set_option maxRecDepth 100000 in
theorem window_RETURN_MC_GEOFENCE (c : Config) :
    ∃ base, targetOffset (missionOf c) (Target.sub RETURN_MC_GEOFENCE) = some (base + 1)
      ∧ InWindow (missionOf c).code base (TO_RETURN_MC_GEOFENCE c) := by
  obtain ⟨a, b, d, e, t⟩ := c
  cases t
  · exact ⟨323, rfl, rfl, rfl⟩
  · exact ⟨323, rfl, rfl, rfl⟩

/-- Control flow inside `RETURN_MC_GEOFENCE`, wherever it sits in a table. -/
theorem flow_RETURN_MC_GEOFENCE (c : Config) (code : List Instr) (base : Nat)
    (hw : InWindow code base (TO_RETURN_MC_GEOFENCE c)) :
    (∀ i, i < 36 → code[base + i]? = (TO_RETURN_MC_GEOFENCE c)[i]?)
    ∧ skipTarget (kinds code) (base + 2) true = base + 12
    ∧ closesIf (kinds code) (base + 10) = false
    ∧ skipTarget (kinds code) (base + 11) false = base + 32
    ∧ skipTarget (kinds code) (base + 12) true = base + 22
    ∧ closesIf (kinds code) (base + 20) = false
    ∧ skipTarget (kinds code) (base + 21) false = base + 31
    ∧ skipTarget (kinds code) (base + 22) true = base + 30
    ∧ closesIf (kinds code) (base + 29) = false
    ∧ closesIf (kinds code) (base + 30) = true
    ∧ closesIf (kinds code) (base + 31) = true
    ∧ closesIf (kinds code) (base + 32) = true
    ∧ closesIf (kinds code) (base + 34) = false
    ∧ closesIf (kinds code) (base + 35) = false := by
  refine ⟨fun i hi => inWindow_getElem? code base _ hw i (Nat.lt_of_lt_of_le hi (Nat.le_of_ble_eq_true rfl)), ?_, ?_, ?_, ?_, ?_, ?_, ?_, ?_, ?_, ?_, ?_, ?_, ?_⟩
  · rw [inWindow_skipTarget code base _ hw 2 true rfl]; rfl
  · rw [inWindow_closesIf code base _ hw 10 (Nat.le_of_ble_eq_true rfl)]; rfl
  · rw [inWindow_skipTarget code base _ hw 11 false rfl]; rfl
  · rw [inWindow_skipTarget code base _ hw 12 true rfl]; rfl
  · rw [inWindow_closesIf code base _ hw 20 (Nat.le_of_ble_eq_true rfl)]; rfl
  · rw [inWindow_skipTarget code base _ hw 21 false rfl]; rfl
  · rw [inWindow_skipTarget code base _ hw 22 true rfl]; rfl
  · rw [inWindow_closesIf code base _ hw 29 (Nat.le_of_ble_eq_true rfl)]; rfl
  · rw [inWindow_closesIf code base _ hw 30 (Nat.le_of_ble_eq_true rfl)]; rfl
  · rw [inWindow_closesIf code base _ hw 31 (Nat.le_of_ble_eq_true rfl)]; rfl
  · rw [inWindow_closesIf code base _ hw 32 (Nat.le_of_ble_eq_true rfl)]; rfl
  · rw [inWindow_closesIf code base _ hw 34 (Nat.le_of_ble_eq_true rfl)]; rfl
  · rw [inWindow_closesIf code base _ hw 35 (Nat.le_of_ble_eq_true rfl)]; rfl

set_option maxHeartbeats 1000000 in
/-- The start of the turn of `RETURN_MC_GEOFENCE`: from the `LOAD_TO_PARAM` the engine
comes to one of the three `REPEAT_PARAM` with `PARAM` from 0 to 20. -/
theorem turn_entry_RETURN_MC_GEOFENCE (c : Config) (p : ResolvedProgram)
    (base : Nat) (hwin : InWindow p.code base (TO_RETURN_MC_GEOFENCE c)) (env : Env) (r : Int)
    (hr : env.value SysVal.REL_ANGLE_TO_HOME = some r) (hlo : -180 ≤ r) (hhi : r ≤ 180)
    (s : State) (stk : List Frame) (pen : Bool) (par : Int) (h : s.IsAt (base + 1) stk pen par) :
    ∃ s', runUntil p env
        (fun pc => decide (pc = base + 6 ∨ pc = base + 16 ∨ pc = base + 25 ∨ pc = base + 33))
        8 s = some s'
      ∧ (s'.mode = Mode.Running
        ∧ (s'.pc = base + 6 ∨ s'.pc = base + 16 ∨ s'.pc = base + 25)
        ∧ 0 ≤ s'.curParam ∧ s'.curParam ≤ 20) := by
  obtain ⟨hL, hs2, hc10, hs11, hs12, hc20, hs21, hs22, hc29, hc30, hc31, hc32, hc34, hc35⟩ := flow_RETURN_MC_GEOFENCE c p.code base hwin
  refine sym_param (LOAD_TO_PARAM SysVal.REL_ANGLE_TO_HOME) r h ((hL 1 (by omega)).trans rfl) (paramAfter_load env par r _ (by decide) hr) (decide_eq_false (by omega)) ?_
  intro s0 stk0 h0
  by_cases hlt : r < -30
  · refine sym_if_true _ _ _ h0 ((hL 2 (by omega)).trans rfl) ((condition_lt env _ SysVal.REL_ANGLE_TO_HOME (-30) r (by decide) hr).trans (decide_eq_true hlt)) (decide_eq_false (by omega)) ?_
    intro s1 h1
    refine sym_param (PARAM_MUL (-1)) (r * (-1)) h1 ((hL 3 (by omega)).trans rfl) rfl (decide_eq_false (by omega)) ?_
    intro s2 stk2 h2
    refine sym_param (PARAM_SUB 30) ((r * (-1)) - 30) h2 ((hL 4 (by omega)).trans rfl) rfl (decide_eq_false (by omega)) ?_
    intro s3 stk3 h3
    refine sym_param (PARAM_DIV 10) (Int.tdiv ((r * (-1)) - 30) 10) h3 ((hL 5 (by omega)).trans rfl) rfl (decide_eq_false (by omega)) ?_
    intro s4 stk4 h4
    exact runUntil_stop (decide_eq_true (by rw [h4.2.1]; omega))
      ⟨h4.1, by rw [h4.2.1]; omega,
        by rw [h4.2.2.2.2]; exact (tdiv_ten_bounds _ (by omega) (by omega)).1,
        by rw [h4.2.2.2.2]; exact (tdiv_ten_bounds _ (by omega) (by omega)).2⟩
  · refine sym_if_false _ _ _ (base + 12) h0 ((hL 2 (by omega)).trans rfl) ((condition_lt env _ SysVal.REL_ANGLE_TO_HOME (-30) r (by decide) hr).trans (decide_eq_false hlt)) hs2 (decide_eq_false (by omega)) ?_
    intro s1 h1
    by_cases hgt : r > 150
    · refine sym_if_true _ _ _ h1 ((hL 12 (by omega)).trans rfl) ((condition_gt env _ SysVal.REL_ANGLE_TO_HOME 150 r (by decide) hr).trans (decide_eq_true hgt)) (decide_eq_false (by omega)) ?_
      intro s5 h5
      refine sym_param (PARAM_SUB 360) (r - 360) h5 ((hL 13 (by omega)).trans rfl) rfl (decide_eq_false (by omega)) ?_
      intro s6 stk6 h6
      refine sym_param (PARAM_MUL (-1)) ((r - 360) * (-1)) h6 ((hL 14 (by omega)).trans rfl) rfl (decide_eq_false (by omega)) ?_
      intro s7 stk7 h7
      refine sym_param (PARAM_DIV 10) (Int.tdiv ((r - 360) * (-1)) 10) h7 ((hL 15 (by omega)).trans rfl) rfl (decide_eq_false (by omega)) ?_
      intro s8 stk8 h8
      exact runUntil_stop (decide_eq_true (by rw [h8.2.1]; omega))
        ⟨h8.1, by rw [h8.2.1]; omega,
          by rw [h8.2.2.2.2]; exact (tdiv_ten_bounds _ (by omega) (by omega)).1,
          by rw [h8.2.2.2.2]; exact (tdiv_ten_bounds _ (by omega) (by omega)).2⟩
    · refine sym_if_false _ _ _ (base + 22) h1 ((hL 12 (by omega)).trans rfl) ((condition_gt env _ SysVal.REL_ANGLE_TO_HOME 150 r (by decide) hr).trans (decide_eq_false hgt)) hs12 (decide_eq_false (by omega)) ?_
      intro s5 h5
      refine sym_if_true _ _ _ h5 ((hL 22 (by omega)).trans rfl) ((condition_ge env _ SysVal.REL_ANGLE_TO_HOME (-30) r (by decide) hr).trans (decide_eq_true (by omega))) (decide_eq_false (by omega)) ?_
      intro s9 h9
      refine sym_param (PARAM_ADD 30) (r + 30) h9 ((hL 23 (by omega)).trans rfl) rfl (decide_eq_false (by omega)) ?_
      intro s10 stk10 h10
      refine sym_param (PARAM_DIV 10) (Int.tdiv (r + 30) 10) h10 ((hL 24 (by omega)).trans rfl) rfl (decide_eq_false (by omega)) ?_
      intro s11 stk11 h11
      exact runUntil_stop (decide_eq_true (by rw [h11.2.1]; omega))
        ⟨h11.1, by rw [h11.2.1]; omega,
          by rw [h11.2.2.2.2]; exact (tdiv_ten_bounds _ (by omega) (by omega)).1,
          by rw [h11.2.2.2.2]; exact (tdiv_ten_bounds _ (by omega) (by omega)).2⟩

/-- The end of the turn of `RETURN_MC_GEOFENCE`: once control has passed the `END` of one
of the three `REPEAT_PARAM` blocks, the engine comes to the `FD` after the
branches. -/
theorem turn_exit_RETURN_MC_GEOFENCE (c : Config) (p : ResolvedProgram)
    (base : Nat) (hwin : InWindow p.code base (TO_RETURN_MC_GEOFENCE c)) (env : Env)
    (s : State) (stk : List Frame) (pen : Bool) (par : Int) (x : Nat)
    (hx : x = 10 ∨ x = 20 ∨ x = 29) (h : s.IsAt (base + (x + 1)) stk pen par) :
    ∃ s', runUntil p env
        (fun pc => decide (pc = base + 6 ∨ pc = base + 16 ∨ pc = base + 25 ∨ pc = base + 33))
        5 s = some s'
      ∧ s'.pc = base + 33 := by
  obtain ⟨hL, hs2, hc10, hs11, hs12, hc20, hs21, hs22, hc29, hc30, hc31, hc32, hc34, hc35⟩ := flow_RETURN_MC_GEOFENCE c p.code base hwin
  rcases hx with rfl | rfl | rfl
  · refine sym_else (base + 32) h ((hL 11 (by omega)).trans rfl) hs11 (decide_eq_false (by omega)) ?_
    intro s1 h1
    refine sym_endif h1 ((hL 32 (by omega)).trans rfl) hc32 (decide_eq_false (by omega)) ?_
    intro s2 h2
    exact runUntil_stop (decide_eq_true (by rw [h2.2.1]; omega)) h2.2.1
  · refine sym_else (base + 31) h ((hL 21 (by omega)).trans rfl) hs21 (decide_eq_false (by omega)) ?_
    intro s1 h1
    refine sym_endif h1 ((hL 31 (by omega)).trans rfl) hc31 (decide_eq_false (by omega)) ?_
    intro s2 h2
    refine sym_endif h2 ((hL 32 (by omega)).trans rfl) hc32 (decide_eq_false (by omega)) ?_
    intro s3 h3
    exact runUntil_stop (decide_eq_true (by rw [h3.2.1]; omega)) h3.2.1
  · refine sym_endif h ((hL 30 (by omega)).trans rfl) hc30 (decide_eq_false (by omega)) ?_
    intro s1 h1
    refine sym_endif h1 ((hL 31 (by omega)).trans rfl) hc31 (decide_eq_false (by omega)) ?_
    intro s2 h2
    refine sym_endif h2 ((hL 32 (by omega)).trans rfl) hc32 (decide_eq_false (by omega)) ?_
    intro s3 h3
    exact runUntil_stop (decide_eq_true (by rw [h3.2.1]; omega)) h3.2.1

/-- In `RETURN_MC_GEOFENCE` exactly one of the three `REPEAT_PARAM` blocks is entered,
with a repeat count from 0 to 20. -/
theorem entersOne_RETURN_MC_GEOFENCE (c : Config) (env : Env) (r : Int)
    (hr : env.value SysVal.REL_ANGLE_TO_HOME = some r) (hlo : -180 ≤ r) (hhi : r ≤ 180) :
    EntersOneTurnLoop (missionOf c) env
      ⟨RETURN_MC_GEOFENCE, 0, 5, 9, 15, 19, 24, 28, 32⟩ := by
  obtain ⟨base, hoff, hwin⟩ := window_RETURN_MC_GEOFENCE c
  have hF := flow_RETURN_MC_GEOFENCE c _ base hwin
  have hL := hF.1
  have e : (TurnShape.stops ⟨RETURN_MC_GEOFENCE, 0, 5, 9, 15, 19, 24, 28, 32⟩ (base + 1))
      = (fun pc => decide (pc = base + 6 ∨ pc = base + 16 ∨ pc = base + 25 ∨ pc = base + 33)) := by
    funext pc
    simp only [TurnShape.stops, Nat.add_assoc]
  refine ⟨base + 1, hoff, ?_, ?_, ?_, ?_, ?_, ?_, ?_, ?_⟩
  · show (missionOf c).code[base + 1 + 0]? = _
    rw [Nat.add_assoc, hL (1 + 0) (by omega)]; rfl
  · intro k hk1 hk2
    show (missionOf c).code[base + 1 + k]? = _ ↔ k = 5 ∨ k = 15 ∨ k = 24
    have hk3 : k ≤ 32 := hk2
    rw [Nat.add_assoc, hL (1 + k) (by omega)]
    interval_cases k <;> simp [TO_RETURN_MC_GEOFENCE]
  · show skipTarget _ (base + 1 + 5) false = base + 1 + 9
    rw [Nat.add_assoc, inWindow_skipTarget _ base _ hwin (1 + 5) false rfl]; rfl
  · show skipTarget _ (base + 1 + 15) false = base + 1 + 19
    rw [Nat.add_assoc, inWindow_skipTarget _ base _ hwin (1 + 15) false rfl]; rfl
  · show skipTarget _ (base + 1 + 24) false = base + 1 + 28
    rw [Nat.add_assoc, inWindow_skipTarget _ base _ hwin (1 + 24) false rfl]; rfl
  · show ((missionOf c).code[base + 1 + 32]?).map Instr.isMove = _
    rw [Nat.add_assoc, hL (1 + 32) (by omega)]; rfl
  · intro s hm hpc
    rw [e]
    obtain ⟨s', h1, h2, h3, h4, h5⟩ := turn_entry_RETURN_MC_GEOFENCE c _ base hwin env r hr hlo hhi s s.stack
      s.penDown s.curParam ⟨hm, by rw [hpc]; rfl, rfl, rfl, rfl⟩
    exact ⟨s', h1, h2, by simpa only [Nat.add_assoc] using h3, h4, h5⟩
  · intro s x hm hx hpc
    rw [e]
    obtain ⟨s', h1, h2⟩ := turn_exit_RETURN_MC_GEOFENCE c _ base hwin env s s.stack s.penDown s.curParam
      (x + 1) (by rcases hx with rfl | rfl | rfl <;> simp) ⟨hm, by rw [hpc]; omega, rfl, rfl, rfl⟩
    exact ⟨s', h1, by rw [h2]; rfl⟩

set_option maxRecDepth 100000 in
theorem window_CHECK_MC_SOFT_GEOFENCE (c : Config) :
    ∃ base, targetOffset (missionOf c) (Target.sub CHECK_MC_SOFT_GEOFENCE) = some (base + 1)
      ∧ InWindow (missionOf c).code base (TO_CHECK_MC_SOFT_GEOFENCE c) := by
  obtain ⟨a, b, d, e, t⟩ := c
  cases t
  · exact ⟨359, rfl, rfl, rfl⟩
  · exact ⟨359, rfl, rfl, rfl⟩

/-- Control flow inside `CHECK_MC_SOFT_GEOFENCE`, wherever it sits in a table. -/
theorem flow_CHECK_MC_SOFT_GEOFENCE (c : Config) (code : List Instr) (base : Nat)
    (hw : InWindow code base (TO_CHECK_MC_SOFT_GEOFENCE c)) :
    (∀ i, i < 41 → code[base + i]? = (TO_CHECK_MC_SOFT_GEOFENCE c)[i]?)
    ∧ skipTarget (kinds code) (base + 1) true = base + 38
    ∧ skipTarget (kinds code) (base + 3) true = base + 14
    ∧ closesIf (kinds code) (base + 12) = false
    ∧ skipTarget (kinds code) (base + 13) false = base + 36
    ∧ skipTarget (kinds code) (base + 14) true = base + 25
    ∧ closesIf (kinds code) (base + 23) = false
    ∧ skipTarget (kinds code) (base + 24) false = base + 35
    ∧ skipTarget (kinds code) (base + 25) true = base + 34
    ∧ closesIf (kinds code) (base + 33) = false
    ∧ closesIf (kinds code) (base + 34) = true
    ∧ closesIf (kinds code) (base + 35) = true
    ∧ closesIf (kinds code) (base + 36) = true
    ∧ closesIf (kinds code) (base + 38) = true
    ∧ closesIf (kinds code) (base + 39) = false
    ∧ closesIf (kinds code) (base + 40) = false := by
  refine ⟨fun i hi => inWindow_getElem? code base _ hw i (Nat.lt_of_lt_of_le hi (Nat.le_of_ble_eq_true rfl)), ?_, ?_, ?_, ?_, ?_, ?_, ?_, ?_, ?_, ?_, ?_, ?_, ?_, ?_, ?_⟩
  · rw [inWindow_skipTarget code base _ hw 1 true rfl]; rfl
  · rw [inWindow_skipTarget code base _ hw 3 true rfl]; rfl
  · rw [inWindow_closesIf code base _ hw 12 (Nat.le_of_ble_eq_true rfl)]; rfl
  · rw [inWindow_skipTarget code base _ hw 13 false rfl]; rfl
  · rw [inWindow_skipTarget code base _ hw 14 true rfl]; rfl
  · rw [inWindow_closesIf code base _ hw 23 (Nat.le_of_ble_eq_true rfl)]; rfl
  · rw [inWindow_skipTarget code base _ hw 24 false rfl]; rfl
  · rw [inWindow_skipTarget code base _ hw 25 true rfl]; rfl
  · rw [inWindow_closesIf code base _ hw 33 (Nat.le_of_ble_eq_true rfl)]; rfl
  · rw [inWindow_closesIf code base _ hw 34 (Nat.le_of_ble_eq_true rfl)]; rfl
  · rw [inWindow_closesIf code base _ hw 35 (Nat.le_of_ble_eq_true rfl)]; rfl
  · rw [inWindow_closesIf code base _ hw 36 (Nat.le_of_ble_eq_true rfl)]; rfl
  · rw [inWindow_closesIf code base _ hw 38 (Nat.le_of_ble_eq_true rfl)]; rfl
  · rw [inWindow_closesIf code base _ hw 39 (Nat.le_of_ble_eq_true rfl)]; rfl
  · rw [inWindow_closesIf code base _ hw 40 (Nat.le_of_ble_eq_true rfl)]; rfl

set_option maxHeartbeats 1000000 in
/-- The start of the turn of `CHECK_MC_SOFT_GEOFENCE`: from the `LOAD_TO_PARAM` the engine
comes to one of the three `REPEAT_PARAM` with `PARAM` from 0 to 20. -/
theorem turn_entry_CHECK_MC_SOFT_GEOFENCE (c : Config) (p : ResolvedProgram)
    (base : Nat) (hwin : InWindow p.code base (TO_CHECK_MC_SOFT_GEOFENCE c)) (env : Env) (r : Int)
    (hr : env.value SysVal.REL_ANGLE_TO_HOME = some r) (hlo : -180 ≤ r) (hhi : r ≤ 180)
    (s : State) (stk : List Frame) (pen : Bool) (par : Int) (h : s.IsAt (base + 2) stk pen par) :
    ∃ s', runUntil p env
        (fun pc => decide (pc = base + 7 ∨ pc = base + 18 ∨ pc = base + 28 ∨ pc = base + 37))
        8 s = some s'
      ∧ (s'.mode = Mode.Running
        ∧ (s'.pc = base + 7 ∨ s'.pc = base + 18 ∨ s'.pc = base + 28)
        ∧ 0 ≤ s'.curParam ∧ s'.curParam ≤ 20) := by
  obtain ⟨hL, hs1, hs3, hc12, hs13, hs14, hc23, hs24, hs25, hc33, hc34, hc35, hc36, hc38, hc39, hc40⟩ := flow_CHECK_MC_SOFT_GEOFENCE c p.code base hwin
  refine sym_param (LOAD_TO_PARAM SysVal.REL_ANGLE_TO_HOME) r h ((hL 2 (by omega)).trans rfl) (paramAfter_load env par r _ (by decide) hr) (decide_eq_false (by omega)) ?_
  intro s0 stk0 h0
  by_cases hlt : r < -30
  · refine sym_if_true _ _ _ h0 ((hL 3 (by omega)).trans rfl) ((condition_lt env _ SysVal.REL_ANGLE_TO_HOME (-30) r (by decide) hr).trans (decide_eq_true hlt)) (decide_eq_false (by omega)) ?_
    intro s1 h1
    refine sym_param (PARAM_MUL (-1)) (r * (-1)) h1 ((hL 4 (by omega)).trans rfl) rfl (decide_eq_false (by omega)) ?_
    intro s2 stk2 h2
    refine sym_param (PARAM_SUB 30) ((r * (-1)) - 30) h2 ((hL 5 (by omega)).trans rfl) rfl (decide_eq_false (by omega)) ?_
    intro s3 stk3 h3
    refine sym_param (PARAM_DIV 10) (Int.tdiv ((r * (-1)) - 30) 10) h3 ((hL 6 (by omega)).trans rfl) rfl (decide_eq_false (by omega)) ?_
    intro s4 stk4 h4
    exact runUntil_stop (decide_eq_true (by rw [h4.2.1]; omega))
      ⟨h4.1, by rw [h4.2.1]; omega,
        by rw [h4.2.2.2.2]; exact (tdiv_ten_bounds _ (by omega) (by omega)).1,
        by rw [h4.2.2.2.2]; exact (tdiv_ten_bounds _ (by omega) (by omega)).2⟩
  · refine sym_if_false _ _ _ (base + 14) h0 ((hL 3 (by omega)).trans rfl) ((condition_lt env _ SysVal.REL_ANGLE_TO_HOME (-30) r (by decide) hr).trans (decide_eq_false hlt)) hs3 (decide_eq_false (by omega)) ?_
    intro s1 h1
    by_cases hgt : r > 150
    · refine sym_if_true _ _ _ h1 ((hL 14 (by omega)).trans rfl) ((condition_gt env _ SysVal.REL_ANGLE_TO_HOME 150 r (by decide) hr).trans (decide_eq_true hgt)) (decide_eq_false (by omega)) ?_
      intro s5 h5
      refine sym_param (PARAM_SUB 360) (r - 360) h5 ((hL 15 (by omega)).trans rfl) rfl (decide_eq_false (by omega)) ?_
      intro s6 stk6 h6
      refine sym_param (PARAM_MUL (-1)) ((r - 360) * (-1)) h6 ((hL 16 (by omega)).trans rfl) rfl (decide_eq_false (by omega)) ?_
      intro s7 stk7 h7
      refine sym_param (PARAM_DIV 10) (Int.tdiv ((r - 360) * (-1)) 10) h7 ((hL 17 (by omega)).trans rfl) rfl (decide_eq_false (by omega)) ?_
      intro s8 stk8 h8
      exact runUntil_stop (decide_eq_true (by rw [h8.2.1]; omega))
        ⟨h8.1, by rw [h8.2.1]; omega,
          by rw [h8.2.2.2.2]; exact (tdiv_ten_bounds _ (by omega) (by omega)).1,
          by rw [h8.2.2.2.2]; exact (tdiv_ten_bounds _ (by omega) (by omega)).2⟩
    · refine sym_if_false _ _ _ (base + 25) h1 ((hL 14 (by omega)).trans rfl) ((condition_gt env _ SysVal.REL_ANGLE_TO_HOME 150 r (by decide) hr).trans (decide_eq_false hgt)) hs14 (decide_eq_false (by omega)) ?_
      intro s5 h5
      refine sym_if_true _ _ _ h5 ((hL 25 (by omega)).trans rfl) ((condition_ge env _ SysVal.REL_ANGLE_TO_HOME (-30) r (by decide) hr).trans (decide_eq_true (by omega))) (decide_eq_false (by omega)) ?_
      intro s9 h9
      refine sym_param (PARAM_ADD 30) (r + 30) h9 ((hL 26 (by omega)).trans rfl) rfl (decide_eq_false (by omega)) ?_
      intro s10 stk10 h10
      refine sym_param (PARAM_DIV 10) (Int.tdiv (r + 30) 10) h10 ((hL 27 (by omega)).trans rfl) rfl (decide_eq_false (by omega)) ?_
      intro s11 stk11 h11
      exact runUntil_stop (decide_eq_true (by rw [h11.2.1]; omega))
        ⟨h11.1, by rw [h11.2.1]; omega,
          by rw [h11.2.2.2.2]; exact (tdiv_ten_bounds _ (by omega) (by omega)).1,
          by rw [h11.2.2.2.2]; exact (tdiv_ten_bounds _ (by omega) (by omega)).2⟩

/-- The end of the turn of `CHECK_MC_SOFT_GEOFENCE`: once control has passed the `END` of one
of the three `REPEAT_PARAM` blocks, the engine comes to the `FD` after the
branches. -/
theorem turn_exit_CHECK_MC_SOFT_GEOFENCE (c : Config) (p : ResolvedProgram)
    (base : Nat) (hwin : InWindow p.code base (TO_CHECK_MC_SOFT_GEOFENCE c)) (env : Env)
    (s : State) (stk : List Frame) (pen : Bool) (par : Int) (x : Nat)
    (hx : x = 12 ∨ x = 23 ∨ x = 33) (h : s.IsAt (base + (x + 1)) stk pen par) :
    ∃ s', runUntil p env
        (fun pc => decide (pc = base + 7 ∨ pc = base + 18 ∨ pc = base + 28 ∨ pc = base + 37))
        5 s = some s'
      ∧ s'.pc = base + 37 := by
  obtain ⟨hL, hs1, hs3, hc12, hs13, hs14, hc23, hs24, hs25, hc33, hc34, hc35, hc36, hc38, hc39, hc40⟩ := flow_CHECK_MC_SOFT_GEOFENCE c p.code base hwin
  rcases hx with rfl | rfl | rfl
  · refine sym_else (base + 36) h ((hL 13 (by omega)).trans rfl) hs13 (decide_eq_false (by omega)) ?_
    intro s1 h1
    refine sym_endif h1 ((hL 36 (by omega)).trans rfl) hc36 (decide_eq_false (by omega)) ?_
    intro s2 h2
    exact runUntil_stop (decide_eq_true (by rw [h2.2.1]; omega)) h2.2.1
  · refine sym_else (base + 35) h ((hL 24 (by omega)).trans rfl) hs24 (decide_eq_false (by omega)) ?_
    intro s1 h1
    refine sym_endif h1 ((hL 35 (by omega)).trans rfl) hc35 (decide_eq_false (by omega)) ?_
    intro s2 h2
    refine sym_endif h2 ((hL 36 (by omega)).trans rfl) hc36 (decide_eq_false (by omega)) ?_
    intro s3 h3
    exact runUntil_stop (decide_eq_true (by rw [h3.2.1]; omega)) h3.2.1
  · refine sym_endif h ((hL 34 (by omega)).trans rfl) hc34 (decide_eq_false (by omega)) ?_
    intro s1 h1
    refine sym_endif h1 ((hL 35 (by omega)).trans rfl) hc35 (decide_eq_false (by omega)) ?_
    intro s2 h2
    refine sym_endif h2 ((hL 36 (by omega)).trans rfl) hc36 (decide_eq_false (by omega)) ?_
    intro s3 h3
    exact runUntil_stop (decide_eq_true (by rw [h3.2.1]; omega)) h3.2.1

/-- In `CHECK_MC_SOFT_GEOFENCE` exactly one of the three `REPEAT_PARAM` blocks is entered,
with a repeat count from 0 to 20. -/
theorem entersOne_CHECK_MC_SOFT_GEOFENCE (c : Config) (env : Env) (r : Int)
    (hr : env.value SysVal.REL_ANGLE_TO_HOME = some r) (hlo : -180 ≤ r) (hhi : r ≤ 180) :
    EntersOneTurnLoop (missionOf c) env
      ⟨CHECK_MC_SOFT_GEOFENCE, 1, 6, 11, 17, 22, 27, 32, 36⟩ := by
  obtain ⟨base, hoff, hwin⟩ := window_CHECK_MC_SOFT_GEOFENCE c
  have hF := flow_CHECK_MC_SOFT_GEOFENCE c _ base hwin
  have hL := hF.1
  have e : (TurnShape.stops ⟨CHECK_MC_SOFT_GEOFENCE, 1, 6, 11, 17, 22, 27, 32, 36⟩ (base + 1))
      = (fun pc => decide (pc = base + 7 ∨ pc = base + 18 ∨ pc = base + 28 ∨ pc = base + 37)) := by
    funext pc
    simp only [TurnShape.stops, Nat.add_assoc]
  refine ⟨base + 1, hoff, ?_, ?_, ?_, ?_, ?_, ?_, ?_, ?_⟩
  · show (missionOf c).code[base + 1 + 1]? = _
    rw [Nat.add_assoc, hL (1 + 1) (by omega)]; rfl
  · intro k hk1 hk2
    show (missionOf c).code[base + 1 + k]? = _ ↔ k = 6 ∨ k = 17 ∨ k = 27
    have hk3 : k ≤ 36 := hk2
    rw [Nat.add_assoc, hL (1 + k) (by omega)]
    interval_cases k <;> simp [TO_CHECK_MC_SOFT_GEOFENCE]
  · show skipTarget _ (base + 1 + 6) false = base + 1 + 11
    rw [Nat.add_assoc, inWindow_skipTarget _ base _ hwin (1 + 6) false rfl]; rfl
  · show skipTarget _ (base + 1 + 17) false = base + 1 + 22
    rw [Nat.add_assoc, inWindow_skipTarget _ base _ hwin (1 + 17) false rfl]; rfl
  · show skipTarget _ (base + 1 + 27) false = base + 1 + 32
    rw [Nat.add_assoc, inWindow_skipTarget _ base _ hwin (1 + 27) false rfl]; rfl
  · show ((missionOf c).code[base + 1 + 36]?).map Instr.isMove = _
    rw [Nat.add_assoc, hL (1 + 36) (by omega)]; rfl
  · intro s hm hpc
    rw [e]
    obtain ⟨s', h1, h2, h3, h4, h5⟩ := turn_entry_CHECK_MC_SOFT_GEOFENCE c _ base hwin env r hr hlo hhi s s.stack
      s.penDown s.curParam ⟨hm, by rw [hpc]; rfl, rfl, rfl, rfl⟩
    exact ⟨s', h1, h2, by simpa only [Nat.add_assoc] using h3, h4, h5⟩
  · intro s x hm hx hpc
    rw [e]
    obtain ⟨s', h1, h2⟩ := turn_exit_CHECK_MC_SOFT_GEOFENCE c _ base hwin env s s.stack s.penDown s.curParam
      (x + 1) (by rcases hx with rfl | rfl | rfl <;> simp) ⟨hm, by rw [hpc]; omega, rfl, rfl, rfl⟩
    exact ⟨s', h1, by rw [h2]; rfl⟩

set_option maxRecDepth 100000 in
theorem window_CHECK_MC_WIND_GEOFENCE (c : Config) :
    ∃ base, targetOffset (missionOf c) (Target.sub CHECK_MC_WIND_GEOFENCE) = some (base + 1)
      ∧ InWindow (missionOf c).code base (TO_CHECK_MC_WIND_GEOFENCE c) := by
  obtain ⟨a, b, d, e, t⟩ := c
  cases t
  · exact ⟨400, rfl, rfl, rfl⟩
  · exact ⟨400, rfl, rfl, rfl⟩

/-- Control flow inside `CHECK_MC_WIND_GEOFENCE`, wherever it sits in a table. -/
theorem flow_CHECK_MC_WIND_GEOFENCE (c : Config) (code : List Instr) (base : Nat)
    (hw : InWindow code base (TO_CHECK_MC_WIND_GEOFENCE c)) :
    (∀ i, i < 41 → code[base + i]? = (TO_CHECK_MC_WIND_GEOFENCE c)[i]?)
    ∧ skipTarget (kinds code) (base + 1) true = base + 38
    ∧ skipTarget (kinds code) (base + 3) true = base + 14
    ∧ closesIf (kinds code) (base + 12) = false
    ∧ skipTarget (kinds code) (base + 13) false = base + 36
    ∧ skipTarget (kinds code) (base + 14) true = base + 25
    ∧ closesIf (kinds code) (base + 23) = false
    ∧ skipTarget (kinds code) (base + 24) false = base + 35
    ∧ skipTarget (kinds code) (base + 25) true = base + 34
    ∧ closesIf (kinds code) (base + 33) = false
    ∧ closesIf (kinds code) (base + 34) = true
    ∧ closesIf (kinds code) (base + 35) = true
    ∧ closesIf (kinds code) (base + 36) = true
    ∧ closesIf (kinds code) (base + 38) = true
    ∧ closesIf (kinds code) (base + 39) = false
    ∧ closesIf (kinds code) (base + 40) = false := by
  refine ⟨fun i hi => inWindow_getElem? code base _ hw i (Nat.lt_of_lt_of_le hi (Nat.le_of_ble_eq_true rfl)), ?_, ?_, ?_, ?_, ?_, ?_, ?_, ?_, ?_, ?_, ?_, ?_, ?_, ?_, ?_⟩
  · rw [inWindow_skipTarget code base _ hw 1 true rfl]; rfl
  · rw [inWindow_skipTarget code base _ hw 3 true rfl]; rfl
  · rw [inWindow_closesIf code base _ hw 12 (Nat.le_of_ble_eq_true rfl)]; rfl
  · rw [inWindow_skipTarget code base _ hw 13 false rfl]; rfl
  · rw [inWindow_skipTarget code base _ hw 14 true rfl]; rfl
  · rw [inWindow_closesIf code base _ hw 23 (Nat.le_of_ble_eq_true rfl)]; rfl
  · rw [inWindow_skipTarget code base _ hw 24 false rfl]; rfl
  · rw [inWindow_skipTarget code base _ hw 25 true rfl]; rfl
  · rw [inWindow_closesIf code base _ hw 33 (Nat.le_of_ble_eq_true rfl)]; rfl
  · rw [inWindow_closesIf code base _ hw 34 (Nat.le_of_ble_eq_true rfl)]; rfl
  · rw [inWindow_closesIf code base _ hw 35 (Nat.le_of_ble_eq_true rfl)]; rfl
  · rw [inWindow_closesIf code base _ hw 36 (Nat.le_of_ble_eq_true rfl)]; rfl
  · rw [inWindow_closesIf code base _ hw 38 (Nat.le_of_ble_eq_true rfl)]; rfl
  · rw [inWindow_closesIf code base _ hw 39 (Nat.le_of_ble_eq_true rfl)]; rfl
  · rw [inWindow_closesIf code base _ hw 40 (Nat.le_of_ble_eq_true rfl)]; rfl

set_option maxHeartbeats 1000000 in
/-- The start of the turn of `CHECK_MC_WIND_GEOFENCE`: from the `LOAD_TO_PARAM` the engine
comes to one of the three `REPEAT_PARAM` with `PARAM` from 0 to 20. -/
theorem turn_entry_CHECK_MC_WIND_GEOFENCE (c : Config) (p : ResolvedProgram)
    (base : Nat) (hwin : InWindow p.code base (TO_CHECK_MC_WIND_GEOFENCE c)) (env : Env) (r : Int)
    (hr : env.value SysVal.REL_ANGLE_TO_HOME = some r) (hlo : -180 ≤ r) (hhi : r ≤ 180)
    (s : State) (stk : List Frame) (pen : Bool) (par : Int) (h : s.IsAt (base + 2) stk pen par) :
    ∃ s', runUntil p env
        (fun pc => decide (pc = base + 7 ∨ pc = base + 18 ∨ pc = base + 28 ∨ pc = base + 37))
        8 s = some s'
      ∧ (s'.mode = Mode.Running
        ∧ (s'.pc = base + 7 ∨ s'.pc = base + 18 ∨ s'.pc = base + 28)
        ∧ 0 ≤ s'.curParam ∧ s'.curParam ≤ 20) := by
  obtain ⟨hL, hs1, hs3, hc12, hs13, hs14, hc23, hs24, hs25, hc33, hc34, hc35, hc36, hc38, hc39, hc40⟩ := flow_CHECK_MC_WIND_GEOFENCE c p.code base hwin
  refine sym_param (LOAD_TO_PARAM SysVal.REL_ANGLE_TO_HOME) r h ((hL 2 (by omega)).trans rfl) (paramAfter_load env par r _ (by decide) hr) (decide_eq_false (by omega)) ?_
  intro s0 stk0 h0
  by_cases hlt : r < -30
  · refine sym_if_true _ _ _ h0 ((hL 3 (by omega)).trans rfl) ((condition_lt env _ SysVal.REL_ANGLE_TO_HOME (-30) r (by decide) hr).trans (decide_eq_true hlt)) (decide_eq_false (by omega)) ?_
    intro s1 h1
    refine sym_param (PARAM_MUL (-1)) (r * (-1)) h1 ((hL 4 (by omega)).trans rfl) rfl (decide_eq_false (by omega)) ?_
    intro s2 stk2 h2
    refine sym_param (PARAM_SUB 30) ((r * (-1)) - 30) h2 ((hL 5 (by omega)).trans rfl) rfl (decide_eq_false (by omega)) ?_
    intro s3 stk3 h3
    refine sym_param (PARAM_DIV 10) (Int.tdiv ((r * (-1)) - 30) 10) h3 ((hL 6 (by omega)).trans rfl) rfl (decide_eq_false (by omega)) ?_
    intro s4 stk4 h4
    exact runUntil_stop (decide_eq_true (by rw [h4.2.1]; omega))
      ⟨h4.1, by rw [h4.2.1]; omega,
        by rw [h4.2.2.2.2]; exact (tdiv_ten_bounds _ (by omega) (by omega)).1,
        by rw [h4.2.2.2.2]; exact (tdiv_ten_bounds _ (by omega) (by omega)).2⟩
  · refine sym_if_false _ _ _ (base + 14) h0 ((hL 3 (by omega)).trans rfl) ((condition_lt env _ SysVal.REL_ANGLE_TO_HOME (-30) r (by decide) hr).trans (decide_eq_false hlt)) hs3 (decide_eq_false (by omega)) ?_
    intro s1 h1
    by_cases hgt : r > 150
    · refine sym_if_true _ _ _ h1 ((hL 14 (by omega)).trans rfl) ((condition_gt env _ SysVal.REL_ANGLE_TO_HOME 150 r (by decide) hr).trans (decide_eq_true hgt)) (decide_eq_false (by omega)) ?_
      intro s5 h5
      refine sym_param (PARAM_SUB 360) (r - 360) h5 ((hL 15 (by omega)).trans rfl) rfl (decide_eq_false (by omega)) ?_
      intro s6 stk6 h6
      refine sym_param (PARAM_MUL (-1)) ((r - 360) * (-1)) h6 ((hL 16 (by omega)).trans rfl) rfl (decide_eq_false (by omega)) ?_
      intro s7 stk7 h7
      refine sym_param (PARAM_DIV 10) (Int.tdiv ((r - 360) * (-1)) 10) h7 ((hL 17 (by omega)).trans rfl) rfl (decide_eq_false (by omega)) ?_
      intro s8 stk8 h8
      exact runUntil_stop (decide_eq_true (by rw [h8.2.1]; omega))
        ⟨h8.1, by rw [h8.2.1]; omega,
          by rw [h8.2.2.2.2]; exact (tdiv_ten_bounds _ (by omega) (by omega)).1,
          by rw [h8.2.2.2.2]; exact (tdiv_ten_bounds _ (by omega) (by omega)).2⟩
    · refine sym_if_false _ _ _ (base + 25) h1 ((hL 14 (by omega)).trans rfl) ((condition_gt env _ SysVal.REL_ANGLE_TO_HOME 150 r (by decide) hr).trans (decide_eq_false hgt)) hs14 (decide_eq_false (by omega)) ?_
      intro s5 h5
      refine sym_if_true _ _ _ h5 ((hL 25 (by omega)).trans rfl) ((condition_ge env _ SysVal.REL_ANGLE_TO_HOME (-30) r (by decide) hr).trans (decide_eq_true (by omega))) (decide_eq_false (by omega)) ?_
      intro s9 h9
      refine sym_param (PARAM_ADD 30) (r + 30) h9 ((hL 26 (by omega)).trans rfl) rfl (decide_eq_false (by omega)) ?_
      intro s10 stk10 h10
      refine sym_param (PARAM_DIV 10) (Int.tdiv (r + 30) 10) h10 ((hL 27 (by omega)).trans rfl) rfl (decide_eq_false (by omega)) ?_
      intro s11 stk11 h11
      exact runUntil_stop (decide_eq_true (by rw [h11.2.1]; omega))
        ⟨h11.1, by rw [h11.2.1]; omega,
          by rw [h11.2.2.2.2]; exact (tdiv_ten_bounds _ (by omega) (by omega)).1,
          by rw [h11.2.2.2.2]; exact (tdiv_ten_bounds _ (by omega) (by omega)).2⟩

/-- The end of the turn of `CHECK_MC_WIND_GEOFENCE`: once control has passed the `END` of one
of the three `REPEAT_PARAM` blocks, the engine comes to the `FD` after the
branches. -/
theorem turn_exit_CHECK_MC_WIND_GEOFENCE (c : Config) (p : ResolvedProgram)
    (base : Nat) (hwin : InWindow p.code base (TO_CHECK_MC_WIND_GEOFENCE c)) (env : Env)
    (s : State) (stk : List Frame) (pen : Bool) (par : Int) (x : Nat)
    (hx : x = 12 ∨ x = 23 ∨ x = 33) (h : s.IsAt (base + (x + 1)) stk pen par) :
    ∃ s', runUntil p env
        (fun pc => decide (pc = base + 7 ∨ pc = base + 18 ∨ pc = base + 28 ∨ pc = base + 37))
        5 s = some s'
      ∧ s'.pc = base + 37 := by
  obtain ⟨hL, hs1, hs3, hc12, hs13, hs14, hc23, hs24, hs25, hc33, hc34, hc35, hc36, hc38, hc39, hc40⟩ := flow_CHECK_MC_WIND_GEOFENCE c p.code base hwin
  rcases hx with rfl | rfl | rfl
  · refine sym_else (base + 36) h ((hL 13 (by omega)).trans rfl) hs13 (decide_eq_false (by omega)) ?_
    intro s1 h1
    refine sym_endif h1 ((hL 36 (by omega)).trans rfl) hc36 (decide_eq_false (by omega)) ?_
    intro s2 h2
    exact runUntil_stop (decide_eq_true (by rw [h2.2.1]; omega)) h2.2.1
  · refine sym_else (base + 35) h ((hL 24 (by omega)).trans rfl) hs24 (decide_eq_false (by omega)) ?_
    intro s1 h1
    refine sym_endif h1 ((hL 35 (by omega)).trans rfl) hc35 (decide_eq_false (by omega)) ?_
    intro s2 h2
    refine sym_endif h2 ((hL 36 (by omega)).trans rfl) hc36 (decide_eq_false (by omega)) ?_
    intro s3 h3
    exact runUntil_stop (decide_eq_true (by rw [h3.2.1]; omega)) h3.2.1
  · refine sym_endif h ((hL 34 (by omega)).trans rfl) hc34 (decide_eq_false (by omega)) ?_
    intro s1 h1
    refine sym_endif h1 ((hL 35 (by omega)).trans rfl) hc35 (decide_eq_false (by omega)) ?_
    intro s2 h2
    refine sym_endif h2 ((hL 36 (by omega)).trans rfl) hc36 (decide_eq_false (by omega)) ?_
    intro s3 h3
    exact runUntil_stop (decide_eq_true (by rw [h3.2.1]; omega)) h3.2.1

/-- In `CHECK_MC_WIND_GEOFENCE` exactly one of the three `REPEAT_PARAM` blocks is entered,
with a repeat count from 0 to 20. -/
theorem entersOne_CHECK_MC_WIND_GEOFENCE (c : Config) (env : Env) (r : Int)
    (hr : env.value SysVal.REL_ANGLE_TO_HOME = some r) (hlo : -180 ≤ r) (hhi : r ≤ 180) :
    EntersOneTurnLoop (missionOf c) env
      ⟨CHECK_MC_WIND_GEOFENCE, 1, 6, 11, 17, 22, 27, 32, 36⟩ := by
  obtain ⟨base, hoff, hwin⟩ := window_CHECK_MC_WIND_GEOFENCE c
  have hF := flow_CHECK_MC_WIND_GEOFENCE c _ base hwin
  have hL := hF.1
  have e : (TurnShape.stops ⟨CHECK_MC_WIND_GEOFENCE, 1, 6, 11, 17, 22, 27, 32, 36⟩ (base + 1))
      = (fun pc => decide (pc = base + 7 ∨ pc = base + 18 ∨ pc = base + 28 ∨ pc = base + 37)) := by
    funext pc
    simp only [TurnShape.stops, Nat.add_assoc]
  refine ⟨base + 1, hoff, ?_, ?_, ?_, ?_, ?_, ?_, ?_, ?_⟩
  · show (missionOf c).code[base + 1 + 1]? = _
    rw [Nat.add_assoc, hL (1 + 1) (by omega)]; rfl
  · intro k hk1 hk2
    show (missionOf c).code[base + 1 + k]? = _ ↔ k = 6 ∨ k = 17 ∨ k = 27
    have hk3 : k ≤ 36 := hk2
    rw [Nat.add_assoc, hL (1 + k) (by omega)]
    interval_cases k <;> simp [TO_CHECK_MC_WIND_GEOFENCE]
  · show skipTarget _ (base + 1 + 6) false = base + 1 + 11
    rw [Nat.add_assoc, inWindow_skipTarget _ base _ hwin (1 + 6) false rfl]; rfl
  · show skipTarget _ (base + 1 + 17) false = base + 1 + 22
    rw [Nat.add_assoc, inWindow_skipTarget _ base _ hwin (1 + 17) false rfl]; rfl
  · show skipTarget _ (base + 1 + 27) false = base + 1 + 32
    rw [Nat.add_assoc, inWindow_skipTarget _ base _ hwin (1 + 27) false rfl]; rfl
  · show ((missionOf c).code[base + 1 + 36]?).map Instr.isMove = _
    rw [Nat.add_assoc, hL (1 + 36) (by omega)]; rfl
  · intro s hm hpc
    rw [e]
    obtain ⟨s', h1, h2, h3, h4, h5⟩ := turn_entry_CHECK_MC_WIND_GEOFENCE c _ base hwin env r hr hlo hhi s s.stack
      s.penDown s.curParam ⟨hm, by rw [hpc]; rfl, rfl, rfl, rfl⟩
    exact ⟨s', h1, h2, by simpa only [Nat.add_assoc] using h3, h4, h5⟩
  · intro s x hm hx hpc
    rw [e]
    obtain ⟨s', h1, h2⟩ := turn_exit_CHECK_MC_WIND_GEOFENCE c _ base hwin env s s.stack s.penDown s.curParam
      (x + 1) (by rcases hx with rfl | rfl | rfl <;> simp) ⟨hm, by rw [hpc]; omega, rfl, rfl, rfl⟩
    exact ⟨s', h1, by rw [h2]; rfl⟩

set_option maxRecDepth 100000 in
theorem window_CHECK_MC_SOFT_WIND_GEOFENCE (c : Config) :
    ∃ base, targetOffset (missionOf c) (Target.sub CHECK_MC_SOFT_WIND_GEOFENCE) = some (base + 1)
      ∧ InWindow (missionOf c).code base (TO_CHECK_MC_SOFT_WIND_GEOFENCE c) := by
  obtain ⟨a, b, d, e, t⟩ := c
  cases t
  · exact ⟨441, rfl, rfl, rfl⟩
  · exact ⟨441, rfl, rfl, rfl⟩

/-- Control flow inside `CHECK_MC_SOFT_WIND_GEOFENCE`, wherever it sits in a table. -/
theorem flow_CHECK_MC_SOFT_WIND_GEOFENCE (c : Config) (code : List Instr) (base : Nat)
    (hw : InWindow code base (TO_CHECK_MC_SOFT_WIND_GEOFENCE c)) :
    (∀ i, i < 41 → code[base + i]? = (TO_CHECK_MC_SOFT_WIND_GEOFENCE c)[i]?)
    ∧ skipTarget (kinds code) (base + 1) true = base + 38
    ∧ skipTarget (kinds code) (base + 3) true = base + 14
    ∧ closesIf (kinds code) (base + 12) = false
    ∧ skipTarget (kinds code) (base + 13) false = base + 36
    ∧ skipTarget (kinds code) (base + 14) true = base + 25
    ∧ closesIf (kinds code) (base + 23) = false
    ∧ skipTarget (kinds code) (base + 24) false = base + 35
    ∧ skipTarget (kinds code) (base + 25) true = base + 34
    ∧ closesIf (kinds code) (base + 33) = false
    ∧ closesIf (kinds code) (base + 34) = true
    ∧ closesIf (kinds code) (base + 35) = true
    ∧ closesIf (kinds code) (base + 36) = true
    ∧ closesIf (kinds code) (base + 38) = true
    ∧ closesIf (kinds code) (base + 39) = false
    ∧ closesIf (kinds code) (base + 40) = false := by
  refine ⟨fun i hi => inWindow_getElem? code base _ hw i (Nat.lt_of_lt_of_le hi (Nat.le_of_ble_eq_true rfl)), ?_, ?_, ?_, ?_, ?_, ?_, ?_, ?_, ?_, ?_, ?_, ?_, ?_, ?_, ?_⟩
  · rw [inWindow_skipTarget code base _ hw 1 true rfl]; rfl
  · rw [inWindow_skipTarget code base _ hw 3 true rfl]; rfl
  · rw [inWindow_closesIf code base _ hw 12 (Nat.le_of_ble_eq_true rfl)]; rfl
  · rw [inWindow_skipTarget code base _ hw 13 false rfl]; rfl
  · rw [inWindow_skipTarget code base _ hw 14 true rfl]; rfl
  · rw [inWindow_closesIf code base _ hw 23 (Nat.le_of_ble_eq_true rfl)]; rfl
  · rw [inWindow_skipTarget code base _ hw 24 false rfl]; rfl
  · rw [inWindow_skipTarget code base _ hw 25 true rfl]; rfl
  · rw [inWindow_closesIf code base _ hw 33 (Nat.le_of_ble_eq_true rfl)]; rfl
  · rw [inWindow_closesIf code base _ hw 34 (Nat.le_of_ble_eq_true rfl)]; rfl
  · rw [inWindow_closesIf code base _ hw 35 (Nat.le_of_ble_eq_true rfl)]; rfl
  · rw [inWindow_closesIf code base _ hw 36 (Nat.le_of_ble_eq_true rfl)]; rfl
  · rw [inWindow_closesIf code base _ hw 38 (Nat.le_of_ble_eq_true rfl)]; rfl
  · rw [inWindow_closesIf code base _ hw 39 (Nat.le_of_ble_eq_true rfl)]; rfl
  · rw [inWindow_closesIf code base _ hw 40 (Nat.le_of_ble_eq_true rfl)]; rfl

set_option maxHeartbeats 1000000 in
/-- The start of the turn of `CHECK_MC_SOFT_WIND_GEOFENCE`: from the `LOAD_TO_PARAM` the engine
comes to one of the three `REPEAT_PARAM` with `PARAM` from 0 to 20. -/
theorem turn_entry_CHECK_MC_SOFT_WIND_GEOFENCE (c : Config) (p : ResolvedProgram)
    (base : Nat) (hwin : InWindow p.code base (TO_CHECK_MC_SOFT_WIND_GEOFENCE c)) (env : Env) (r : Int)
    (hr : env.value SysVal.REL_ANGLE_TO_HOME = some r) (hlo : -180 ≤ r) (hhi : r ≤ 180)
    (s : State) (stk : List Frame) (pen : Bool) (par : Int) (h : s.IsAt (base + 2) stk pen par) :
    ∃ s', runUntil p env
        (fun pc => decide (pc = base + 7 ∨ pc = base + 18 ∨ pc = base + 28 ∨ pc = base + 37))
        8 s = some s'
      ∧ (s'.mode = Mode.Running
        ∧ (s'.pc = base + 7 ∨ s'.pc = base + 18 ∨ s'.pc = base + 28)
        ∧ 0 ≤ s'.curParam ∧ s'.curParam ≤ 20) := by
  obtain ⟨hL, hs1, hs3, hc12, hs13, hs14, hc23, hs24, hs25, hc33, hc34, hc35, hc36, hc38, hc39, hc40⟩ := flow_CHECK_MC_SOFT_WIND_GEOFENCE c p.code base hwin
  refine sym_param (LOAD_TO_PARAM SysVal.REL_ANGLE_TO_HOME) r h ((hL 2 (by omega)).trans rfl) (paramAfter_load env par r _ (by decide) hr) (decide_eq_false (by omega)) ?_
  intro s0 stk0 h0
  by_cases hlt : r < -30
  · refine sym_if_true _ _ _ h0 ((hL 3 (by omega)).trans rfl) ((condition_lt env _ SysVal.REL_ANGLE_TO_HOME (-30) r (by decide) hr).trans (decide_eq_true hlt)) (decide_eq_false (by omega)) ?_
    intro s1 h1
    refine sym_param (PARAM_MUL (-1)) (r * (-1)) h1 ((hL 4 (by omega)).trans rfl) rfl (decide_eq_false (by omega)) ?_
    intro s2 stk2 h2
    refine sym_param (PARAM_SUB 30) ((r * (-1)) - 30) h2 ((hL 5 (by omega)).trans rfl) rfl (decide_eq_false (by omega)) ?_
    intro s3 stk3 h3
    refine sym_param (PARAM_DIV 10) (Int.tdiv ((r * (-1)) - 30) 10) h3 ((hL 6 (by omega)).trans rfl) rfl (decide_eq_false (by omega)) ?_
    intro s4 stk4 h4
    exact runUntil_stop (decide_eq_true (by rw [h4.2.1]; omega))
      ⟨h4.1, by rw [h4.2.1]; omega,
        by rw [h4.2.2.2.2]; exact (tdiv_ten_bounds _ (by omega) (by omega)).1,
        by rw [h4.2.2.2.2]; exact (tdiv_ten_bounds _ (by omega) (by omega)).2⟩
  · refine sym_if_false _ _ _ (base + 14) h0 ((hL 3 (by omega)).trans rfl) ((condition_lt env _ SysVal.REL_ANGLE_TO_HOME (-30) r (by decide) hr).trans (decide_eq_false hlt)) hs3 (decide_eq_false (by omega)) ?_
    intro s1 h1
    by_cases hgt : r > 150
    · refine sym_if_true _ _ _ h1 ((hL 14 (by omega)).trans rfl) ((condition_gt env _ SysVal.REL_ANGLE_TO_HOME 150 r (by decide) hr).trans (decide_eq_true hgt)) (decide_eq_false (by omega)) ?_
      intro s5 h5
      refine sym_param (PARAM_SUB 360) (r - 360) h5 ((hL 15 (by omega)).trans rfl) rfl (decide_eq_false (by omega)) ?_
      intro s6 stk6 h6
      refine sym_param (PARAM_MUL (-1)) ((r - 360) * (-1)) h6 ((hL 16 (by omega)).trans rfl) rfl (decide_eq_false (by omega)) ?_
      intro s7 stk7 h7
      refine sym_param (PARAM_DIV 10) (Int.tdiv ((r - 360) * (-1)) 10) h7 ((hL 17 (by omega)).trans rfl) rfl (decide_eq_false (by omega)) ?_
      intro s8 stk8 h8
      exact runUntil_stop (decide_eq_true (by rw [h8.2.1]; omega))
        ⟨h8.1, by rw [h8.2.1]; omega,
          by rw [h8.2.2.2.2]; exact (tdiv_ten_bounds _ (by omega) (by omega)).1,
          by rw [h8.2.2.2.2]; exact (tdiv_ten_bounds _ (by omega) (by omega)).2⟩
    · refine sym_if_false _ _ _ (base + 25) h1 ((hL 14 (by omega)).trans rfl) ((condition_gt env _ SysVal.REL_ANGLE_TO_HOME 150 r (by decide) hr).trans (decide_eq_false hgt)) hs14 (decide_eq_false (by omega)) ?_
      intro s5 h5
      refine sym_if_true _ _ _ h5 ((hL 25 (by omega)).trans rfl) ((condition_ge env _ SysVal.REL_ANGLE_TO_HOME (-30) r (by decide) hr).trans (decide_eq_true (by omega))) (decide_eq_false (by omega)) ?_
      intro s9 h9
      refine sym_param (PARAM_ADD 30) (r + 30) h9 ((hL 26 (by omega)).trans rfl) rfl (decide_eq_false (by omega)) ?_
      intro s10 stk10 h10
      refine sym_param (PARAM_DIV 10) (Int.tdiv (r + 30) 10) h10 ((hL 27 (by omega)).trans rfl) rfl (decide_eq_false (by omega)) ?_
      intro s11 stk11 h11
      exact runUntil_stop (decide_eq_true (by rw [h11.2.1]; omega))
        ⟨h11.1, by rw [h11.2.1]; omega,
          by rw [h11.2.2.2.2]; exact (tdiv_ten_bounds _ (by omega) (by omega)).1,
          by rw [h11.2.2.2.2]; exact (tdiv_ten_bounds _ (by omega) (by omega)).2⟩

/-- The end of the turn of `CHECK_MC_SOFT_WIND_GEOFENCE`: once control has passed the `END` of one
of the three `REPEAT_PARAM` blocks, the engine comes to the `FD` after the
branches. -/
theorem turn_exit_CHECK_MC_SOFT_WIND_GEOFENCE (c : Config) (p : ResolvedProgram)
    (base : Nat) (hwin : InWindow p.code base (TO_CHECK_MC_SOFT_WIND_GEOFENCE c)) (env : Env)
    (s : State) (stk : List Frame) (pen : Bool) (par : Int) (x : Nat)
    (hx : x = 12 ∨ x = 23 ∨ x = 33) (h : s.IsAt (base + (x + 1)) stk pen par) :
    ∃ s', runUntil p env
        (fun pc => decide (pc = base + 7 ∨ pc = base + 18 ∨ pc = base + 28 ∨ pc = base + 37))
        5 s = some s'
      ∧ s'.pc = base + 37 := by
  obtain ⟨hL, hs1, hs3, hc12, hs13, hs14, hc23, hs24, hs25, hc33, hc34, hc35, hc36, hc38, hc39, hc40⟩ := flow_CHECK_MC_SOFT_WIND_GEOFENCE c p.code base hwin
  rcases hx with rfl | rfl | rfl
  · refine sym_else (base + 36) h ((hL 13 (by omega)).trans rfl) hs13 (decide_eq_false (by omega)) ?_
    intro s1 h1
    refine sym_endif h1 ((hL 36 (by omega)).trans rfl) hc36 (decide_eq_false (by omega)) ?_
    intro s2 h2
    exact runUntil_stop (decide_eq_true (by rw [h2.2.1]; omega)) h2.2.1
  · refine sym_else (base + 35) h ((hL 24 (by omega)).trans rfl) hs24 (decide_eq_false (by omega)) ?_
    intro s1 h1
    refine sym_endif h1 ((hL 35 (by omega)).trans rfl) hc35 (decide_eq_false (by omega)) ?_
    intro s2 h2
    refine sym_endif h2 ((hL 36 (by omega)).trans rfl) hc36 (decide_eq_false (by omega)) ?_
    intro s3 h3
    exact runUntil_stop (decide_eq_true (by rw [h3.2.1]; omega)) h3.2.1
  · refine sym_endif h ((hL 34 (by omega)).trans rfl) hc34 (decide_eq_false (by omega)) ?_
    intro s1 h1
    refine sym_endif h1 ((hL 35 (by omega)).trans rfl) hc35 (decide_eq_false (by omega)) ?_
    intro s2 h2
    refine sym_endif h2 ((hL 36 (by omega)).trans rfl) hc36 (decide_eq_false (by omega)) ?_
    intro s3 h3
    exact runUntil_stop (decide_eq_true (by rw [h3.2.1]; omega)) h3.2.1

/-- In `CHECK_MC_SOFT_WIND_GEOFENCE` exactly one of the three `REPEAT_PARAM` blocks is entered,
with a repeat count from 0 to 20. -/
theorem entersOne_CHECK_MC_SOFT_WIND_GEOFENCE (c : Config) (env : Env) (r : Int)
    (hr : env.value SysVal.REL_ANGLE_TO_HOME = some r) (hlo : -180 ≤ r) (hhi : r ≤ 180) :
    EntersOneTurnLoop (missionOf c) env
      ⟨CHECK_MC_SOFT_WIND_GEOFENCE, 1, 6, 11, 17, 22, 27, 32, 36⟩ := by
  obtain ⟨base, hoff, hwin⟩ := window_CHECK_MC_SOFT_WIND_GEOFENCE c
  have hF := flow_CHECK_MC_SOFT_WIND_GEOFENCE c _ base hwin
  have hL := hF.1
  have e : (TurnShape.stops ⟨CHECK_MC_SOFT_WIND_GEOFENCE, 1, 6, 11, 17, 22, 27, 32, 36⟩ (base + 1))
      = (fun pc => decide (pc = base + 7 ∨ pc = base + 18 ∨ pc = base + 28 ∨ pc = base + 37)) := by
    funext pc
    simp only [TurnShape.stops, Nat.add_assoc]
  refine ⟨base + 1, hoff, ?_, ?_, ?_, ?_, ?_, ?_, ?_, ?_⟩
  · show (missionOf c).code[base + 1 + 1]? = _
    rw [Nat.add_assoc, hL (1 + 1) (by omega)]; rfl
  · intro k hk1 hk2
    show (missionOf c).code[base + 1 + k]? = _ ↔ k = 6 ∨ k = 17 ∨ k = 27
    have hk3 : k ≤ 36 := hk2
    rw [Nat.add_assoc, hL (1 + k) (by omega)]
    interval_cases k <;> simp [TO_CHECK_MC_SOFT_WIND_GEOFENCE]
  · show skipTarget _ (base + 1 + 6) false = base + 1 + 11
    rw [Nat.add_assoc, inWindow_skipTarget _ base _ hwin (1 + 6) false rfl]; rfl
  · show skipTarget _ (base + 1 + 17) false = base + 1 + 22
    rw [Nat.add_assoc, inWindow_skipTarget _ base _ hwin (1 + 17) false rfl]; rfl
  · show skipTarget _ (base + 1 + 27) false = base + 1 + 32
    rw [Nat.add_assoc, inWindow_skipTarget _ base _ hwin (1 + 27) false rfl]; rfl
  · show ((missionOf c).code[base + 1 + 36]?).map Instr.isMove = _
    rw [Nat.add_assoc, hL (1 + 36) (by omega)]; rfl
  · intro s hm hpc
    rw [e]
    obtain ⟨s', h1, h2, h3, h4, h5⟩ := turn_entry_CHECK_MC_SOFT_WIND_GEOFENCE c _ base hwin env r hr hlo hhi s s.stack
      s.penDown s.curParam ⟨hm, by rw [hpc]; rfl, rfl, rfl, rfl⟩
    exact ⟨s', h1, h2, by simpa only [Nat.add_assoc] using h3, h4, h5⟩
  · intro s x hm hx hpc
    rw [e]
    obtain ⟨s', h1, h2⟩ := turn_exit_CHECK_MC_SOFT_WIND_GEOFENCE c _ base hwin env s s.stack s.penDown s.curParam
      (x + 1) (by rcases hx with rfl | rfl | rfl <;> simp) ⟨hm, by rw [hpc]; omega, rfl, rfl, rfl⟩
    exact ⟨s', h1, by rw [h2]; rfl⟩

/-- C22: in each of the eight geofence-return routines of the mission table,
for every reading `r` of `REL_ANGLE_TO_HOME` from -180 to 180 (the same for
`LOAD_TO_PARAM` and for the `IF` tests), the engine comes from the
`LOAD_TO_PARAM` of the turn to one of the three `REPEAT_PARAM` with a value
of `PARAM`, its repeat count, from 0 to 20; and once the `END` of that block
is passed it comes to the `FD` after the branches without entering another
`REPEAT_PARAM` block. -/
theorem turn_count_in_range (c : Config) (env : Env) (r : Int)
    (hr : env.value SysVal.REL_ANGLE_TO_HOME = some r) (hlo : -180 ≤ r) (hhi : r ≤ 180) :
    TurnsEnterOneLoop (missionOf c) env := by
  intro t ht
  simp only [geofenceShapes, List.mem_cons, List.mem_singleton, List.not_mem_nil,
    or_false] at ht
  rcases ht with rfl | rfl | rfl | rfl | rfl | rfl | rfl | rfl
  · exact entersOne_RETURN_GEOFENCE c env r hr hlo hhi
  · exact entersOne_CHECK_SOFT_GEOFENCE c env r hr hlo hhi
  · exact entersOne_CHECK_WIND_GEOFENCE c env r hr hlo hhi
  · exact entersOne_CHECK_SOFT_WIND_GEOFENCE c env r hr hlo hhi
  · exact entersOne_RETURN_MC_GEOFENCE c env r hr hlo hhi
  · exact entersOne_CHECK_MC_SOFT_GEOFENCE c env r hr hlo hhi
  · exact entersOne_CHECK_MC_WIND_GEOFENCE c env r hr hlo hhi
  · exact entersOne_CHECK_MC_SOFT_WIND_GEOFENCE c env r hr hlo hhi

/-- C22 at a concrete input: home 160 degrees to the right of the nose. -/
theorem turn_count_in_range_witness :
    (homeEnv 160).value SysVal.REL_ANGLE_TO_HOME = some 160
      ∧ (-180 : Int) ≤ 160 ∧ (160 : Int) ≤ 180
      ∧ TurnsEnterOneLoop (missionOf sampleConfig) (homeEnv 160) :=
  ⟨rfl, by decide, by decide,
    turn_count_in_range sampleConfig (homeEnv 160) 160 rfl (by decide) (by decide)⟩

end Logo
